import Mathlib

/-!
# The ray tracer `raytrace`: solvers, solids, optics and pixel conversion

The C++ code works on `double` and `std::complex<double>`.  It is embedded in two readings.

* The exact reading: `double` becomes an ordered field (the routines are generic, so they run
  on `ℚ` and are stated for `ℝ`) and `std::complex<double>` becomes `ℂ`.  It serves the
  properties that are stated over exact arithmetic, and it shows which branch the code takes
  when no rounding is involved.
* The IEEE 754 reading, in the namespaces `Algebra.Binary64` and `Imager.Binary64`: `double`
  becomes the type `Double` defined first, with rounding, infinities, signed zeros and NaN.
  It serves the properties whose outcome a rounding or a NaN decides: a root count, the
  acceptance of an argument, a pixel value, the number of hits.
-/

/-!
# The C++ type `double` (IEEE 754 binary64)

The finite values carry their magnitude as a rational number, so every operation is the
exact operation followed by the rounding of the format (to nearest, ties to even), with
overflow to an infinity, gradual underflow, signed zeros and NaN.
-/

/-- A value of the C++ type `double`: a NaN, an infinity with its sign, or a finite value
given by its sign and its magnitude (a non-negative rational; both zeros exist).  The
operations below return values of the format: a magnitude `n * 2^k` with `n < 2^53`,
`-1074 ≤ k`, below `2^1024`. -/
inductive Double where
  | nan : Double
  | inf (negative : Bool) : Double
  | finite (negative : Bool) (magnitude : ℚ) : Double

namespace Double

/-- The integer nearest to `y`, a tie going to the even integer (the default rounding
direction of IEEE 754). -/
def roundHalfEven (y : ℚ) : ℤ :=
  if y - ⌊y⌋ < 1 / 2 then ⌊y⌋
  else if 1 / 2 < y - ⌊y⌋ then ⌊y⌋ + 1
  else if ⌊y⌋ % 2 = 0 then ⌊y⌋
  else ⌊y⌋ + 1

/-- Exponent of the spacing of the format at the magnitude `x`: 52 below the exponent of the
binade of `x` (`Int.log 2 x` is `⌊log₂ x⌋`), and `-1074` in the subnormal range. -/
def spacingExponent (x : ℚ) : ℤ := max (Int.log 2 x) (-1022) - 52

/-- The magnitude `x` rounded to a multiple of the spacing at `x`, ties to even. -/
def roundToSpacing (x : ℚ) : ℚ :=
  roundHalfEven (x / 2 ^ spacingExponent x) * 2 ^ spacingExponent x

/-- The value of the format that an operation returns when its exact result has the sign
`negative` and the magnitude `x`: the rounded magnitude, or the infinity when that is
`2^1024` or more (overflow). -/
def round (negative : Bool) (x : ℚ) : Double :=
  if roundToSpacing x < 2 ^ (1024 : ℤ) then finite negative (roundToSpacing x)
  else inf negative

/-- The value of a decimal literal or of a conversion: the rational `x` rounded. -/
def ofRat (x : ℚ) : Double := round (decide (x < 0)) |x|

/-- The rational a finite value stands for (0 for a NaN or an infinity). -/
def toRat : Double → ℚ
  | finite negative magnitude => if negative then -magnitude else magnitude
  | _ => 0

/-- Unary minus. -/
def neg : Double → Double
  | nan => nan
  | inf negative => inf (!negative)
  | finite negative magnitude => finite (!negative) magnitude

/-- The library function `fabs`. -/
def fabs : Double → Double
  | nan => nan
  | inf _ => inf false
  | finite _ magnitude => finite false magnitude

/-- Addition.  An exact sum of zero is `+0` unless both operands are negative zeros. -/
def add : Double → Double → Double
  | nan, _ => nan
  | _, nan => nan
  | inf s, inf t => if s = t then inf s else nan
  | inf s, finite _ _ => inf s
  | finite _ _, inf t => inf t
  | finite s m, finite t n =>
    if (finite s m).toRat + (finite t n).toRat = 0 then finite (s && t) 0
    else ofRat ((finite s m).toRat + (finite t n).toRat)

/-- Subtraction: the sum with the negated second operand. -/
def sub (x y : Double) : Double := add x (neg y)

/-- Multiplication. -/
def mul : Double → Double → Double
  | nan, _ => nan
  | _, nan => nan
  | inf s, inf t => inf (xor s t)
  | inf s, finite t n => if n = 0 then nan else inf (xor s t)
  | finite s m, inf t => if m = 0 then nan else inf (xor s t)
  | finite s m, finite t n => round (xor s t) (m * n)

/-- Division. -/
def div : Double → Double → Double
  | nan, _ => nan
  | _, nan => nan
  | inf _, inf _ => nan
  | inf s, finite t _ => inf (xor s t)
  | finite s _, inf t => finite (xor s t) 0
  | finite s m, finite t n =>
    if n = 0 then (if m = 0 then nan else inf (xor s t))
    else round (xor s t) (m / n)

/-- The comparison `x < y`: false when an operand is a NaN. -/
def lt : Double → Double → Bool
  | nan, _ => false
  | _, nan => false
  | inf s, inf t => s && !t
  | inf s, finite _ _ => s
  | finite _ _, inf t => !t
  | finite s m, finite t n => decide ((finite s m).toRat < (finite t n).toRat)

/-- The comparison `x <= y`: false when an operand is a NaN. -/
def le : Double → Double → Bool
  | nan, _ => false
  | _, nan => false
  | inf s, inf t => s || !t
  | inf s, finite _ _ => s
  | finite _ _, inf t => !t
  | finite s m, finite t n => decide ((finite s m).toRat ≤ (finite t n).toRat)

instance : Neg Double := ⟨neg⟩
instance : Add Double := ⟨add⟩
instance : Sub Double := ⟨sub⟩
instance : Mul Double := ⟨mul⟩
instance : Div Double := ⟨div⟩
instance : LT Double := ⟨fun x y => lt x y = true⟩
instance : LE Double := ⟨fun x y => le x y = true⟩
instance (x y : Double) : Decidable (x < y) := inferInstanceAs (Decidable (lt x y = true))
instance (x y : Double) : Decidable (x ≤ y) := inferInstanceAs (Decidable (le x y = true))

/-- The values of the format among the elements of `Double`: a finite value has a magnitude
`n * 2^k` with `n < 2^53` and `-1074 ≤ k`, below `2^1024`. -/
def IsValue : Double → Prop
  | finite _ magnitude =>
    ∃ (n : ℕ) (k : ℤ), magnitude = n * 2 ^ k ∧ n < 2 ^ 53 ∧ -1074 ≤ k ∧
      magnitude < 2 ^ (1024 : ℤ)
  | _ => True

end Double

/-!
# Closed-form algebraic solvers of the ray tracer (`raytrace/algebra.h`, `raytrace/algebra.cpp`)

In the exact reading of the solvers two conventions are used throughout.

* An output array `roots[]` together with the returned count is a pair `(count, roots)`, the
  list holding the entries the function wrote, in index order.
* A complex value whose computation divides by exactly zero is `none` (the C++ code produces a
  NaN there); see `cdiv`.  A plain `/` is used only on paths where a preceding `IsZero` guard
  makes the divisor nonzero (`ne_zero_of_not_IsZero`).
-/

namespace Algebra

/-! ## Definitions -/

/-- Shared tolerance of every near-zero test (`const double TOLERANCE = 1.0e-8`). -/
def TOLERANCE {R : Type} [LinearOrderedField R] : R := 1 / 100000000

/-- Outcome of `SolveLinearEquations`: the returned flag, the three reference parameters
`u`, `v`, `w` as they are after the call, and the divisors of the divisions that were
executed, in execution order. -/
structure LinearResult (R : Type) where
  ok : Bool
  u : R
  v : R
  w : R
  divisors : List R

/-- Embedding of `SolveLinearEquations` (algebra.cpp, lines 16-51).  The arguments `u v w`
are the values the reference parameters hold before the call. -/
def SolveLinearEquations {R : Type} [LinearOrderedField R]
    (D E F G H I J K L M N P : R) (u v w : R) : LinearResult R :=
  if |F| ≥ TOLERANCE then
    let b := E*J - F*I
    if |b| ≥ TOLERANCE then
      let a := D*J - F*H
      let d := H*N - J*L
      let e := I*N - J*M
      let denom := a*e - b*d
      if |denom| ≥ TOLERANCE then
        let c := G*J - F*K
        let f := K*N - J*P
        let u1 := (b*f - e*c) / denom
        let v1 := -(a*u1 + c) / b
        let w1 := -(D*u1 + E*v1 + G) / F
        ⟨true, u1, v1, w1, [denom, b, F]⟩
      else ⟨false, u, v, w, []⟩
    else ⟨false, u, v, w, []⟩
  else ⟨false, u, v, w, []⟩

/-- Determinant of the coefficient matrix `[[D,E,F],[H,I,J],[L,M,N]]`. -/
def det3 {R : Type} [LinearOrderedField R] (D E F H I J L M N : R) : R :=
  D * (I*N - J*M) - E * (H*N - J*L) + F * (H*M - I*L)

/-- Embedding of `IsZero` (algebra.h, lines 33-36). -/
def IsZero (x : ℂ) : Prop := |x.re| < TOLERANCE ∧ |x.im| < TOLERANCE

noncomputable instance IsZero.decidable : DecidablePred IsZero := fun x =>
  inferInstanceAs (Decidable (|x.re| < TOLERANCE ∧ |x.im| < TOLERANCE))

/-- Principal complex square root (`std::sqrt` on `std::complex`), in polar form: modulus
`sqrt |z|`, argument `arg z / 2`, so the result lies in the closed right half-plane. -/
noncomputable def csqrt (z : ℂ) : ℂ :=
  ⟨Real.sqrt (Complex.abs z) * Real.cos (z.arg / 2),
   Real.sqrt (Complex.abs z) * Real.sin (z.arg / 2)⟩

/-- The constant `TWOPI` of `cbrt`.  The source spells it `2.0 * 3.14159…2884` (π to 37
digits); the exact-arithmetic embedding takes the number that literal denotes. -/
noncomputable def TWOPI : ℝ := 2 * Real.pi

/-- Embedding of `cbrt` (algebra.cpp, lines 103-111): branch `n` of the complex cube root. -/
noncomputable def cbrt (a : ℂ) (n : ℤ) : ℂ :=
  let rho := (Complex.abs a) ^ ((1:ℝ) / 3)
  let theta := ((TWOPI * n) + a.arg) / 3
  ⟨rho * Real.cos theta, rho * Real.sin theta⟩

/-- Complex division on a path with no guard on the divisor: dividing by exactly zero
yields no number. -/
noncomputable def cdiv (x y : ℂ) : Option ℂ :=
  if y = 0 then none else some (x / y)

/-- The loop of `FilterRealNumbers` (algebra.cpp, lines 56-62): `remaining` iterations are
left, `i` is the loop index, `numRealValues` the running count.  Arrays are maps from index to
value. -/
noncomputable def FilterRealNumbers_loop (inArray : ℕ → ℂ) :
    ℕ → ℕ → ℕ → (ℕ → ℝ) → ℕ × (ℕ → ℝ)
  | 0, _, numRealValues, outArray => (numRealValues, outArray)
  | remaining + 1, i, numRealValues, outArray =>
    if |(inArray i).im| < TOLERANCE then
      FilterRealNumbers_loop inArray remaining (i + 1) (numRealValues + 1)
        (Function.update outArray numRealValues (inArray i).re)
    else
      FilterRealNumbers_loop inArray remaining (i + 1) numRealValues outArray

/-- Embedding of `FilterRealNumbers` (algebra.cpp, lines 53-64): the returned count and the
output array after the call.  A count `numComplexValues` that is not positive runs no
iteration. -/
noncomputable def FilterRealNumbers (numComplexValues : ℤ) (inArray : ℕ → ℂ)
    (outArray : ℕ → ℝ) : ℕ × (ℕ → ℝ) :=
  FilterRealNumbers_loop inArray numComplexValues.toNat 0 0 outArray

/-- Embedding of the complex `SolveQuadraticEquation` (algebra.cpp, lines 66-101). -/
noncomputable def SolveQuadraticEquation (a b c : ℂ) : ℕ × List ℂ :=
  if IsZero a then
    if IsZero b then
      (0, [])
    else
      (1, [-c / b])
  else
    let radicand := b*b - 4*a*c
    if IsZero radicand then
      (1, [-b / (2 * a)])
    else
      let r := csqrt radicand
      let d := 2 * a
      (2, [(-b + r) / d, (-b - r) / d])

/-- The value `F` whose cube roots drive `SolveCubicEquation` (algebra.cpp, lines 127-133),
as a function of the depressed coefficients `D` and `E`. -/
noncomputable def cubic_F (D E : ℂ) : ℂ :=
  let Froot := csqrt (E*E + D*D*D)
  let F := -Froot - E
  if IsZero F then Froot - E else F

/-- Body of the loop of `SolveCubicEquation` (algebra.cpp, lines 137-138): root number `i`. -/
noncomputable def cubic_root (F D S : ℂ) (i : ℤ) : Option ℂ :=
  let G := cbrt F i
  (cdiv D G).map fun q => G - q - S

/-- Embedding of the complex `SolveCubicEquation` (algebra.cpp, lines 113-142). -/
noncomputable def SolveCubicEquation (a b c d : ℂ) : ℕ × List (Option ℂ) :=
  if IsZero a then
    let r := SolveQuadraticEquation b c d
    (r.1, r.2.map some)
  else
    let b := b / a
    let c := c / a
    let d := d / a
    let S := b / 3
    let D := c / 3 - S*S
    let E := S*S*S + (d - S*c) / 2
    let F := cubic_F D E
    (3, [cubic_root F D S 0, cubic_root F D S 1, cubic_root F D S 2])

/-- The coefficient `alpha` of the depressed quartic (algebra.cpp, line 160). -/
noncomputable def quartic_alpha (b c : ℂ) : ℂ :=
  let b2 := b * b
  (-3/8) * b2 + c

/-- The coefficient `beta` of the depressed quartic (algebra.cpp, line 161). -/
noncomputable def quartic_beta (b c d : ℂ) : ℂ :=
  let b2 := b * b
  let b3 := b * b2
  b3 / 8 - b*c / 2 + d

/-- The coefficient `gamma` of the depressed quartic (algebra.cpp, line 162). -/
noncomputable def quartic_gamma (b c d e : ℂ) : ℂ :=
  let b2 := b * b
  let b4 := b2 * b2
  (-3/256) * b4 + b2*c / 16 - b*d / 4 + e

/-- The value `P` of the resolvent path (algebra.cpp, line 181). -/
noncomputable def quartic_P (alpha gamma : ℂ) : ℂ :=
  let alpha2 := alpha * alpha
  let P := -(alpha2 / 12 + gamma)
  P

/-- The value `Q` of the resolvent path (algebra.cpp, line 182). -/
noncomputable def quartic_Q (alpha beta gamma : ℂ) : ℂ :=
  let alpha2 := alpha * alpha
  let alpha3 := alpha * alpha2
  let Q := -alpha3 / 108 + alpha*gamma / 3 - beta*beta / 8
  Q

/-- The value `U` of the resolvent path (algebra.cpp, lines 183-184). -/
noncomputable def quartic_U (alpha beta gamma : ℂ) : ℂ :=
  let P := quartic_P alpha gamma
  let Q := quartic_Q alpha beta gamma
  let R := -Q / 2 + csqrt (Q*Q / 4 + P*P*P / 27)
  cbrt R 0

/-- The value `y` of the resolvent path (algebra.cpp, lines 185-193). -/
noncomputable def quartic_y (alpha beta gamma : ℂ) : ℂ :=
  let P := quartic_P alpha gamma
  let Q := quartic_Q alpha beta gamma
  let U := quartic_U alpha beta gamma
  let y := (-5/6) * alpha + U
  if IsZero U then y - cbrt Q 0 else y - P / (3 * U)

/-- Embedding of the complex `SolveQuarticEquation` (algebra.cpp, lines 144-206). -/
noncomputable def SolveQuarticEquation (a b c d e : ℂ) : ℕ × List (Option ℂ) :=
  if IsZero a then
    SolveCubicEquation b c d e
  else
    let b := b / a
    let c := c / a
    let d := d / a
    let e := e / a
    let alpha := quartic_alpha b c
    let beta := quartic_beta b c d
    let gamma := quartic_gamma b c d e
    let alpha2 := alpha * alpha
    let t := -b / 4
    if IsZero beta then
      let rad := csqrt (alpha2 - 4*gamma)
      let r1 := csqrt ((-alpha + rad) / 2)
      let r2 := csqrt ((-alpha - rad) / 2)
      (4, [some (t + r1), some (t - r1), some (t + r2), some (t - r2)])
    else
      let y := quartic_y alpha beta gamma
      let W := csqrt (alpha + 2*y)
      let r1 := (cdiv (2*beta) W).map fun q => csqrt (-(3*alpha + 2*y + q))
      let r2 := (cdiv (2*beta) W).map fun q => csqrt (-(3*alpha + 2*y - q))
      (4, [r1.map fun r => t + (W - r) / 2,
           r1.map fun r => t + (W + r) / 2,
           r2.map fun r => t + (-W - r) / 2,
           r2.map fun r => t + (-W + r) / 2])

/-- The solver call of `TestKnownCubicRoots` (algebra.cpp, lines 296-306): the cubic with
leading coefficient `M` and roots `K`, `L`, `N`. -/
noncomputable def KnownCubicFound (M K L N : ℂ) : ℕ × List (Option ℂ) :=
  let a := M
  let b := -M*(K+L+N)
  let c := M*(K*L + N*K + N*L)
  let d := -M*K*L*N
  SolveCubicEquation a b c d

/-- The solver call of `TestKnownQuarticRoots` (algebra.cpp, lines 322-336): the quartic with
leading coefficient `m` and roots `a`, `b`, `c`, `d`. -/
noncomputable def KnownQuarticFound (m a b c d : ℂ) : ℕ × List (Option ℂ) :=
  let A := m
  let B := -m*(a + b + c + d)
  let C := m*(a*b + c*d + (a + b)*(c + d))
  let D := -m*(c*d*(a + b) + a*b*(c + d))
  let E := m*a*b*c*d
  SolveQuarticEquation A B C D E

/-- The primitive cube root of unity by which consecutive branches of `cbrt` differ: the
point of the unit circle at angle `TWOPI / 3`. -/
noncomputable def omega : ℂ := ⟨Real.cos (TWOPI / 3), Real.sin (TWOPI / 3)⟩

/-- The value `F` that `SolveCubicEquation` takes cube roots of on its non-degenerate path is
not exactly zero, so the loop never divides by zero. -/
def CubicGuardExact (a b c d : ℂ) : Prop :=
  let b := b / a
  let c := c / a
  let d := d / a
  let S := b / 3
  let D := c / 3 - S*S
  let E := S*S*S + (d - S*c) / 2
  cubic_F D E ≠ 0

/-- One-to-one matching within tolerance: the found roots are all numbers and can be
arranged so that each known root is paired with a found root `IsZero`-close to it. -/
def RootsMatch (known : List ℂ) (found : List (Option ℂ)) : Prop :=
  ∃ p : List ℂ, (p.map some).Perm found ∧ List.Forall₂ (fun k f => IsZero (k - f)) known p

/-- The inner loop of `CheckRoots` (algebra.cpp, lines 222-230) for the known root `known_k`:
starting at index `f` with `remaining` candidates left, the first index whose `used` flag is
clear and whose found root is `IsZero`-close to the known root, if there is one. -/
noncomputable def CheckRoots_find (known_k : ℂ) (found : ℕ → ℂ) (used : ℕ → Bool) :
    ℕ → ℕ → Option ℕ
  | 0, _ => none
  | remaining + 1, f =>
    if used f = false ∧ IsZero (known_k - found f) then
      some f
    else
      CheckRoots_find known_k found used remaining (f + 1)

/-- The outer loop of `CheckRoots` (algebra.cpp, lines 219-249): `remaining` known roots are
left, `k` is the loop index, `used` the flags.  The diagnostic text written to `cout` before
the throw is not part of the embedding. -/
noncomputable def CheckRoots_loop (numRoots : ℕ) (known found : ℕ → ℂ) :
    ℕ → ℕ → (ℕ → Bool) → Except String Unit
  | 0, _, _ => .ok ()
  | remaining + 1, k, used =>
    match CheckRoots_find (known k) found used numRoots 0 with
    | some f =>
      CheckRoots_loop numRoots known found remaining (k + 1) (Function.update used f true)
    | none => .error "Solver produced incorrect value(s) for complex roots."

/-- Embedding of `CheckRoots` (algebra.cpp, lines 208-250): `.ok ()` when the function
returns, `.error message` when it throws a `SolverException`.  Arrays are maps from index to
value; the four `used` flags start cleared. -/
noncomputable def CheckRoots (numRoots : ℤ) (known found : ℕ → ℂ) : Except String Unit :=
  if numRoots < 0 ∨ numRoots > 4 then
    .error "Internal error: numRoots is out of bounds."
  else
    CheckRoots_loop numRoots.toNat known found numRoots.toNat 0 (fun _ => false)

/-- Embedding of the real-valued overload of `SolveQuadraticEquation` (algebra.h, lines
86-101): the returned count and the array `roots` after the call.  The local array `croots`
holds the roots the complex solver wrote, and zeros elsewhere. -/
noncomputable def SolveQuadraticEquation_real (a b c : ℝ) (roots : ℕ → ℝ) :
    ℕ × (ℕ → ℝ) :=
  let croots : ℕ → ℂ := fun i => (SolveQuadraticEquation (a : ℂ) (b : ℂ) (c : ℂ)).2.getD i 0
  let numComplexRoots : ℤ := (SolveQuadraticEquation (a : ℂ) (b : ℂ) (c : ℂ)).1
  FilterRealNumbers numComplexRoots croots roots

/-- The tolerance test separates the first `n` known and found roots into clusters: two known
roots that are close to a common found root are close to the same found roots. -/
def ToleranceConsistent (n : ℕ) (known found : ℕ → ℂ) : Prop :=
  ∀ k k' f f' : ℕ, k < n → k' < n → f < n → f' < n →
    IsZero (known k - found f) → IsZero (known k' - found f) → IsZero (known k - found f') →
    IsZero (known k' - found f')

/-! ## The solvers on `double` (IEEE 754 reading)

The definitions of this section embed the same source functions as the ones above, over the
type `Double`: every arithmetic operation returns its exact result rounded, a comparison
with a NaN is false.  No operation is fused with another one. -/

namespace Binary64

/-- The value of `const double TOLERANCE = 1.0e-8`. -/
def TOLERANCE : Double := Double.ofRat (1 / 100000000)

/-- Embedding of `SolveLinearEquations` (algebra.cpp, lines 16-51) on `double`.  The
arguments `u v w` are the values the reference parameters hold before the call. -/
def SolveLinearEquations (D E F G H I J K L M N P : Double) (u v w : Double) :
    LinearResult Double :=
  if Double.fabs F ≥ TOLERANCE then
    let b := E*J - F*I
    if Double.fabs b ≥ TOLERANCE then
      let a := D*J - F*H
      let d := H*N - J*L
      let e := I*N - J*M
      let denom := a*e - b*d
      if Double.fabs denom ≥ TOLERANCE then
        let c := G*J - F*K
        let f := K*N - J*P
        let u1 := (b*f - e*c) / denom
        let v1 := -(a*u1 + c) / b
        let w1 := -(D*u1 + E*v1 + G) / F
        ⟨true, u1, v1, w1, [denom, b, F]⟩
      else ⟨false, u, v, w, []⟩
    else ⟨false, u, v, w, []⟩
  else ⟨false, u, v, w, []⟩

/-- The type `std::complex<double>` (`typedef std::complex<double> complex`, algebra.h):
a real and an imaginary part. -/
structure complex where
  re : Double
  im : Double

/-- The conversion `complex(x)` of a `double`: the imaginary part is `+0.0`. -/
def complex.ofReal (x : Double) : complex := ⟨x, Double.finite false 0⟩

/-- Unary minus of `std::complex`: both parts are negated. -/
instance : Neg complex := ⟨fun z => ⟨-z.re, -z.im⟩⟩

/-- Sum of two `std::complex` values, part by part. -/
instance : Add complex := ⟨fun x y => ⟨x.re + y.re, x.im + y.im⟩⟩

/-- Difference of two `std::complex` values, part by part. -/
instance : Sub complex := ⟨fun x y => ⟨x.re - y.re, x.im - y.im⟩⟩

/-- Product of two `std::complex` values: `(a + bi)(c + di) = (ac - bd) + (ad + bc)i`, each
of the six operations rounded.  (The library's repair of a result whose two parts are both
NaN, which arises only from an operand with an infinite part, is not modelled.) -/
instance : Mul complex :=
  ⟨fun x y => ⟨x.re * y.re - x.im * y.im, x.re * y.im + x.im * y.re⟩⟩

/-- The product `double * complex` of `std::complex`: both parts are scaled. -/
def complex.scale (factor : Double) (z : complex) : complex := ⟨factor * z.re, factor * z.im⟩

/-- Embedding of `IsZero` (algebra.h, lines 33-36) on `double`. -/
def IsZero (x : complex) : Prop :=
  Double.fabs x.re < TOLERANCE ∧ Double.fabs x.im < TOLERANCE

instance IsZero.decidable : DecidablePred IsZero := fun x =>
  inferInstanceAs (Decidable (Double.fabs x.re < TOLERANCE ∧ Double.fabs x.im < TOLERANCE))

/-- Embedding of the complex `SolveQuadraticEquation` (algebra.cpp, lines 66-101) on
`double`.  The quotient and the square root of `std::complex` are library routines whose
rounding the language does not fix; they are the parameters `quotient` and `sqrt`. -/
def SolveQuadraticEquation (quotient : complex → complex → complex) (sqrt : complex → complex)
    (a b c : complex) : ℕ × List complex :=
  if IsZero a then
    if IsZero b then
      (0, [])
    else
      (1, [quotient (-c) b])
  else
    let radicand := b*b - complex.scale (Double.finite false 4) a * c
    if IsZero radicand then
      (1, [quotient (-b) (complex.scale (Double.finite false 2) a)])
    else
      let r := sqrt radicand
      let d := complex.scale (Double.finite false 2) a
      (2, [quotient (-b + r) d, quotient (-b - r) d])

/-- The loop of `FilterRealNumbers` (algebra.cpp, lines 56-62) on `double`: `remaining`
iterations are left, `i` is the loop index, `numRealValues` the running count. -/
def FilterRealNumbers_loop (inArray : ℕ → complex) :
    ℕ → ℕ → ℕ → (ℕ → Double) → ℕ × (ℕ → Double)
  | 0, _, numRealValues, outArray => (numRealValues, outArray)
  | remaining + 1, i, numRealValues, outArray =>
    if Double.fabs (inArray i).im < TOLERANCE then
      FilterRealNumbers_loop inArray remaining (i + 1) (numRealValues + 1)
        (Function.update outArray numRealValues (inArray i).re)
    else
      FilterRealNumbers_loop inArray remaining (i + 1) numRealValues outArray

/-- Embedding of `FilterRealNumbers` (algebra.cpp, lines 53-64) on `double`. -/
def FilterRealNumbers (numComplexValues : ℤ) (inArray : ℕ → complex)
    (outArray : ℕ → Double) : ℕ × (ℕ → Double) :=
  FilterRealNumbers_loop inArray numComplexValues.toNat 0 0 outArray

/-- Embedding of the real-valued overload of `SolveQuadraticEquation` (algebra.h, lines
86-101) on `double`.  The entries of `croots` the solver does not write are
default-constructed, `(0, 0)`. -/
def SolveQuadraticEquation_real (quotient : complex → complex → complex)
    (sqrt : complex → complex) (a b c : Double) (roots : ℕ → Double) : ℕ × (ℕ → Double) :=
  let croots : ℕ → complex := fun i =>
    (SolveQuadraticEquation quotient sqrt (complex.ofReal a) (complex.ofReal b)
      (complex.ofReal c)).2.getD i ⟨Double.finite false 0, Double.finite false 0⟩
  let numComplexRoots : ℤ :=
    (SolveQuadraticEquation quotient sqrt (complex.ofReal a) (complex.ofReal b)
      (complex.ofReal c)).1
  FilterRealNumbers numComplexRoots croots roots

/-- The inner loop of `CheckRoots` (algebra.cpp, lines 222-230) on `double`, for the known
root `known_k`: starting at index `f` with `remaining` candidates left, the first index
whose `used` flag is clear and whose found root is `IsZero`-close to the known root, if
there is one. -/
def CheckRoots_find (known_k : complex) (found : ℕ → complex) (used : ℕ → Bool) :
    ℕ → ℕ → Option ℕ
  | 0, _ => none
  | remaining + 1, f =>
    if used f = false ∧ IsZero (known_k - found f) then
      some f
    else
      CheckRoots_find known_k found used remaining (f + 1)

/-- The outer loop of `CheckRoots` (algebra.cpp, lines 219-248) on `double`. -/
def CheckRoots_loop (numRoots : ℕ) (known found : ℕ → complex) :
    ℕ → ℕ → (ℕ → Bool) → Except String Unit
  | 0, _, _ => .ok ()
  | remaining + 1, k, used =>
    match CheckRoots_find (known k) found used numRoots 0 with
    | some f =>
      CheckRoots_loop numRoots known found remaining (k + 1) (Function.update used f true)
    | none => .error "Solver produced incorrect value(s) for complex roots."

/-- Embedding of `CheckRoots` (algebra.cpp, lines 208-250) on `double`; the text written to
`cout` is not modelled. -/
def CheckRoots (numRoots : ℤ) (known found : ℕ → complex) : Except String Unit :=
  if numRoots < 0 ∨ numRoots > 4 then
    .error "Internal error: numRoots is out of bounds."
  else
    CheckRoots_loop numRoots.toNat known found numRoots.toNat 0 (fun _ => false)

/-- The loop of `ValidatePolynomial` (algebra.cpp, lines 256-260) on `double`: `remaining`
iterations are left, `i` is the loop index; the result is the final `sum`. -/
def ValidatePolynomial_loop (poly : ℕ → complex) (root : complex) :
    ℕ → ℕ → complex → complex → complex
  | 0, _, _, sum => sum
  | remaining + 1, i, power, sum =>
    ValidatePolynomial_loop poly root remaining (i + 1) (power * root) (sum + poly i * power)

/-- Embedding of `ValidatePolynomial` (algebra.cpp, lines 252-266) on `double`. -/
def ValidatePolynomial (order : ℤ) (poly : ℕ → complex) (root : complex) :
    Except String Unit :=
  if ¬ IsZero (ValidatePolynomial_loop poly root order.toNat 0
      ⟨Double.finite false 1, Double.finite false 0⟩
      ⟨Double.finite false 0, Double.finite false 0⟩) then
    .error "Invalid polynomial."
  else
    .ok ()

/-- Embedding of `TestKnownQuadraticRoots` (algebra.cpp, lines 268-290) on `double`: `.ok ()`
when the test returns, `.error message` when it throws a `SolverException`.  Arrays are
maps from index to value; the entries of `found` the solver does not write are
default-constructed. -/
def TestKnownQuadraticRoots (quotient : complex → complex → complex)
    (sqrt : complex → complex) (M K L : complex) : Except String Unit :=
  let a := M
  let b := -M*(K+L)
  let c := M*K*L
  let poly : ℕ → complex := fun i => if i = 0 then c else if i = 1 then b else a
  match ValidatePolynomial 3 poly K with
  | .error e => .error e
  | .ok _ =>
    match ValidatePolynomial 3 poly L with
    | .error e => .error e
    | .ok _ =>
      let solved := SolveQuadraticEquation quotient sqrt M (-M*(K+L)) (M*K*L)
      let found : ℕ → complex := fun i =>
        solved.2.getD i ⟨Double.finite false 0, Double.finite false 0⟩
      let numRootsFound : ℤ := solved.1
      let expectedRoots : ℤ := if IsZero (K - L) then 1 else 2
      if numRootsFound ≠ expectedRoots then
        .error "Wrong number of roots found."
      else
        let known : ℕ → complex := fun i => if i = 0 then K else L
        CheckRoots numRootsFound known found

end Binary64

end Algebra

/-!
# Solids, the cuboid and the reorientable transform layer (`raytrace/imager.h`,
`raytrace/cuboid.cpp`, `raytrace/reorient.cpp`, `raytrace/solid.cpp`, `raytrace/optics.cpp`)

Vectors and cuboids are generic in an ordered field, so the intersection and containment
routines run on `ℚ`; the rotations use the real cosine and sine.  Every `Contains` of the
classes of the repository is a total boolean function: none of them reaches the throwing
base-class `SolidObject::Contains`, which is embedded on its own as `SolidObject_Contains`,
with the virtual `AppendAllIntersections` as an argument.  Code that can throw returns an
`Except String`, the string being the message of the `ImagerException`.
-/

namespace Imager

/-- Tolerance of the geometric tests (`const double EPSILON = 1.0e-6` in imager.h). -/
def EPSILON {R : Type} [LinearOrderedField R] : R := 1 / 1000000

/-- The constant `PI` of imager.h.  The source spells π to 37 digits; the exact-arithmetic
embedding takes the number that literal denotes. -/
noncomputable def PI : ℝ := Real.pi

/-- Embedding of `RadiansFromDegrees` (imager.h, lines 19-22). -/
noncomputable def RadiansFromDegrees (degrees : ℝ) : ℝ := degrees * (PI / 180)

/-- Embedding of `class Vector` (imager.h, lines 46-98). -/
@[ext] structure Vector (R : Type) where
  x : R
  y : R
  z : R

/-- Embedding of `Vector::MagnitudeSquared`. -/
def Vector.MagnitudeSquared {R : Type} [LinearOrderedField R] (v : Vector R) : R :=
  (v.x*v.x) + (v.y*v.y) + (v.z*v.z)

/-- Embedding of `operator + (Vector, Vector)`. -/
def Vector.add {R : Type} [LinearOrderedField R] (a b : Vector R) : Vector R :=
  ⟨a.x + b.x, a.y + b.y, a.z + b.z⟩

/-- Embedding of `operator - (Vector, Vector)`. -/
def Vector.sub {R : Type} [LinearOrderedField R] (a b : Vector R) : Vector R :=
  ⟨a.x - b.x, a.y - b.y, a.z - b.z⟩

/-- Embedding of `operator * (double, Vector)`. -/
def Vector.smul {R : Type} [LinearOrderedField R] (s : R) (v : Vector R) : Vector R :=
  ⟨s*v.x, s*v.y, s*v.z⟩

/-- Embedding of `DotProduct` (imager.h, lines 116-119). -/
def DotProduct {R : Type} [LinearOrderedField R] (a b : Vector R) : R :=
  (a.x*b.x) + (a.y*b.y) + (a.z*b.z)

/-- Embedding of `struct Intersection` (imager.h, lines 281-305).  The pointer fields `solid`
and `context` are left out: the cuboid sets `solid` to itself and never touches `context`.
The tag is the C string, `none` for `NULL`. -/
structure Intersection (R : Type) where
  distanceSquared : R
  point : Vector R
  surfaceNormal : Vector R
  tag : Option String

/-- Embedding of the data of `class SolidObject_Reorientable` (imager.h, lines 652-749),
together with the `center` it inherits from `SolidObject`. -/
structure SolidObject_Reorientable (R : Type) where
  center : Vector R
  rDir : Vector R
  sDir : Vector R
  tDir : Vector R
  xDir : Vector R
  yDir : Vector R
  zDir : Vector R

namespace SolidObject_Reorientable

/-- Embedding of the constructor (imager.h, lines 655-664). -/
def new {R : Type} [LinearOrderedField R] (center : Vector R) : SolidObject_Reorientable R :=
  { center := center
    rDir := ⟨1, 0, 0⟩
    sDir := ⟨0, 1, 0⟩
    tDir := ⟨0, 0, 1⟩
    xDir := ⟨1, 0, 0⟩
    yDir := ⟨0, 1, 0⟩
    zDir := ⟨0, 0, 1⟩ }

/-- Embedding of `ObjectDirFromCameraDir` (imager.h, lines 705-711). -/
def ObjectDirFromCameraDir {R : Type} [LinearOrderedField R]
    (s : SolidObject_Reorientable R) (cameraDir : Vector R) : Vector R :=
  ⟨DotProduct cameraDir s.rDir, DotProduct cameraDir s.sDir, DotProduct cameraDir s.tDir⟩

/-- Embedding of `ObjectPointFromCameraPoint` (imager.h, lines 713-716). -/
def ObjectPointFromCameraPoint {R : Type} [LinearOrderedField R]
    (s : SolidObject_Reorientable R) (cameraPoint : Vector R) : Vector R :=
  s.ObjectDirFromCameraDir (cameraPoint.sub s.center)

/-- Embedding of `CameraDirFromObjectDir` (imager.h, lines 718-724). -/
def CameraDirFromObjectDir {R : Type} [LinearOrderedField R]
    (s : SolidObject_Reorientable R) (objectDir : Vector R) : Vector R :=
  ⟨DotProduct objectDir s.xDir, DotProduct objectDir s.yDir, DotProduct objectDir s.zDir⟩

/-- Embedding of `CameraPointFromObjectPoint` (imager.h, lines 726-729). -/
def CameraPointFromObjectPoint {R : Type} [LinearOrderedField R]
    (s : SolidObject_Reorientable R) (objectPoint : Vector R) : Vector R :=
  s.center.add (s.CameraDirFromObjectDir objectPoint)

/-- Embedding of `UpdateInverseRotation` (imager.h, lines 731-738). -/
def UpdateInverseRotation {R : Type} [LinearOrderedField R]
    (s : SolidObject_Reorientable R) : SolidObject_Reorientable R :=
  { s with
    xDir := ⟨s.rDir.x, s.sDir.x, s.tDir.x⟩
    yDir := ⟨s.rDir.y, s.sDir.y, s.tDir.y⟩
    zDir := ⟨s.rDir.z, s.sDir.z, s.tDir.z⟩ }

/-- Embedding of `RotateX` (reorient.cpp, lines 16-29). -/
noncomputable def RotateX (s : SolidObject_Reorientable ℝ) (angleInDegrees : ℝ) :
    SolidObject_Reorientable ℝ :=
  let angleInRadians := RadiansFromDegrees angleInDegrees
  let a := Real.cos angleInRadians
  let b := Real.sin angleInRadians
  UpdateInverseRotation
    { s with
      rDir := ⟨s.rDir.x, a*s.rDir.y - b*s.rDir.z, a*s.rDir.z + b*s.rDir.y⟩
      sDir := ⟨s.sDir.x, a*s.sDir.y - b*s.sDir.z, a*s.sDir.z + b*s.sDir.y⟩
      tDir := ⟨s.tDir.x, a*s.tDir.y - b*s.tDir.z, a*s.tDir.z + b*s.tDir.y⟩ }

/-- Embedding of `RotateY` (reorient.cpp, lines 32-45). -/
noncomputable def RotateY (s : SolidObject_Reorientable ℝ) (angleInDegrees : ℝ) :
    SolidObject_Reorientable ℝ :=
  let angleInRadians := RadiansFromDegrees angleInDegrees
  let a := Real.cos angleInRadians
  let b := Real.sin angleInRadians
  UpdateInverseRotation
    { s with
      rDir := ⟨a*s.rDir.x + b*s.rDir.z, s.rDir.y, a*s.rDir.z - b*s.rDir.x⟩
      sDir := ⟨a*s.sDir.x + b*s.sDir.z, s.sDir.y, a*s.sDir.z - b*s.sDir.x⟩
      tDir := ⟨a*s.tDir.x + b*s.tDir.z, s.tDir.y, a*s.tDir.z - b*s.tDir.x⟩ }

/-- Embedding of `RotateZ` (reorient.cpp, lines 48-61). -/
noncomputable def RotateZ (s : SolidObject_Reorientable ℝ) (angleInDegrees : ℝ) :
    SolidObject_Reorientable ℝ :=
  let angleInRadians := RadiansFromDegrees angleInDegrees
  let a := Real.cos angleInRadians
  let b := Real.sin angleInRadians
  UpdateInverseRotation
    { s with
      rDir := ⟨a*s.rDir.x - b*s.rDir.y, a*s.rDir.y + b*s.rDir.x, s.rDir.z⟩
      sDir := ⟨a*s.sDir.x - b*s.sDir.y, a*s.sDir.y + b*s.sDir.x, s.sDir.z⟩
      tDir := ⟨a*s.tDir.x - b*s.tDir.y, a*s.tDir.y + b*s.tDir.x, s.tDir.z⟩ }

/-- Embedding of `SolidObject::Translate` (imager.h, lines 386-392), which the reorientable
class inherits unchanged. -/
def Translate {R : Type} [LinearOrderedField R]
    (s : SolidObject_Reorientable R) (dx dy dz : R) : SolidObject_Reorientable R :=
  { s with center := ⟨s.center.x + dx, s.center.y + dy, s.center.z + dz⟩ }

/-- Embedding of `SolidObject::Move(cx, cy, cz)` (imager.h, lines 394-398). -/
def Move {R : Type} [LinearOrderedField R]
    (s : SolidObject_Reorientable R) (cx cy cz : R) : SolidObject_Reorientable R :=
  s.Translate (cx - s.center.x) (cy - s.center.y) (cz - s.center.z)

end SolidObject_Reorientable

/-- One call of the mutating interface of a reorientable solid. -/
inductive Reorientation where
  | RotateX (angleInDegrees : ℝ)
  | RotateY (angleInDegrees : ℝ)
  | RotateZ (angleInDegrees : ℝ)
  | Translate (dx dy dz : ℝ)

/-- Effect of one call on the state of the solid. -/
noncomputable def Reorientation.apply (s : SolidObject_Reorientable ℝ) :
    Reorientation → SolidObject_Reorientable ℝ
  | .RotateX t => s.RotateX t
  | .RotateY t => s.RotateY t
  | .RotateZ t => s.RotateZ t
  | .Translate dx dy dz => s.Translate dx dy dz

/-- State after construction at `center` followed by a sequence of calls. -/
noncomputable def SolidObject_Reorientable.after (center : Vector ℝ)
    (calls : List Reorientation) : SolidObject_Reorientable ℝ :=
  calls.foldl Reorientation.apply (SolidObject_Reorientable.new center)

/-- The invariant of `SolidObject_Reorientable`: `rDir`, `sDir`, `tDir` are orthonormal and
`xDir`, `yDir`, `zDir` are the columns of the matrix whose rows are `rDir`, `sDir`, `tDir`. -/
def SolidObject_Reorientable.Orthonormal {R : Type} [LinearOrderedField R]
    (s : SolidObject_Reorientable R) : Prop :=
  DotProduct s.rDir s.rDir = 1 ∧ DotProduct s.sDir s.sDir = 1 ∧ DotProduct s.tDir s.tDir = 1 ∧
  DotProduct s.rDir s.sDir = 0 ∧ DotProduct s.rDir s.tDir = 0 ∧ DotProduct s.sDir s.tDir = 0 ∧
  s.xDir = ⟨s.rDir.x, s.sDir.x, s.tDir.x⟩ ∧
  s.yDir = ⟨s.rDir.y, s.sDir.y, s.tDir.y⟩ ∧
  s.zDir = ⟨s.rDir.z, s.sDir.z, s.tDir.z⟩

/-- The loop of `SolidObject_Reorientable::AppendAllIntersections` (reorient.cpp, lines 81-92):
starting at `index`, every entry up to the end of the list has its point and its surface
normal converted from object space to camera space, in place. -/
def SolidObject_Reorientable.ConvertFrom {R : Type} [LinearOrderedField R]
    (s : SolidObject_Reorientable R) (index : ℕ) (intersectionList : List (Intersection R)) :
    List (Intersection R) :=
  if h : index < intersectionList.length then
    let intersection := intersectionList[index]
    s.ConvertFrom (index + 1)
      (intersectionList.set index
        { intersection with
          point := s.CameraPointFromObjectPoint intersection.point
          surfaceNormal := s.CameraDirFromObjectDir intersection.surfaceNormal })
  else
    intersectionList
termination_by intersectionList.length - index
decreasing_by
  simp only [List.length_set]
  omega

/-- Embedding of `SolidObject_Reorientable::AppendAllIntersections` (reorient.cpp, lines
64-93).  The virtual `ObjectSpace_AppendAllIntersections` of the derived class is the
argument `objectSpace`. -/
def SolidObject_Reorientable.AppendAllIntersections {R : Type} [LinearOrderedField R]
    (s : SolidObject_Reorientable R)
    (objectSpace : Vector R → Vector R → List (Intersection R) → List (Intersection R))
    (vantage direction : Vector R) (intersectionList : List (Intersection R)) :
    List (Intersection R) :=
  let objectVantage := s.ObjectPointFromCameraPoint vantage
  let objectRay := s.ObjectDirFromCameraDir direction
  let sizeBeforeAppend := intersectionList.length
  let intersectionList := objectSpace objectVantage objectRay intersectionList
  s.ConvertFrom sizeBeforeAppend intersectionList

/-- Embedding of `class Cuboid` (imager.h, lines 752-782): a reorientable solid with the
half-sizes `a`, `b`, `c`. -/
structure Cuboid (R : Type) extends SolidObject_Reorientable R where
  a : R
  b : R
  c : R

namespace Cuboid

/-- Embedding of the constructor `Cuboid(_a, _b, _c)` (imager.h, lines 755-762). -/
def new {R : Type} [LinearOrderedField R] (a b c : R) : Cuboid R :=
  { SolidObject_Reorientable.new ⟨0, 0, 0⟩ with a := a, b := b, c := c }

/-- The inherited `Move(cx, cy, cz)` on a cuboid. -/
def Move {R : Type} [LinearOrderedField R] (cuboid : Cuboid R) (cx cy cz : R) : Cuboid R :=
  { cuboid with toSolidObject_Reorientable := cuboid.toSolidObject_Reorientable.Move cx cy cz }

/-- Embedding of `Cuboid::ObjectSpace_Contains` (imager.h, lines 770-776). -/
def ObjectSpace_Contains {R : Type} [LinearOrderedField R]
    (cuboid : Cuboid R) (point : Vector R) : Bool :=
  decide (|point.x| ≤ cuboid.a + EPSILON) &&
  decide (|point.y| ≤ cuboid.b + EPSILON) &&
  decide (|point.z| ≤ cuboid.c + EPSILON)

/-- Embedding of `SolidObject_Reorientable::Contains` (imager.h, lines 675-678) for a
cuboid. -/
def Contains {R : Type} [LinearOrderedField R] (cuboid : Cuboid R) (point : Vector R) : Bool :=
  cuboid.ObjectSpace_Contains (cuboid.ObjectPointFromCameraPoint point)

/-- The block that `Cuboid::ObjectSpace_AppendAllIntersections` repeats for each of the six
faces (for instance cuboid.cpp, lines 24-36), with the ray parameter `u` of the face plane,
the face normal and the face tag as arguments. -/
def AppendFaceHit {R : Type} [LinearOrderedField R] (cuboid : Cuboid R)
    (vantage direction : Vector R) (u : R) (normal : Vector R) (tag : String)
    (intersectionList : List (Intersection R)) : List (Intersection R) :=
  if u > EPSILON then
    let displacement := Vector.smul u direction
    let point := vantage.add displacement
    if cuboid.ObjectSpace_Contains point then
      intersectionList ++ [⟨displacement.MagnitudeSquared, point, normal, some tag⟩]
    else
      intersectionList
  else
    intersectionList

/-- Embedding of `Cuboid::ObjectSpace_AppendAllIntersections` (cuboid.cpp, lines 10-126). -/
def ObjectSpace_AppendAllIntersections {R : Type} [LinearOrderedField R] (cuboid : Cuboid R)
    (vantage direction : Vector R) (intersectionList : List (Intersection R)) :
    List (Intersection R) :=
  let afterX :=
    if |direction.x| > EPSILON then
      cuboid.AppendFaceHit vantage direction ((-cuboid.a - vantage.x) / direction.x)
        ⟨-1, 0, 0⟩ "left face"
        (cuboid.AppendFaceHit vantage direction ((cuboid.a - vantage.x) / direction.x)
          ⟨1, 0, 0⟩ "right face" intersectionList)
    else intersectionList
  let afterY :=
    if |direction.y| > EPSILON then
      cuboid.AppendFaceHit vantage direction ((-cuboid.b - vantage.y) / direction.y)
        ⟨0, -1, 0⟩ "back face"
        (cuboid.AppendFaceHit vantage direction ((cuboid.b - vantage.y) / direction.y)
          ⟨0, 1, 0⟩ "front face" afterX)
    else afterX
  if |direction.z| > EPSILON then
    cuboid.AppendFaceHit vantage direction ((-cuboid.c - vantage.z) / direction.z)
      ⟨0, 0, -1⟩ "bottom face"
      (cuboid.AppendFaceHit vantage direction ((cuboid.c - vantage.z) / direction.z)
        ⟨0, 0, 1⟩ "top face" afterY)
  else afterY

/-- The camera-space `AppendAllIntersections` of a cuboid: the reorientable wrapper around
the cuboid's object-space routine. -/
def AppendAllIntersections {R : Type} [LinearOrderedField R] (cuboid : Cuboid R)
    (vantage direction : Vector R) (intersectionList : List (Intersection R)) :
    List (Intersection R) :=
  cuboid.toSolidObject_Reorientable.AppendAllIntersections
    cuboid.ObjectSpace_AppendAllIntersections vantage direction intersectionList

end Cuboid

/-- The solids of the repository as a tree: the cuboid leaf and the set operators of
imager.h (`SetUnion`, `SetIntersection`, `SetComplement`), each operator owning its
children.  The `center` argument is the one handed to the base-class constructor. -/
inductive SolidObject (R : Type) where
  | cuboid (box : Cuboid R)
  | SetUnion (center : Vector R) (left right : SolidObject R)
  | SetIntersection (center : Vector R) (left right : SolidObject R)
  | SetComplement (center : Vector R) (other : SolidObject R)

namespace SolidObject

/-- Embedding of `SolidObject::Center` (imager.h, line 406). -/
def Center {R : Type} : SolidObject R → Vector R
  | .cuboid box => box.center
  | .SetUnion center _ _ => center
  | .SetIntersection center _ _ => center
  | .SetComplement center _ => center

/-- Embedding of the constructor `SetComplement(_other)` (imager.h, lines 585-590): the
center is the center of the wrapped solid. -/
def newSetComplement {R : Type} (other : SolidObject R) : SolidObject R :=
  .SetComplement other.Center other

/-- Embedding of the constructor of `SetDifference` (imager.h, lines 638-649): the
intersection of `left` with the complement of `right`. -/
def SetDifference {R : Type} (center : Vector R) (left right : SolidObject R) :
    SolidObject R :=
  .SetIntersection center left (newSetComplement right)

/-- Embedding of the virtual `Contains`: `SolidObject_Reorientable::Contains` for the cuboid
(imager.h, lines 675-678), `SetUnion::Contains` (536-540), `SetIntersection::Contains`
(561-565) and `SetComplement::Contains` (598-602). -/
def Contains {R : Type} [LinearOrderedField R] : SolidObject R → Vector R → Bool
  | .cuboid box, point => box.Contains point
  | .SetUnion _ left right, point => left.Contains point || right.Contains point
  | .SetIntersection _ left right, point => left.Contains point && right.Contains point
  | .SetComplement _ other, point => !other.Contains point

end SolidObject

/-! ## Colors, optics and the refractive index (`raytrace/imager.h`, `raytrace/optics.cpp`)

A member function that can throw is a function from the state of the object before the call
to the outcome of the call (`.ok ()` for a normal return, `.error message` for an
`ImagerException` with that message) paired with the state of the object when the call
ends. -/

/-- Embedding of `struct Color` (imager.h, lines 139-198). -/
@[ext] structure Color (R : Type) where
  red : R
  green : R
  blue : R

/-- Embedding of the constructor `Color(_red, _green, _blue, _luminosity)` (imager.h, lines
145-150); the source gives `_luminosity` the default value 1. -/
def Color.new {R : Type} [LinearOrderedField R] (red green blue luminosity : R) : Color R :=
  ⟨luminosity * red, luminosity * green, luminosity * blue⟩

/-- Embedding of the constructor `Color()` (imager.h, lines 152-157). -/
def Color.black {R : Type} [LinearOrderedField R] : Color R := ⟨0, 0, 0⟩

/-- Embedding of `operator * (double, Color)` (imager.h, lines 208-214). -/
def Color.smul {R : Type} [LinearOrderedField R] (scalar : R) (color : Color R) : Color R :=
  Color.new (scalar * color.red) (scalar * color.green) (scalar * color.blue) 1

/-- Embedding of the data of `class Optics` (imager.h, lines 239-279). -/
@[ext] structure Optics (R : Type) where
  matteColor : Color R
  glossColor : Color R
  opacity : R

namespace Optics

/-- Embedding of the constructor `Optics()` (imager.h, lines 242-247). -/
def default {R : Type} [LinearOrderedField R] : Optics R :=
  { matteColor := Color.new 1 1 1 1
    glossColor := Color.new 0 0 0 1
    opacity := 1 }

/-- Embedding of `Optics::ValidateReflectionColor` (optics.cpp, lines 13-30). -/
def ValidateReflectionColor {R : Type} [LinearOrderedField R] (color : Color R) :
    Except String Unit :=
  if color.red < 0 ∨ color.red > 1 then
    .error "Invalid red color component."
  else if color.green < 0 ∨ color.green > 1 then
    .error "Invalid green color component."
  else if color.blue < 0 ∨ color.blue > 1 then
    .error "Invalid blue color component."
  else
    .ok ()

/-- Embedding of `Optics::SetMatteColor` (optics.cpp, lines 32-36). -/
def SetMatteColor {R : Type} [LinearOrderedField R] (self : Optics R) (_matteColor : Color R) :
    Except String Unit × Optics R :=
  match ValidateReflectionColor _matteColor with
  | .error e => (.error e, self)
  | .ok _ => (.ok (), { self with matteColor := _matteColor })

/-- Embedding of `Optics::SetGlossColor` (optics.cpp, lines 38-42). -/
def SetGlossColor {R : Type} [LinearOrderedField R] (self : Optics R) (_glossColor : Color R) :
    Except String Unit × Optics R :=
  match ValidateReflectionColor _glossColor with
  | .error e => (.error e, self)
  | .ok _ => (.ok (), { self with glossColor := _glossColor })

/-- Embedding of `Optics::SetOpacity` (optics.cpp, lines 63-70). -/
def SetOpacity {R : Type} [LinearOrderedField R] (self : Optics R) (_opacity : R) :
    Except String Unit × Optics R :=
  if _opacity < 0 ∨ _opacity > 1 then
    (.error "Invalid opacity.", self)
  else
    (.ok (), { self with opacity := _opacity })

/-- Embedding of `Optics::SetMatteGlossBalance` (optics.cpp, lines 44-61).  The two setter
calls run one after the other on the object, so a throw of the second one would leave the
result of the first one in place. -/
def SetMatteGlossBalance {R : Type} [LinearOrderedField R] (self : Optics R)
    (glossFactor : R) (rawMatteColor rawGlossColor : Color R) :
    Except String Unit × Optics R :=
  match ValidateReflectionColor rawMatteColor with
  | .error e => (.error e, self)
  | .ok _ =>
    match ValidateReflectionColor rawGlossColor with
    | .error e => (.error e, self)
    | .ok _ =>
      if glossFactor < 0 ∨ glossFactor > 1 then
        (.error "Gloss factor must be in the range 0..1", self)
      else
        match self.SetMatteColor (Color.smul (1 - glossFactor) rawMatteColor) with
        | (.error e, afterMatte) => (.error e, afterMatte)
        | (.ok _, afterMatte) => afterMatte.SetGlossColor (Color.smul glossFactor rawGlossColor)

/-- Embedding of the constructor `Optics(_matteColor, _glossColor, _opacity)` (imager.h, lines
249-257).  The members start as `Color()`, `Color()` and an opacity the source leaves
uninitialised (the argument `uninitialised`); the three setters run in turn, and a throw of
any of them leaves no object. -/
def new {R : Type} [LinearOrderedField R] (_matteColor _glossColor : Color R) (_opacity : R)
    (uninitialised : R) : Except String (Optics R) :=
  let self : Optics R := ⟨Color.black, Color.black, uninitialised⟩
  match self.SetMatteColor _matteColor with
  | (.error e, _) => .error e
  | (.ok _, self) =>
    match self.SetGlossColor _glossColor with
    | (.error e, _) => .error e
    | (.ok _, self) =>
      match self.SetOpacity _opacity with
      | (.error e, _) => .error e
      | (.ok _, self) => .ok self

end Optics

/-! ## Containment by parity (`raytrace/solid.cpp`) -/

/-- The loop of `SolidObject::Contains` (solid.cpp, lines 25-48) over the intersections that
remain: it counts the exits and the entries, and throws on a crossing that is neither.  The
counters are the source's `int`s; they are bounded by the length of the list. -/
def SolidObject_Contains_loop {R : Type} [LinearOrderedField R] (direction : Vector R) :
    List (Intersection R) → ℤ → ℤ → Except String (ℤ × ℤ)
  | [], enterCount, exitCount => .ok (enterCount, exitCount)
  | intersection :: rest, enterCount, exitCount =>
    let dotprod := DotProduct direction intersection.surfaceNormal
    if dotprod > EPSILON then
      SolidObject_Contains_loop direction rest enterCount (exitCount + 1)
    else if dotprod < -EPSILON then
      SolidObject_Contains_loop direction rest (enterCount + 1) exitCount
    else
      .error "Ambiguous transition."

/-- Embedding of the base-class `SolidObject::Contains` (solid.cpp, lines 11-69).  The member
`isFullyEnclosed` and the virtual `AppendAllIntersections` of the solid are arguments; the
list `enclosureList` is cleared before the call, so the routine appends to the empty list. -/
def SolidObject_Contains {R : Type} [LinearOrderedField R] (isFullyEnclosed : Bool)
    (AppendAllIntersections :
      Vector R → Vector R → List (Intersection R) → List (Intersection R))
    (point : Vector R) : Except String Bool :=
  if isFullyEnclosed then
    let direction : Vector R := ⟨0, 0, 1⟩
    let enclosureList := AppendAllIntersections point direction []
    match SolidObject_Contains_loop direction enclosureList 0 0 with
    | .error e => .error e
    | .ok (enterCount, exitCount) =>
      if exitCount - enterCount = 0 then
        .ok false
      else if exitCount - enterCount = 1 then
        .ok true
      else
        .error "Cannot determine containment."
  else
    .ok false

/-! ## Calls on a cuboid -/

/-- The inherited `RotateX` on a cuboid. -/
noncomputable def Cuboid.RotateX (cuboid : Cuboid ℝ) (angleInDegrees : ℝ) : Cuboid ℝ :=
  { cuboid with
    toSolidObject_Reorientable := cuboid.toSolidObject_Reorientable.RotateX angleInDegrees }

/-- The inherited `RotateY` on a cuboid. -/
noncomputable def Cuboid.RotateY (cuboid : Cuboid ℝ) (angleInDegrees : ℝ) : Cuboid ℝ :=
  { cuboid with
    toSolidObject_Reorientable := cuboid.toSolidObject_Reorientable.RotateY angleInDegrees }

/-- The inherited `RotateZ` on a cuboid. -/
noncomputable def Cuboid.RotateZ (cuboid : Cuboid ℝ) (angleInDegrees : ℝ) : Cuboid ℝ :=
  { cuboid with
    toSolidObject_Reorientable := cuboid.toSolidObject_Reorientable.RotateZ angleInDegrees }

/-- The cuboid `Cuboid(a, b, c)` after a sequence of calls of the inherited `RotateX`,
`RotateY`, `RotateZ` and `Translate` (a `Move(cx, cy, cz)` is the call
`Translate(cx - center.x, cy - center.y, cz - center.z)`): the calls act on the reorientable
part, which the constructor centers at the origin, and leave the half-sizes alone. -/
noncomputable def Cuboid.after (a b c : ℝ) (calls : List Reorientation) : Cuboid ℝ :=
  { SolidObject_Reorientable.after ⟨0, 0, 0⟩ calls with a := a, b := b, c := c }

/-! ## The image buffer and the pixel conversion (`raytrace/imager.h`) -/

/-- Embedding of `Color::Validate` (imager.h, lines 191-197). -/
def Color.Validate {R : Type} [LinearOrderedField R] (color : Color R) : Except String Unit :=
  if color.red < 0 ∨ color.green < 0 ∨ color.blue < 0 then
    .error "Negative color values not allowed."
  else
    .ok ()

/-- Embedding of `struct PixelData` (imager.h, lines 960-970). -/
structure PixelData (R : Type) where
  color : Color R
  isAmbiguous : Bool

/-- Embedding of the constructor `PixelData()` (imager.h, lines 965-969). -/
def PixelData.new {R : Type} [LinearOrderedField R] : PixelData R := ⟨Color.black, false⟩

/-- Number of values of `size_t`, taken as 64 bits wide: arithmetic on `size_t` is modulo
this number. -/
def SIZE_MODULUS : ℕ := 2 ^ 64

/-- Embedding of the data of `class ImageBuffer` (imager.h, lines 1045-1049).  The array is a
map from index to element; the allocation made by the constructor has `numPixels`
elements, at the indices below `numPixels`. -/
structure ImageBuffer (R : Type) where
  pixelsWide : ℕ
  pixelsHigh : ℕ
  numPixels : ℕ
  array : ℕ → PixelData R

namespace ImageBuffer

/-- Embedding of the constructor (imager.h, lines 976-985), for arguments that are values of
`size_t`.  The product is a `size_t` product; the argument `backgroundColor` is not used by
the source. -/
def new {R : Type} [LinearOrderedField R] (_pixelsWide _pixelsHigh : ℕ)
    (_backgroundColor : Color R) : ImageBuffer R :=
  { pixelsWide := _pixelsWide
    pixelsHigh := _pixelsHigh
    numPixels := (_pixelsWide * _pixelsHigh) % SIZE_MODULUS
    array := fun _ => PixelData.new }

/-- Embedding of `ImageBuffer::Pixel` (imager.h, lines 995-1005): the index of the element of
`array` whose reference is returned, computed in `size_t`, or the exception. -/
def Pixel {R : Type} (buffer : ImageBuffer R) (i j : ℕ) : Except String ℕ :=
  if i < buffer.pixelsWide ∧ j < buffer.pixelsHigh then
    .ok (((j * buffer.pixelsWide) + i) % SIZE_MODULUS)
  else
    .error "Pixel coordinate(s) out of bounds"

/-- The loop of `ImageBuffer::MaxColorValue` (imager.h, lines 1021-1036): `remaining`
iterations are left, `i` is the loop index, `max` the running maximum. -/
def MaxColorValue_loop {R : Type} [LinearOrderedField R] (array : ℕ → PixelData R) :
    ℕ → ℕ → R → Except String R
  | 0, _, max => .ok max
  | remaining + 1, i, max =>
    match (array i).color.Validate with
    | .error e => .error e
    | .ok _ =>
      let max1 := if (array i).color.red > max then (array i).color.red else max
      let max2 := if (array i).color.green > max1 then (array i).color.green else max1
      let max3 := if (array i).color.blue > max2 then (array i).color.blue else max2
      MaxColorValue_loop array remaining (i + 1) max3

/-- Embedding of `ImageBuffer::MaxColorValue` (imager.h, lines 1018-1043). -/
def MaxColorValue {R : Type} [LinearOrderedField R] (buffer : ImageBuffer R) :
    Except String R :=
  match MaxColorValue_loop buffer.array buffer.numPixels 0 0 with
  | .error e => .error e
  | .ok max => .ok (if max = 0 then 1 else max)

end ImageBuffer

/-- Smallest value of `int`, taken as 32 bits wide. -/
def INT_MIN : ℤ := -2147483648

/-- Largest value of `int`, taken as 32 bits wide. -/
def INT_MAX : ℤ := 2147483647

/-- The conversion `static_cast<int>` of a `double`: the value truncated toward zero when that
is a value of `int`; otherwise the behaviour of the conversion is undefined and there is no
result. -/
def static_cast_int {R : Type} [LinearOrderedField R] [FloorRing R] (value : R) : Option ℤ :=
  let truncated : ℤ := if 0 ≤ value then ⌊value⌋ else ⌈value⌉
  if INT_MIN ≤ truncated ∧ truncated ≤ INT_MAX then some truncated else none

/-! ## The complement of a cuboid (`raytrace/imager.h`) -/

/-- The inherited `SolidObject::Translate` (imager.h, lines 386-392) on a cuboid. -/
def Cuboid.Translate {R : Type} [LinearOrderedField R] (cuboid : Cuboid R) (dx dy dz : R) :
    Cuboid R :=
  { cuboid with
    toSolidObject_Reorientable := cuboid.toSolidObject_Reorientable.Translate dx dy dz }

/-- Embedding of the data of `class SetComplement` (imager.h, lines 582-636) when the wrapped
solid is a cuboid: the `center` inherited from `SolidObject` and the solid `other`, which
the complement owns. -/
structure SetComplement (R : Type) where
  center : Vector R
  other : Cuboid R

namespace SetComplement

/-- Embedding of the constructor `SetComplement(_other)` (imager.h, lines 585-590). -/
def new {R : Type} (_other : Cuboid R) : SetComplement R :=
  { center := _other.center, other := _other }

/-- Embedding of `SolidObject::Center` (imager.h, line 406) on a complement. -/
def Center {R : Type} (self : SetComplement R) : Vector R := self.center

/-- Embedding of `SetComplement::Translate` (imager.h, lines 609-614): the base-class
`Translate` on the complement itself, then `Translate` on the wrapped solid. -/
def Translate {R : Type} [LinearOrderedField R] (self : SetComplement R) (dx dy dz : R) :
    SetComplement R :=
  { center := ⟨self.center.x + dx, self.center.y + dy, self.center.z + dz⟩
    other := self.other.Translate dx dy dz }

/-- Embedding of `SolidObject::Move(cx, cy, cz)` (imager.h, lines 394-398) on a complement;
the `Translate` it calls is virtual, so it is `SetComplement::Translate`. -/
def Move {R : Type} [LinearOrderedField R] (self : SetComplement R) (cx cy cz : R) :
    SetComplement R :=
  self.Translate (cx - self.center.x) (cy - self.center.y) (cz - self.center.z)

/-- Embedding of `SetComplement::RotateX` (imager.h, lines 616-620). -/
noncomputable def RotateX (self : SetComplement ℝ) (angleInDegrees : ℝ) : SetComplement ℝ :=
  { self with other := self.other.RotateX angleInDegrees }

/-- Embedding of `SetComplement::RotateY` (imager.h, lines 622-626). -/
noncomputable def RotateY (self : SetComplement ℝ) (angleInDegrees : ℝ) : SetComplement ℝ :=
  { self with other := self.other.RotateY angleInDegrees }

/-- Embedding of `SetComplement::RotateZ` (imager.h, lines 628-632). -/
noncomputable def RotateZ (self : SetComplement ℝ) (angleInDegrees : ℝ) : SetComplement ℝ :=
  { self with other := self.other.RotateZ angleInDegrees }

end SetComplement

/-- One call of the moving interface of a solid: the three rotations, `Translate` and
`Move`. -/
inductive Motion where
  | RotateX (angleInDegrees : ℝ)
  | RotateY (angleInDegrees : ℝ)
  | RotateZ (angleInDegrees : ℝ)
  | Translate (dx dy dz : ℝ)
  | Move (cx cy cz : ℝ)

/-- Effect of one call on a complement. -/
noncomputable def Motion.apply (self : SetComplement ℝ) : Motion → SetComplement ℝ
  | .RotateX t => self.RotateX t
  | .RotateY t => self.RotateY t
  | .RotateZ t => self.RotateZ t
  | .Translate dx dy dz => self.Translate dx dy dz
  | .Move cx cy cz => self.Move cx cy cz

/-- The complement constructed around the cuboid `other`, after a sequence of calls. -/
noncomputable def SetComplement.after (other : Cuboid ℝ) (calls : List Motion) :
    SetComplement ℝ :=
  calls.foldl Motion.apply (SetComplement.new other)

/-! ## Setters, pixel conversion and cuboid on `double` (IEEE 754 reading)

The definitions of this section embed source functions over the type `Double`: every
arithmetic operation returns its exact result rounded, a comparison with a NaN is false. -/

namespace Binary64

/-- Embedding of the constructor `Color(_red, _green, _blue, _luminosity)` (imager.h, lines
145-150) on `double`. -/
def Color.new (red green blue luminosity : Double) : Color Double :=
  ⟨luminosity * red, luminosity * green, luminosity * blue⟩

/-- Embedding of `ValidateRefraction` (imager.h, lines 230-237) on `double`; the constants
`REFRACTION_MINIMUM = 1.0000` and `REFRACTION_MAXIMUM = 9.0000` are written out. -/
def ValidateRefraction (refraction : Double) : Except String Unit :=
  if refraction < Double.finite false 1 ∨ refraction > Double.finite false 9 then
    .error "Invalid refractive index."
  else
    .ok ()

/-- Embedding of `SolidObject::SetRefraction` (imager.h, lines 437-441) on `double`.  The
only member the function touches is `refractiveIndex`, which is the state here. -/
def SolidObject.SetRefraction (refractiveIndex : Double) (refraction : Double) :
    Except String Unit × Double :=
  match ValidateRefraction refraction with
  | .error e => (.error e, refractiveIndex)
  | .ok _ => (.ok (), refraction)

/-- Embedding of `Scene::SetAmbientRefraction` (imager.h, lines 833-837) on `double`.  The
only member the function touches is `ambientRefraction`, which is the state here. -/
def Scene.SetAmbientRefraction (ambientRefraction : Double) (refraction : Double) :
    Except String Unit × Double :=
  match ValidateRefraction refraction with
  | .error e => (.error e, ambientRefraction)
  | .ok _ => (.ok (), refraction)

/-- The value of the constant `REFRACTION_GLASS = 1.5500`, to which the constructor of a
solid sets `refractiveIndex` (imager.h, line 344). -/
def REFRACTION_GLASS : Double := Double.ofRat (155 / 100)

/-- The value of the constant `REFRACTION_VACUUM = 1.0000`, to which the constructor of a
scene sets `ambientRefraction` (imager.h, line 803). -/
def REFRACTION_VACUUM : Double := Double.finite false 1

namespace Optics

/-- Embedding of the constructor `Optics()` (imager.h, lines 242-247) on `double`. -/
def default : Optics Double :=
  { matteColor := Color.new (Double.finite false 1) (Double.finite false 1)
      (Double.finite false 1) (Double.finite false 1)
    glossColor := Color.new (Double.finite false 0) (Double.finite false 0)
      (Double.finite false 0) (Double.finite false 1)
    opacity := Double.finite false 1 }

/-- Embedding of `Optics::ValidateReflectionColor` (optics.cpp, lines 13-30) on `double`. -/
def ValidateReflectionColor (color : Color Double) : Except String Unit :=
  if color.red < Double.finite false 0 ∨ color.red > Double.finite false 1 then
    .error "Invalid red color component."
  else if color.green < Double.finite false 0 ∨ color.green > Double.finite false 1 then
    .error "Invalid green color component."
  else if color.blue < Double.finite false 0 ∨ color.blue > Double.finite false 1 then
    .error "Invalid blue color component."
  else
    .ok ()

/-- Embedding of `Optics::SetMatteColor` (optics.cpp, lines 32-36) on `double`. -/
def SetMatteColor (self : Optics Double) (_matteColor : Color Double) :
    Except String Unit × Optics Double :=
  match ValidateReflectionColor _matteColor with
  | .error e => (.error e, self)
  | .ok _ => (.ok (), { self with matteColor := _matteColor })

/-- Embedding of `Optics::SetGlossColor` (optics.cpp, lines 38-42) on `double`. -/
def SetGlossColor (self : Optics Double) (_glossColor : Color Double) :
    Except String Unit × Optics Double :=
  match ValidateReflectionColor _glossColor with
  | .error e => (.error e, self)
  | .ok _ => (.ok (), { self with glossColor := _glossColor })

/-- Embedding of `Optics::SetOpacity` (optics.cpp, lines 63-70) on `double`. -/
def SetOpacity (self : Optics Double) (_opacity : Double) :
    Except String Unit × Optics Double :=
  if _opacity < Double.finite false 0 ∨ _opacity > Double.finite false 1 then
    (.error "Invalid opacity.", self)
  else
    (.ok (), { self with opacity := _opacity })

end Optics

/-- The conversion `static_cast<int>` of a `double`: a finite value is truncated toward zero,
and the result is that integer when it is a value of `int`; for a NaN, an infinity or a
value out of the range of `int` the behaviour is undefined and there is no result. -/
def static_cast_int : Double → Option ℤ
  | Double.finite negative magnitude =>
    Imager.static_cast_int (Double.finite negative magnitude).toRat
  | _ => none

/-- Embedding of `Scene::ConvertPixelValue` (imager.h, lines 897-914) on `double`: the
`unsigned char` returned, or no result where the conversion to `int` has none. -/
def Scene.ConvertPixelValue (colorComponent maxColorValue : Double) : Option ℕ :=
  match static_cast_int (Double.finite false 255 * colorComponent / maxColorValue) with
  | none => none
  | some pixelValue =>
    let clamped : ℤ :=
      if pixelValue < 0 then 0 else if pixelValue > 255 then 255 else pixelValue
    some (clamped % 256).toNat

/-- The constant `EPSILON = 1.0e-6` of imager.h on `double`: the value of the literal, the
`double` nearest to `1/1000000`. -/
def EPSILON : Double := Double.ofRat (1 / 1000000)

/-- Embedding of `Vector::MagnitudeSquared` on `double`. -/
def Vector.MagnitudeSquared (v : Vector Double) : Double :=
  (v.x*v.x) + (v.y*v.y) + (v.z*v.z)

/-- Embedding of `operator + (Vector, Vector)` on `double`. -/
def Vector.add (a b : Vector Double) : Vector Double :=
  ⟨a.x + b.x, a.y + b.y, a.z + b.z⟩

/-- Embedding of `operator * (double, Vector)` on `double`. -/
def Vector.smul (s : Double) (v : Vector Double) : Vector Double :=
  ⟨s*v.x, s*v.y, s*v.z⟩

namespace Cuboid

/-- Embedding of the constructor `Cuboid(_a, _b, _c)` (imager.h, lines 755-762) on
`double`, with the center and the axes the base class constructor sets. -/
def new (a b c : Double) : Cuboid Double :=
  { center := ⟨Double.finite false 0, Double.finite false 0, Double.finite false 0⟩
    rDir := ⟨Double.finite false 1, Double.finite false 0, Double.finite false 0⟩
    sDir := ⟨Double.finite false 0, Double.finite false 1, Double.finite false 0⟩
    tDir := ⟨Double.finite false 0, Double.finite false 0, Double.finite false 1⟩
    xDir := ⟨Double.finite false 1, Double.finite false 0, Double.finite false 0⟩
    yDir := ⟨Double.finite false 0, Double.finite false 1, Double.finite false 0⟩
    zDir := ⟨Double.finite false 0, Double.finite false 0, Double.finite false 1⟩
    a := a
    b := b
    c := c }

/-- Embedding of `Cuboid::ObjectSpace_Contains` (imager.h, lines 770-776) on `double`. -/
def ObjectSpace_Contains (cuboid : Cuboid Double) (point : Vector Double) : Bool :=
  decide (Double.fabs point.x ≤ cuboid.a + EPSILON) &&
  decide (Double.fabs point.y ≤ cuboid.b + EPSILON) &&
  decide (Double.fabs point.z ≤ cuboid.c + EPSILON)

/-- The block that `Cuboid::ObjectSpace_AppendAllIntersections` repeats for each of the six
faces (for instance cuboid.cpp, lines 24-36) on `double`, with the ray parameter `u` of the
face plane, the face normal and the face tag as arguments. -/
def AppendFaceHit (cuboid : Cuboid Double) (vantage direction : Vector Double) (u : Double)
    (normal : Vector Double) (tag : String) (intersectionList : List (Intersection Double)) :
    List (Intersection Double) :=
  if u > EPSILON then
    let displacement := Vector.smul u direction
    let point := Vector.add vantage displacement
    if ObjectSpace_Contains cuboid point then
      intersectionList ++ [⟨Vector.MagnitudeSquared displacement, point, normal, some tag⟩]
    else
      intersectionList
  else
    intersectionList

/-- Embedding of `Cuboid::ObjectSpace_AppendAllIntersections` (cuboid.cpp, lines 10-126) on
`double`. -/
def ObjectSpace_AppendAllIntersections (cuboid : Cuboid Double)
    (vantage direction : Vector Double) (intersectionList : List (Intersection Double)) :
    List (Intersection Double) :=
  let afterX :=
    if Double.fabs direction.x > EPSILON then
      AppendFaceHit cuboid vantage direction ((-cuboid.a - vantage.x) / direction.x)
        ⟨Double.finite true 1, Double.finite false 0, Double.finite false 0⟩ "left face"
        (AppendFaceHit cuboid vantage direction ((cuboid.a - vantage.x) / direction.x)
          ⟨Double.finite false 1, Double.finite false 0, Double.finite false 0⟩ "right face"
          intersectionList)
    else intersectionList
  let afterY :=
    if Double.fabs direction.y > EPSILON then
      AppendFaceHit cuboid vantage direction ((-cuboid.b - vantage.y) / direction.y)
        ⟨Double.finite false 0, Double.finite true 1, Double.finite false 0⟩ "back face"
        (AppendFaceHit cuboid vantage direction ((cuboid.b - vantage.y) / direction.y)
          ⟨Double.finite false 0, Double.finite false 1, Double.finite false 0⟩ "front face"
          afterX)
    else afterX
  if Double.fabs direction.z > EPSILON then
    AppendFaceHit cuboid vantage direction ((-cuboid.c - vantage.z) / direction.z)
      ⟨Double.finite false 0, Double.finite false 0, Double.finite true 1⟩ "bottom face"
      (AppendFaceHit cuboid vantage direction ((cuboid.c - vantage.z) / direction.z)
        ⟨Double.finite false 0, Double.finite false 0, Double.finite false 1⟩ "top face"
        afterY)
  else afterY

end Cuboid

end Binary64

/-! ## Predicates used to state the properties

The definitions below embed no function of the source: they are the vocabulary of the
statements about the reorientation matrices and about a ray meeting the three pairs of
opposite faces of a cuboid. -/

/-- The columns of the matrix with rows `rDir`, `sDir`, `tDir` are orthonormal. -/
def SolidObject_Reorientable.ColumnsOrthonormal {R : Type} [LinearOrderedField R]
    (s : SolidObject_Reorientable R) : Prop :=
  s.rDir.x*s.rDir.x + s.sDir.x*s.sDir.x + s.tDir.x*s.tDir.x = 1 ∧
  s.rDir.y*s.rDir.y + s.sDir.y*s.sDir.y + s.tDir.y*s.tDir.y = 1 ∧
  s.rDir.z*s.rDir.z + s.sDir.z*s.sDir.z + s.tDir.z*s.tDir.z = 1 ∧
  s.rDir.x*s.rDir.y + s.sDir.x*s.sDir.y + s.tDir.x*s.tDir.y = 0 ∧
  s.rDir.x*s.rDir.z + s.sDir.x*s.sDir.z + s.tDir.x*s.tDir.z = 0 ∧
  s.rDir.y*s.rDir.z + s.sDir.y*s.sDir.z + s.tDir.y*s.tDir.z = 0

/-- One coordinate of a ray against one pair of opposite faces: the coordinate `v` of the
ray origin, the component `d` of its direction and the half-size `h` of the cuboid. -/
structure Slab (R : Type) where
  v : R
  d : R
  h : R

/-- At ray parameter `u` the coordinate is strictly between the two faces. -/
def Slab.Inside {R : Type} [LinearOrderedField R] (s : Slab R) (u : R) : Prop :=
  |s.v + u * s.d| < s.h

/-- At ray parameter `u` the coordinate is between the two faces or on one of them. -/
def Slab.Within {R : Type} [LinearOrderedField R] (s : Slab R) (u : R) : Prop :=
  |s.v + u * s.d| ≤ s.h

/-- The smaller of the two ray parameters at which the coordinate is on a face. -/
def Slab.lo {R : Type} [LinearOrderedField R] (s : Slab R) : R :=
  min ((s.h - s.v) / s.d) ((-s.h - s.v) / s.d)

/-- The larger of the two ray parameters at which the coordinate is on a face. -/
def Slab.hi {R : Type} [LinearOrderedField R] (s : Slab R) : R :=
  max ((s.h - s.v) / s.d) ((-s.h - s.v) / s.d)

/-- At ray parameter `u` the coordinate is strictly between the faces, or beyond a face by
more than `EPSILON`: it is not on a face and not in the tolerance band. -/
def Slab.Clear {R : Type} [LinearOrderedField R] (s : Slab R) (u : R) : Prop :=
  |s.v + u * s.d| < s.h ∨ s.h + EPSILON < |s.v + u * s.d|

/-- An entry (`lo`) or exit (`hi`) parameter `u` of one slab is accepted when it is forward by
more than `EPSILON` and strictly inside the two other slabs. -/
def Slab.Accepts {R : Type} [LinearOrderedField R] (sj sk : Slab R) (u : R) : Prop :=
  EPSILON < u ∧ sj.Inside u ∧ sk.Inside u

/-- The ray against the faces `x = ±a`. -/
def Cuboid.slabX {R : Type} (cuboid : Cuboid R) (vantage direction : Vector R) : Slab R :=
  ⟨vantage.x, direction.x, cuboid.a⟩

/-- The ray against the faces `y = ±b`. -/
def Cuboid.slabY {R : Type} (cuboid : Cuboid R) (vantage direction : Vector R) : Slab R :=
  ⟨vantage.y, direction.y, cuboid.b⟩

/-- The ray against the faces `z = ±c`. -/
def Cuboid.slabZ {R : Type} (cuboid : Cuboid R) (vantage direction : Vector R) : Slab R :=
  ⟨vantage.z, direction.z, cuboid.c⟩

/-- The ray keeps clear of every tolerance of the cuboid routine: each direction component
is zero or above `EPSILON` in magnitude, and wherever the ray meets the plane of a face, the
ray parameter is either not forward (`≤ 0`) or above `EPSILON`, and each of the other two
coordinates is strictly within its half-size or beyond it by more than `EPSILON` (so the ray
meets no edge and no tolerance band). -/
def Cuboid.RayIsClear {R : Type} [LinearOrderedField R] (cuboid : Cuboid R)
    (vantage direction : Vector R) : Prop :=
  (direction.x = 0 ∨ EPSILON < |direction.x|) ∧
  (direction.y = 0 ∨ EPSILON < |direction.y|) ∧
  (direction.z = 0 ∨ EPSILON < |direction.z|) ∧
  (direction.x ≠ 0 → ∀ u,
    u = (cuboid.slabX vantage direction).lo ∨ u = (cuboid.slabX vantage direction).hi →
      (u ≤ 0 ∨ EPSILON < u) ∧ (cuboid.slabY vantage direction).Clear u ∧
        (cuboid.slabZ vantage direction).Clear u) ∧
  (direction.y ≠ 0 → ∀ u,
    u = (cuboid.slabY vantage direction).lo ∨ u = (cuboid.slabY vantage direction).hi →
      (u ≤ 0 ∨ EPSILON < u) ∧ (cuboid.slabX vantage direction).Clear u ∧
        (cuboid.slabZ vantage direction).Clear u) ∧
  (direction.z ≠ 0 → ∀ u,
    u = (cuboid.slabZ vantage direction).lo ∨ u = (cuboid.slabZ vantage direction).hi →
      (u ≤ 0 ∨ EPSILON < u) ∧ (cuboid.slabX vantage direction).Clear u ∧
        (cuboid.slabY vantage direction).Clear u)

/-- A point on an edge of the box: on the surface with two coordinates at their half-size. -/
def Cuboid.OnEdge {R : Type} [LinearOrderedField R] (cuboid : Cuboid R) (p : Vector R) : Prop :=
  (|p.x| = cuboid.a ∧ |p.y| = cuboid.b ∧ |p.z| ≤ cuboid.c) ∨
  (|p.x| = cuboid.a ∧ |p.z| = cuboid.c ∧ |p.y| ≤ cuboid.b) ∨
  (|p.y| = cuboid.b ∧ |p.z| = cuboid.c ∧ |p.x| ≤ cuboid.a)

/-- The line of the ray passes through a point of an edge of the box. -/
def Cuboid.GrazesEdge {R : Type} [LinearOrderedField R] (cuboid : Cuboid R)
    (vantage direction : Vector R) : Prop :=
  ∃ u : R, cuboid.OnEdge (vantage.add (Vector.smul u direction))

/-- Every channel of the color is in `[0, 1]`. -/
def Color.InUnitRange {R : Type} [LinearOrderedField R] (color : Color R) : Prop :=
  (0 ≤ color.red ∧ color.red ≤ 1) ∧ (0 ≤ color.green ∧ color.green ≤ 1) ∧
  (0 ≤ color.blue ∧ color.blue ≤ 1)

/-- The invariant of `Optics`: matte and gloss channels and the opacity are in `[0, 1]`. -/
def Optics.InRange {R : Type} [LinearOrderedField R] (optics : Optics R) : Prop :=
  optics.matteColor.InUnitRange ∧ optics.glossColor.InUnitRange ∧
  (0 ≤ optics.opacity ∧ optics.opacity ≤ 1)

/-- The values of `Optics` a program can reach: the results of the two constructors, and the
state an `Optics` object is in after a call of one of its four setters, whether the call
returned or threw. -/
inductive Optics.Reachable {R : Type} [LinearOrderedField R] : Optics R → Prop
  | default : Optics.Reachable Optics.default
  | new (matteColor glossColor : Color R) (opacity uninitialised : R) (optics : Optics R) :
      Optics.new matteColor glossColor opacity uninitialised = .ok optics →
      Optics.Reachable optics
  | SetMatteColor (self : Optics R) (color : Color R) :
      Optics.Reachable self → Optics.Reachable (self.SetMatteColor color).2
  | SetGlossColor (self : Optics R) (color : Color R) :
      Optics.Reachable self → Optics.Reachable (self.SetGlossColor color).2
  | SetOpacity (self : Optics R) (opacity : R) :
      Optics.Reachable self → Optics.Reachable (self.SetOpacity opacity).2
  | SetMatteGlossBalance (self : Optics R) (glossFactor : R)
      (rawMatteColor rawGlossColor : Color R) :
      Optics.Reachable self →
      Optics.Reachable (self.SetMatteGlossBalance glossFactor rawMatteColor rawGlossColor).2

/-- The crossing is ambiguous for the parity test: the dot product of the ray direction and
the surface normal has magnitude at most `EPSILON`. -/
def Ambiguous {R : Type} [LinearOrderedField R] (direction : Vector R)
    (intersection : Intersection R) : Prop :=
  |DotProduct direction intersection.surfaceNormal| ≤ EPSILON

/-- Number of crossings of the list whose normal has a dot product above `EPSILON` with the
ray direction (the ray leaves the solid). -/
def ExitCount {R : Type} [LinearOrderedField R] (direction : Vector R)
    (list : List (Intersection R)) : ℤ :=
  (list.countP (fun intersection =>
    decide (DotProduct direction intersection.surfaceNormal > EPSILON)) : ℕ)

/-- Number of crossings of the list whose normal has a dot product below `-EPSILON` with the
ray direction (the ray enters the solid). -/
def EnterCount {R : Type} [LinearOrderedField R] (direction : Vector R)
    (list : List (Intersection R)) : ℤ :=
  (list.countP (fun intersection =>
    decide (DotProduct direction intersection.surfaceNormal < -EPSILON)) : ℕ)

/-- The standard counterclockwise (right-handed) rotation of `v` about the x axis by the
angle of `angleInDegrees` degrees, that is `angleInDegrees * π / 180` radians. -/
noncomputable def RotationAboutX (angleInDegrees : ℝ) (v : Vector ℝ) : Vector ℝ :=
  ⟨v.x,
   v.y * Real.cos (angleInDegrees * Real.pi / 180)
     - v.z * Real.sin (angleInDegrees * Real.pi / 180),
   v.y * Real.sin (angleInDegrees * Real.pi / 180)
     + v.z * Real.cos (angleInDegrees * Real.pi / 180)⟩

/-- The standard counterclockwise (right-handed) rotation of `v` about the y axis by the
angle of `angleInDegrees` degrees, that is `angleInDegrees * π / 180` radians. -/
noncomputable def RotationAboutY (angleInDegrees : ℝ) (v : Vector ℝ) : Vector ℝ :=
  ⟨v.x * Real.cos (angleInDegrees * Real.pi / 180)
     + v.z * Real.sin (angleInDegrees * Real.pi / 180),
   v.y,
   v.z * Real.cos (angleInDegrees * Real.pi / 180)
     - v.x * Real.sin (angleInDegrees * Real.pi / 180)⟩

/-- The standard counterclockwise (right-handed) rotation of `v` about the z axis by the
angle of `angleInDegrees` degrees, that is `angleInDegrees * π / 180` radians. -/
noncomputable def RotationAboutZ (angleInDegrees : ℝ) (v : Vector ℝ) : Vector ℝ :=
  ⟨v.x * Real.cos (angleInDegrees * Real.pi / 180)
     - v.y * Real.sin (angleInDegrees * Real.pi / 180),
   v.x * Real.sin (angleInDegrees * Real.pi / 180)
     + v.y * Real.cos (angleInDegrees * Real.pi / 180),
   v.z⟩

/-- The value of `int` the conversion of `value` truncates to, clamped into `0 .. 255`. -/
def ClampedTruncation {R : Type} [LinearOrderedField R] [FloorRing R] (value : R) : ℕ :=
  (max 0 (min 255 (if 0 ≤ value then ⌊value⌋ else ⌈value⌉))).toNat

end Imager

/-!
# Rounding and the operations of `double` on finite values
-/

namespace Double

/-! ## Rounding to the nearest integer -/

theorem roundHalfEven_of_lt (y : ℚ) (n : ℤ) (h1 : (n : ℚ) - 1 / 2 < y) (h2 : y < n + 1 / 2) :
    roundHalfEven y = n := by
  unfold roundHalfEven
  have hf1 : (⌊y⌋ : ℚ) ≤ y := Int.floor_le y
  have hf2 : y < ⌊y⌋ + 1 := Int.lt_floor_add_one y
  have ha : n - 1 < ⌊y⌋ + 1 := by
    have : ((n - 1 : ℤ) : ℚ) < ((⌊y⌋ + 1 : ℤ) : ℚ) := by push_cast; linarith
    exact_mod_cast this
  have hb : ⌊y⌋ < n + 1 := by
    have : ((⌊y⌋ : ℤ) : ℚ) < ((n + 1 : ℤ) : ℚ) := by push_cast; linarith
    exact_mod_cast this
  have hcase : ⌊y⌋ = n ∨ ⌊y⌋ = n - 1 := by omega
  rcases hcase with h | h
  · rw [h]
    rw [if_pos (by linarith)]
  · rw [h]
    have hc : ((n - 1 : ℤ) : ℚ) = n - 1 := by push_cast; ring
    rw [hc, if_neg (by linarith), if_pos (by linarith)]
    ring

theorem roundHalfEven_tie (y : ℚ) (n : ℤ) (h : y = n + 1 / 2) :
    roundHalfEven y = if n % 2 = 0 then n else n + 1 := by
  unfold roundHalfEven
  have hfl : ⌊y⌋ = n := by
    rw [Int.floor_eq_iff]
    constructor <;> linarith
  rw [hfl, h]
  rw [if_neg (by linarith), if_neg (by linarith)]

theorem roundHalfEven_intCast (n : ℤ) : roundHalfEven (n : ℚ) = n :=
  roundHalfEven_of_lt _ n (by linarith) (by linarith)

theorem roundHalfEven_sub_le (y : ℚ) : |(roundHalfEven y : ℚ) - y| ≤ 1 / 2 := by
  unfold roundHalfEven
  have hf1 : (⌊y⌋ : ℚ) ≤ y := Int.floor_le y
  have hf2 : y < ⌊y⌋ + 1 := Int.lt_floor_add_one y
  rw [abs_le]
  by_cases h1 : y - ⌊y⌋ < 1 / 2
  · rw [if_pos h1]
    constructor <;> linarith
  · rw [if_neg h1]
    by_cases h2 : 1 / 2 < y - ⌊y⌋
    · rw [if_pos h2]
      push_cast
      constructor <;> linarith
    · rw [if_neg h2]
      by_cases h3 : ⌊y⌋ % 2 = 0
      · rw [if_pos h3]
        constructor <;> linarith
      · rw [if_neg h3]
        push_cast
        constructor <;> linarith

theorem roundHalfEven_mono (y z : ℚ) (h : y ≤ z) : roundHalfEven y ≤ roundHalfEven z := by
  by_cases hfl : ⌊y⌋ = ⌊z⌋
  · unfold roundHalfEven
    rw [← hfl]
    by_cases h1 : y - ⌊y⌋ < 1 / 2
    · rw [if_pos h1]
      split_ifs <;> omega
    · rw [if_neg h1]
      have h1z : ¬ (z - ⌊y⌋ < 1 / 2) := by intro hc; exact h1 (by linarith)
      rw [if_neg h1z]
      by_cases h2 : 1 / 2 < y - ⌊y⌋
      · rw [if_pos h2, if_pos (by linarith)]
      · rw [if_neg h2]
        split_ifs <;> omega
  · have hlt : ⌊y⌋ < ⌊z⌋ := lt_of_le_of_ne (Int.floor_mono h) hfl
    have hy : roundHalfEven y ≤ ⌊y⌋ + 1 := by
      unfold roundHalfEven
      split_ifs <;> omega
    have hz : ⌊z⌋ ≤ roundHalfEven z := by
      unfold roundHalfEven
      split_ifs <;> omega
    omega

/-! ## Rounding to the format -/

theorem log_eq (x : ℚ) (e : ℤ) (hlo : (2 : ℚ) ^ e ≤ x) (hhi : x < 2 ^ (e + 1)) :
    Int.log 2 x = e := by
  have hx : 0 < x := lt_of_lt_of_le (by positivity) hlo
  apply le_antisymm
  · have h := (Int.lt_zpow_iff_log_lt (b := 2) (by norm_num) hx).mp (by simpa using hhi)
    omega
  · exact (Int.zpow_le_iff_le_log (b := 2) (by norm_num) hx).mp (by simpa using hlo)

theorem zpow_log_le (x : ℚ) (hx : 0 < x) : (2 : ℚ) ^ Int.log 2 x ≤ x := by
  simpa using Int.zpow_log_le_self (b := 2) (by norm_num) hx

theorem lt_zpow_log_succ (x : ℚ) : x < (2 : ℚ) ^ (Int.log 2 x + 1) := by
  simpa using Int.lt_zpow_succ_log_self (b := 2) (by norm_num) x

theorem roundToSpacing_zero : roundToSpacing 0 = 0 := by
  unfold roundToSpacing
  rw [zero_div]
  have : roundHalfEven (0 : ℚ) = 0 := by
    simpa using roundHalfEven_intCast 0
  rw [this]
  simp

theorem roundToSpacing_nonneg (x : ℚ) (hx : 0 ≤ x) : 0 ≤ roundToSpacing x := by
  unfold roundToSpacing
  have h0 : (0 : ℚ) ≤ x / 2 ^ spacingExponent x := div_nonneg hx (by positivity)
  have h := roundHalfEven_mono 0 _ h0
  have hz : roundHalfEven (0 : ℚ) = 0 := by simpa using roundHalfEven_intCast 0
  rw [hz] at h
  have : (0 : ℚ) ≤ (roundHalfEven (x / 2 ^ spacingExponent x) : ℚ) := by exact_mod_cast h
  positivity

theorem two_pow_cast (k : ℕ) : (((2 : ℤ) ^ k : ℤ) : ℚ) = (2 : ℚ) ^ (k : ℤ) := by
  push_cast
  exact (zpow_natCast 2 k).symm

theorem lt_zpow_iff_log_lt (x : ℚ) (hx : 0 < x) (e : ℤ) : x < 2 ^ e ↔ Int.log 2 x < e := by
  have h := Int.lt_zpow_iff_log_lt (b := 2) (R := ℚ) (by norm_num) hx (x := e)
  rw [Nat.cast_ofNat] at h
  exact h

theorem zpow_le_iff_le_log (x : ℚ) (hx : 0 < x) (e : ℤ) : 2 ^ e ≤ x ↔ e ≤ Int.log 2 x := by
  have h := Int.zpow_le_iff_le_log (b := 2) (R := ℚ) (by norm_num) hx (x := e)
  rw [Nat.cast_ofNat] at h
  exact h

theorem roundHalfEven_le (y : ℚ) (m : ℤ) (h : y ≤ m) : roundHalfEven y ≤ m := by
  have := roundHalfEven_mono y m h
  rwa [roundHalfEven_intCast] at this

theorem le_roundHalfEven (y : ℚ) (m : ℤ) (h : (m : ℚ) ≤ y) : m ≤ roundHalfEven y := by
  have := roundHalfEven_mono m y h
  rwa [roundHalfEven_intCast] at this

theorem spacingExponent_eq (x : ℚ) (e : ℤ) (hlo : (2 : ℚ) ^ e ≤ x) (hhi : x < 2 ^ (e + 1))
    (he : -1022 ≤ e) : spacingExponent x = e - 52 := by
  unfold spacingExponent
  rw [log_eq x e hlo hhi, max_eq_left he]

/-- Upper bound of a rounding: the magnitude `x` is below `2^(spacingExponent x + 53)`, and
so is its rounding, or equal to it. -/
theorem roundToSpacing_le (x : ℚ) :
    roundToSpacing x ≤ 2 ^ (spacingExponent x + 53) := by
  unfold roundToSpacing
  have hLx : Int.log 2 x + 1 ≤ spacingExponent x + 53 := by
    unfold spacingExponent
    have := le_max_left (Int.log 2 x) (-1022)
    omega
  have hxlt : x < 2 ^ (spacingExponent x + 53) :=
    lt_of_lt_of_le (lt_zpow_log_succ x) (zpow_le_zpow_right₀ (by norm_num) hLx)
  have hq : x / 2 ^ spacingExponent x ≤ (((2 : ℤ) ^ (53 : ℕ) : ℤ) : ℚ) := by
    rw [div_le_iff₀ (by positivity), two_pow_cast, ← zpow_add₀ (by norm_num : (2 : ℚ) ≠ 0),
      add_comm]
    exact hxlt.le
  have hr := roundHalfEven_le _ _ hq
  have hr' : (roundHalfEven (x / 2 ^ spacingExponent x) : ℚ) ≤ (2 : ℚ) ^ ((53 : ℕ) : ℤ) := by
    rw [← two_pow_cast]
    exact_mod_cast hr
  calc (roundHalfEven (x / 2 ^ spacingExponent x) : ℚ) * 2 ^ spacingExponent x
      ≤ (2 : ℚ) ^ ((53 : ℕ) : ℤ) * 2 ^ spacingExponent x :=
        mul_le_mul_of_nonneg_right hr' (by positivity)
    _ = 2 ^ (spacingExponent x + 53) := by
        rw [← zpow_add₀ (by norm_num : (2 : ℚ) ≠ 0), add_comm]
        rfl

/-- Lower bound of a rounding in the normal range. -/
theorem le_roundToSpacing (y : ℚ) (hy : 0 < y) (hL : spacingExponent y = Int.log 2 y - 52) :
    (2 : ℚ) ^ (spacingExponent y + 52) ≤ roundToSpacing y := by
  unfold roundToSpacing
  have hyge : (2 : ℚ) ^ (spacingExponent y + 52) ≤ y := by
    rw [hL]
    have := zpow_log_le y hy
    rw [show Int.log 2 y - 52 + 52 = Int.log 2 y by ring]
    exact this
  have hq : (((2 : ℤ) ^ (52 : ℕ) : ℤ) : ℚ) ≤ y / 2 ^ spacingExponent y := by
    rw [le_div_iff₀ (by positivity), two_pow_cast, ← zpow_add₀ (by norm_num : (2 : ℚ) ≠ 0),
      add_comm]
    exact hyge
  have hr := le_roundHalfEven _ _ hq
  have hr' : (2 : ℚ) ^ ((52 : ℕ) : ℤ) ≤ (roundHalfEven (y / 2 ^ spacingExponent y) : ℚ) := by
    rw [← two_pow_cast]
    exact_mod_cast hr
  calc (2 : ℚ) ^ (spacingExponent y + 52)
      = (2 : ℚ) ^ ((52 : ℕ) : ℤ) * 2 ^ spacingExponent y := by
        rw [← zpow_add₀ (by norm_num : (2 : ℚ) ≠ 0), add_comm]
        rfl
    _ ≤ (roundHalfEven (y / 2 ^ spacingExponent y) : ℚ) * 2 ^ spacingExponent y :=
        mul_le_mul_of_nonneg_right hr' (by positivity)

/-- Evaluation of a rounding in the normal range: `x` lies in the binade of `2^e`, and `n` is
the integer nearest to `x / 2^(e-52)`. -/
theorem round_eq (s : Bool) (x : ℚ) (e n : ℤ) (r : ℚ)
    (hlo : (2 : ℚ) ^ e ≤ x) (hhi : x < 2 ^ (e + 1)) (he : -1022 ≤ e)
    (hn : roundHalfEven (x / 2 ^ (e - 52)) = n) (hr : (n : ℚ) * 2 ^ (e - 52) = r)
    (hfin : r < 2 ^ (1024 : ℤ)) :
    round s x = finite s r := by
  unfold round roundToSpacing
  rw [spacingExponent_eq x e hlo hhi he, hn, hr, if_pos hfin]

theorem round_zero (s : Bool) : round s 0 = finite s 0 := by
  unfold round
  rw [roundToSpacing_zero, if_pos (by positivity)]

/-- The magnitudes of the format, `n * 2^k` with `n < 2^53` and `-1074 ≤ k`, are not moved by
a rounding. -/
theorem roundToSpacing_of_representable (x : ℚ) (n : ℕ) (k : ℤ) (hx : x = n * 2 ^ k)
    (hn : n < 2 ^ 53) (hk : -1074 ≤ k) : roundToSpacing x = x := by
  by_cases hn0 : n = 0
  · rw [hx, hn0]
    simp [roundToSpacing_zero]
  have hxpos : 0 < x := by
    rw [hx]
    have : (0 : ℚ) < n := by exact_mod_cast Nat.pos_of_ne_zero hn0
    positivity
  have hn' : (n : ℚ) < (2 : ℚ) ^ (53 : ℤ) := by
    have h1 : ((n : ℤ) : ℚ) < (((2 : ℤ) ^ (53 : ℕ) : ℤ) : ℚ) := by exact_mod_cast hn
    rw [two_pow_cast] at h1
    exact_mod_cast h1
  have hlt : x < 2 ^ (53 + k) := by
    rw [hx, zpow_add₀ (by norm_num : (2 : ℚ) ≠ 0)]
    exact mul_lt_mul_of_pos_right hn' (by positivity)
  have hlog : Int.log 2 x < 53 + k := (lt_zpow_iff_log_lt x hxpos _).mp hlt
  have hse : spacingExponent x ≤ k := by
    unfold spacingExponent
    rcases max_cases (Int.log 2 x) (-1022) with ⟨h, _⟩ | ⟨h, _⟩ <;> rw [h] <;> omega
  unfold roundToSpacing
  generalize spacingExponent x = se at hse
  obtain ⟨j, hj⟩ : ∃ j : ℕ, k = se + j := ⟨(k - se).toNat, by omega⟩
  have hdiv : x / 2 ^ se = (((n : ℤ) * 2 ^ j : ℤ) : ℚ) := by
    rw [hx, hj, zpow_add₀ (by norm_num : (2 : ℚ) ≠ 0), zpow_natCast]
    push_cast
    field_simp
    ring
  rw [hdiv, roundHalfEven_intCast, ← hdiv]
  field_simp

theorem round_of_representable (s : Bool) (x : ℚ) (n : ℕ) (k : ℤ) (hx : x = n * 2 ^ k)
    (hn : n < 2 ^ 53) (hk : -1074 ≤ k) (hfin : x < 2 ^ (1024 : ℤ)) :
    round s x = finite s x := by
  unfold round
  rw [roundToSpacing_of_representable x n k hx hn hk, if_pos hfin]

/-- Rounding is monotone on the magnitudes. -/
theorem roundToSpacing_mono (x y : ℚ) (hx : 0 ≤ x) (h : x ≤ y) :
    roundToSpacing x ≤ roundToSpacing y := by
  rcases eq_or_lt_of_le hx with h0 | hxpos
  · rw [← h0, roundToSpacing_zero]
    exact roundToSpacing_nonneg y (le_trans hx h)
  have hypos : 0 < y := lt_of_lt_of_le hxpos h
  have hlog : Int.log 2 x ≤ Int.log 2 y := Int.log_mono_right hxpos h
  have hse : spacingExponent x ≤ spacingExponent y := by
    unfold spacingExponent
    have := max_le_max hlog (le_refl (-1022 : ℤ))
    omega
  rcases eq_or_lt_of_le hse with heq | hlt
  · unfold roundToSpacing
    rw [← heq]
    apply mul_le_mul_of_nonneg_right _ (by positivity)
    have := roundHalfEven_mono (x / 2 ^ spacingExponent x) (y / 2 ^ spacingExponent x)
      (div_le_div_of_nonneg_right h (by positivity))
    exact_mod_cast this
  · -- the binade of `y` is above the one of `x`
    have hLy : spacingExponent y = Int.log 2 y - 52 := by
      unfold spacingExponent at hlt ⊢
      rcases max_cases (Int.log 2 y) (-1022) with ⟨h1, _⟩ | ⟨h1, h2⟩
      · rw [h1]
      · exfalso
        rw [h1] at hlt
        have := le_max_right (Int.log 2 x) (-1022)
        omega
    calc roundToSpacing x ≤ 2 ^ (spacingExponent x + 53) := roundToSpacing_le x
      _ ≤ 2 ^ (spacingExponent y + 52) := zpow_le_zpow_right₀ (by norm_num) (by omega)
      _ ≤ roundToSpacing y := le_roundToSpacing y hypos hLy

/-- In the normal range a rounding moves a magnitude by at most the fraction `2^-53` of
it. -/
theorem roundToSpacing_error (x : ℚ) (hx : (2 : ℚ) ^ (-1022 : ℤ) ≤ x) :
    |roundToSpacing x - x| ≤ x * 2 ^ (-53 : ℤ) := by
  have hxpos : 0 < x := lt_of_lt_of_le (by positivity) hx
  have hlog : -1022 ≤ Int.log 2 x := (zpow_le_iff_le_log x hxpos _).mp hx
  have hse : spacingExponent x = Int.log 2 x - 52 := by
    unfold spacingExponent
    rw [max_eq_left hlog]
  unfold roundToSpacing
  rw [hse]
  have hzl := zpow_log_le x hxpos
  generalize Int.log 2 x = L at hzl ⊢
  have hq : (0 : ℚ) < 2 ^ (L - 52) := by positivity
  have h1 := roundHalfEven_sub_le (x / 2 ^ (L - 52))
  have e : (roundHalfEven (x / 2 ^ (L - 52)) : ℚ) * 2 ^ (L - 52) - x
      = ((roundHalfEven (x / 2 ^ (L - 52)) : ℚ) - x / 2 ^ (L - 52)) * 2 ^ (L - 52) := by
    field_simp
  rw [e, abs_mul, abs_of_pos hq]
  have e2 : (1 : ℚ) / 2 * 2 ^ (L - 52) = 2 ^ L * 2 ^ (-53 : ℤ) := by
    rw [show L - 52 = L + (-53) + 1 by ring, zpow_add₀ (by norm_num : (2 : ℚ) ≠ 0),
      zpow_add₀ (by norm_num : (2 : ℚ) ≠ 0), zpow_one]
    ring
  calc |(roundHalfEven (x / 2 ^ (L - 52)) : ℚ) - x / 2 ^ (L - 52)| * 2 ^ (L - 52)
      ≤ 1 / 2 * 2 ^ (L - 52) := mul_le_mul_of_nonneg_right h1 hq.le
    _ = 2 ^ L * 2 ^ (-53 : ℤ) := e2
    _ ≤ x * 2 ^ (-53 : ℤ) := by
        exact mul_le_mul_of_nonneg_right hzl (by positivity)

/-! ## Evaluation of the operations on finite values -/

theorem neg_finite (s : Bool) (m : ℚ) : -(finite s m) = finite (!s) m := rfl

theorem fabs_finite (s : Bool) (m : ℚ) : fabs (finite s m) = finite false m := rfl

theorem mul_finite (s t : Bool) (m n : ℚ) :
    finite s m * finite t n = round (xor s t) (m * n) := rfl

theorem div_finite (s t : Bool) (m n : ℚ) (hn : n ≠ 0) :
    finite s m / finite t n = round (xor s t) (m / n) := by
  show (if n = 0 then (if m = 0 then nan else inf (xor s t)) else round (xor s t) (m / n)) = _
  rw [if_neg hn]

theorem add_finite (s t : Bool) (m n x : ℚ)
    (hx : (finite s m).toRat + (finite t n).toRat = x) (hx0 : x ≠ 0) :
    finite s m + finite t n = ofRat x := by
  show (if (finite s m).toRat + (finite t n).toRat = 0 then finite (s && t) 0
    else ofRat ((finite s m).toRat + (finite t n).toRat)) = _
  rw [hx, if_neg hx0]

theorem add_finite_zero (s t : Bool) (m n : ℚ)
    (hx : (finite s m).toRat + (finite t n).toRat = 0) :
    finite s m + finite t n = finite (s && t) 0 := by
  show (if (finite s m).toRat + (finite t n).toRat = 0 then finite (s && t) 0
    else ofRat ((finite s m).toRat + (finite t n).toRat)) = _
  rw [if_pos hx]

theorem sub_eq_add_neg (x y : Double) : x - y = x + -y := rfl

theorem ofRat_of_pos (x : ℚ) (hx : 0 < x) : ofRat x = round false x := by
  unfold ofRat
  rw [abs_of_pos hx, decide_eq_false (not_lt.mpr hx.le)]

theorem ofRat_of_neg (x y : ℚ) (hx : x < 0) (hy : -x = y) : ofRat x = round true y := by
  unfold ofRat
  rw [abs_of_neg hx, decide_eq_true hx, hy]

theorem lt_finite (s t : Bool) (m n : ℚ) :
    finite s m < finite t n ↔ (finite s m).toRat < (finite t n).toRat := by
  show lt (finite s m) (finite t n) = true ↔ _
  unfold lt
  exact decide_eq_true_iff

theorem le_finite (s t : Bool) (m n : ℚ) :
    finite s m ≤ finite t n ↔ (finite s m).toRat ≤ (finite t n).toRat := by
  show le (finite s m) (finite t n) = true ↔ _
  unfold le
  exact decide_eq_true_iff

theorem toRat_finite_false (m : ℚ) : (finite false m).toRat = m := rfl
end Double

namespace Algebra

/-! ## Basic facts -/

theorem TOLERANCE_pos {R : Type} [LinearOrderedField R] : (0:R) < TOLERANCE := by
  unfold TOLERANCE; positivity

theorem ne_zero_of_abs_ge_TOLERANCE {R : Type} [LinearOrderedField R] {x : R}
    (h : |x| ≥ TOLERANCE) : x ≠ 0 := by
  intro hx
  rw [hx, abs_zero] at h
  exact absurd h (not_le.mpr TOLERANCE_pos)

theorem IsZero_zero : IsZero 0 := by
  simp [IsZero, TOLERANCE]

/-- A value that fails the `IsZero` test is nonzero: this is what makes the guarded divisions
of the solvers well defined. -/
theorem ne_zero_of_not_IsZero {x : ℂ} (h : ¬ IsZero x) : x ≠ 0 := by
  rintro rfl
  exact h IsZero_zero

theorem not_IsZero_one : ¬ IsZero 1 := by
  simp [IsZero, TOLERANCE]
  norm_num

/-- De Moivre in the polar form used by `csqrt` and `cbrt`. -/
theorem polar_pow (ρ θ : ℝ) (n : ℕ) :
    ((⟨ρ * Real.cos θ, ρ * Real.sin θ⟩ : ℂ)) ^ n
      = ⟨ρ ^ n * Real.cos (n * θ), ρ ^ n * Real.sin (n * θ)⟩ := by
  have h : ∀ (r t : ℝ), (⟨r * Real.cos t, r * Real.sin t⟩ : ℂ)
      = (r : ℂ) * (Complex.cos t + Complex.sin t * Complex.I) := by
    intro r t
    apply Complex.ext <;>
      simp [Complex.cos_ofReal_re, Complex.sin_ofReal_re, Complex.cos_ofReal_im,
        Complex.sin_ofReal_im]
  rw [h, h, mul_pow, Complex.cos_add_sin_mul_I_pow]
  push_cast
  ring

/-- The square root squares back to its argument. -/
theorem csqrt_mul_self (z : ℂ) : csqrt z * csqrt z = z := by
  unfold csqrt
  rw [← pow_two, polar_pow, Real.sq_sqrt (AbsoluteValue.nonneg Complex.abs z)]
  have h2 : ((2:ℕ) : ℝ) * (z.arg / 2) = z.arg := by push_cast; ring
  rw [h2]
  apply Complex.ext
  · simp [Complex.abs_mul_cos_arg]
  · simp [Complex.abs_mul_sin_arg]

theorem csqrt_of_sq_nonneg (x : ℝ) (hx : 0 ≤ x) (z : ℂ) (hz : z = (x:ℂ) * (x:ℂ)) :
    csqrt z = x := by
  subst hz
  have h1 : ((x:ℂ) * (x:ℂ)) = ((x * x : ℝ) : ℂ) := by push_cast; ring
  rw [h1]
  unfold csqrt
  rw [Complex.abs_ofReal, Complex.arg_ofReal_of_nonneg (by positivity)]
  apply Complex.ext <;> simp [abs_of_nonneg (mul_self_nonneg x), Real.sqrt_mul_self hx]

theorem csqrt_zero : csqrt 0 = 0 := by
  have := csqrt_of_sq_nonneg 0 le_rfl 0 (by simp)
  simpa using this

/-- Every branch of `cbrt` cubes back to its argument. -/
theorem cbrt_pow_three (a : ℂ) (n : ℤ) : cbrt a n ^ 3 = a := by
  unfold cbrt
  simp only
  rw [polar_pow]
  have h1 : ((Complex.abs a) ^ ((1:ℝ) / 3)) ^ 3 = Complex.abs a := by
    have := Real.rpow_inv_natCast_pow (AbsoluteValue.nonneg Complex.abs a) (n := 3) (by norm_num)
    simpa using this
  have h2 : ((3:ℕ) : ℝ) * ((TWOPI * n + a.arg) / 3) = a.arg + n * (2 * Real.pi) := by
    unfold TWOPI; push_cast; ring
  rw [h1, h2, Real.cos_add_int_mul_two_pi, Real.sin_add_int_mul_two_pi]
  apply Complex.ext
  · simp [Complex.abs_mul_cos_arg]
  · simp [Complex.abs_mul_sin_arg]

theorem cbrt_zero (n : ℤ) : cbrt 0 n = 0 := by
  unfold cbrt
  apply Complex.ext <;> simp [Real.zero_rpow]

/-! ## The linear solver -/

/-- The false return is exactly the failure of one of the three pivot guards. -/
theorem SolveLinearEquations_false_iff {R : Type} [LinearOrderedField R]
    (D E F G H I J K L M N P u0 v0 w0 : R) :
    (SolveLinearEquations D E F G H I J K L M N P u0 v0 w0).ok = false ↔
      (|F| < TOLERANCE ∨ |E*J - F*I| < TOLERANCE ∨
        |(D*J - F*H)*(I*N - J*M) - (E*J - F*I)*(H*N - J*L)| < TOLERANCE) := by
  unfold SolveLinearEquations
  by_cases hF : |F| ≥ TOLERANCE
  · by_cases hb : |E*J - F*I| ≥ TOLERANCE
    · by_cases hd : |(D*J - F*H)*(I*N - J*M) - (E*J - F*I)*(H*N - J*L)| ≥ TOLERANCE
      · simp only [hF, hb, hd, if_true]
        simp [not_lt.mpr hF, not_lt.mpr hb, not_lt.mpr hd]
      · simp only [hF, hb, hd, if_true, if_false]
        simp [not_le.mp hd]
    · simp only [hF, hb, if_true, if_false]
      simp [not_le.mp hb]
  · simp only [hF, if_false]
    simp [not_le.mp hF]

/-- The elimination behind `SolveLinearEquations`: values obtained by the three
back-substitutions solve all three equations when the pivots are nonzero. -/
theorem linear_elimination {R : Type} [LinearOrderedField R]
    (D E F G H I J K L M N P u v w : R)
    (hF : F ≠ 0) (hb : E*J - F*I ≠ 0)
    (hd : (D*J - F*H)*(I*N - J*M) - (E*J - F*I)*(H*N - J*L) ≠ 0)
    (hu : ((D*J - F*H)*(I*N - J*M) - (E*J - F*I)*(H*N - J*L)) * u
      = (E*J - F*I)*(K*N - J*P) - (I*N - J*M)*(G*J - F*K))
    (hv : (E*J - F*I) * v = -((D*J - F*H)*u + (G*J - F*K)))
    (hw : F * w = -(D*u + E*v + G)) :
    D*u + E*v + F*w + G = 0 ∧ H*u + I*v + J*w + K = 0 ∧ L*u + M*v + N*w + P = 0 := by
  have hJ : J ≠ 0 := by
    rintro rfl
    apply hd; ring
  have e1 : D*u + E*v + F*w + G = 0 := by linear_combination hw
  have e2 : H*u + I*v + J*w + K = 0 := by
    have h : F * (H*u + I*v + J*w + K) = 0 := by linear_combination J * hw - hv
    rcases mul_eq_zero.mp h with h | h
    · exact absurd h hF
    · exact h
  have e23 : (H*N - J*L)*u + (I*N - J*M)*v + (K*N - J*P) = 0 := by
    have h : (E*J - F*I) * ((H*N - J*L)*u + (I*N - J*M)*v + (K*N - J*P)) = 0 := by
      linear_combination (I*N - J*M) * hv - hu
    rcases mul_eq_zero.mp h with h | h
    · exact absurd h hb
    · exact h
  have e3 : L*u + M*v + N*w + P = 0 := by
    have h : J * (L*u + M*v + N*w + P) = 0 := by linear_combination N * e2 - e23
    rcases mul_eq_zero.mp h with h | h
    · exact absurd h hJ
    · exact h
  exact ⟨e1, e2, e3⟩

/-- C1: over exact arithmetic (any ordered field, in particular the reals), whenever
`SolveLinearEquations` returns true, the outputs `(u, v, w)` it has written satisfy all three
equations `D*u+E*v+F*w+G = 0`, `H*u+I*v+J*w+K = 0` and `L*u+M*v+N*w+P = 0`, the third
included. -/
theorem SolveLinearEquations_sound {R : Type} [LinearOrderedField R]
    (D E F G H I J K L M N P u0 v0 w0 u v w : R) (ds : List R)
    (h : SolveLinearEquations D E F G H I J K L M N P u0 v0 w0 = ⟨true, u, v, w, ds⟩) :
    D*u + E*v + F*w + G = 0 ∧ H*u + I*v + J*w + K = 0 ∧ L*u + M*v + N*w + P = 0 := by
  unfold SolveLinearEquations at h
  by_cases hF : |F| ≥ TOLERANCE
  · by_cases hb : |E*J - F*I| ≥ TOLERANCE
    · by_cases hd : |(D*J - F*H)*(I*N - J*M) - (E*J - F*I)*(H*N - J*L)| ≥ TOLERANCE
      · simp only [hF, hb, hd, if_true, LinearResult.mk.injEq, true_and] at h
        obtain ⟨hu, hv, hw, _⟩ := h
        rw [hu] at hv
        rw [hu, hv] at hw
        have hF0 := ne_zero_of_abs_ge_TOLERANCE hF
        have hb0 := ne_zero_of_abs_ge_TOLERANCE hb
        have hd0 := ne_zero_of_abs_ge_TOLERANCE hd
        apply linear_elimination D E F G H I J K L M N P u v w hF0 hb0 hd0
        · rw [← hu]; exact mul_div_cancel₀ _ hd0
        · rw [← hv]; exact mul_div_cancel₀ _ hb0
        · rw [← hw]; exact mul_div_cancel₀ _ hF0
      · simp [hF, hb, hd] at h
    · simp [hF, hb] at h
  · simp [hF] at h

theorem SolveLinearEquations_sound_witness :
    SolveLinearEquations (1:ℝ) 2 3 (-14) 2 1 1 (-7) 1 1 2 (-9) 0 0 0
      = ⟨true, 1, 2, 3, [-2, -1, 3]⟩ ∧
    ((1:ℝ)*1 + 2*2 + 3*3 + (-14) = 0 ∧ (2:ℝ)*1 + 1*2 + 1*3 + (-7) = 0 ∧
      (1:ℝ)*1 + 1*2 + 2*3 + (-9) = 0) :=
  have h : SolveLinearEquations (1:ℝ) 2 3 (-14) 2 1 1 (-7) 1 1 2 (-9) 0 0 0
      = ⟨true, 1, 2, 3, [-2, -1, 3]⟩ := by
    norm_num [SolveLinearEquations, TOLERANCE]
  ⟨h, SolveLinearEquations_sound 1 2 3 (-14) 2 1 1 (-7) 1 1 2 (-9) 0 0 0 1 2 3 [-2, -1, 3] h⟩

/-- The singular case in exact arithmetic: the third pivot is `J` times the determinant of
the coefficient matrix `[[D,E,F],[H,I,J],[L,M,N]]`, so for a singular matrix it is zero and
`SolveLinearEquations` returns false.  On `double` the third pivot is a difference of rounded
products, and this conclusion is lost. -/
theorem SolveLinearEquations_singular {R : Type} [LinearOrderedField R]
    (D E F G H I J K L M N P u0 v0 w0 : R)
    (hdet : det3 D E F H I J L M N = 0) :
    (SolveLinearEquations D E F G H I J K L M N P u0 v0 w0).ok = false := by
  rw [SolveLinearEquations_false_iff]
  right; right
  have h : (D*J - F*H)*(I*N - J*M) - (E*J - F*I)*(H*N - J*L) = J * det3 D E F H I J L M N := by
    unfold det3; ring
  rw [h, hdet, mul_zero, abs_zero]
  exact TOLERANCE_pos

/-- When the three pivots pass their guards, a system built from a known solution
`(u, v, w)` is solved with exactly that solution. -/
theorem SolveLinearEquations_recovers {R : Type} [LinearOrderedField R]
    (D E F H I J L M N u v w u0 v0 w0 : R)
    (hF : |F| ≥ TOLERANCE) (hb : |E*J - F*I| ≥ TOLERANCE)
    (hd : |(D*J - F*H)*(I*N - J*M) - (E*J - F*I)*(H*N - J*L)| ≥ TOLERANCE) :
    SolveLinearEquations D E F (-(D*u + E*v + F*w)) H I J (-(H*u + I*v + J*w))
        L M N (-(L*u + M*v + N*w)) u0 v0 w0
      = ⟨true, u, v, w,
          [(D*J - F*H)*(I*N - J*M) - (E*J - F*I)*(H*N - J*L), E*J - F*I, F]⟩ := by
  have hF0 := ne_zero_of_abs_ge_TOLERANCE hF
  have hb0 := ne_zero_of_abs_ge_TOLERANCE hb
  have hd0 := ne_zero_of_abs_ge_TOLERANCE hd
  have hu : ((E*J - F*I) * (-(H*u + I*v + J*w) * N - J * -(L*u + M*v + N*w))
      - (I*N - J*M) * (-(D*u + E*v + F*w) * J - F * -(H*u + I*v + J*w)))
      / ((D*J - F*H)*(I*N - J*M) - (E*J - F*I)*(H*N - J*L)) = u := by
    rw [div_eq_iff hd0]; ring
  have hv : -((D*J - F*H) * u + (-(D*u + E*v + F*w) * J - F * -(H*u + I*v + J*w)))
      / (E*J - F*I) = v := by
    rw [div_eq_iff hb0]; ring
  have hw : -(D*u + E*v + -(D*u + E*v + F*w)) / F = w := by
    rw [div_eq_iff hF0]; ring
  simp only [SolveLinearEquations, hF, hb, hd, if_true, hu, hv, hw]

/-- C3 (the code departs from the claim): the system `u = 1, v = 1, w = 1` has the identity as
coefficient matrix (determinant 1) and constants built from the solution `(1, 1, 1)`, yet
`SolveLinearEquations` returns false and leaves `u`, `v`, `w` untouched, because its first
pivot `F` is zero. -/
theorem SolveLinearEquations_identity_rejected :
    det3 (1:ℝ) 0 0 0 1 0 0 0 1 = 1 ∧
    ((1:ℝ) * 1 + 0 * 1 + 0 * 1 + (-1) = 0 ∧ (0:ℝ) * 1 + 1 * 1 + 0 * 1 + (-1) = 0 ∧
      (0:ℝ) * 1 + 0 * 1 + 1 * 1 + (-1) = 0) ∧
    SolveLinearEquations (1:ℝ) 0 0 (-1) 0 1 0 (-1) 0 0 1 (-1) 7 8 9 = ⟨false, 7, 8, 9, []⟩ := by
  refine ⟨by norm_num [det3], by norm_num, ?_⟩
  norm_num [SolveLinearEquations, TOLERANCE]

/-- C5: when `a ≈ 0`, `SolveQuadraticEquation a b c` returns 0 roots if `b ≈ 0`, and exactly
one root, equal to `-c/b`, if `b` is not `≈ 0`. -/
theorem SolveQuadraticEquation_degenerate (a b c : ℂ) (ha : IsZero a) :
    (IsZero b → SolveQuadraticEquation a b c = (0, [])) ∧
    (¬ IsZero b → SolveQuadraticEquation a b c = (1, [-c / b])) := by
  constructor
  · intro hb
    simp [SolveQuadraticEquation, ha, hb]
  · intro hb
    simp [SolveQuadraticEquation, ha, hb]

theorem SolveQuadraticEquation_degenerate_witness :
    IsZero 0 ∧
    ((IsZero 2 → SolveQuadraticEquation 0 2 4 = (0, [])) ∧
     (¬ IsZero 2 → SolveQuadraticEquation 0 2 4 = (1, [-4 / 2]))) :=
  ⟨IsZero_zero, SolveQuadraticEquation_degenerate 0 2 4 IsZero_zero⟩

theorem IsZero_ofReal (x : ℝ) : IsZero (x : ℂ) ↔ |x| < TOLERANCE := by
  simp [IsZero, TOLERANCE_pos]

/-- Roots that are exactly the known ones, in any order, match one-to-one. -/
theorem RootsMatch_of_perm {known found : List ℂ} (h : known.Perm found) :
    RootsMatch known (found.map some) := by
  refine ⟨known, h.map some, ?_⟩
  rw [List.forall₂_same]
  intro x _
  rw [sub_self]
  exact IsZero_zero

/-- The double root in exact arithmetic: for every complex `K` and every leading coefficient
`M` not `≈ 0`, `SolveQuadraticEquation M (-2*M*K) (M*K*K)` returns exactly one root, and that
root is `K = -b/(2a)`, because the discriminant is exactly 0.  On `double` the discriminant
is a difference of rounded products, and this conclusion is lost. -/
theorem SolveQuadraticEquation_double_root (M K : ℂ) (hM : ¬ IsZero M) :
    SolveQuadraticEquation M (-2*M*K) (M*K*K) = (1, [K]) ∧ K = -(-2*M*K) / (2*M) := by
  have hM0 : M ≠ 0 := ne_zero_of_not_IsZero hM
  have hrad : (-2*M*K) * (-2*M*K) - 4 * M * (M*K*K) = 0 := by ring
  have hK : -(-2*M*K) / (2*M) = K := by
    field_simp
  refine ⟨?_, hK.symm⟩
  simp only [SolveQuadraticEquation, hM, hrad, IsZero_zero, if_true, if_false, hK]

/-! ## The cubic solver -/

theorem cubic_F_zero : cubic_F 0 0 = 0 := by
  simp [cubic_F, csqrt_zero, IsZero_zero]

theorem cubic_root_zero (S : ℂ) (i : ℤ) : cubic_root 0 0 S i = none := by
  simp [cubic_root, cbrt_zero, cdiv]

/-- Every triple root drives `SolveCubicEquation` into the division of zero by zero. -/
theorem KnownCubicFound_triple_root (M K : ℂ) (hM : ¬ IsZero M) :
    KnownCubicFound M K K K = (3, [none, none, none]) := by
  have hM0 : M ≠ 0 := ne_zero_of_not_IsZero hM
  have hb : -M * (K + K + K) / M = -(3 * K) := by field_simp; ring
  have hc : M * (K * K + K * K + K * K) / M = 3 * K * K := by field_simp; ring
  have hd : -M * K * K * K / M = -(K * K * K) := by field_simp; ring
  have hD : 3 * K * K / 3 - -(3 * K) / 3 * (-(3 * K) / 3) = 0 := by ring
  have hE : -(3 * K) / 3 * (-(3 * K) / 3) * (-(3 * K) / 3)
      + (-(K * K * K) - -(3 * K) / 3 * (3 * K * K)) / 2 = 0 := by ring
  simp only [KnownCubicFound, SolveCubicEquation, hM, if_false, hb, hc, hd, hD, hE,
    cubic_F_zero, cubic_root_zero]

/-- C9 (the code departs from the claim): for the cubic `x^3 = 0`, built from leading
coefficient 1 and the triple root `K = L = N = 0`, `SolveCubicEquation` returns the count 3
but none of the three roots is a number: each is computed as `G - D/G - S` with `D = 0` and the
cube root `G = 0`, a division of zero by zero; so no found root matches a known root. -/
theorem KnownCubicFound_triple_zero :
    ¬ IsZero 1 ∧ KnownCubicFound 1 0 0 0 = (3, [none, none, none]) ∧
    ¬ RootsMatch [0, 0, 0] (KnownCubicFound 1 0 0 0).2 := by
  have h := KnownCubicFound_triple_root 1 0 not_IsZero_one
  refine ⟨not_IsZero_one, h, ?_⟩
  rw [h]
  rintro ⟨p, hperm, hall⟩
  cases hall with
  | cons h0 hrest =>
    have hmem := hperm.subset (List.mem_cons_self _ _)
    simp at hmem

/-- Branch `n` of `cbrt` is branch 0 turned `n` times by `omega`. -/
theorem cbrt_branch (a : ℂ) (n : ℕ) : cbrt a n = cbrt a 0 * omega ^ n := by
  have hω : omega ^ n = ⟨Real.cos (n * (TWOPI / 3)), Real.sin (n * (TWOPI / 3))⟩ := by
    have h := polar_pow 1 (TWOPI / 3) n
    simp only [one_mul, one_pow] at h
    exact h
  rw [hω]
  unfold cbrt
  simp only
  have e1 : (TWOPI * ((n : ℤ) : ℝ) + a.arg) / 3 = a.arg / 3 + n * (TWOPI / 3) := by
    push_cast; ring
  have e0 : (TWOPI * ((0 : ℤ) : ℝ) + a.arg) / 3 = a.arg / 3 := by
    push_cast; ring
  rw [e1, e0, Real.cos_add, Real.sin_add]
  apply Complex.ext
  · simp only [Complex.mul_re]; ring
  · simp only [Complex.mul_im]; ring

theorem omega_eq : omega = ⟨-1/2, Real.sqrt 3 / 2⟩ := by
  unfold omega TWOPI
  have e : 2 * Real.pi / 3 = Real.pi - Real.pi / 3 := by ring
  rw [e, Real.cos_pi_sub, Real.sin_pi_sub, Real.cos_pi_div_three, Real.sin_pi_div_three]
  norm_num

theorem omega_root : omega ^ 2 + omega + 1 = 0 := by
  rw [omega_eq]
  have h3 : Real.sqrt 3 * Real.sqrt 3 = 3 := Real.mul_self_sqrt (by norm_num)
  apply Complex.ext
  · simp only [pow_two, Complex.add_re, Complex.mul_re, Complex.one_re, Complex.zero_re]
    nlinarith
  · simp only [pow_two, Complex.add_im, Complex.mul_im, Complex.one_im, Complex.zero_im]
    ring

/-- The factorisation behind Cardano's formula, for a primitive cube root of unity `w`. -/
theorem cardano_factor (A B w u : ℂ) (hw : w ^ 2 + w + 1 = 0) :
    (u - (A + B)) * (u - (A * w + B * w^2)) * (u - (A * w^2 + B * w))
      = u^3 - 3 * A * B * u - (A^3 + B^3) := by
  have hs : (A * w + B * w^2) + (A * w^2 + B * w) = -(A + B) := by
    linear_combination (A + B) * hw
  have hp : (A * w + B * w^2) * (A * w^2 + B * w) = A^2 + B^2 - A * B := by
    linear_combination ((A^2 + B^2) * (w - 1) + A * B * (w^2 - w + 1)) * hw
  linear_combination (-(u - (A + B)) * u) * hs + (u - (A + B)) * hp

theorem omega_cube : omega ^ 3 = 1 := by
  linear_combination (omega - 1) * omega_root

theorem cubic_depress (b c d x : ℂ) :
    x^3 + b*x^2 + c*x + d
      = (x + b/3)^3 + 3 * (c/3 - b/3 * (b/3)) * (x + b/3)
        + 2 * (b/3 * (b/3) * (b/3) + (d - b/3 * c) / 2) := by
  ring

/-- Whichever sign the `IsZero` test selects, `F` solves `F^2 + 2EF - D^3 = 0`. -/
theorem cubic_F_quadratic (D E : ℂ) :
    cubic_F D E * cubic_F D E + 2 * E * cubic_F D E - D * D * D = 0 := by
  have hs := csqrt_mul_self (E*E + D*D*D)
  unfold cubic_F
  simp only
  by_cases h : IsZero (-csqrt (E*E + D*D*D) - E)
  · simp only [h, if_true]
    linear_combination hs
  · simp only [h, if_false]
    linear_combination hs

theorem cubic_normalize (a b c d x : ℂ) (ha : a ≠ 0) :
    a*x^3 + b*x^2 + c*x + d = a * (x^3 + (b/a)*x^2 + (c/a)*x + d/a) := by
  field_simp
  ring

theorem cardano_roots (D E F G S w x : ℂ)
    (hq : F * F + 2 * E * F - D * D * D = 0) (hG3 : G ^ 3 = F) (hF : F ≠ 0)
    (hw : w ^ 2 + w + 1 = 0) :
    (x - (G - D / G - S)) * (x - (G * w - D / (G * w) - S))
        * (x - (G * w ^ 2 - D / (G * w ^ 2) - S))
      = (x + S) ^ 3 + 3 * D * (x + S) + 2 * E := by
  have hw3 : w ^ 3 = 1 := by linear_combination (w - 1) * hw
  have hG : G ≠ 0 := by
    rintro rfl
    apply hF
    rw [← hG3]
    ring
  have hw0 : w ≠ 0 := by
    rintro rfl
    norm_num at hw3
  have hGw : G * w ≠ 0 := mul_ne_zero hG hw0
  have hGw2 : G * w ^ 2 ≠ 0 := mul_ne_zero hG (pow_ne_zero 2 hw0)
  have hGq : G * (D / G) = D := mul_div_cancel₀ _ hG
  have e1 : D / (G * w) = D / G * w ^ 2 := by
    rw [div_eq_iff hGw]
    linear_combination (-(w ^ 3)) * hGq - D * hw3
  have e2 : D / (G * w ^ 2) = D / G * w := by
    rw [div_eq_iff hGw2]
    linear_combination (-(w ^ 3)) * hGq - D * hw3
  rw [e1, e2]
  generalize D / G = q at hGq
  have hq3 : q ^ 3 = F + 2 * E := by
    have h : F * (q ^ 3 - F - 2 * E) = 0 := by
      linear_combination ((G * q) ^ 2 + G * q * D + D ^ 2) * hGq - hq - q ^ 3 * hG3
    rcases mul_eq_zero.mp h with h | h
    · exact absurd h hF
    · linear_combination h
  have hc := cardano_factor G (-q) w (x + S) hw
  linear_combination hc + 3 * (x + S) * hGq - hG3 + hq3

/-- Outside the zero-by-zero case, the three values `SolveCubicEquation` returns are numbers
and are the three roots of the cubic, with multiplicity. -/
theorem SolveCubicEquation_exact (a b c d : ℂ) (ha : ¬ IsZero a)
    (hF : CubicGuardExact a b c d) :
    ∃ f0 f1 f2 : ℂ,
      SolveCubicEquation a b c d = (3, [some f0, some f1, some f2]) ∧
      ∀ x : ℂ, a*x^3 + b*x^2 + c*x + d = a * ((x - f0) * (x - f1) * (x - f2)) := by
  have ha0 : a ≠ 0 := ne_zero_of_not_IsZero ha
  simp only [CubicGuardExact] at hF
  have hq := cubic_F_quadratic (c/a/3 - b/a/3 * (b/a/3))
      (b/a/3 * (b/a/3) * (b/a/3) + (d/a - b/a/3 * (c/a)) / 2)
  have h1 : ∀ z : ℂ, cbrt z 1 = cbrt z 0 * omega := by
    intro z
    simpa using cbrt_branch z 1
  have h2 : ∀ z : ℂ, cbrt z 2 = cbrt z 0 * omega ^ 2 := by
    intro z
    simpa using cbrt_branch z 2
  simp only [SolveCubicEquation, ha, if_false, cubic_root, h1, h2]
  have hG3 := cbrt_pow_three (cubic_F (c/a/3 - b/a/3 * (b/a/3))
      (b/a/3 * (b/a/3) * (b/a/3) + (d/a - b/a/3 * (c/a)) / 2)) 0
  generalize cubic_F (c/a/3 - b/a/3 * (b/a/3))
      (b/a/3 * (b/a/3) * (b/a/3) + (d/a - b/a/3 * (c/a)) / 2) = F at hF hq hG3 ⊢
  generalize cbrt F 0 = G at hG3 ⊢
  have hG : G ≠ 0 := by
    rintro rfl
    apply hF
    rw [← hG3]
    ring
  have hw0 : omega ≠ 0 := by
    intro h
    have h3 := omega_cube
    rw [h] at h3
    norm_num at h3
  have hGw : G * omega ≠ 0 := mul_ne_zero hG hw0
  have hGw2 : G * omega ^ 2 ≠ 0 := mul_ne_zero hG (pow_ne_zero 2 hw0)
  simp only [cdiv, hG, hGw, hGw2, if_false, Option.map_some']
  refine ⟨_, _, _, rfl, fun x => ?_⟩
  rw [cubic_normalize a b c d x ha0, cubic_depress,
    cardano_roots _ _ F G (b/a/3) omega x hq hG3 hF omega_root]

/-- Outside the zero-by-zero case, `SolveCubicEquation` on `M*(x-K)*(x-L)*(x-N)` returns
exactly `K`, `L`, `N` in some order. -/
theorem KnownCubicFound_exact (M K L N : ℂ) (hM : ¬ IsZero M)
    (hF : CubicGuardExact M (-M*(K+L+N)) (M*(K*L + N*K + N*L)) (-M*K*L*N)) :
    ∃ f0 f1 f2 : ℂ,
      KnownCubicFound M K L N = (3, [some f0, some f1, some f2]) ∧
      [f0, f1, f2].Perm [K, L, N] ∧
      RootsMatch [K, L, N] (KnownCubicFound M K L N).2 := by
  have hM0 : M ≠ 0 := ne_zero_of_not_IsZero hM
  obtain ⟨f0, f1, f2, hval, hpoly⟩ := SolveCubicEquation_exact _ _ _ _ hM hF
  have hperm : [f0, f1, f2].Perm [K, L, N] := by
    have hprod : ∀ x : ℂ, (x - f0) * (x - f1) * (x - f2) = (x - K) * (x - L) * (x - N) := by
      intro x
      have h := hpoly x
      have hk : M*x^3 + -M*(K+L+N)*x^2 + M*(K*L + N*K + N*L)*x + -M*K*L*N
          = M * ((x - K) * (x - L) * (x - N)) := by ring
      rw [hk] at h
      exact (mul_left_cancel₀ hM0 h).symm
    have key : ∀ F G : Multiset ℂ,
        (∀ x : ℂ, (F.map fun r => x - r).prod = (G.map fun r => x - r).prod) → F = G := by
      intro F G h
      have hp : (F.map fun r => (Polynomial.X - Polynomial.C r)).prod
          = (G.map fun r => (Polynomial.X - Polynomial.C r)).prod := by
        apply Polynomial.funext
        intro x
        simp only [Polynomial.eval_multiset_prod, Multiset.map_map, Function.comp,
          Polynomial.eval_sub, Polynomial.eval_X, Polynomial.eval_C]
        exact h x
      have hroots := congrArg Polynomial.roots hp
      rwa [Polynomial.roots_multiset_prod_X_sub_C, Polynomial.roots_multiset_prod_X_sub_C]
        at hroots
    rw [← Multiset.coe_eq_coe]
    apply key
    intro x
    simp only [Multiset.map_coe, Multiset.prod_coe, List.map, List.prod_cons, List.prod_nil,
      mul_one]
    linear_combination hprod x
  have hval2 : KnownCubicFound M K L N = (3, [some f0, some f1, some f2]) := hval
  refine ⟨f0, f1, f2, hval2, hperm, ?_⟩
  rw [hval2]
  exact RootsMatch_of_perm hperm.symm

/-! ## The quartic solver -/

theorem not_IsZero_ofReal {x : ℝ} (h : TOLERANCE ≤ |x|) : ¬ IsZero (x : ℂ) := by
  rw [IsZero_ofReal]
  exact not_lt.mpr h

/-- On the non-degenerate path the quartic solver returns the count 4 on both branches. -/
theorem SolveQuarticEquation_count (a b c d e : ℂ) (ha : ¬ IsZero a) :
    (SolveQuarticEquation a b c d e).1 = 4 := by
  by_cases hb : IsZero (quartic_beta (b/a) (c/a) (d/a))
  · simp only [SolveQuarticEquation, ha, hb, if_true, if_false]
  · simp only [SolveQuarticEquation, ha, hb, if_false]

theorem SolveQuarticEquation_biquadratic (a b c d e : ℂ) (ha : ¬ IsZero a)
    (hbeta : IsZero (quartic_beta (b/a) (c/a) (d/a))) :
    SolveQuarticEquation a b c d e
      = (4, [some (-(b/a)/4 + csqrt ((-(quartic_alpha (b/a) (c/a))
                + csqrt (quartic_alpha (b/a) (c/a) * quartic_alpha (b/a) (c/a)
                    - 4 * quartic_gamma (b/a) (c/a) (d/a) (e/a))) / 2)),
             some (-(b/a)/4 - csqrt ((-(quartic_alpha (b/a) (c/a))
                + csqrt (quartic_alpha (b/a) (c/a) * quartic_alpha (b/a) (c/a)
                    - 4 * quartic_gamma (b/a) (c/a) (d/a) (e/a))) / 2)),
             some (-(b/a)/4 + csqrt ((-(quartic_alpha (b/a) (c/a))
                - csqrt (quartic_alpha (b/a) (c/a) * quartic_alpha (b/a) (c/a)
                    - 4 * quartic_gamma (b/a) (c/a) (d/a) (e/a))) / 2)),
             some (-(b/a)/4 - csqrt ((-(quartic_alpha (b/a) (c/a))
                - csqrt (quartic_alpha (b/a) (c/a) * quartic_alpha (b/a) (c/a)
                    - 4 * quartic_gamma (b/a) (c/a) (d/a) (e/a))) / 2))]) := by
  simp only [SolveQuarticEquation, ha, hbeta, if_true, if_false]

theorem KnownQuarticFound_near_biquadratic :
    KnownQuarticFound 1 (3/10000) (5/10000) (-8/10000) 0
      = (4, [some (7/10000), some (-7/10000), some 0, some 0]) := by
  have hB : (-1 * ((3/10000 : ℂ) + 5/10000 + -8/10000 + 0)) / 1 = 0 := by norm_num
  have hC : (1 * ((3/10000 : ℂ) * (5/10000) + (-8/10000) * 0
      + (3/10000 + 5/10000) * (-8/10000 + 0))) / 1 = -49/100000000 := by norm_num
  have hD : (-1 * ((-8/10000 : ℂ) * 0 * (3/10000 + 5/10000)
      + (3/10000) * (5/10000) * (-8/10000 + 0))) / 1 = 120/1000000000000 := by norm_num
  have hE : ((1 : ℂ) * (3/10000) * (5/10000) * (-8/10000) * 0) / 1 = 0 := by norm_num
  have halpha : quartic_alpha 0 (-49/100000000) = -49/100000000 := by
    norm_num [quartic_alpha]
  have hbeta : quartic_beta 0 (-49/100000000) (120/1000000000000) = 120/1000000000000 := by
    norm_num [quartic_beta]
  have hgamma : quartic_gamma 0 (-49/100000000) (120/1000000000000) 0 = 0 := by
    norm_num [quartic_gamma]
  have hz : IsZero (120/1000000000000 : ℂ) := by
    have e : (120/1000000000000 : ℂ) = ((120/1000000000000 : ℝ) : ℂ) := by push_cast; ring
    rw [e, IsZero_ofReal, abs_of_pos (by norm_num)]
    norm_num [TOLERANCE]
  have hrad : csqrt ((-49/100000000 : ℂ) * (-49/100000000) - 4 * 0)
      = 49/100000000 := by
    have := csqrt_of_sq_nonneg (49/100000000) (by norm_num)
      ((-49/100000000 : ℂ) * (-49/100000000) - 4 * 0) (by push_cast; norm_num)
    rw [this]; push_cast; ring
  have hr1 : csqrt ((-(-49/100000000 : ℂ) + 49/100000000) / 2) = 7/10000 := by
    have := csqrt_of_sq_nonneg (7/10000) (by norm_num)
      ((-(-49/100000000 : ℂ) + 49/100000000) / 2) (by push_cast; norm_num)
    rw [this]; push_cast; ring
  have hr2 : csqrt ((-(-49/100000000 : ℂ) - 49/100000000) / 2) = 0 := by
    have e : (-(-49/100000000 : ℂ) - 49/100000000) / 2 = 0 := by norm_num
    rw [e, csqrt_zero]
  unfold KnownQuarticFound
  simp only
  rw [SolveQuarticEquation_biquadratic _ _ _ _ _ not_IsZero_one
      (by rw [hB, hC, hD, hbeta]; exact hz)]
  rw [hB, hC, hD, hE, halpha, hgamma, hrad, hr1, hr2]
  norm_num

theorem not_RootsMatch_near_biquadratic :
    ¬ RootsMatch [3/10000, 5/10000, -8/10000, 0]
      [some (7/10000), some (-7/10000), some 0, some 0] := by
  rintro ⟨p, hperm, hall⟩
  cases hall with
  | cons h0 hrest =>
    have hmem := hperm.subset (List.mem_cons_self _ _)
    simp only [List.mem_cons, Option.some.injEq, List.mem_singleton, List.not_mem_nil,
      or_false, or_self] at hmem
    rcases hmem with rfl | rfl | rfl
    · have e : ((3/10000 : ℂ) - 7/10000) = ((-4/10000 : ℝ) : ℂ) := by push_cast; ring
      rw [e] at h0
      refine not_IsZero_ofReal ?_ h0
      rw [abs_of_neg (by norm_num)]; norm_num [TOLERANCE]
    · have e : ((3/10000 : ℂ) - -7/10000) = ((10/10000 : ℝ) : ℂ) := by push_cast; ring
      rw [e] at h0
      refine not_IsZero_ofReal ?_ h0
      rw [abs_of_pos (by norm_num)]; norm_num [TOLERANCE]
    · have e : ((3/10000 : ℂ) - 0) = ((3/10000 : ℝ) : ℂ) := by push_cast; ring
      rw [e] at h0
      refine not_IsZero_ofReal ?_ h0
      rw [abs_of_pos (by norm_num)]; norm_num [TOLERANCE]

/-- C10 (failing input): `TestKnownQuarticRoots(1, 3e-4, 5e-4, -8e-4, 0)`, followed on exact
numbers.  The depressed linear term is `1.2e-10`, which is `≈ 0` but not zero; the
biquadratic path drops it and returns `7e-4`, `-7e-4`, `0`, `0`, and the known root `3e-4`
is within tolerance of none of them (it is `3e-4` away from the nearest), so the found
roots match the known roots under no bijection. -/
theorem KnownQuarticFound_counterexample :
    ¬ IsZero 1 ∧
    KnownQuarticFound 1 (3/10000) (5/10000) (-8/10000) 0
      = (4, [some (7/10000), some (-7/10000), some 0, some 0]) ∧
    ¬ RootsMatch [3/10000, 5/10000, -8/10000, 0]
      (KnownQuarticFound 1 (3/10000) (5/10000) (-8/10000) 0).2 := by
  refine ⟨not_IsZero_one, KnownQuarticFound_near_biquadratic, ?_⟩
  rw [KnownQuarticFound_near_biquadratic]
  exact not_RootsMatch_near_biquadratic

/-! ## Degradation, the real-root filter and the cube root -/

/-- C11: when the leading coefficient is `≈ 0`, `SolveCubicEquation a b c d` returns exactly
the count and the roots of `SolveQuadraticEquation b c d`, and `SolveQuarticEquation a b c d e`
returns exactly the count and the roots of `SolveCubicEquation b c d e`; when the leading
coefficient is not `≈ 0` the cubic returns 3 and the quartic returns 4. -/
theorem Solve_degrades (a b c d e : ℂ) :
    (IsZero a →
      SolveCubicEquation a b c d
          = ((SolveQuadraticEquation b c d).1, (SolveQuadraticEquation b c d).2.map some) ∧
      SolveQuarticEquation a b c d e = SolveCubicEquation b c d e) ∧
    (¬ IsZero a →
      (SolveCubicEquation a b c d).1 = 3 ∧ (SolveQuarticEquation a b c d e).1 = 4) := by
  constructor
  · intro ha
    constructor
    · simp only [SolveCubicEquation, ha, if_true]
    · simp only [SolveQuarticEquation, ha, if_true]
  · intro ha
    constructor
    · simp only [SolveCubicEquation, ha, if_false]
    · exact SolveQuarticEquation_count a b c d e ha

theorem Solve_degrades_witness :
    IsZero 0 ∧ ¬ IsZero 1 ∧
    (SolveCubicEquation 0 1 (-5) 6
        = ((SolveQuadraticEquation 1 (-5) 6).1, (SolveQuadraticEquation 1 (-5) 6).2.map some) ∧
      SolveQuarticEquation 0 1 (-5) 6 0 = SolveCubicEquation 1 (-5) 6 0) ∧
    ((SolveCubicEquation 1 0 0 (-1)).1 = 3 ∧ (SolveQuarticEquation 1 0 0 (-1) 0).1 = 4) :=
  ⟨IsZero_zero, not_IsZero_one, (Solve_degrades 0 1 (-5) 6 0).1 IsZero_zero,
    (Solve_degrades 1 0 0 (-1) 0).2 not_IsZero_one⟩

theorem FilterRealNumbers_loop_spec (inArray : ℕ → ℂ) :
    ∀ (remaining i k : ℕ) (outArray : ℕ → ℝ),
      (FilterRealNumbers_loop inArray remaining i k outArray).1
          = k + (((List.range' i remaining).filter
              (fun j => decide (|(inArray j).im| < TOLERANCE))).map
                (fun j => (inArray j).re)).length ∧
      (∀ j, j < k → (FilterRealNumbers_loop inArray remaining i k outArray).2 j = outArray j) ∧
      (List.range (((List.range' i remaining).filter
              (fun j => decide (|(inArray j).im| < TOLERANCE))).length)).map
          (fun m => (FilterRealNumbers_loop inArray remaining i k outArray).2 (k + m))
        = ((List.range' i remaining).filter
              (fun j => decide (|(inArray j).im| < TOLERANCE))).map (fun j => (inArray j).re) ∧
      (∀ j, k + ((List.range' i remaining).filter
              (fun j => decide (|(inArray j).im| < TOLERANCE))).length ≤ j →
        (FilterRealNumbers_loop inArray remaining i k outArray).2 j = outArray j) := by
  intro remaining
  induction remaining with
  | zero =>
    intro i k outArray
    simp [FilterRealNumbers_loop]
  | succ r ih =>
    intro i k outArray
    by_cases h : |(inArray i).im| < TOLERANCE
    · obtain ⟨h1, h2, h3, h4⟩ := ih (i + 1) (k + 1) (Function.update outArray k (inArray i).re)
      simp only [FilterRealNumbers_loop, h, if_true, List.range'_succ, List.filter_cons,
        decide_True, List.map_cons, List.length_cons]
      refine ⟨?_, ?_, ?_, ?_⟩
      · rw [h1]; simp only [List.length_map]; omega
      · intro j hj
        rw [h2 j (by omega), Function.update_noteq (by omega)]
      · rw [List.range_succ_eq_map, List.map_cons, List.map_map]
        congr 1
        · have hk := h2 k (by omega)
          simpa using hk
        · rw [← h3]
          apply List.map_congr_left
          intro m _
          simp only [Function.comp, Nat.succ_eq_add_one]
          rw [show k + 1 + m = k + (m + 1) by omega]
      · intro j hj
        rw [h4 j (by omega), Function.update_noteq (by omega)]
    · obtain ⟨h1, h2, h3, h4⟩ := ih (i + 1) k outArray
      simp only [FilterRealNumbers_loop, h, if_false, List.range'_succ, List.filter_cons,
        decide_False]
      exact ⟨h1, h2, h3, h4⟩

/-- C12: `FilterRealNumbers n in out` returns the number of indices `i < n` whose entry
`in[i]` has an imaginary part of magnitude below the tolerance; the first that many entries
of `out` are the real parts of exactly those entries, in their original order; every other
entry of `out` is untouched; and the count is at most `n`. -/
theorem FilterRealNumbers_spec (n : ℤ) (inArray : ℕ → ℂ) (outArray : ℕ → ℝ) :
    (FilterRealNumbers n inArray outArray).1
        = ((List.range n.toNat).filter
            (fun i => decide (|(inArray i).im| < TOLERANCE))).length ∧
    (List.range (FilterRealNumbers n inArray outArray).1).map
          (FilterRealNumbers n inArray outArray).2
        = ((List.range n.toNat).filter
            (fun i => decide (|(inArray i).im| < TOLERANCE))).map (fun i => (inArray i).re) ∧
    (∀ j, (FilterRealNumbers n inArray outArray).1 ≤ j →
        (FilterRealNumbers n inArray outArray).2 j = outArray j) ∧
    (FilterRealNumbers n inArray outArray).1 ≤ n.toNat ∧
    (0 ≤ n → ((FilterRealNumbers n inArray outArray).1 : ℤ) ≤ n) := by
  obtain ⟨h1, _, h3, h4⟩ := FilterRealNumbers_loop_spec inArray n.toNat 0 0 outArray
  simp only [Nat.zero_add, List.length_map, ← List.range_eq_range'] at h1 h3 h4
  have hcount : (FilterRealNumbers n inArray outArray).1
      = ((List.range n.toNat).filter
          (fun i => decide (|(inArray i).im| < TOLERANCE))).length := h1
  have hle : ((List.range n.toNat).filter
      (fun i => decide (|(inArray i).im| < TOLERANCE))).length ≤ n.toNat := by
    have := List.length_filter_le (fun i => decide (|(inArray i).im| < TOLERANCE))
      (List.range n.toNat)
    simpa using this
  refine ⟨hcount, ?_, ?_, ?_, ?_⟩
  · rw [hcount]
    exact h3
  · intro j hj
    rw [hcount] at hj
    exact h4 j hj
  · rw [hcount]
    exact hle
  · intro hn
    rw [hcount]
    have : ((n.toNat : ℕ) : ℤ) = n := Int.toNat_of_nonneg hn
    omega

theorem FilterRealNumbers_spec_witness :
    (FilterRealNumbers 3 (fun i => if i = 0 then 1 else if i = 1 then ⟨2, 3⟩ else 5)
        (fun _ => 0)).1 = 2 ∧
    (List.range 2).map
        (FilterRealNumbers 3 (fun i => if i = 0 then 1 else if i = 1 then ⟨2, 3⟩ else 5)
          (fun _ => 0)).2 = [1, 5] := by
  have h := FilterRealNumbers_spec 3 (fun i => if i = 0 then 1 else if i = 1 then ⟨2, 3⟩ else 5)
    (fun _ => 0)
  have hk : ((List.range (3 : ℤ).toNat).filter
      (fun i => decide (|((fun i => if i = 0 then (1 : ℂ) else if i = 1 then ⟨2, 3⟩ else 5) i).im|
        < TOLERANCE))) = [0, 2] := by
    have e : (3 : ℤ).toNat = 3 := rfl
    rw [e]
    simp [List.range_succ, List.filter_cons, TOLERANCE]
    norm_num
  obtain ⟨h1, h2, _⟩ := h
  rw [hk] at h1 h2
  refine ⟨h1, ?_⟩
  have h1' : (FilterRealNumbers 3 (fun i => if i = 0 then 1 else if i = 1 then ⟨2, 3⟩ else 5)
        (fun _ => 0)).1 = 2 := h1
  rw [h1'] at h2
  rw [h2]
  simp

theorem polar_eq (r t : ℝ) : (⟨r * Real.cos t, r * Real.sin t⟩ : ℂ)
    = (r : ℂ) * (Complex.cos t + Complex.sin t * Complex.I) := by
  apply Complex.ext <;>
    simp [Complex.cos_ofReal_re, Complex.sin_ofReal_re, Complex.cos_ofReal_im,
      Complex.sin_ofReal_im]

theorem omega_ne_one : omega ≠ 1 := by
  rw [omega_eq]
  intro h
  have := congrArg Complex.re h
  simp at this
  norm_num at this

/-- C13: for every complex `a`, each of the branches 0, 1, 2 of `cbrt` cubes to `a`; for
`a ≠ 0` the three branches are pairwise distinct; and branch 0 is the principal one, of
argument `arg a / 3`. -/
theorem cbrt_branches (a : ℂ) :
    (cbrt a 0 ^ 3 = a ∧ cbrt a 1 ^ 3 = a ∧ cbrt a 2 ^ 3 = a) ∧
    (a ≠ 0 → cbrt a 0 ≠ cbrt a 1 ∧ cbrt a 0 ≠ cbrt a 2 ∧ cbrt a 1 ≠ cbrt a 2) ∧
    (a ≠ 0 → (cbrt a 0).arg = a.arg / 3) := by
  refine ⟨⟨cbrt_pow_three a 0, cbrt_pow_three a 1, cbrt_pow_three a 2⟩, ?_, ?_⟩
  · intro ha
    have h1 : cbrt a 1 = cbrt a 0 * omega := by simpa using cbrt_branch a 1
    have h2 : cbrt a 2 = cbrt a 0 * omega ^ 2 := by simpa using cbrt_branch a 2
    have hG3 := cbrt_pow_three a 0
    rw [h1, h2]
    generalize cbrt a 0 = G at hG3
    have hG : G ≠ 0 := by
      rintro rfl
      apply ha
      rw [← hG3]
      ring
    have hw := omega_root
    have hw1 := omega_ne_one
    generalize omega = w at hw hw1
    have hw0 : w ≠ 0 := by
      rintro rfl
      norm_num at hw
    refine ⟨?_, ?_, ?_⟩
    · intro h
      have h' : G * (1 - w) = 0 := by linear_combination h
      rcases mul_eq_zero.mp h' with h0 | h0
      · exact hG h0
      · exact hw1 (by linear_combination -h0)
    · intro h
      have h' : G * (2 + w) = 0 := by linear_combination h + G * hw
      rcases mul_eq_zero.mp h' with h0 | h0
      · exact hG h0
      · have hw2 : w = -2 := by linear_combination h0
        rw [hw2] at hw
        norm_num at hw
    · intro h
      have h' : G * (w * (1 - w)) = 0 := by linear_combination h
      rcases mul_eq_zero.mp h' with h0 | h0
      · exact hG h0
      · rcases mul_eq_zero.mp h0 with h1 | h1
        · exact hw0 h1
        · exact hw1 (by linear_combination -h1)
  · intro ha
    have hpos : 0 < Complex.abs a ^ ((1:ℝ) / 3) :=
      Real.rpow_pos_of_pos (AbsoluteValue.pos Complex.abs ha) _
    have hθ : a.arg / 3 ∈ Set.Ioc (-Real.pi) Real.pi := by
      have h1 := Complex.neg_pi_lt_arg a
      have h2 := Complex.arg_le_pi a
      have := Real.pi_pos
      constructor <;> linarith
    have e : cbrt a 0 = ((Complex.abs a ^ ((1:ℝ) / 3) : ℝ) : ℂ)
        * (Complex.cos ((a.arg / 3 : ℝ) : ℂ) + Complex.sin ((a.arg / 3 : ℝ) : ℂ) * Complex.I) := by
      rw [← polar_eq]
      unfold cbrt
      have e0 : (TWOPI * ((0 : ℤ) : ℝ) + a.arg) / 3 = a.arg / 3 := by
        push_cast; ring
      simp only [e0]
    rw [e]
    exact Complex.arg_mul_cos_add_sin_mul_I hpos hθ

theorem cbrt_branches_witness :
    (1 : ℂ) ≠ 0 ∧
    (cbrt 1 0 ≠ cbrt 1 1 ∧ cbrt 1 0 ≠ cbrt 1 2 ∧ cbrt 1 1 ≠ cbrt 1 2) ∧
    (cbrt 1 0).arg = (1 : ℂ).arg / 3 :=
  ⟨one_ne_zero, (cbrt_branches 1).2.1 one_ne_zero, (cbrt_branches 1).2.2 one_ne_zero⟩

/-! ## The real-valued quadratic solver -/

theorem csqrt_ofReal_nonneg (d : ℝ) (hd : 0 ≤ d) : csqrt (d : ℂ) = ⟨Real.sqrt d, 0⟩ := by
  unfold csqrt
  rw [Complex.abs_ofReal, Complex.arg_ofReal_of_nonneg hd, abs_of_nonneg hd]
  simp

theorem csqrt_ofReal_neg (d : ℝ) (hd : d < 0) : csqrt (d : ℂ) = ⟨0, Real.sqrt (-d)⟩ := by
  unfold csqrt
  rw [Complex.abs_ofReal, Complex.arg_ofReal_of_neg hd, abs_of_neg hd]
  simp

/-- The two complex roots the solver returns for real coefficients with `a` and the
discriminant not `≈ 0`. -/
theorem SolveQuadraticEquation_ofReal (a b c : ℝ) (ha : TOLERANCE ≤ |a|)
    (hd : TOLERANCE ≤ |b*b - 4*a*c|) :
    SolveQuadraticEquation (a : ℂ) (b : ℂ) (c : ℂ)
      = (2, [(-(b : ℂ) + csqrt ((b*b - 4*a*c : ℝ) : ℂ)) / (2 * (a : ℂ)),
             (-(b : ℂ) - csqrt ((b*b - 4*a*c : ℝ) : ℂ)) / (2 * (a : ℂ))]) := by
  have ha0 : ¬ IsZero (a : ℂ) := not_IsZero_ofReal ha
  have hr : ((b : ℂ) * b - 4 * a * c) = ((b*b - 4*a*c : ℝ) : ℂ) := by push_cast; ring
  have hd0 : ¬ IsZero ((b : ℂ) * b - 4 * a * c) := by
    rw [hr]
    exact not_IsZero_ofReal hd
  unfold SolveQuadraticEquation
  simp only [ha0, hd0, if_false]
  rw [hr]

/-- The filter on two values. -/
theorem FilterRealNumbers_two (x y : ℂ) (croots : ℕ → ℂ) (h0 : croots 0 = x)
    (h1 : croots 1 = y) (roots : ℕ → ℝ) :
    (|x.im| < TOLERANCE → |y.im| < TOLERANCE →
      (FilterRealNumbers 2 croots roots).1 = 2 ∧
      (FilterRealNumbers 2 croots roots).2 0 = x.re ∧
      (FilterRealNumbers 2 croots roots).2 1 = y.re) ∧
    (¬ |x.im| < TOLERANCE → ¬ |y.im| < TOLERANCE →
      FilterRealNumbers 2 croots roots = (0, roots)) := by
  have e : (2 : ℤ).toNat = 2 := rfl
  constructor
  · intro hx hy
    simp [FilterRealNumbers, e, FilterRealNumbers_loop, h0, h1, hx, hy]
  · intro hx hy
    simp [FilterRealNumbers, e, FilterRealNumbers_loop, h0, h1, hx, hy]

/-- The real-valued solver on a positive discriminant, in exact real arithmetic: for real
`a`, `b`, `c` with `|a| ≥ 1e-8` and discriminant `b*b - 4ac ≥ 1e-8`, the real-valued
`SolveQuadraticEquation` returns exactly 2 roots,
`roots[0] = (-b + sqrt(b*b-4ac)) / (2a)` and `roots[1] = (-b - sqrt(b*b-4ac)) / (2a)`, and
both are real solutions of `a*x^2 + b*x + c = 0`. -/
theorem SolveQuadraticEquation_real_two_roots (a b c : ℝ) (roots : ℕ → ℝ)
    (ha : TOLERANCE ≤ |a|) (hd : TOLERANCE ≤ b*b - 4*a*c) :
    (SolveQuadraticEquation_real a b c roots).1 = 2 ∧
    (SolveQuadraticEquation_real a b c roots).2 0
      = (-b + Real.sqrt (b*b - 4*a*c)) / (2*a) ∧
    (SolveQuadraticEquation_real a b c roots).2 1
      = (-b - Real.sqrt (b*b - 4*a*c)) / (2*a) ∧
    a * ((SolveQuadraticEquation_real a b c roots).2 0)^2
      + b * (SolveQuadraticEquation_real a b c roots).2 0 + c = 0 ∧
    a * ((SolveQuadraticEquation_real a b c roots).2 1)^2
      + b * (SolveQuadraticEquation_real a b c roots).2 1 + c = 0 := by
  have hpos : (0:ℝ) < TOLERANCE := TOLERANCE_pos
  have hd0 : 0 ≤ b*b - 4*a*c := by linarith
  have hd' : TOLERANCE ≤ |b*b - 4*a*c| := by rw [abs_of_nonneg hd0]; exact hd
  have ha0 : a ≠ 0 := by
    intro h
    rw [h, abs_zero] at ha
    linarith
  have hs := csqrt_ofReal_nonneg _ hd0
  have hsq : Real.sqrt (b*b - 4*a*c) * Real.sqrt (b*b - 4*a*c) = b*b - 4*a*c :=
    Real.mul_self_sqrt hd0
  have hc : (⟨Real.sqrt (b*b - 4*a*c), 0⟩ : ℂ) = ((Real.sqrt (b*b - 4*a*c) : ℝ) : ℂ) := by
    apply Complex.ext <;> simp
  have e0 : (-(b : ℂ) + csqrt ((b*b - 4*a*c : ℝ) : ℂ)) / (2 * (a : ℂ))
      = (((-b + Real.sqrt (b*b - 4*a*c)) / (2*a) : ℝ) : ℂ) := by
    rw [hs, hc]; push_cast; ring
  have e1 : (-(b : ℂ) - csqrt ((b*b - 4*a*c : ℝ) : ℂ)) / (2 * (a : ℂ))
      = (((-b - Real.sqrt (b*b - 4*a*c)) / (2*a) : ℝ) : ℂ) := by
    rw [hs, hc]; push_cast; ring
  have hfilter := (FilterRealNumbers_two
    ((((-b + Real.sqrt (b*b - 4*a*c)) / (2*a) : ℝ)) : ℂ)
    ((((-b - Real.sqrt (b*b - 4*a*c)) / (2*a) : ℝ)) : ℂ)
    (fun i => (SolveQuadraticEquation (a : ℂ) (b : ℂ) (c : ℂ)).2.getD i 0)
    (by simp only [SolveQuadraticEquation_ofReal a b c ha hd', e0, e1]; rfl)
    (by simp only [SolveQuadraticEquation_ofReal a b c ha hd', e0, e1]; rfl) roots).1
    (by simp only [Complex.ofReal_im, abs_zero]; exact hpos)
    (by simp only [Complex.ofReal_im, abs_zero]; exact hpos)
  have hn : (SolveQuadraticEquation (a : ℂ) (b : ℂ) (c : ℂ)).1 = 2 := by
    rw [SolveQuadraticEquation_ofReal a b c ha hd']
  have hres : SolveQuadraticEquation_real a b c roots
      = FilterRealNumbers 2
          (fun i => (SolveQuadraticEquation (a : ℂ) (b : ℂ) (c : ℂ)).2.getD i 0) roots := by
    unfold SolveQuadraticEquation_real
    simp only [hn]
    rfl
  rw [hres]
  obtain ⟨h1, h2, h3⟩ := hfilter
  simp only [Complex.ofReal_re] at h2 h3
  refine ⟨h1, h2, h3, ?_, ?_⟩
  · rw [h2]
    generalize Real.sqrt (b*b - 4*a*c) = s at hsq
    have e : a * ((-b + s) / (2*a))^2 + b * ((-b + s) / (2*a)) + c
        = (s * s - (b*b - 4*a*c)) / (4*a) := by
      field_simp
      ring
    rw [e, hsq, sub_self, zero_div]
  · rw [h3]
    generalize Real.sqrt (b*b - 4*a*c) = s at hsq
    have e : a * ((-b - s) / (2*a))^2 + b * ((-b - s) / (2*a)) + c
        = (s * s - (b*b - 4*a*c)) / (4*a) := by
      field_simp
      ring
    rw [e, hsq, sub_self, zero_div]

/-- The real-valued solver on a negative discriminant: the two complex roots have the
imaginary parts `± sqrt(4ac - b*b) / (2a)`, and the filter keeps both or none. -/
theorem SolveQuadraticEquation_real_negative (a b c : ℝ) (roots : ℕ → ℝ)
    (ha : TOLERANCE ≤ |a|) (hd : b*b - 4*a*c ≤ -TOLERANCE) :
    (TOLERANCE * (2 * |a|) ≤ Real.sqrt (4*a*c - b*b) →
      SolveQuadraticEquation_real a b c roots = (0, roots)) ∧
    (Real.sqrt (4*a*c - b*b) < TOLERANCE * (2 * |a|) →
      (SolveQuadraticEquation_real a b c roots).1 = 2 ∧
      (SolveQuadraticEquation_real a b c roots).2 0 = -b / (2*a) ∧
      (SolveQuadraticEquation_real a b c roots).2 1 = -b / (2*a)) := by
  have hpos : (0:ℝ) < TOLERANCE := TOLERANCE_pos
  have hd0 : b*b - 4*a*c < 0 := by linarith
  have hd' : TOLERANCE ≤ |b*b - 4*a*c| := by rw [abs_of_neg hd0]; linarith
  have ha0 : a ≠ 0 := by
    intro h
    rw [h, abs_zero] at ha
    linarith
  have hapos : 0 < |a| := abs_pos.mpr ha0
  have hs := csqrt_ofReal_neg _ hd0
  have hneg : -(b*b - 4*a*c) = 4*a*c - b*b := by ring
  rw [hneg] at hs
  have hs0 := Real.sqrt_nonneg (4*a*c - b*b)
  generalize Real.sqrt (4*a*c - b*b) = s at hs hs0 ⊢
  have hc : (⟨0, s⟩ : ℂ) = (s : ℂ) * Complex.I := by
    apply Complex.ext <;> simp
  have e0 : (-(b : ℂ) + csqrt ((b*b - 4*a*c : ℝ) : ℂ)) / (2 * (a : ℂ))
      = ((-b / (2*a) : ℝ) : ℂ) + ((s / (2*a) : ℝ) : ℂ) * Complex.I := by
    rw [hs, hc]
    have : (a : ℂ) ≠ 0 := Complex.ofReal_ne_zero.mpr ha0
    push_cast
    field_simp
    ring
  have e1 : (-(b : ℂ) - csqrt ((b*b - 4*a*c : ℝ) : ℂ)) / (2 * (a : ℂ))
      = ((-b / (2*a) : ℝ) : ℂ) + ((-(s / (2*a)) : ℝ) : ℂ) * Complex.I := by
    rw [hs, hc]
    have : (a : ℂ) ≠ 0 := Complex.ofReal_ne_zero.mpr ha0
    push_cast
    field_simp
    ring
  have him : ∀ p t : ℝ, ((p : ℂ) + (t : ℂ) * Complex.I).im = t := by
    intro p t; simp
  have hre : ∀ p t : ℝ, ((p : ℂ) + (t : ℂ) * Complex.I).re = p := by
    intro p t; simp
  have habs : |s / (2*a)| = |s| / (2 * |a|) := by
    rw [abs_div, abs_mul, abs_of_pos (by norm_num : (0:ℝ) < 2)]
  have hfilter := FilterRealNumbers_two
    (((-b / (2*a) : ℝ) : ℂ) + ((s / (2*a) : ℝ) : ℂ) * Complex.I)
    (((-b / (2*a) : ℝ) : ℂ) + ((-(s / (2*a)) : ℝ) : ℂ) * Complex.I)
    (fun i => (SolveQuadraticEquation (a : ℂ) (b : ℂ) (c : ℂ)).2.getD i 0)
    (by simp only [SolveQuadraticEquation_ofReal a b c ha hd', e0, e1]; rfl)
    (by simp only [SolveQuadraticEquation_ofReal a b c ha hd', e0, e1]; rfl) roots
  rw [him, him, hre, hre, abs_neg, habs] at hfilter
  have hn : (SolveQuadraticEquation (a : ℂ) (b : ℂ) (c : ℂ)).1 = 2 := by
    rw [SolveQuadraticEquation_ofReal a b c ha hd']
  have hres : SolveQuadraticEquation_real a b c roots
      = FilterRealNumbers 2
          (fun i => (SolveQuadraticEquation (a : ℂ) (b : ℂ) (c : ℂ)).2.getD i 0) roots := by
    unfold SolveQuadraticEquation_real
    simp only [hn]
    rfl
  rw [hres]
  have h2a : (0:ℝ) < 2 * |a| := by linarith
  constructor
  · intro h
    have hlt : ¬ |s| / (2 * |a|) < TOLERANCE := by
      rw [not_lt, le_div_iff₀ h2a]
      exact le_trans h (le_abs_self s)
    exact hfilter.2 hlt hlt
  · intro h
    have hlt : |s| / (2 * |a|) < TOLERANCE := by
      rw [div_lt_iff₀ h2a, abs_of_nonneg hs0]
      exact h
    exact hfilter.1 hlt hlt

/-- C39 (amended): over exact real arithmetic, for real `a`, `b`, `c` with `|a| ≥ 1e-8`,
discriminant
`b*b - 4ac ≤ -1e-8` and `sqrt(4ac - b*b) ≥ 2|a| * 1e-8` (the imaginary parts of the two
complex roots are not below the tolerance), the real-valued `SolveQuadraticEquation` returns
0 real roots and writes nothing to `roots`. -/
theorem SolveQuadraticEquation_real_no_roots (a b c : ℝ) (roots : ℕ → ℝ)
    (ha : TOLERANCE ≤ |a|) (hd : b*b - 4*a*c ≤ -TOLERANCE)
    (him : TOLERANCE * (2 * |a|) ≤ Real.sqrt (4*a*c - b*b)) :
    (SolveQuadraticEquation_real a b c roots).1 = 0 ∧
    (SolveQuadraticEquation_real a b c roots).2 = roots := by
  rw [(SolveQuadraticEquation_real_negative a b c roots ha hd).1 him]
  exact ⟨rfl, rfl⟩

theorem SolveQuadraticEquation_real_no_roots_witness :
    (TOLERANCE : ℝ) ≤ |(1 : ℝ)| ∧ (0 : ℝ) * 0 - 4 * 1 * 1 ≤ -TOLERANCE ∧
    (TOLERANCE : ℝ) * (2 * |(1 : ℝ)|) ≤ Real.sqrt (4 * 1 * 1 - 0 * 0) ∧
    (SolveQuadraticEquation_real 1 0 1 (fun _ => 0)).1 = 0 := by
  have ha : (TOLERANCE : ℝ) ≤ |(1 : ℝ)| := by
    rw [abs_one]; unfold TOLERANCE; norm_num
  have hd : (0 : ℝ) * 0 - 4 * 1 * 1 ≤ -TOLERANCE := by
    unfold TOLERANCE; norm_num
  have him : (TOLERANCE : ℝ) * (2 * |(1 : ℝ)|) ≤ Real.sqrt (4 * 1 * 1 - 0 * 0) := by
    have e : Real.sqrt (4 * 1 * 1 - 0 * 0) = 2 := by
      rw [show (4 * 1 * 1 - 0 * 0 : ℝ) = 2 ^ 2 by norm_num]
      exact Real.sqrt_sq (by norm_num)
    rw [abs_one, e]
    unfold TOLERANCE
    norm_num
  exact ⟨ha, hd, him, (SolveQuadraticEquation_real_no_roots 1 0 1 (fun _ => 0) ha hd him).1⟩

/-! ## The root checker -/

theorem CheckRoots_find_some (known_k : ℂ) (found : ℕ → ℂ) (used : ℕ → Bool) :
    ∀ (remaining f g : ℕ), CheckRoots_find known_k found used remaining f = some g →
      f ≤ g ∧ g < f + remaining ∧ used g = false ∧ IsZero (known_k - found g) := by
  intro remaining
  induction remaining with
  | zero =>
    intro f g h
    simp [CheckRoots_find] at h
  | succ r ih =>
    intro f g h
    rw [CheckRoots_find] at h
    by_cases hc : used f = false ∧ IsZero (known_k - found f)
    · rw [if_pos hc] at h
      cases h
      exact ⟨le_refl _, by omega, hc.1, hc.2⟩
    · rw [if_neg hc] at h
      obtain ⟨h1, h2, h3, h4⟩ := ih (f + 1) g h
      exact ⟨by omega, by omega, h3, h4⟩

theorem CheckRoots_find_none (known_k : ℂ) (found : ℕ → ℂ) (used : ℕ → Bool) :
    ∀ (remaining f : ℕ), CheckRoots_find known_k found used remaining f = none →
      ∀ g, f ≤ g → g < f + remaining → ¬ (used g = false ∧ IsZero (known_k - found g)) := by
  intro remaining
  induction remaining with
  | zero =>
    intro f _ g h1 h2
    omega
  | succ r ih =>
    intro f h g h1 h2
    rw [CheckRoots_find] at h
    by_cases hc : used f = false ∧ IsZero (known_k - found f)
    · rw [if_pos hc] at h
      cases h
    · rw [if_neg hc] at h
      by_cases hfg : g = f
      · rw [hfg]; exact hc
      · exact ih (f + 1) h g (by omega) (by omega)

/-- Acceptance by the loop yields an injective assignment of found roots to the known roots
that remain. -/
theorem CheckRoots_loop_sound (n : ℕ) (known found : ℕ → ℂ) :
    ∀ (remaining k : ℕ) (used : ℕ → Bool),
      CheckRoots_loop n known found remaining k used = .ok () →
      ∃ g : ℕ → ℕ,
        (∀ j, k ≤ j → j < k + remaining →
          g j < n ∧ used (g j) = false ∧ IsZero (known j - found (g j))) ∧
        (∀ i j, k ≤ i → i < k + remaining → k ≤ j → j < k + remaining → g i = g j → i = j) := by
  intro remaining
  induction remaining with
  | zero =>
    intro k used _
    exact ⟨fun _ => 0, fun j h1 h2 => by omega, fun i j h1 h2 => by omega⟩
  | succ r ih =>
    intro k used h
    rw [CheckRoots_loop] at h
    cases hfind : CheckRoots_find (known k) found used n 0 with
    | none =>
      rw [hfind] at h
      cases h
    | some f =>
      rw [hfind] at h
      obtain ⟨_, hf, hu, hz⟩ := CheckRoots_find_some _ _ _ _ _ _ hfind
      obtain ⟨g, hg, hinj⟩ := ih (k + 1) (Function.update used f true) h
      have hne : ∀ j, k + 1 ≤ j → j < k + 1 + r → g j ≠ f := by
        intro j h1 h2 hc
        have := (hg j h1 h2).2.1
        rw [hc, Function.update_same] at this
        cases this
      refine ⟨Function.update g k f, ?_, ?_⟩
      · intro j h1 h2
        by_cases hj : j = k
        · subst hj
          rw [Function.update_same]
          exact ⟨by omega, hu, hz⟩
        · rw [Function.update_noteq hj]
          obtain ⟨a1, a2, a3⟩ := hg j (by omega) (by omega)
          refine ⟨a1, ?_, a3⟩
          rw [Function.update_noteq (hne j (by omega) (by omega))] at a2
          exact a2
      · intro i j hi1 hi2 hj1 hj2 heq
        by_cases hi : i = k
        · by_cases hj : j = k
          · omega
          · rw [hi, Function.update_same, Function.update_noteq hj] at heq
            exact absurd heq.symm (hne j (by omega) (by omega))
        · by_cases hj : j = k
          · rw [hj, Function.update_same, Function.update_noteq hi] at heq
            exact absurd heq (hne i (by omega) (by omega))
          · rw [Function.update_noteq hi, Function.update_noteq hj] at heq
            exact hinj i j (by omega) (by omega) (by omega) (by omega) heq

/-- C36: if `CheckRoots(numRoots, known, found)` returns without raising, then
`0 ≤ numRoots ≤ 4` and there is a bijection `σ` on the indices `0 .. numRoots-1` with
`known[k] - found[σ(k)] ≈ 0` for every `k`, so each found root is used for at most one known
root; for `numRoots` outside `0 .. 4` the function always raises. -/
theorem CheckRoots_sound (numRoots : ℤ) (known found : ℕ → ℂ) :
    (CheckRoots numRoots known found = .ok () →
      0 ≤ numRoots ∧ numRoots ≤ 4 ∧
      ∃ σ : Fin numRoots.toNat → Fin numRoots.toNat, Function.Bijective σ ∧
        ∀ k : Fin numRoots.toNat, IsZero (known k - found (σ k))) ∧
    (numRoots < 0 ∨ 4 < numRoots →
      CheckRoots numRoots known found = .error "Internal error: numRoots is out of bounds.") := by
  constructor
  · intro h
    unfold CheckRoots at h
    by_cases hb : numRoots < 0 ∨ numRoots > 4
    · rw [if_pos hb] at h
      cases h
    · rw [if_neg hb] at h
      push_neg at hb
      obtain ⟨g, hg, hinj⟩ := CheckRoots_loop_sound _ _ _ _ _ _ h
      refine ⟨hb.1, hb.2, ?_⟩
      have hinj' : Function.Injective
          (fun k : Fin numRoots.toNat =>
            (⟨g k, (hg k (Nat.zero_le _) (by have := k.isLt; omega)).1⟩ : Fin numRoots.toNat)) := by
        intro i j hij
        have hv : g i = g j := congrArg Fin.val hij
        exact Fin.ext (hinj i j (Nat.zero_le _) (by have := i.isLt; omega) (Nat.zero_le _)
          (by have := j.isLt; omega) hv)
      refine ⟨_, Finite.injective_iff_bijective.mp hinj', ?_⟩
      intro k
      exact (hg k (Nat.zero_le _) (by have := k.isLt; omega)).2.2
  · intro h
    unfold CheckRoots
    have hb : numRoots < 0 ∨ numRoots > 4 := h
    rw [if_pos hb]

/-- The loop accepts whenever the choices it has made so far extend to a one-to-one matching
within tolerance, provided the tolerance test separates the roots into clusters. -/
theorem CheckRoots_loop_complete (n : ℕ) (known found : ℕ → ℂ)
    (hcons : ToleranceConsistent n known found) :
    ∀ (remaining k : ℕ) (used : ℕ → Bool) (τ : Equiv.Perm (Fin n)),
      k + remaining = n →
      (∀ j : Fin n, IsZero (known j - found (τ j))) →
      (∀ f : Fin n, used f = true ↔ ∃ j : Fin n, j.val < k ∧ τ j = f) →
      CheckRoots_loop n known found remaining k used = .ok () := by
  intro remaining
  induction remaining with
  | zero =>
    intro k used τ _ _ _
    rfl
  | succ r ih =>
    intro k used τ hk hmatch hused
    have hkn : k < n := by omega
    -- the partner of `k` under `τ` is still free
    have hfree : used (τ ⟨k, hkn⟩) = false := by
      cases hu : used (τ ⟨k, hkn⟩) with
      | false => rfl
      | true =>
        obtain ⟨j, hj, hτ⟩ := (hused (τ ⟨k, hkn⟩)).mp hu
        have := τ.injective hτ
        rw [this] at hj
        simp at hj
    rw [CheckRoots_loop]
    cases hfind : CheckRoots_find (known k) found used n 0 with
    | none =>
      exfalso
      exact CheckRoots_find_none _ _ _ _ _ hfind (τ ⟨k, hkn⟩) (Nat.zero_le _)
        (by have := (τ ⟨k, hkn⟩).isLt; omega) ⟨hfree, hmatch ⟨k, hkn⟩⟩
    | some f =>
      obtain ⟨_, hf, hu, hz⟩ := CheckRoots_find_some _ _ _ _ _ _ hfind
      have hfn : f < n := by omega
      simp only
      -- exchange: the matching is changed so that `k` is paired with `f`
      have hm : ∃ m : Fin n, τ m = ⟨f, hfn⟩ := ⟨τ.symm ⟨f, hfn⟩, τ.apply_symm_apply _⟩
      obtain ⟨m, hm⟩ := hm
      have hmk : k ≤ m.val := by
        by_contra hc
        have : used (⟨f, hfn⟩ : Fin n) = true := (hused ⟨f, hfn⟩).mpr ⟨m, by omega, hm⟩
        rw [hu] at this
        cases this
      have hτ'k : (Equiv.swap ⟨k, hkn⟩ m).trans τ ⟨k, hkn⟩ = ⟨f, hfn⟩ := by
        simp [hm]
      have hτ'm : (Equiv.swap ⟨k, hkn⟩ m).trans τ m = τ ⟨k, hkn⟩ := by
        simp
      have hτ'o : ∀ j : Fin n, j ≠ ⟨k, hkn⟩ → j ≠ m →
          (Equiv.swap ⟨k, hkn⟩ m).trans τ j = τ j := by
        intro j h1 h2
        simp [Equiv.swap_apply_of_ne_of_ne h1 h2]
      apply ih (k + 1) (Function.update used f true) ((Equiv.swap ⟨k, hkn⟩ m).trans τ)
        (by omega)
      · intro j
        by_cases hjk : j = ⟨k, hkn⟩
        · rw [hjk, hτ'k]
          exact hz
        · by_cases hjm : j = m
          · rw [hjm, hτ'm]
            have h1 : IsZero (known m - found f) := by
              have := hmatch m
              rw [hm] at this
              exact this
            exact hcons k m f (τ ⟨k, hkn⟩) hkn m.isLt hfn (τ ⟨k, hkn⟩).isLt hz h1
              (hmatch ⟨k, hkn⟩)
          · rw [hτ'o j hjk hjm]
            exact hmatch j
      · intro g
        constructor
        · intro hg
          by_cases hgf : g.val = f
          · refine ⟨⟨k, hkn⟩, by simp, ?_⟩
            rw [hτ'k]
            exact Fin.ext hgf.symm
          · rw [Function.update_noteq hgf] at hg
            obtain ⟨j, hj, hτ⟩ := (hused g).mp hg
            refine ⟨j, by omega, ?_⟩
            rw [hτ'o j (by intro hc; rw [hc] at hj; simp at hj)
              (by intro hc; rw [hc] at hj; omega)]
            exact hτ
        · rintro ⟨j, hj, hτ⟩
          by_cases hjk : j = ⟨k, hkn⟩
          · rw [hjk, hτ'k] at hτ
            rw [← hτ]
            simp
          · have hjlt : j.val < k := by
              have : j.val ≠ k := fun hc => hjk (Fin.ext hc)
              omega
            have hjm : j ≠ m := by
              intro hc; rw [hc] at hjlt; omega
            rw [hτ'o j hjk hjm] at hτ
            have hug : used g = true := (hused g).mpr ⟨j, hjlt, hτ⟩
            by_cases hgf : g.val = f
            · rw [hgf]; simp
            · rw [Function.update_noteq hgf]
              exact hug

theorem IsZero_ofReal_sub (x y : ℝ) : IsZero ((x : ℂ) - (y : ℂ)) ↔ |x - y| < TOLERANCE := by
  rw [← Complex.ofReal_sub, IsZero_ofReal]

/-- C36, witness: one known root `0` and one found root `0` are accepted, and the bijection
is obtained; `numRoots = 5` raises the internal error. -/
theorem CheckRoots_sound_witness :
    CheckRoots 1 (fun _ => 0) (fun _ => 0) = .ok () ∧
    ((0 : ℤ) ≤ 1 ∧ (1 : ℤ) ≤ 4 ∧
      ∃ σ : Fin (1 : ℤ).toNat → Fin (1 : ℤ).toNat, Function.Bijective σ ∧
        ∀ k : Fin (1 : ℤ).toNat,
          IsZero ((fun _ : ℕ => (0 : ℂ)) (k : ℕ) - (fun _ : ℕ => (0 : ℂ)) (σ k : ℕ))) ∧
    CheckRoots 5 (fun _ => 0) (fun _ => 0)
      = .error "Internal error: numRoots is out of bounds." := by
  have hok : CheckRoots 1 (fun _ => 0) (fun _ => 0) = .ok () := by
    have hz : IsZero ((0 : ℂ) - 0) := by
      simp [IsZero, TOLERANCE]
    unfold CheckRoots
    rw [if_neg (by norm_num)]
    show CheckRoots_loop 1 (fun _ => 0) (fun _ => 0) 1 0 (fun _ => false) = .ok ()
    unfold CheckRoots_loop
    have hf : CheckRoots_find ((fun _ : ℕ => (0 : ℂ)) 0) (fun _ => 0) (fun _ => false) 1 0
        = some 0 := by
      unfold CheckRoots_find
      rw [if_pos ⟨rfl, hz⟩]
    rw [hf]
    simp only
    unfold CheckRoots_loop
    rfl
  exact ⟨hok, (CheckRoots_sound 1 (fun _ => 0) (fun _ => 0)).1 hok,
    (CheckRoots_sound 5 (fun _ => 0) (fun _ => 0)).2 (Or.inr (by norm_num))⟩

/-- C37 (as stated, refuted): the known roots `0, 1.2e-8` and the found roots `6e-9, -6e-9`
match one-to-one within tolerance (`0` with `-6e-9`, `1.2e-8` with `6e-9`), yet `CheckRoots`
raises: it pairs the known root `0` with the first found root close to it, `6e-9`, and the
known root `1.2e-8` is not close to the found root `-6e-9` that is left. -/
theorem CheckRoots_rejects_matching :
    (∃ σ : Fin 2 → Fin 2, Function.Bijective σ ∧
      ∀ k : Fin 2,
        IsZero ((fun i : ℕ => (((if i = 0 then 0 else 12 / 1000000000 : ℝ)) : ℂ)) k
          - (fun i : ℕ => (((if i = 0 then 6 / 1000000000 else -6 / 1000000000 : ℝ)) : ℂ))
              (σ k))) ∧
    CheckRoots 2 (fun i => (((if i = 0 then 0 else 12 / 1000000000 : ℝ)) : ℂ))
        (fun i => (((if i = 0 then 6 / 1000000000 else -6 / 1000000000 : ℝ)) : ℂ))
      = .error "Solver produced incorrect value(s) for complex roots." := by
  constructor
  · refine ⟨Equiv.swap 0 1, (Equiv.swap 0 1).bijective, ?_⟩
    intro k
    fin_cases k
    · simp only [IsZero_ofReal_sub]
      norm_num [TOLERANCE, abs_of_pos]
    · simp only [IsZero_ofReal_sub]
      norm_num [TOLERANCE, abs_of_pos]
  · have h1 : CheckRoots_find
        ((fun i : ℕ => (((if i = 0 then 0 else 12 / 1000000000 : ℝ)) : ℂ)) 0)
        (fun i => (((if i = 0 then 6 / 1000000000 else -6 / 1000000000 : ℝ)) : ℂ))
        (fun _ => false) 2 0 = some 0 := by
      rw [CheckRoots_find, if_pos]
      refine ⟨rfl, ?_⟩
      simp only [IsZero_ofReal_sub]
      norm_num [TOLERANCE, abs_of_pos]
    have h2 : CheckRoots_find
        ((fun i : ℕ => (((if i = 0 then 0 else 12 / 1000000000 : ℝ)) : ℂ)) 1)
        (fun i => (((if i = 0 then 6 / 1000000000 else -6 / 1000000000 : ℝ)) : ℂ))
        (Function.update (fun _ => false) 0 true) 2 0 = none := by
      rw [CheckRoots_find, if_neg, CheckRoots_find, if_neg, CheckRoots_find]
      · rintro ⟨_, h⟩
        simp only [IsZero_ofReal_sub] at h
        norm_num [TOLERANCE, abs_of_pos] at h
      · rintro ⟨h, _⟩
        simp at h
    have e : (2 : ℤ).toNat = 2 := rfl
    unfold CheckRoots
    rw [if_neg (by norm_num), e, CheckRoots_loop, h1]
    simp only
    rw [CheckRoots_loop, h2]

/-- C37 (amended): for every `numRoots` in `0 .. 4`, if the found roots match the known roots
under some bijection within tolerance and the tolerance test separates the roots into
clusters (two known roots that are within tolerance of a common found root are within
tolerance of the same found roots), then `CheckRoots(numRoots, known, found)` accepts: it
returns without raising. -/
theorem CheckRoots_complete (numRoots : ℤ) (known found : ℕ → ℂ)
    (hn : 0 ≤ numRoots ∧ numRoots ≤ 4)
    (σ : Fin numRoots.toNat → Fin numRoots.toNat) (hσ : Function.Bijective σ)
    (hmatch : ∀ k : Fin numRoots.toNat, IsZero (known k - found (σ k)))
    (hcons : ToleranceConsistent numRoots.toNat known found) :
    CheckRoots numRoots known found = .ok () := by
  unfold CheckRoots
  rw [if_neg (by push_neg; exact hn)]
  refine CheckRoots_loop_complete numRoots.toNat known found hcons numRoots.toNat 0
    (fun _ => false) (Equiv.ofBijective σ hσ) (by omega) ?_ ?_
  · intro j
    exact hmatch j
  · intro f
    constructor
    · intro h
      simp at h
    · rintro ⟨j, hj, _⟩
      omega

theorem CheckRoots_complete_witness :
    ((0 : ℤ) ≤ 2 ∧ (2 : ℤ) ≤ 4) ∧
    CheckRoots 2 (fun i => (((if i = 0 then 2 else 3 : ℝ)) : ℂ))
        (fun i => (((if i = 0 then 3 else 2 : ℝ)) : ℂ)) = .ok () := by
  refine ⟨by norm_num, ?_⟩
  have hz : ∀ i j : ℕ,
      IsZero ((fun i : ℕ => (((if i = 0 then 2 else 3 : ℝ)) : ℂ)) i
        - (fun i : ℕ => (((if i = 0 then 3 else 2 : ℝ)) : ℂ)) j) ↔ ((i = 0) ↔ ¬ (j = 0)) := by
    intro i j
    simp only [IsZero_ofReal_sub]
    by_cases hi : i = 0 <;> by_cases hj : j = 0 <;>
      simp [hi, hj, TOLERANCE] <;> norm_num [abs_of_pos, abs_of_neg]
  refine CheckRoots_complete 2 _ _ (by norm_num)
    (show Fin (2 : ℤ).toNat → Fin (2 : ℤ).toNat from (Equiv.swap (0 : Fin 2) 1 : Fin 2 → Fin 2))
    (Equiv.swap (0 : Fin 2) 1).bijective ?_ ?_
  · show ∀ k : Fin 2,
      IsZero ((fun i : ℕ => (((if i = 0 then 2 else 3 : ℝ)) : ℂ)) k
        - (fun i : ℕ => (((if i = 0 then 3 else 2 : ℝ)) : ℂ))
            ((Equiv.swap (0 : Fin 2) 1) k))
    intro k
    rw [hz]
    fin_cases k <;> simp
  · intro k k' f f' _ _ _ _ h1 h2 h3
    rw [hz] at h1 h2 h3 ⊢
    tauto

/-! ## The linear solver on `double` -/

/-- The value of the literal `1.0e-8`. -/
theorem TOLERANCE_eq :
    Binary64.TOLERANCE = Double.finite false (3022314549036573 / 302231454903657293676544) := by
  unfold Binary64.TOLERANCE
  rw [Double.ofRat_of_pos _ (by norm_num)]
  exact Double.round_eq _ _ (-27) 6044629098073146 _ (by norm_num) (by norm_num) (by norm_num)
      (Double.roundHalfEven_of_lt _ _ (by norm_num) (by norm_num)) (by norm_num) (by norm_num)

/-- C2 (failing input): the coefficient matrix with the rows `(100000001, 100000003,
100000007)`, `(100000001, 100000007, 100000009)` and their sum `(200000002, 200000010,
200000016)` is singular, and with the constants `1, 1, 3` the system has no solution (the
third equation would need the constant `1 + 1`).  All twelve inputs are integers below
`2^53`, so they are values of `double`.  On `double` the products that make up the pivots
are rounded, the last pivot comes out as `800000000` instead of `0`, all three guards pass
and the function returns `true`. -/
theorem SolveLinearEquations_singular_accepted :
    det3 (100000001 : ℚ) 100000003 100000007 100000001 100000007 100000009 200000002 200000010
        200000016 = 0 ∧
    (∀ u v w : ℚ, ¬ (100000001 * u + 100000003 * v + 100000007 * w + 1 = 0 ∧
      100000001 * u + 100000007 * v + 100000009 * w + 1 = 0 ∧
      200000002 * u + 200000010 * v + 200000016 * w + 3 = 0)) ∧
    (Binary64.SolveLinearEquations (Double.finite false 100000001) (Double.finite false 100000003)
        (Double.finite false 100000007) (Double.finite false 1) (Double.finite false 100000001)
        (Double.finite false 100000007) (Double.finite false 100000009) (Double.finite false 1)
        (Double.finite false 200000002) (Double.finite false 200000010)
        (Double.finite false 200000016) (Double.finite false 3)
      (Double.finite false 0) (Double.finite false 0) (Double.finite false 0)).ok = true ∧
    (Binary64.SolveLinearEquations (Double.finite false 100000001) (Double.finite false 100000003)
        (Double.finite false 100000007) (Double.finite false 1) (Double.finite false 100000001)
        (Double.finite false 100000007) (Double.finite false 100000009) (Double.finite false 1)
        (Double.finite false 200000002) (Double.finite false 200000010)
        (Double.finite false 200000016) (Double.finite false 3)
      (Double.finite false 0) (Double.finite false 0) (Double.finite false 0)).divisors
      = [Double.finite false 800000000, Double.finite true 200000020, Double.finite false 100000007]
          := by
  have h1 : Double.finite false 100000003 * Double.finite false 100000009
      = Double.finite false 10000001200000028 := by
    rw [Double.mul_finite, show (100000003 * 100000009 : ℚ) = 10000001200000027 by norm_num]
    exact Double.round_eq _ _ 53 5000000600000014 _ (by norm_num) (by norm_num) (by norm_num)
        (by rw [Double.roundHalfEven_tie _ 5000000600000013 (by norm_num)]; norm_num) (by norm_num)
        (by norm_num)
  have h2 : Double.finite false 100000007 * Double.finite false 100000007
      = Double.finite false 10000001400000048 := by
    rw [Double.mul_finite, show (100000007 * 100000007 : ℚ) = 10000001400000049 by norm_num]
    exact Double.round_eq _ _ 53 5000000700000024 _ (by norm_num) (by norm_num) (by norm_num)
        (by rw [Double.roundHalfEven_tie _ 5000000700000024 (by norm_num)]; norm_num) (by norm_num)
        (by norm_num)
  have h3 : Double.finite false 10000001200000028 - Double.finite false 10000001400000048
      = Double.finite true 200000020 := by
    rw [Double.sub_eq_add_neg, Double.neg_finite, Double.add_finite _ _ _ _ (-200000020)
        (by norm_num [Double.toRat]) (by norm_num),
      Double.ofRat_of_neg _ 200000020 (by norm_num) (by norm_num)]
    exact Double.round_of_representable _ _ 50000005 2 (by norm_num) (by norm_num) (by norm_num)
        (by norm_num)
  have h4 : Double.finite false 100000001 * Double.finite false 100000009
      = Double.finite false 10000001000000008 := by
    rw [Double.mul_finite, show (100000001 * 100000009 : ℚ) = 10000001000000009 by norm_num]
    exact Double.round_eq _ _ 53 5000000500000004 _ (by norm_num) (by norm_num) (by norm_num)
        (by rw [Double.roundHalfEven_tie _ 5000000500000004 (by norm_num)]; norm_num) (by norm_num)
        (by norm_num)
  have h5 : Double.finite false 100000007 * Double.finite false 100000001
      = Double.finite false 10000000800000008 := by
    rw [Double.mul_finite, show (100000007 * 100000001 : ℚ) = 10000000800000007 by norm_num]
    exact Double.round_eq _ _ 53 5000000400000004 _ (by norm_num) (by norm_num) (by norm_num)
        (by rw [Double.roundHalfEven_tie _ 5000000400000003 (by norm_num)]; norm_num) (by norm_num)
        (by norm_num)
  have h6 : Double.finite false 10000001000000008 - Double.finite false 10000000800000008
      = Double.finite false 200000000 := by
    rw [Double.sub_eq_add_neg, Double.neg_finite, Double.add_finite _ _ _ _ 200000000
        (by norm_num [Double.toRat]) (by norm_num),
      Double.ofRat_of_pos _ (by norm_num)]
    exact Double.round_of_representable _ _ 390625 9 (by norm_num) (by norm_num) (by norm_num)
        (by norm_num)
  have h7 : Double.finite false 100000001 * Double.finite false 200000016
      = Double.finite false 20000001800000016 := by
    rw [Double.mul_finite, show (100000001 * 200000016 : ℚ) = 20000001800000016 by norm_num]
    exact Double.round_of_representable _ _ 1250000112500001 4 (by norm_num) (by norm_num)
        (by norm_num) (by norm_num)
  have h8 : Double.finite false 100000009 * Double.finite false 200000002
      = Double.finite false 20000002000000016 := by
    rw [Double.mul_finite, show (100000009 * 200000002 : ℚ) = 20000002000000018 by norm_num]
    exact Double.round_eq _ _ 54 5000000500000004 _ (by norm_num) (by norm_num) (by norm_num)
        (by rw [Double.roundHalfEven_tie _ 5000000500000004 (by norm_num)]; norm_num) (by norm_num)
        (by norm_num)
  have h9 : Double.finite false 20000001800000016 - Double.finite false 20000002000000016
      = Double.finite true 200000000 := by
    rw [Double.sub_eq_add_neg, Double.neg_finite, Double.add_finite _ _ _ _ (-200000000)
        (by norm_num [Double.toRat]) (by norm_num),
      Double.ofRat_of_neg _ 200000000 (by norm_num) (by norm_num)]
    exact Double.round_of_representable _ _ 390625 9 (by norm_num) (by norm_num) (by norm_num)
        (by norm_num)
  have h10 : Double.finite false 100000007 * Double.finite false 200000016
      = Double.finite false 20000003000000112 := by
    rw [Double.mul_finite, show (100000007 * 200000016 : ℚ) = 20000003000000112 by norm_num]
    exact Double.round_of_representable _ _ 1250000187500007 4 (by norm_num) (by norm_num)
        (by norm_num) (by norm_num)
  have h11 : Double.finite false 100000009 * Double.finite false 200000010
      = Double.finite false 20000002800000088 := by
    rw [Double.mul_finite, show (100000009 * 200000010 : ℚ) = 20000002800000090 by norm_num]
    exact Double.round_eq _ _ 54 5000000700000022 _ (by norm_num) (by norm_num) (by norm_num)
        (by rw [Double.roundHalfEven_tie _ 5000000700000022 (by norm_num)]; norm_num) (by norm_num)
        (by norm_num)
  have h12 : Double.finite false 20000003000000112 - Double.finite false 20000002800000088
      = Double.finite false 200000024 := by
    rw [Double.sub_eq_add_neg, Double.neg_finite, Double.add_finite _ _ _ _ 200000024
        (by norm_num [Double.toRat]) (by norm_num),
      Double.ofRat_of_pos _ (by norm_num)]
    exact Double.round_of_representable _ _ 25000003 3 (by norm_num) (by norm_num) (by norm_num)
        (by norm_num)
  have h13 : Double.finite false 200000000 * Double.finite false 200000024
      = Double.finite false 40000004800000000 := by
    rw [Double.mul_finite, show (200000000 * 200000024 : ℚ) = 40000004800000000 by norm_num]
    exact Double.round_of_representable _ _ 9765626171875 12 (by norm_num) (by norm_num)
        (by norm_num) (by norm_num)
  have h14 : Double.finite true 200000020 * Double.finite true 200000000
      = Double.finite false 40000004000000000 := by
    rw [Double.mul_finite, show (200000020 * 200000000 : ℚ) = 40000004000000000 by norm_num]
    exact Double.round_of_representable _ _ 19531251953125 11 (by norm_num) (by norm_num)
        (by norm_num) (by norm_num)
  have h15 : Double.finite false 40000004800000000 - Double.finite false 40000004000000000
      = Double.finite false 800000000 := by
    rw [Double.sub_eq_add_neg, Double.neg_finite, Double.add_finite _ _ _ _ 800000000
        (by norm_num [Double.toRat]) (by norm_num),
      Double.ofRat_of_pos _ (by norm_num)]
    exact Double.round_of_representable _ _ 390625 11 (by norm_num) (by norm_num) (by norm_num)
        (by norm_num)
  have c1 : Double.fabs (Double.finite false 100000007) ≥ Binary64.TOLERANCE := by
    rw [TOLERANCE_eq, Double.fabs_finite]
    exact (Double.le_finite _ _ _ _).mpr (by norm_num [Double.toRat])
  have c2 : Double.fabs (Double.finite true 200000020) ≥ Binary64.TOLERANCE := by
    rw [TOLERANCE_eq, Double.fabs_finite]
    exact (Double.le_finite _ _ _ _).mpr (by norm_num [Double.toRat])
  have c3 : Double.fabs (Double.finite false 800000000) ≥ Binary64.TOLERANCE := by
    rw [TOLERANCE_eq, Double.fabs_finite]
    exact (Double.le_finite _ _ _ _).mpr (by norm_num [Double.toRat])
  refine ⟨by norm_num [det3], ?_, ?_, ?_⟩
  · rintro u v w ⟨e1, e2, e3⟩
    linarith
  · unfold Binary64.SolveLinearEquations
    simp only [h1, h2, h3, h4, h5, h6, h7, h8, h9, h10, h11, h12, h13, h14, h15]
    rw [if_pos c1, if_pos c2, if_pos c3]
  · unfold Binary64.SolveLinearEquations
    simp only [h1, h2, h3, h4, h5, h6, h7, h8, h9, h10, h11, h12, h13, h14, h15]
    rw [if_pos c1, if_pos c2, if_pos c3]

/-! ## The quadratic solver on `double` -/

theorem complex_mul_def (x y : Binary64.complex) :
    x * y = ⟨x.re * y.re - x.im * y.im, x.re * y.im + x.im * y.re⟩ := rfl

theorem complex_add_def (x y : Binary64.complex) : x + y = ⟨x.re + y.re, x.im + y.im⟩ := rfl

theorem complex_sub_def (x y : Binary64.complex) : x - y = ⟨x.re - y.re, x.im - y.im⟩ := rfl

theorem complex_neg_def (x : Binary64.complex) : -x = ⟨-x.re, -x.im⟩ := rfl

/-- The filter returns at most as many values as it is given. -/
theorem FilterRealNumbers_loop_le (inArray : ℕ → Binary64.complex) (remaining i n : ℕ)
    (outArray : ℕ → Double) :
    (Binary64.FilterRealNumbers_loop inArray remaining i n outArray).1 ≤ n + remaining := by
  induction remaining generalizing i n outArray with
  | zero => simp [Binary64.FilterRealNumbers_loop]
  | succ k ih =>
    unfold Binary64.FilterRealNumbers_loop
    split_ifs
    · have := ih (i + 1) (n + 1) (Function.update outArray n (inArray i).re)
      omega
    · have := ih (i + 1) n outArray
      omega

/-- The real-valued overload returns at most as many roots as the complex solver. -/
theorem SolveQuadraticEquation_real_le (quotient : Binary64.complex → Binary64.complex →
    Binary64.complex) (sqrt : Binary64.complex → Binary64.complex) (a b c : Double)
    (roots : ℕ → Double) :
    (Binary64.SolveQuadraticEquation_real quotient sqrt a b c roots).1
      ≤ (Binary64.SolveQuadraticEquation quotient sqrt (Binary64.complex.ofReal a)
          (Binary64.complex.ofReal b) (Binary64.complex.ofReal c)).1 := by
  unfold Binary64.SolveQuadraticEquation_real Binary64.FilterRealNumbers
  simp only [Int.toNat_ofNat]
  have h := FilterRealNumbers_loop_le
    (fun i => (Binary64.SolveQuadraticEquation quotient sqrt (Binary64.complex.ofReal a)
      (Binary64.complex.ofReal b) (Binary64.complex.ofReal c)).2.getD i
        ⟨Double.finite false 0, Double.finite false 0⟩)
    (Binary64.SolveQuadraticEquation quotient sqrt (Binary64.complex.ofReal a)
      (Binary64.complex.ofReal b) (Binary64.complex.ofReal c)).1 0 0 roots
  rw [Nat.zero_add] at h
  exact h

/-- When the complex solver returns one root whose imaginary part is below the tolerance, the
real-valued overload returns one root, the real part of that root. -/
theorem SolveQuadraticEquation_real_of_one (quotient : Binary64.complex → Binary64.complex →
    Binary64.complex) (sqrt : Binary64.complex → Binary64.complex) (a b c : Double)
    (roots : ℕ → Double) (z : Binary64.complex)
    (h : Binary64.SolveQuadraticEquation quotient sqrt (Binary64.complex.ofReal a)
      (Binary64.complex.ofReal b) (Binary64.complex.ofReal c) = (1, [z]))
    (him : Double.fabs z.im < Binary64.TOLERANCE) :
    Binary64.SolveQuadraticEquation_real quotient sqrt a b c roots
      = (1, Function.update roots 0 z.re) := by
  unfold Binary64.SolveQuadraticEquation_real Binary64.FilterRealNumbers
  simp only [h, Nat.cast_one, Int.toNat_one]
  unfold Binary64.FilterRealNumbers_loop
  have e : ([z].getD 0 (⟨Double.finite false 0, Double.finite false 0⟩ : Binary64.complex))
      = z := rfl
  rw [e, if_pos him]
  rfl

/-- C39 (counterexample): two polynomials with `|a| ≥ 1e-8` and a discriminant `≤ -1e-8`,
hence without real roots, for which the real-valued `SolveQuadraticEquation` returns real
roots.  In exact arithmetic, `a = 1e8`, `b = 0`, `c = 1e-10`: the discriminant is `-0.04`,
the complex roots are `± 1e-9 i`, their imaginary parts are below the tolerance `1e-8`, and
the filter keeps both, so 2 real roots (both 0) are returned.  On `double`, `a = 1.5`,
`b = 200000008`, `c = 6666667200000011` (values of `double`): the discriminant is `-2`, but
the product `4ac = 40000003200000066` is rounded to `40000003200000064 = b*b`, the computed
radicand is 0, the complex solver returns the single root `-b / (2a)`, and the filter keeps
it when the library quotient of the two real numbers has an imaginary part below the
tolerance. -/
theorem SolveQuadraticEquation_real_counterexample :
    ((TOLERANCE : ℝ) ≤ |(100000000 : ℝ)| ∧
    (0 : ℝ) * 0 - 4 * 100000000 * (1 / 10000000000) ≤ -TOLERANCE ∧
    (SolveQuadraticEquation_real 100000000 0 (1 / 10000000000) (fun _ => 0)).1 = 2 ∧
    (SolveQuadraticEquation_real 100000000 0 (1 / 10000000000) (fun _ => 0)).2 0 = 0 ∧
    (SolveQuadraticEquation_real 100000000 0 (1 / 10000000000) (fun _ => 0)).2 1 = 0) ∧
    ((200000008 * 200000008 - 4 * (3 / 2) * 6666667200000011 : ℚ) = -2 ∧
    (∀ (quotient : Binary64.complex → Binary64.complex → Binary64.complex)
      (sqrt : Binary64.complex → Binary64.complex),
      Binary64.SolveQuadraticEquation quotient sqrt
        (Binary64.complex.ofReal (Double.finite false (3 / 2)))
        (Binary64.complex.ofReal (Double.finite false 200000008))
        (Binary64.complex.ofReal (Double.finite false 6666667200000011))
        = (1, [quotient ⟨Double.finite true 200000008, Double.finite true 0⟩
            ⟨Double.finite false 3, Double.finite false 0⟩])) ∧
    (∀ (quotient : Binary64.complex → Binary64.complex → Binary64.complex)
      (sqrt : Binary64.complex → Binary64.complex) (roots : ℕ → Double),
      Double.fabs
          (quotient ⟨Double.finite true 200000008, Double.finite true 0⟩
          ⟨Double.finite false 3, Double.finite false 0⟩).im < Binary64.TOLERANCE →
      (Binary64.SolveQuadraticEquation_real quotient sqrt (Double.finite false (3 / 2))
        (Double.finite false 200000008) (Double.finite false 6666667200000011) roots).1 = 1)) := by
  constructor
  · have ha : (TOLERANCE : ℝ) ≤ |(100000000 : ℝ)| := by
      rw [abs_of_pos (by norm_num : (0:ℝ) < 100000000)]; unfold TOLERANCE; norm_num
    have hd : (0 : ℝ) * 0 - 4 * 100000000 * (1 / 10000000000) ≤ -TOLERANCE := by
      unfold TOLERANCE; norm_num
    have h := (SolveQuadraticEquation_real_negative 100000000 0 (1 / 10000000000) (fun _ => 0)
      ha hd).2 (by
        rw [abs_of_pos (by norm_num : (0:ℝ) < 100000000),
          Real.sqrt_lt' (by unfold TOLERANCE; norm_num)]
        unfold TOLERANCE
        norm_num)
    refine ⟨ha, hd, h.1, ?_, ?_⟩
    · rw [h.2.1]; norm_num
    · rw [h.2.2]; norm_num
  · have r1 : Double.finite false 200000008 * Double.finite false 200000008
      = Double.finite false 40000003200000064 := by
      rw [Double.mul_finite, show (200000008 * 200000008 : ℚ) = 40000003200000064 by norm_num]
      exact Double.round_of_representable _ _ 625000050000001 6 (by norm_num) (by norm_num)
          (by norm_num) (by norm_num)
    have r2 : Double.finite false 0 * Double.finite false 0 = Double.finite false 0 := by
      rw [Double.mul_finite, show (0 * 0 : ℚ) = 0 by norm_num]
      exact Double.round_zero _
    have r3 : Double.finite false 40000003200000064 - Double.finite false 0
        = Double.finite false 40000003200000064 := by
      rw [Double.sub_eq_add_neg, Double.neg_finite, Double.add_finite _ _ _ _ 40000003200000064
          (by norm_num [Double.toRat]) (by norm_num),
        Double.ofRat_of_pos _ (by norm_num)]
      exact Double.round_of_representable _ _ 625000050000001 6 (by norm_num) (by norm_num)
          (by norm_num) (by norm_num)
    have r4 : Double.finite false 200000008 * Double.finite false 0 = Double.finite false 0 := by
      rw [Double.mul_finite, show (200000008 * 0 : ℚ) = 0 by norm_num]
      exact Double.round_zero _
    have r5 : Double.finite false 0 * Double.finite false 200000008 = Double.finite false 0 := by
      rw [Double.mul_finite, show (0 * 200000008 : ℚ) = 0 by norm_num]
      exact Double.round_zero _
    have r6 : Double.finite false 0 + Double.finite false 0 = Double.finite false 0 := by
      rw [Double.add_finite_zero _ _ _ _ (by norm_num [Double.toRat])]
      rfl
    have r7 : Double.finite false 4 * Double.finite false (3 / 2) = Double.finite false 6 := by
      rw [Double.mul_finite, show (4 * (3 / 2) : ℚ) = 6 by norm_num]
      exact Double.round_of_representable _ _ 3 1 (by norm_num) (by norm_num) (by norm_num)
          (by norm_num)
    have r8 : Double.finite false 4 * Double.finite false 0 = Double.finite false 0 := by
      rw [Double.mul_finite, show (4 * 0 : ℚ) = 0 by norm_num]
      exact Double.round_zero _
    have r9 : Double.finite false 6 * Double.finite false 6666667200000011
        = Double.finite false 40000003200000064 := by
      rw [Double.mul_finite, show (6 * 6666667200000011 : ℚ) = 40000003200000066 by norm_num]
      exact Double.round_eq _ _ 55 5000000400000008 _ (by norm_num) (by norm_num) (by norm_num)
          (Double.roundHalfEven_of_lt _ _ (by norm_num) (by norm_num)) (by norm_num) (by norm_num)
    have r10 : Double.finite false 6 * Double.finite false 0 = Double.finite false 0 := by
      rw [Double.mul_finite, show (6 * 0 : ℚ) = 0 by norm_num]
      exact Double.round_zero _
    have r11 : Double.finite false 0 * Double.finite false 6666667200000011 = Double.finite false 0
        := by
      rw [Double.mul_finite, show (0 * 6666667200000011 : ℚ) = 0 by norm_num]
      exact Double.round_zero _
    have r12 : Double.finite false 40000003200000064 - Double.finite false 40000003200000064
        = Double.finite false 0 := by
      rw [Double.sub_eq_add_neg, Double.neg_finite, Double.add_finite_zero _ _ _ _
          (by norm_num [Double.toRat])]
      rfl
    have r13 : Double.finite false 0 - Double.finite false 0 = Double.finite false 0 := by
      rw [Double.sub_eq_add_neg, Double.neg_finite, Double.add_finite_zero _ _ _ _
          (by norm_num [Double.toRat])]
      rfl
    have r14 : -(Double.finite false 200000008) = Double.finite true 200000008 := rfl
    have r15 : -(Double.finite false 0) = Double.finite true 0 := rfl
    have r16 : Double.finite false 2 * Double.finite false (3 / 2) = Double.finite false 3 := by
      rw [Double.mul_finite, show (2 * (3 / 2) : ℚ) = 3 by norm_num]
      exact Double.round_of_representable _ _ 3 0 (by norm_num) (by norm_num) (by norm_num)
          (by norm_num)
    have r17 : Double.finite false 2 * Double.finite false 0 = Double.finite false 0 := by
      rw [Double.mul_finite, show (2 * 0 : ℚ) = 0 by norm_num]
      exact Double.round_zero _
    have hza : ¬ Binary64.IsZero
        (⟨Double.finite false (3 / 2), Double.finite false 0⟩ : Binary64.complex) := by
      unfold Binary64.IsZero
      simp only [TOLERANCE_eq, Double.fabs_finite]
      intro hz
      exact absurd ((Double.lt_finite _ _ _ _).mp hz.1) (by norm_num [Double.toRat])
    have hzr : Binary64.IsZero (⟨Double.finite false 0, Double.finite false 0⟩ : Binary64.complex)
        := by
      unfold Binary64.IsZero
      simp only [TOLERANCE_eq, Double.fabs_finite]
      exact ⟨(Double.lt_finite _ _ _ _).mpr (by norm_num [Double.toRat]),
        (Double.lt_finite _ _ _ _).mpr (by norm_num [Double.toRat])⟩
    have hsolve : ∀ (quotient : Binary64.complex → Binary64.complex → Binary64.complex)
        (sqrt : Binary64.complex → Binary64.complex),
        Binary64.SolveQuadraticEquation quotient sqrt
          (Binary64.complex.ofReal (Double.finite false (3 / 2)))
          (Binary64.complex.ofReal (Double.finite false 200000008))
          (Binary64.complex.ofReal (Double.finite false 6666667200000011))
          = (1, [quotient ⟨Double.finite true 200000008, Double.finite true 0⟩
              ⟨Double.finite false 3, Double.finite false 0⟩]) := by
      intro quotient sqrt
      unfold Binary64.SolveQuadraticEquation
      simp only [Binary64.complex.ofReal, Binary64.complex.scale, complex_mul_def, complex_sub_def,
        complex_neg_def, r1, r2, r3, r4, r5, r6, r7, r8, r9, r10, r11, r12, r13, r14, r15, r16, r17]
      rw [if_neg hza, if_pos hzr]
    refine ⟨by norm_num, hsolve, ?_⟩
    intro quotient sqrt roots him
    rw [SolveQuadraticEquation_real_of_one quotient sqrt _ _ _ roots _ (hsolve quotient sqrt) him]

/-! ## The self-test of the quadratic solver on `double` -/

/-- The three iterations of the loop of `ValidatePolynomial` for a quadratic. -/
theorem ValidatePolynomial_loop_three (poly : ℕ → Binary64.complex)
    (root power sum : Binary64.complex) :
    Binary64.ValidatePolynomial_loop poly root 3 0 power sum
      = sum + poly 0 * power + poly 1 * (power * root) + poly 2 * (power * root * root) :=
  rfl

/-- The outcome of `TestKnownQuadraticRoots` when both validations pass and the solver
returns a number of roots other than the expected one. -/
theorem TestKnownQuadraticRoots_wrong_count
    (quotient : Binary64.complex → Binary64.complex → Binary64.complex)
    (sqrt : Binary64.complex → Binary64.complex) (M K L : Binary64.complex)
    (hK : Binary64.IsZero (Binary64.ValidatePolynomial_loop
      (fun i => if i = 0 then M*K*L else if i = 1 then -M*(K+L) else M) K 3 0
      ⟨Double.finite false 1, Double.finite false 0⟩
      ⟨Double.finite false 0, Double.finite false 0⟩))
    (hL : Binary64.IsZero (Binary64.ValidatePolynomial_loop
      (fun i => if i = 0 then M*K*L else if i = 1 then -M*(K+L) else M) L 3 0
      ⟨Double.finite false 1, Double.finite false 0⟩
      ⟨Double.finite false 0, Double.finite false 0⟩))
    (hcount : ((Binary64.SolveQuadraticEquation quotient sqrt M (-M*(K+L)) (M*K*L)).1 : ℤ)
      ≠ (if Binary64.IsZero (K - L) then 1 else 2)) :
    Binary64.TestKnownQuadraticRoots quotient sqrt M K L
      = .error "Wrong number of roots found." := by
  unfold Binary64.TestKnownQuadraticRoots Binary64.ValidatePolynomial
  have e3 : (3 : ℤ).toNat = 3 := rfl
  simp only [e3]
  rw [if_neg (not_not.mpr hK), if_neg (not_not.mpr hL)]
  simp only
  rw [if_pos hcount]

/-- C8 (failing input): `M = 3`, `K = 67108865` (integers below `2^53`, so values of
`double`).  The coefficients are built as `TestKnownQuadraticRoots(M, K, K)` builds them,
`b = -M*(K+K)` and `c = M*K*K`, or as the claim writes them, `b = -2*M*K`.  The product
`M*K*K = 13510799284764675` is rounded to `13510799284764676`, and the products `b*b` and
`4*a*c` are rounded too: the radicand comes out as `-32` instead of `0`, it is not ≈0, and
the solver returns 2 roots instead of the one double root, whatever the library's quotient
and square root return.  Both calls of `ValidatePolynomial` pass and `K - K ≈ 0`, so
`TestKnownQuadraticRoots(3, 67108865, 67108865)` expects one root and throws. -/
theorem SolveQuadraticEquation_double_root_split :
    ¬ Binary64.IsZero (Binary64.complex.ofReal (Double.finite false 3)) ∧
    (∀ (quotient : Binary64.complex → Binary64.complex → Binary64.complex)
      (sqrt : Binary64.complex → Binary64.complex),
      (Binary64.SolveQuadraticEquation quotient sqrt
          (Binary64.complex.ofReal (Double.finite false 3))
        (-(Binary64.complex.ofReal (Double.finite false 3)) *
            ((Binary64.complex.ofReal (Double.finite false 67108865)) +
            (Binary64.complex.ofReal (Double.finite false 67108865))))
        ((Binary64.complex.ofReal (Double.finite false 3)) *
            (Binary64.complex.ofReal (Double.finite false 67108865)) *
            (Binary64.complex.ofReal (Double.finite false 67108865)))).1 = 2) ∧
    (∀ (quotient : Binary64.complex → Binary64.complex → Binary64.complex)
      (sqrt : Binary64.complex → Binary64.complex),
      (Binary64.SolveQuadraticEquation quotient sqrt
          (Binary64.complex.ofReal (Double.finite false 3))
        (Binary64.complex.scale (Double.finite true 2)
            (Binary64.complex.ofReal (Double.finite false 3)) *
            (Binary64.complex.ofReal (Double.finite false 67108865)))
        ((Binary64.complex.ofReal (Double.finite false 3)) *
            (Binary64.complex.ofReal (Double.finite false 67108865)) *
            (Binary64.complex.ofReal (Double.finite false 67108865)))).1 = 2) ∧
    (∀ (quotient : Binary64.complex → Binary64.complex → Binary64.complex)
      (sqrt : Binary64.complex → Binary64.complex),
      Binary64.TestKnownQuadraticRoots quotient sqrt
          (Binary64.complex.ofReal (Double.finite false 3))
          (Binary64.complex.ofReal (Double.finite false 67108865))
          (Binary64.complex.ofReal (Double.finite false 67108865))
        = .error "Wrong number of roots found.") := by
  have t1 : -(Double.finite false 3) = Double.finite true 3 := rfl
  have t2 : -(Double.finite false 0) = Double.finite true 0 := rfl
  have t3 : Double.finite false 67108865 + Double.finite false 67108865
      = Double.finite false 134217730 := by
    rw [Double.add_finite _ _ _ _ 134217730 (by norm_num [Double.toRat]) (by norm_num),
      Double.ofRat_of_pos _ (by norm_num)]
    exact Double.round_of_representable _ _ 67108865 1 (by norm_num) (by norm_num) (by norm_num)
        (by norm_num)
  have t4 : Double.finite false 0 + Double.finite false 0 = Double.finite false 0 := by
    rw [Double.add_finite_zero _ _ _ _ (by norm_num [Double.toRat])]
    rfl
  have t5 : Double.finite true 3 * Double.finite false 134217730 = Double.finite true 402653190
      := by
    rw [Double.mul_finite, show (3 * 134217730 : ℚ) = 402653190 by norm_num]
    exact Double.round_of_representable _ _ 201326595 1 (by norm_num) (by norm_num) (by norm_num)
        (by norm_num)
  have t6 : Double.finite true 0 * Double.finite false 0 = Double.finite true 0 := by
    rw [Double.mul_finite, show (0 * 0 : ℚ) = 0 by norm_num]
    exact Double.round_zero _
  have t7 : Double.finite true 402653190 - Double.finite true 0 = Double.finite true 402653190 := by
    rw [Double.sub_eq_add_neg, Double.neg_finite, Double.add_finite _ _ _ _ (-402653190)
        (by norm_num [Double.toRat]) (by norm_num),
      Double.ofRat_of_neg _ 402653190 (by norm_num) (by norm_num)]
    exact Double.round_of_representable _ _ 201326595 1 (by norm_num) (by norm_num) (by norm_num)
        (by norm_num)
  have t8 : Double.finite true 3 * Double.finite false 0 = Double.finite true 0 := by
    rw [Double.mul_finite, show (3 * 0 : ℚ) = 0 by norm_num]
    exact Double.round_zero _
  have t9 : Double.finite true 0 * Double.finite false 134217730 = Double.finite true 0 := by
    rw [Double.mul_finite, show (0 * 134217730 : ℚ) = 0 by norm_num]
    exact Double.round_zero _
  have t10 : Double.finite true 0 + Double.finite true 0 = Double.finite true 0 := by
    rw [Double.add_finite_zero _ _ _ _ (by norm_num [Double.toRat])]
    rfl
  have t11 : Double.finite false 3 * Double.finite false 67108865 = Double.finite false 201326595
      := by
    rw [Double.mul_finite, show (3 * 67108865 : ℚ) = 201326595 by norm_num]
    exact Double.round_of_representable _ _ 201326595 0 (by norm_num) (by norm_num) (by norm_num)
        (by norm_num)
  have t12 : Double.finite false 0 * Double.finite false 0 = Double.finite false 0 := by
    rw [Double.mul_finite, show (0 * 0 : ℚ) = 0 by norm_num]
    exact Double.round_zero _
  have t13 : Double.finite false 201326595 - Double.finite false 0 = Double.finite false 201326595
      := by
    rw [Double.sub_eq_add_neg, Double.neg_finite, Double.add_finite _ _ _ _ 201326595
        (by norm_num [Double.toRat]) (by norm_num),
      Double.ofRat_of_pos _ (by norm_num)]
    exact Double.round_of_representable _ _ 201326595 0 (by norm_num) (by norm_num) (by norm_num)
        (by norm_num)
  have t14 : Double.finite false 3 * Double.finite false 0 = Double.finite false 0 := by
    rw [Double.mul_finite, show (3 * 0 : ℚ) = 0 by norm_num]
    exact Double.round_zero _
  have t15 : Double.finite false 0 * Double.finite false 67108865 = Double.finite false 0 := by
    rw [Double.mul_finite, show (0 * 67108865 : ℚ) = 0 by norm_num]
    exact Double.round_zero _
  have t16 : Double.finite false 201326595 * Double.finite false 67108865
      = Double.finite false 13510799284764676 := by
    rw [Double.mul_finite, show (201326595 * 67108865 : ℚ) = 13510799284764675 by norm_num]
    exact Double.round_eq _ _ 53 6755399642382338 _ (by norm_num) (by norm_num) (by norm_num)
        (by rw [Double.roundHalfEven_tie _ 6755399642382337 (by norm_num)]; norm_num) (by norm_num)
        (by norm_num)
  have t17 : Double.finite false 13510799284764676 - Double.finite false 0
      = Double.finite false 13510799284764676 := by
    rw [Double.sub_eq_add_neg, Double.neg_finite, Double.add_finite _ _ _ _ 13510799284764676
        (by norm_num [Double.toRat]) (by norm_num),
      Double.ofRat_of_pos _ (by norm_num)]
    exact Double.round_of_representable _ _ 3377699821191169 2 (by norm_num) (by norm_num)
        (by norm_num) (by norm_num)
  have t18 : Double.finite false 201326595 * Double.finite false 0 = Double.finite false 0 := by
    rw [Double.mul_finite, show (201326595 * 0 : ℚ) = 0 by norm_num]
    exact Double.round_zero _
  have t19 : Double.finite false 13510799284764676 * Double.finite false 1
      = Double.finite false 13510799284764676 := by
    rw [Double.mul_finite, show (13510799284764676 * 1 : ℚ) = 13510799284764676 by norm_num]
    exact Double.round_of_representable _ _ 3377699821191169 2 (by norm_num) (by norm_num)
        (by norm_num) (by norm_num)
  have t20 : Double.finite false 13510799284764676 * Double.finite false 0 = Double.finite false 0
      := by
    rw [Double.mul_finite, show (13510799284764676 * 0 : ℚ) = 0 by norm_num]
    exact Double.round_zero _
  have t21 : Double.finite false 0 * Double.finite false 1 = Double.finite false 0 := by
    rw [Double.mul_finite, show (0 * 1 : ℚ) = 0 by norm_num]
    exact Double.round_zero _
  have t22 : Double.finite false 0 + Double.finite false 13510799284764676
      = Double.finite false 13510799284764676 := by
    rw [Double.add_finite _ _ _ _ 13510799284764676 (by norm_num [Double.toRat]) (by norm_num),
      Double.ofRat_of_pos _ (by norm_num)]
    exact Double.round_of_representable _ _ 3377699821191169 2 (by norm_num) (by norm_num)
        (by norm_num) (by norm_num)
  have t23 : Double.finite false 1 * Double.finite false 67108865 = Double.finite false 67108865
      := by
    rw [Double.mul_finite, show (1 * 67108865 : ℚ) = 67108865 by norm_num]
    exact Double.round_of_representable _ _ 67108865 0 (by norm_num) (by norm_num) (by norm_num)
        (by norm_num)
  have t24 : Double.finite false 67108865 - Double.finite false 0 = Double.finite false 67108865
      := by
    rw [Double.sub_eq_add_neg, Double.neg_finite, Double.add_finite _ _ _ _ 67108865
        (by norm_num [Double.toRat]) (by norm_num),
      Double.ofRat_of_pos _ (by norm_num)]
    exact Double.round_of_representable _ _ 67108865 0 (by norm_num) (by norm_num) (by norm_num)
        (by norm_num)
  have t25 : Double.finite false 1 * Double.finite false 0 = Double.finite false 0 := by
    rw [Double.mul_finite, show (1 * 0 : ℚ) = 0 by norm_num]
    exact Double.round_zero _
  have t26 : Double.finite true 402653190 * Double.finite false 67108865
      = Double.finite true 27021598569529352 := by
    rw [Double.mul_finite, show (402653190 * 67108865 : ℚ) = 27021598569529350 by norm_num]
    exact Double.round_eq _ _ 54 6755399642382338 _ (by norm_num) (by norm_num) (by norm_num)
        (by rw [Double.roundHalfEven_tie _ 6755399642382337 (by norm_num)]; norm_num) (by norm_num)
        (by norm_num)
  have t27 : Double.finite true 27021598569529352 - Double.finite true 0
      = Double.finite true 27021598569529352 := by
    rw [Double.sub_eq_add_neg, Double.neg_finite, Double.add_finite _ _ _ _ (-27021598569529352)
        (by norm_num [Double.toRat]) (by norm_num),
      Double.ofRat_of_neg _ 27021598569529352 (by norm_num) (by norm_num)]
    exact Double.round_of_representable _ _ 3377699821191169 3 (by norm_num) (by norm_num)
        (by norm_num) (by norm_num)
  have t28 : Double.finite true 402653190 * Double.finite false 0 = Double.finite true 0 := by
    rw [Double.mul_finite, show (402653190 * 0 : ℚ) = 0 by norm_num]
    exact Double.round_zero _
  have t29 : Double.finite true 0 * Double.finite false 67108865 = Double.finite true 0 := by
    rw [Double.mul_finite, show (0 * 67108865 : ℚ) = 0 by norm_num]
    exact Double.round_zero _
  have t30 : Double.finite false 13510799284764676 + Double.finite true 27021598569529352
      = Double.finite true 13510799284764676 := by
    rw [Double.add_finite _ _ _ _ (-13510799284764676) (by norm_num [Double.toRat]) (by norm_num),
      Double.ofRat_of_neg _ 13510799284764676 (by norm_num) (by norm_num)]
    exact Double.round_of_representable _ _ 3377699821191169 2 (by norm_num) (by norm_num)
        (by norm_num) (by norm_num)
  have t31 : Double.finite false 0 + Double.finite true 0 = Double.finite false 0 := by
    rw [Double.add_finite_zero _ _ _ _ (by norm_num [Double.toRat])]
    rfl
  have t32 : Double.finite false 67108865 * Double.finite false 67108865
      = Double.finite false 4503599761588225 := by
    rw [Double.mul_finite, show (67108865 * 67108865 : ℚ) = 4503599761588225 by norm_num]
    exact Double.round_of_representable _ _ 4503599761588225 0 (by norm_num) (by norm_num)
        (by norm_num) (by norm_num)
  have t33 : Double.finite false 4503599761588225 - Double.finite false 0
      = Double.finite false 4503599761588225 := by
    rw [Double.sub_eq_add_neg, Double.neg_finite, Double.add_finite _ _ _ _ 4503599761588225
        (by norm_num [Double.toRat]) (by norm_num),
      Double.ofRat_of_pos _ (by norm_num)]
    exact Double.round_of_representable _ _ 4503599761588225 0 (by norm_num) (by norm_num)
        (by norm_num) (by norm_num)
  have t34 : Double.finite false 67108865 * Double.finite false 0 = Double.finite false 0 := by
    rw [Double.mul_finite, show (67108865 * 0 : ℚ) = 0 by norm_num]
    exact Double.round_zero _
  have t35 : Double.finite false 3 * Double.finite false 4503599761588225
      = Double.finite false 13510799284764676 := by
    rw [Double.mul_finite, show (3 * 4503599761588225 : ℚ) = 13510799284764675 by norm_num]
    exact Double.round_eq _ _ 53 6755399642382338 _ (by norm_num) (by norm_num) (by norm_num)
        (by rw [Double.roundHalfEven_tie _ 6755399642382337 (by norm_num)]; norm_num) (by norm_num)
        (by norm_num)
  have t36 : Double.finite false 0 * Double.finite false 4503599761588225 = Double.finite false 0
      := by
    rw [Double.mul_finite, show (0 * 4503599761588225 : ℚ) = 0 by norm_num]
    exact Double.round_zero _
  have t37 : Double.finite true 13510799284764676 + Double.finite false 13510799284764676
      = Double.finite false 0 := by
    rw [Double.add_finite_zero _ _ _ _ (by norm_num [Double.toRat])]
    rfl
  have t38 : Double.finite false 4503599761588225 * Double.finite false 67108865
      = Double.finite false 302231468414456377114624 := by
    rw [Double.mul_finite, show (4503599761588225 * 67108865 : ℚ)
        = 302231468414456377114625 by norm_num]
    exact Double.round_eq _ _ 78 4503599828697091 _ (by norm_num) (by norm_num) (by norm_num)
        (Double.roundHalfEven_of_lt _ _ (by norm_num) (by norm_num)) (by norm_num) (by norm_num)
  have t39 : Double.finite false 302231468414456377114624 - Double.finite false 0
      = Double.finite false 302231468414456377114624 := by
    rw [Double.sub_eq_add_neg, Double.neg_finite, Double.add_finite _ _ _ _ 302231468414456377114624
        (by norm_num [Double.toRat]) (by norm_num),
      Double.ofRat_of_pos _ (by norm_num)]
    exact Double.round_of_representable _ _ 4503599828697091 26 (by norm_num) (by norm_num)
        (by norm_num) (by norm_num)
  have t40 : Double.finite false 4503599761588225 * Double.finite false 0 = Double.finite false 0
      := by
    rw [Double.mul_finite, show (4503599761588225 * 0 : ℚ) = 0 by norm_num]
    exact Double.round_zero _
  have t41 : Double.finite true 402653190 * Double.finite true 402653190
      = Double.finite false 162129591417176096 := by
    rw [Double.mul_finite, show (402653190 * 402653190 : ℚ) = 162129591417176100 by norm_num]
    exact Double.round_eq _ _ 57 5066549731786753 _ (by norm_num) (by norm_num) (by norm_num)
        (Double.roundHalfEven_of_lt _ _ (by norm_num) (by norm_num)) (by norm_num) (by norm_num)
  have t42 : Double.finite true 0 * Double.finite true 0 = Double.finite false 0 := by
    rw [Double.mul_finite, show (0 * 0 : ℚ) = 0 by norm_num]
    exact Double.round_zero _
  have t43 : Double.finite false 162129591417176096 - Double.finite false 0
      = Double.finite false 162129591417176096 := by
    rw [Double.sub_eq_add_neg, Double.neg_finite, Double.add_finite _ _ _ _ 162129591417176096
        (by norm_num [Double.toRat]) (by norm_num),
      Double.ofRat_of_pos _ (by norm_num)]
    exact Double.round_of_representable _ _ 5066549731786753 5 (by norm_num) (by norm_num)
        (by norm_num) (by norm_num)
  have t44 : Double.finite true 402653190 * Double.finite true 0 = Double.finite false 0 := by
    rw [Double.mul_finite, show (402653190 * 0 : ℚ) = 0 by norm_num]
    exact Double.round_zero _
  have t45 : Double.finite true 0 * Double.finite true 402653190 = Double.finite false 0 := by
    rw [Double.mul_finite, show (0 * 402653190 : ℚ) = 0 by norm_num]
    exact Double.round_zero _
  have t46 : Double.finite false 4 * Double.finite false 3 = Double.finite false 12 := by
    rw [Double.mul_finite, show (4 * 3 : ℚ) = 12 by norm_num]
    exact Double.round_of_representable _ _ 3 2 (by norm_num) (by norm_num) (by norm_num)
        (by norm_num)
  have t47 : Double.finite false 4 * Double.finite false 0 = Double.finite false 0 := by
    rw [Double.mul_finite, show (4 * 0 : ℚ) = 0 by norm_num]
    exact Double.round_zero _
  have t48 : Double.finite false 12 * Double.finite false 13510799284764676
      = Double.finite false 162129591417176128 := by
    rw [Double.mul_finite, show (12 * 13510799284764676 : ℚ) = 162129591417176112 by norm_num]
    exact Double.round_eq _ _ 57 5066549731786754 _ (by norm_num) (by norm_num) (by norm_num)
        (by rw [Double.roundHalfEven_tie _ 5066549731786753 (by norm_num)]; norm_num) (by norm_num)
        (by norm_num)
  have t49 : Double.finite false 162129591417176128 - Double.finite false 0
      = Double.finite false 162129591417176128 := by
    rw [Double.sub_eq_add_neg, Double.neg_finite, Double.add_finite _ _ _ _ 162129591417176128
        (by norm_num [Double.toRat]) (by norm_num),
      Double.ofRat_of_pos _ (by norm_num)]
    exact Double.round_of_representable _ _ 2533274865893377 6 (by norm_num) (by norm_num)
        (by norm_num) (by norm_num)
  have t50 : Double.finite false 12 * Double.finite false 0 = Double.finite false 0 := by
    rw [Double.mul_finite, show (12 * 0 : ℚ) = 0 by norm_num]
    exact Double.round_zero _
  have t51 : Double.finite false 0 * Double.finite false 13510799284764676 = Double.finite false 0
      := by
    rw [Double.mul_finite, show (0 * 13510799284764676 : ℚ) = 0 by norm_num]
    exact Double.round_zero _
  have t52 : Double.finite false 162129591417176096 - Double.finite false 162129591417176128
      = Double.finite true 32 := by
    rw [Double.sub_eq_add_neg, Double.neg_finite, Double.add_finite _ _ _ _ (-32)
        (by norm_num [Double.toRat]) (by norm_num),
      Double.ofRat_of_neg _ 32 (by norm_num) (by norm_num)]
    exact Double.round_of_representable _ _ 1 5 (by norm_num) (by norm_num) (by norm_num)
        (by norm_num)
  have t53 : Double.finite false 0 - Double.finite false 0 = Double.finite false 0 := by
    rw [Double.sub_eq_add_neg, Double.neg_finite, Double.add_finite_zero _ _ _ _
        (by norm_num [Double.toRat])]
    rfl
  have t54 : Double.finite false 67108865 - Double.finite false 67108865 = Double.finite false 0
      := by
    rw [Double.sub_eq_add_neg, Double.neg_finite, Double.add_finite_zero _ _ _ _
        (by norm_num [Double.toRat])]
    rfl
  have t55 : Double.finite true 2 * Double.finite false 3 = Double.finite true 6 := by
    rw [Double.mul_finite, show (2 * 3 : ℚ) = 6 by norm_num]
    exact Double.round_of_representable _ _ 3 1 (by norm_num) (by norm_num) (by norm_num)
        (by norm_num)
  have t56 : Double.finite true 2 * Double.finite false 0 = Double.finite true 0 := by
    rw [Double.mul_finite, show (2 * 0 : ℚ) = 0 by norm_num]
    exact Double.round_zero _
  have t57 : Double.finite true 6 * Double.finite false 67108865 = Double.finite true 402653190
      := by
    rw [Double.mul_finite, show (6 * 67108865 : ℚ) = 402653190 by norm_num]
    exact Double.round_of_representable _ _ 201326595 1 (by norm_num) (by norm_num) (by norm_num)
        (by norm_num)
  have t58 : Double.finite true 6 * Double.finite false 0 = Double.finite true 0 := by
    rw [Double.mul_finite, show (6 * 0 : ℚ) = 0 by norm_num]
    exact Double.round_zero _
  have hzM : ¬ Binary64.IsZero (⟨Double.finite false 3, Double.finite false 0⟩ : Binary64.complex)
      := by
    unfold Binary64.IsZero
    simp only [TOLERANCE_eq, Double.fabs_finite]
    intro hz
    exact absurd ((Double.lt_finite _ _ _ _).mp hz.1) (by norm_num [Double.toRat])
  have hzr : ¬ Binary64.IsZero (⟨Double.finite true 32, Double.finite false 0⟩ : Binary64.complex)
      := by
    unfold Binary64.IsZero
    simp only [TOLERANCE_eq, Double.fabs_finite]
    intro hz
    exact absurd ((Double.lt_finite _ _ _ _).mp hz.1) (by norm_num [Double.toRat])
  have hzs : Binary64.IsZero (⟨Double.finite false 0, Double.finite false 0⟩ : Binary64.complex)
      := by
    unfold Binary64.IsZero
    simp only [TOLERANCE_eq, Double.fabs_finite]
    exact ⟨(Double.lt_finite _ _ _ _).mpr (by norm_num [Double.toRat]),
      (Double.lt_finite _ _ _ _).mpr (by norm_num [Double.toRat])⟩
  have hzd : Binary64.IsZero (⟨Double.finite false 0, Double.finite false 0⟩ : Binary64.complex)
      := by
    unfold Binary64.IsZero
    simp only [TOLERANCE_eq, Double.fabs_finite]
    exact ⟨(Double.lt_finite _ _ _ _).mpr (by norm_num [Double.toRat]),
      (Double.lt_finite _ _ _ _).mpr (by norm_num [Double.toRat])⟩
  have hcount : ∀ (quotient : Binary64.complex → Binary64.complex → Binary64.complex)
      (sqrt : Binary64.complex → Binary64.complex),
      (Binary64.SolveQuadraticEquation quotient sqrt
          (Binary64.complex.ofReal (Double.finite false 3))
        (-(Binary64.complex.ofReal (Double.finite false 3)) *
            ((Binary64.complex.ofReal (Double.finite false 67108865)) +
            (Binary64.complex.ofReal (Double.finite false 67108865))))
        ((Binary64.complex.ofReal (Double.finite false 3)) *
            (Binary64.complex.ofReal (Double.finite false 67108865)) *
            (Binary64.complex.ofReal (Double.finite false 67108865)))).1 = 2 := by
    intro quotient sqrt
    unfold Binary64.SolveQuadraticEquation
    simp only [Binary64.complex.ofReal, Binary64.complex.scale, complex_mul_def, complex_sub_def,
      complex_add_def, complex_neg_def, t1, t2, t3, t4, t5, t6, t7, t8, t9, t10, t11, t12, t13, t14,
          t15, t16, t17, t18, t19, t20, t21, t22, t23, t24, t25, t26, t27, t28, t29, t30, t31, t32,
          t33, t34, t35, t36, t37, t38, t39, t40, t41, t42, t43, t44, t45, t46, t47, t48, t49, t50,
          t51, t52, t53, t54, t55, t56, t57, t58]
    rw [if_neg hzM, if_neg hzr]
  refine ⟨hzM, hcount, ?_, ?_⟩
  · intro quotient sqrt
    unfold Binary64.SolveQuadraticEquation
    simp only [Binary64.complex.ofReal, Binary64.complex.scale, complex_mul_def, complex_sub_def,
      complex_add_def, complex_neg_def, t1, t2, t3, t4, t5, t6, t7, t8, t9, t10, t11, t12, t13, t14,
          t15, t16, t17, t18, t19, t20, t21, t22, t23, t24, t25, t26, t27, t28, t29, t30, t31, t32,
          t33, t34, t35, t36, t37, t38, t39, t40, t41, t42, t43, t44, t45, t46, t47, t48, t49, t50,
          t51, t52, t53, t54, t55, t56, t57, t58]
    rw [if_neg hzM, if_neg hzr]
  · intro quotient sqrt
    apply TestKnownQuadraticRoots_wrong_count
    · rw [ValidatePolynomial_loop_three]
      simp only [Binary64.complex.ofReal, Binary64.complex.scale, complex_mul_def, complex_sub_def,
      complex_add_def, complex_neg_def, t1, t2, t3, t4, t5, t6, t7, t8, t9, t10, t11, t12, t13, t14,
          t15, t16, t17, t18, t19, t20, t21, t22, t23, t24, t25, t26, t27, t28, t29, t30, t31, t32,
          t33, t34, t35, t36, t37, t38, t39, t40, t41, t42, t43, t44, t45, t46, t47, t48, t49, t50,
          t51, t52, t53, t54, t55, t56, t57, t58,
        if_true, if_false, one_ne_zero, OfNat.ofNat_ne_zero, OfNat.ofNat_ne_one]
      exact hzs
    · rw [ValidatePolynomial_loop_three]
      simp only [Binary64.complex.ofReal, Binary64.complex.scale, complex_mul_def, complex_sub_def,
      complex_add_def, complex_neg_def, t1, t2, t3, t4, t5, t6, t7, t8, t9, t10, t11, t12, t13, t14,
          t15, t16, t17, t18, t19, t20, t21, t22, t23, t24, t25, t26, t27, t28, t29, t30, t31, t32,
          t33, t34, t35, t36, t37, t38, t39, t40, t41, t42, t43, t44, t45, t46, t47, t48, t49, t50,
          t51, t52, t53, t54, t55, t56, t57, t58,
        if_true, if_false, one_ne_zero, OfNat.ofNat_ne_zero, OfNat.ofNat_ne_one]
      exact hzs
    · rw [hcount quotient sqrt]
      have hd : Binary64.IsZero
          ((Binary64.complex.ofReal (Double.finite false 67108865)) -
          (Binary64.complex.ofReal (Double.finite false 67108865))) := by
        simp only
            [Binary64.complex.ofReal, Binary64.complex.scale, complex_mul_def, complex_sub_def,
      complex_add_def, complex_neg_def, t1, t2, t3, t4, t5, t6, t7, t8, t9, t10, t11, t12, t13, t14,
          t15, t16, t17, t18, t19, t20, t21, t22, t23, t24, t25, t26, t27, t28, t29, t30, t31, t32,
          t33, t34, t35, t36, t37, t38, t39, t40, t41, t42, t43, t44, t45, t46, t47, t48, t49, t50,
          t51, t52, t53, t54, t55, t56, t57, t58]
        exact hzd
      rw [if_pos hd]
      norm_num

/-- C7 (failing input): `TestKnownQuadraticRoots(1, 1e-5, 0)` on `double`.  The literal
`1e-5` is the `double` nearest to `1/100000`.  Both calls of `ValidatePolynomial` pass.
`K - L = 1e-5` is not ≈0, so the test expects 2 roots; the solver tests the radicand
`b*b - 4ac`, which is about `1e-10` and is ≈0, and returns 1 root, whatever the library's
quotient and square root return.  The test throws. -/
theorem TestKnownQuadraticRoots_throws :
    Double.ofRat (1 / 100000) = Double.finite false (5902958103587057 / 590295810358705651712) ∧
    ¬ Binary64.IsZero
        ((Binary64.complex.ofReal (Double.ofRat (1 / 100000))) -
        (Binary64.complex.ofReal (Double.finite false 0))) ∧
    (∀ (quotient : Binary64.complex → Binary64.complex → Binary64.complex)
      (sqrt : Binary64.complex → Binary64.complex),
      (Binary64.SolveQuadraticEquation quotient sqrt
          (Binary64.complex.ofReal (Double.finite false 1))
        (-(Binary64.complex.ofReal (Double.finite false 1)) *
            ((Binary64.complex.ofReal (Double.ofRat (1 / 100000))) +
            (Binary64.complex.ofReal (Double.finite false 0))))
        ((Binary64.complex.ofReal (Double.finite false 1)) *
            (Binary64.complex.ofReal (Double.ofRat (1 / 100000))) *
            (Binary64.complex.ofReal (Double.finite false 0)))).1 = 1) ∧
    (∀ (quotient : Binary64.complex → Binary64.complex → Binary64.complex)
      (sqrt : Binary64.complex → Binary64.complex),
      Binary64.TestKnownQuadraticRoots quotient sqrt
          (Binary64.complex.ofReal (Double.finite false 1))
          (Binary64.complex.ofReal (Double.ofRat (1 / 100000)))
          (Binary64.complex.ofReal (Double.finite false 0))
        = .error "Wrong number of roots found.") := by
  have k1 : Double.ofRat (1 / 100000) = Double.finite false
      (5902958103587057 / 590295810358705651712) := by
    rw [Double.ofRat_of_pos _ (by norm_num)]
    exact Double.round_eq _ _ (-17) 5902958103587057 _ (by norm_num) (by norm_num) (by norm_num)
        (Double.roundHalfEven_of_lt _ _ (by norm_num) (by norm_num)) (by norm_num) (by norm_num)
  have k2 : -(Double.finite false 1) = Double.finite true 1 := rfl
  have k3 : -(Double.finite false 0) = Double.finite true 0 := rfl
  have k4 : Double.finite false (5902958103587057 / 590295810358705651712) + Double.finite false 0
      = Double.finite false (5902958103587057 / 590295810358705651712) := by
    rw [Double.add_finite _ _ _ _ (5902958103587057 / 590295810358705651712)
        (by norm_num [Double.toRat]) (by norm_num),
      Double.ofRat_of_pos _ (by norm_num)]
    exact Double.round_of_representable _ _ 5902958103587057 (-69) (by norm_num) (by norm_num)
        (by norm_num) (by norm_num)
  have k5 : Double.finite false 0 + Double.finite false 0 = Double.finite false 0 := by
    rw [Double.add_finite_zero _ _ _ _ (by norm_num [Double.toRat])]
    rfl
  have k6 : Double.finite true 1 * Double.finite false (5902958103587057 / 590295810358705651712)
      = Double.finite true (5902958103587057 / 590295810358705651712) := by
    rw [Double.mul_finite, show (1 * (5902958103587057 / 590295810358705651712) : ℚ)
        = 5902958103587057 / 590295810358705651712 by norm_num]
    exact Double.round_of_representable _ _ 5902958103587057 (-69) (by norm_num) (by norm_num)
        (by norm_num) (by norm_num)
  have k7 : Double.finite true 0 * Double.finite false 0 = Double.finite true 0 := by
    rw [Double.mul_finite, show (0 * 0 : ℚ) = 0 by norm_num]
    exact Double.round_zero _
  have k8 : Double.finite true (5902958103587057 / 590295810358705651712) - Double.finite true 0
      = Double.finite true (5902958103587057 / 590295810358705651712) := by
    rw [Double.sub_eq_add_neg, Double.neg_finite, Double.add_finite _ _ _ _
        (-(5902958103587057 / 590295810358705651712)) (by norm_num [Double.toRat]) (by norm_num),
      Double.ofRat_of_neg _ (5902958103587057 / 590295810358705651712) (by norm_num) (by norm_num)]
    exact Double.round_of_representable _ _ 5902958103587057 (-69) (by norm_num) (by norm_num)
        (by norm_num) (by norm_num)
  have k9 : Double.finite true 1 * Double.finite false 0 = Double.finite true 0 := by
    rw [Double.mul_finite, show (1 * 0 : ℚ) = 0 by norm_num]
    exact Double.round_zero _
  have k10 : Double.finite true 0 * Double.finite false (5902958103587057 / 590295810358705651712)
      = Double.finite true 0 := by
    rw [Double.mul_finite, show (0 * (5902958103587057 / 590295810358705651712) : ℚ)
        = 0 by norm_num]
    exact Double.round_zero _
  have k11 : Double.finite true 0 + Double.finite true 0 = Double.finite true 0 := by
    rw [Double.add_finite_zero _ _ _ _ (by norm_num [Double.toRat])]
    rfl
  have k12 : Double.finite false 1 * Double.finite false (5902958103587057 / 590295810358705651712)
      = Double.finite false (5902958103587057 / 590295810358705651712) := by
    rw [Double.mul_finite, show (1 * (5902958103587057 / 590295810358705651712) : ℚ)
        = 5902958103587057 / 590295810358705651712 by norm_num]
    exact Double.round_of_representable _ _ 5902958103587057 (-69) (by norm_num) (by norm_num)
        (by norm_num) (by norm_num)
  have k13 : Double.finite false 0 * Double.finite false 0 = Double.finite false 0 := by
    rw [Double.mul_finite, show (0 * 0 : ℚ) = 0 by norm_num]
    exact Double.round_zero _
  have k14 : Double.finite false (5902958103587057 / 590295810358705651712) - Double.finite false 0
      = Double.finite false (5902958103587057 / 590295810358705651712) := by
    rw [Double.sub_eq_add_neg, Double.neg_finite, Double.add_finite _ _ _ _
        (5902958103587057 / 590295810358705651712) (by norm_num [Double.toRat]) (by norm_num),
      Double.ofRat_of_pos _ (by norm_num)]
    exact Double.round_of_representable _ _ 5902958103587057 (-69) (by norm_num) (by norm_num)
        (by norm_num) (by norm_num)
  have k15 : Double.finite false 1 * Double.finite false 0 = Double.finite false 0 := by
    rw [Double.mul_finite, show (1 * 0 : ℚ) = 0 by norm_num]
    exact Double.round_zero _
  have k16 : Double.finite false 0 * Double.finite false (5902958103587057 / 590295810358705651712)
      = Double.finite false 0 := by
    rw [Double.mul_finite, show (0 * (5902958103587057 / 590295810358705651712) : ℚ)
        = 0 by norm_num]
    exact Double.round_zero _
  have k17 : Double.finite false (5902958103587057 / 590295810358705651712) * Double.finite false 0
      = Double.finite false 0 := by
    rw [Double.mul_finite, show ((5902958103587057 / 590295810358705651712) * 0 : ℚ)
        = 0 by norm_num]
    exact Double.round_zero _
  have k18 : Double.finite false 0 - Double.finite false 0 = Double.finite false 0 := by
    rw [Double.sub_eq_add_neg, Double.neg_finite, Double.add_finite_zero _ _ _ _
        (by norm_num [Double.toRat])]
    rfl
  have k19 : Double.finite false 0 * Double.finite false 1 = Double.finite false 0 := by
    rw [Double.mul_finite, show (0 * 1 : ℚ) = 0 by norm_num]
    exact Double.round_zero _
  have k20 : Double.finite true (5902958103587057 / 590295810358705651712) * Double.finite false
      (5902958103587057 / 590295810358705651712) = Double.finite true
      (1934281311383407 / 19342813113834066795298816) := by
    rw [Double.mul_finite, show
        ((5902958103587057 / 590295810358705651712) *
        (5902958103587057 / 590295810358705651712) : ℚ)
        = 34844914372704104359490377921249 / 348449143727040986586495598010130648530944 by norm_num]
    exact Double.round_eq _ _ (-34) 7737125245533628 _ (by norm_num) (by norm_num) (by norm_num)
        (Double.roundHalfEven_of_lt _ _ (by norm_num) (by norm_num)) (by norm_num) (by norm_num)
  have k21 : Double.finite true
      (1934281311383407 / 19342813113834066795298816) - Double.finite true 0 = Double.finite true
      (1934281311383407 / 19342813113834066795298816) := by
    rw [Double.sub_eq_add_neg, Double.neg_finite, Double.add_finite _ _ _ _
        (-(1934281311383407 / 19342813113834066795298816)) (by norm_num [Double.toRat])
        (by norm_num),
      Double.ofRat_of_neg _ (1934281311383407 / 19342813113834066795298816) (by norm_num)
          (by norm_num)]
    exact Double.round_of_representable _ _ 1934281311383407 (-84) (by norm_num) (by norm_num)
        (by norm_num) (by norm_num)
  have k22 : Double.finite true (5902958103587057 / 590295810358705651712) * Double.finite false 0
      = Double.finite true 0 := by
    rw [Double.mul_finite, show ((5902958103587057 / 590295810358705651712) * 0 : ℚ)
        = 0 by norm_num]
    exact Double.round_zero _
  have k23 : Double.finite false 0 + Double.finite true
      (1934281311383407 / 19342813113834066795298816) = Double.finite true
      (1934281311383407 / 19342813113834066795298816) := by
    rw [Double.add_finite _ _ _ _ (-(1934281311383407 / 19342813113834066795298816))
        (by norm_num [Double.toRat]) (by norm_num),
      Double.ofRat_of_neg _ (1934281311383407 / 19342813113834066795298816) (by norm_num)
          (by norm_num)]
    exact Double.round_of_representable _ _ 1934281311383407 (-84) (by norm_num) (by norm_num)
        (by norm_num) (by norm_num)
  have k24 : Double.finite false 0 + Double.finite true 0 = Double.finite false 0 := by
    rw [Double.add_finite_zero _ _ _ _ (by norm_num [Double.toRat])]
    rfl
  have k25 : Double.finite false (5902958103587057 / 590295810358705651712) * Double.finite false
      (5902958103587057 / 590295810358705651712) = Double.finite false
      (1934281311383407 / 19342813113834066795298816) := by
    rw [Double.mul_finite, show
        ((5902958103587057 / 590295810358705651712) *
        (5902958103587057 / 590295810358705651712) : ℚ)
        = 34844914372704104359490377921249 / 348449143727040986586495598010130648530944 by norm_num]
    exact Double.round_eq _ _ (-34) 7737125245533628 _ (by norm_num) (by norm_num) (by norm_num)
        (Double.roundHalfEven_of_lt _ _ (by norm_num) (by norm_num)) (by norm_num) (by norm_num)
  have k26 : Double.finite false
      (1934281311383407 / 19342813113834066795298816) - Double.finite false 0 = Double.finite false
      (1934281311383407 / 19342813113834066795298816) := by
    rw [Double.sub_eq_add_neg, Double.neg_finite, Double.add_finite _ _ _ _
        (1934281311383407 / 19342813113834066795298816) (by norm_num [Double.toRat]) (by norm_num),
      Double.ofRat_of_pos _ (by norm_num)]
    exact Double.round_of_representable _ _ 1934281311383407 (-84) (by norm_num) (by norm_num)
        (by norm_num) (by norm_num)
  have k27 : Double.finite false 1 * Double.finite false
      (1934281311383407 / 19342813113834066795298816) = Double.finite false
      (1934281311383407 / 19342813113834066795298816) := by
    rw [Double.mul_finite, show (1 * (1934281311383407 / 19342813113834066795298816) : ℚ)
        = 1934281311383407 / 19342813113834066795298816 by norm_num]
    exact Double.round_of_representable _ _ 1934281311383407 (-84) (by norm_num) (by norm_num)
        (by norm_num) (by norm_num)
  have k28 : Double.finite false 0 * Double.finite false
      (1934281311383407 / 19342813113834066795298816) = Double.finite false 0 := by
    rw [Double.mul_finite, show (0 * (1934281311383407 / 19342813113834066795298816) : ℚ)
        = 0 by norm_num]
    exact Double.round_zero _
  have k29 : Double.finite true
      (1934281311383407 / 19342813113834066795298816) + Double.finite false
      (1934281311383407 / 19342813113834066795298816) = Double.finite false 0 := by
    rw [Double.add_finite_zero _ _ _ _ (by norm_num [Double.toRat])]
    rfl
  have k30 : Double.finite true 0 - Double.finite true 0 = Double.finite false 0 := by
    rw [Double.sub_eq_add_neg, Double.neg_finite, Double.add_finite_zero _ _ _ _
        (by norm_num [Double.toRat])]
    rfl
  have k31 : Double.finite true (5902958103587057 / 590295810358705651712) * Double.finite true
      (5902958103587057 / 590295810358705651712) = Double.finite false
      (1934281311383407 / 19342813113834066795298816) := by
    rw [Double.mul_finite, show
        ((5902958103587057 / 590295810358705651712) *
        (5902958103587057 / 590295810358705651712) : ℚ)
        = 34844914372704104359490377921249 / 348449143727040986586495598010130648530944 by norm_num]
    exact Double.round_eq _ _ (-34) 7737125245533628 _ (by norm_num) (by norm_num) (by norm_num)
        (Double.roundHalfEven_of_lt _ _ (by norm_num) (by norm_num)) (by norm_num) (by norm_num)
  have k32 : Double.finite true 0 * Double.finite true 0 = Double.finite false 0 := by
    rw [Double.mul_finite, show (0 * 0 : ℚ) = 0 by norm_num]
    exact Double.round_zero _
  have k33 : Double.finite true (5902958103587057 / 590295810358705651712) * Double.finite true 0
      = Double.finite false 0 := by
    rw [Double.mul_finite, show ((5902958103587057 / 590295810358705651712) * 0 : ℚ)
        = 0 by norm_num]
    exact Double.round_zero _
  have k34 : Double.finite true 0 * Double.finite true (5902958103587057 / 590295810358705651712)
      = Double.finite false 0 := by
    rw [Double.mul_finite, show (0 * (5902958103587057 / 590295810358705651712) : ℚ)
        = 0 by norm_num]
    exact Double.round_zero _
  have k35 : Double.finite false 4 * Double.finite false 1 = Double.finite false 4 := by
    rw [Double.mul_finite, show (4 * 1 : ℚ) = 4 by norm_num]
    exact Double.round_of_representable _ _ 1 2 (by norm_num) (by norm_num) (by norm_num)
        (by norm_num)
  have k36 : Double.finite false 4 * Double.finite false 0 = Double.finite false 0 := by
    rw [Double.mul_finite, show (4 * 0 : ℚ) = 0 by norm_num]
    exact Double.round_zero _
  have hzM : ¬ Binary64.IsZero (⟨Double.finite false 1, Double.finite false 0⟩ : Binary64.complex)
      := by
    unfold Binary64.IsZero
    simp only [TOLERANCE_eq, Double.fabs_finite]
    intro hz
    exact absurd ((Double.lt_finite _ _ _ _).mp hz.1) (by norm_num [Double.toRat])
  have hzr : Binary64.IsZero
      (⟨Double.finite false (1934281311383407 / 19342813113834066795298816), Double.finite false 0⟩
      : Binary64.complex) := by
    unfold Binary64.IsZero
    simp only [TOLERANCE_eq, Double.fabs_finite]
    exact ⟨(Double.lt_finite _ _ _ _).mpr (by norm_num [Double.toRat]),
      (Double.lt_finite _ _ _ _).mpr (by norm_num [Double.toRat])⟩
  have hzK : Binary64.IsZero (⟨Double.finite false 0, Double.finite false 0⟩ : Binary64.complex)
      := by
    unfold Binary64.IsZero
    simp only [TOLERANCE_eq, Double.fabs_finite]
    exact ⟨(Double.lt_finite _ _ _ _).mpr (by norm_num [Double.toRat]),
      (Double.lt_finite _ _ _ _).mpr (by norm_num [Double.toRat])⟩
  have hzL : Binary64.IsZero (⟨Double.finite false 0, Double.finite false 0⟩ : Binary64.complex)
      := by
    unfold Binary64.IsZero
    simp only [TOLERANCE_eq, Double.fabs_finite]
    exact ⟨(Double.lt_finite _ _ _ _).mpr (by norm_num [Double.toRat]),
      (Double.lt_finite _ _ _ _).mpr (by norm_num [Double.toRat])⟩
  have hzd : ¬ Binary64.IsZero
      (⟨Double.finite false (5902958103587057 / 590295810358705651712), Double.finite false 0⟩ :
      Binary64.complex) := by
    unfold Binary64.IsZero
    simp only [TOLERANCE_eq, Double.fabs_finite]
    intro hz
    exact absurd ((Double.lt_finite _ _ _ _).mp hz.1) (by norm_num [Double.toRat])
  have hd : ¬ Binary64.IsZero
      ((Binary64.complex.ofReal (Double.ofRat (1 / 100000))) -
      (Binary64.complex.ofReal (Double.finite false 0))) := by
    simp only [Binary64.complex.ofReal, Binary64.complex.scale, complex_mul_def, complex_sub_def,
      complex_add_def, complex_neg_def, k1, k2, k3, k4, k5, k6, k7, k8, k9, k10, k11, k12, k13, k14,
          k15, k16, k17, k18, k19, k20, k21, k22, k23, k24, k25, k26, k27, k28, k29, k30, k31, k32,
          k33, k34, k35, k36]
    exact hzd
  have hcount : ∀ (quotient : Binary64.complex → Binary64.complex → Binary64.complex)
      (sqrt : Binary64.complex → Binary64.complex),
      (Binary64.SolveQuadraticEquation quotient sqrt
          (Binary64.complex.ofReal (Double.finite false 1))
        (-(Binary64.complex.ofReal (Double.finite false 1)) *
            ((Binary64.complex.ofReal (Double.ofRat (1 / 100000))) +
            (Binary64.complex.ofReal (Double.finite false 0))))
        ((Binary64.complex.ofReal (Double.finite false 1)) *
            (Binary64.complex.ofReal (Double.ofRat (1 / 100000))) *
            (Binary64.complex.ofReal (Double.finite false 0)))).1 = 1 := by
    intro quotient sqrt
    unfold Binary64.SolveQuadraticEquation
    simp only [Binary64.complex.ofReal, Binary64.complex.scale, complex_mul_def, complex_sub_def,
      complex_add_def, complex_neg_def, k1, k2, k3, k4, k5, k6, k7, k8, k9, k10, k11, k12, k13, k14,
          k15, k16, k17, k18, k19, k20, k21, k22, k23, k24, k25, k26, k27, k28, k29, k30, k31, k32,
          k33, k34, k35, k36]
    rw [if_neg hzM, if_pos hzr]
  refine ⟨k1, hd, hcount, ?_⟩
  intro quotient sqrt
  apply TestKnownQuadraticRoots_wrong_count
  · rw [ValidatePolynomial_loop_three]
    simp only [Binary64.complex.ofReal, Binary64.complex.scale, complex_mul_def, complex_sub_def,
      complex_add_def, complex_neg_def, k1, k2, k3, k4, k5, k6, k7, k8, k9, k10, k11, k12, k13, k14,
          k15, k16, k17, k18, k19, k20, k21, k22, k23, k24, k25, k26, k27, k28, k29, k30, k31, k32,
          k33, k34, k35, k36,
      if_true, if_false, one_ne_zero, OfNat.ofNat_ne_zero, OfNat.ofNat_ne_one]
    exact hzK
  · rw [ValidatePolynomial_loop_three]
    simp only [Binary64.complex.ofReal, Binary64.complex.scale, complex_mul_def, complex_sub_def,
      complex_add_def, complex_neg_def, k1, k2, k3, k4, k5, k6, k7, k8, k9, k10, k11, k12, k13, k14,
          k15, k16, k17, k18, k19, k20, k21, k22, k23, k24, k25, k26, k27, k28, k29, k30, k31, k32,
          k33, k34, k35, k36,
      if_true, if_false, one_ne_zero, OfNat.ofNat_ne_zero, OfNat.ofNat_ne_one]
    exact hzL
  · rw [hcount quotient sqrt, if_neg hd]
    norm_num

/-- C38 (failing input): `a = 1`, `b = 100000001`, `c = 2500000050000000`, the polynomial
`(x + 50000000)(x + 50000001)`, with `|a| ≥ 1e-8` and the discriminant 1.  On `double` the
radicand `b*b - 4ac` is computed as 0, the complex solver returns one root and the
real-valued overload at most one, whatever the library's quotient and square root return.
The self-test of the repository on this polynomial, `TestKnownQuadraticRoots(1, -50000000,
-50000001)`, builds the same coefficients, passes both calls of `ValidatePolynomial`,
expects 2 roots because `K - L = 1` is not ≈0, and throws. -/
theorem SolveQuadraticEquation_real_rounded :
    ((1 / 100000000 : ℚ) ≤ |(1 : ℚ)| ∧
    (1 / 100000000 : ℚ) ≤ 100000001 * 100000001 - 4 * 1 * 2500000050000000 ∧
    (∀ (quotient : Binary64.complex → Binary64.complex → Binary64.complex)
      (sqrt : Binary64.complex → Binary64.complex),
      (Binary64.SolveQuadraticEquation quotient sqrt
        (Binary64.complex.ofReal (Double.finite false 1))
        (Binary64.complex.ofReal (Double.finite false 100000001))
        (Binary64.complex.ofReal (Double.finite false 2500000050000000))).1 = 1) ∧
    (∀ (quotient : Binary64.complex → Binary64.complex → Binary64.complex)
      (sqrt : Binary64.complex → Binary64.complex) (roots : ℕ → Double),
      (Binary64.SolveQuadraticEquation_real quotient sqrt (Double.finite false 1)
        (Double.finite false 100000001) (Double.finite false 2500000050000000) roots).1
        ≤ 1)) ∧
    (∀ (quotient : Binary64.complex → Binary64.complex → Binary64.complex)
      (sqrt : Binary64.complex → Binary64.complex),
      Binary64.TestKnownQuadraticRoots quotient sqrt
          (Binary64.complex.ofReal (Double.finite false 1))
        (Binary64.complex.ofReal (Double.finite true 50000000))
        (Binary64.complex.ofReal (Double.finite true 50000001))
        = .error "Wrong number of roots found.") := by
  constructor
  · have p1 : Double.finite false 100000001 * Double.finite false 100000001
      = Double.finite false 10000000200000000 := by
      rw [Double.mul_finite, show (100000001 * 100000001 : ℚ) = 10000000200000001 by norm_num]
      exact Double.round_eq _ _ 53 5000000100000000 _ (by norm_num) (by norm_num) (by norm_num)
          (by rw [Double.roundHalfEven_tie _ 5000000100000000 (by norm_num)]; norm_num)
          (by norm_num) (by norm_num)
    have p2 : Double.finite false 0 * Double.finite false 0 = Double.finite false 0 := by
      rw [Double.mul_finite, show (0 * 0 : ℚ) = 0 by norm_num]
      exact Double.round_zero _
    have p3 : Double.finite false 10000000200000000 - Double.finite false 0
        = Double.finite false 10000000200000000 := by
      rw [Double.sub_eq_add_neg, Double.neg_finite, Double.add_finite _ _ _ _ 10000000200000000
          (by norm_num [Double.toRat]) (by norm_num),
        Double.ofRat_of_pos _ (by norm_num)]
      exact Double.round_of_representable _ _ 19531250390625 9 (by norm_num) (by norm_num)
          (by norm_num) (by norm_num)
    have p4 : Double.finite false 100000001 * Double.finite false 0 = Double.finite false 0 := by
      rw [Double.mul_finite, show (100000001 * 0 : ℚ) = 0 by norm_num]
      exact Double.round_zero _
    have p5 : Double.finite false 0 * Double.finite false 100000001 = Double.finite false 0 := by
      rw [Double.mul_finite, show (0 * 100000001 : ℚ) = 0 by norm_num]
      exact Double.round_zero _
    have p6 : Double.finite false 0 + Double.finite false 0 = Double.finite false 0 := by
      rw [Double.add_finite_zero _ _ _ _ (by norm_num [Double.toRat])]
      rfl
    have p7 : Double.finite false 4 * Double.finite false 1 = Double.finite false 4 := by
      rw [Double.mul_finite, show (4 * 1 : ℚ) = 4 by norm_num]
      exact Double.round_of_representable _ _ 1 2 (by norm_num) (by norm_num) (by norm_num)
          (by norm_num)
    have p8 : Double.finite false 4 * Double.finite false 0 = Double.finite false 0 := by
      rw [Double.mul_finite, show (4 * 0 : ℚ) = 0 by norm_num]
      exact Double.round_zero _
    have p9 : Double.finite false 4 * Double.finite false 2500000050000000
        = Double.finite false 10000000200000000 := by
      rw [Double.mul_finite, show (4 * 2500000050000000 : ℚ) = 10000000200000000 by norm_num]
      exact Double.round_of_representable _ _ 19531250390625 9 (by norm_num) (by norm_num)
          (by norm_num) (by norm_num)
    have p10 : Double.finite false 0 * Double.finite false 2500000050000000 = Double.finite false 0
        := by
      rw [Double.mul_finite, show (0 * 2500000050000000 : ℚ) = 0 by norm_num]
      exact Double.round_zero _
    have p11 : Double.finite false 10000000200000000 - Double.finite false 10000000200000000
        = Double.finite false 0 := by
      rw [Double.sub_eq_add_neg, Double.neg_finite, Double.add_finite_zero _ _ _ _
          (by norm_num [Double.toRat])]
      rfl
    have p12 : Double.finite false 0 - Double.finite false 0 = Double.finite false 0 := by
      rw [Double.sub_eq_add_neg, Double.neg_finite, Double.add_finite_zero _ _ _ _
          (by norm_num [Double.toRat])]
      rfl
    have hza : ¬ Binary64.IsZero (⟨Double.finite false 1, Double.finite false 0⟩ : Binary64.complex)
        := by
      unfold Binary64.IsZero
      simp only [TOLERANCE_eq, Double.fabs_finite]
      intro hz
      exact absurd ((Double.lt_finite _ _ _ _).mp hz.1) (by norm_num [Double.toRat])
    have hzr : Binary64.IsZero (⟨Double.finite false 0, Double.finite false 0⟩ : Binary64.complex)
        := by
      unfold Binary64.IsZero
      simp only [TOLERANCE_eq, Double.fabs_finite]
      exact ⟨(Double.lt_finite _ _ _ _).mpr (by norm_num [Double.toRat]),
        (Double.lt_finite _ _ _ _).mpr (by norm_num [Double.toRat])⟩
    have hcount : ∀ (quotient : Binary64.complex → Binary64.complex → Binary64.complex)
        (sqrt : Binary64.complex → Binary64.complex),
        (Binary64.SolveQuadraticEquation quotient sqrt
          (Binary64.complex.ofReal (Double.finite false 1))
          (Binary64.complex.ofReal (Double.finite false 100000001))
          (Binary64.complex.ofReal (Double.finite false 2500000050000000))).1 = 1 := by
      intro quotient sqrt
      unfold Binary64.SolveQuadraticEquation
      simp only [Binary64.complex.ofReal, Binary64.complex.scale, complex_mul_def, complex_sub_def,
        p1, p2, p3, p4, p5, p6, p7, p8, p9, p10, p11, p12]
      rw [if_neg hza, if_pos hzr]
    refine ⟨by norm_num, by norm_num, hcount, ?_⟩
    intro quotient sqrt roots
    have h := SolveQuadraticEquation_real_le quotient sqrt (Double.finite false 1)
      (Double.finite false 100000001) (Double.finite false 2500000050000000) roots
    rw [hcount quotient sqrt] at h
    exact h
  · have w1 : -(Double.finite false 1) = Double.finite true 1 := rfl
    have w2 : -(Double.finite false 0) = Double.finite true 0 := rfl
    have w3 : Double.finite true 50000000 + Double.finite true 50000001
        = Double.finite true 100000001 := by
      rw [Double.add_finite _ _ _ _ (-100000001) (by norm_num [Double.toRat]) (by norm_num),
        Double.ofRat_of_neg _ 100000001 (by norm_num) (by norm_num)]
      exact Double.round_of_representable _ _ 100000001 0 (by norm_num) (by norm_num) (by norm_num)
          (by norm_num)
    have w4 : Double.finite false 0 + Double.finite false 0 = Double.finite false 0 := by
      rw [Double.add_finite_zero _ _ _ _ (by norm_num [Double.toRat])]
      rfl
    have w5 : Double.finite true 1 * Double.finite true 100000001 = Double.finite false 100000001
        := by
      rw [Double.mul_finite, show (1 * 100000001 : ℚ) = 100000001 by norm_num]
      exact Double.round_of_representable _ _ 100000001 0 (by norm_num) (by norm_num) (by norm_num)
          (by norm_num)
    have w6 : Double.finite true 0 * Double.finite false 0 = Double.finite true 0 := by
      rw [Double.mul_finite, show (0 * 0 : ℚ) = 0 by norm_num]
      exact Double.round_zero _
    have w7 : Double.finite false 100000001 - Double.finite true 0 = Double.finite false 100000001
        := by
      rw [Double.sub_eq_add_neg, Double.neg_finite, Double.add_finite _ _ _ _ 100000001
          (by norm_num [Double.toRat]) (by norm_num),
        Double.ofRat_of_pos _ (by norm_num)]
      exact Double.round_of_representable _ _ 100000001 0 (by norm_num) (by norm_num) (by norm_num)
          (by norm_num)
    have w8 : Double.finite true 1 * Double.finite false 0 = Double.finite true 0 := by
      rw [Double.mul_finite, show (1 * 0 : ℚ) = 0 by norm_num]
      exact Double.round_zero _
    have w9 : Double.finite true 0 * Double.finite true 100000001 = Double.finite false 0 := by
      rw [Double.mul_finite, show (0 * 100000001 : ℚ) = 0 by norm_num]
      exact Double.round_zero _
    have w10 : Double.finite true 0 + Double.finite false 0 = Double.finite false 0 := by
      rw [Double.add_finite_zero _ _ _ _ (by norm_num [Double.toRat])]
      rfl
    have w11 : Double.finite false 1 * Double.finite true 50000000 = Double.finite true 50000000
        := by
      rw [Double.mul_finite, show (1 * 50000000 : ℚ) = 50000000 by norm_num]
      exact Double.round_of_representable _ _ 390625 7 (by norm_num) (by norm_num) (by norm_num)
          (by norm_num)
    have w12 : Double.finite false 0 * Double.finite false 0 = Double.finite false 0 := by
      rw [Double.mul_finite, show (0 * 0 : ℚ) = 0 by norm_num]
      exact Double.round_zero _
    have w13 : Double.finite true 50000000 - Double.finite false 0 = Double.finite true 50000000
        := by
      rw [Double.sub_eq_add_neg, Double.neg_finite, Double.add_finite _ _ _ _ (-50000000)
          (by norm_num [Double.toRat]) (by norm_num),
        Double.ofRat_of_neg _ 50000000 (by norm_num) (by norm_num)]
      exact Double.round_of_representable _ _ 390625 7 (by norm_num) (by norm_num) (by norm_num)
          (by norm_num)
    have w14 : Double.finite false 1 * Double.finite false 0 = Double.finite false 0 := by
      rw [Double.mul_finite, show (1 * 0 : ℚ) = 0 by norm_num]
      exact Double.round_zero _
    have w15 : Double.finite false 0 * Double.finite true 50000000 = Double.finite true 0 := by
      rw [Double.mul_finite, show (0 * 50000000 : ℚ) = 0 by norm_num]
      exact Double.round_zero _
    have w16 : Double.finite false 0 + Double.finite true 0 = Double.finite false 0 := by
      rw [Double.add_finite_zero _ _ _ _ (by norm_num [Double.toRat])]
      rfl
    have w17 : Double.finite true 50000000 * Double.finite true 50000001
        = Double.finite false 2500000050000000 := by
      rw [Double.mul_finite, show (50000000 * 50000001 : ℚ) = 2500000050000000 by norm_num]
      exact Double.round_of_representable _ _ 19531250390625 7 (by norm_num) (by norm_num)
          (by norm_num) (by norm_num)
    have w18 : Double.finite false 2500000050000000 - Double.finite false 0
        = Double.finite false 2500000050000000 := by
      rw [Double.sub_eq_add_neg, Double.neg_finite, Double.add_finite _ _ _ _ 2500000050000000
          (by norm_num [Double.toRat]) (by norm_num),
        Double.ofRat_of_pos _ (by norm_num)]
      exact Double.round_of_representable _ _ 19531250390625 7 (by norm_num) (by norm_num)
          (by norm_num) (by norm_num)
    have w19 : Double.finite true 50000000 * Double.finite false 0 = Double.finite true 0 := by
      rw [Double.mul_finite, show (50000000 * 0 : ℚ) = 0 by norm_num]
      exact Double.round_zero _
    have w20 : Double.finite false 0 * Double.finite true 50000001 = Double.finite true 0 := by
      rw [Double.mul_finite, show (0 * 50000001 : ℚ) = 0 by norm_num]
      exact Double.round_zero _
    have w21 : Double.finite true 0 + Double.finite true 0 = Double.finite true 0 := by
      rw [Double.add_finite_zero _ _ _ _ (by norm_num [Double.toRat])]
      rfl
    have w22 : Double.finite false 2500000050000000 * Double.finite false 1
        = Double.finite false 2500000050000000 := by
      rw [Double.mul_finite, show (2500000050000000 * 1 : ℚ) = 2500000050000000 by norm_num]
      exact Double.round_of_representable _ _ 19531250390625 7 (by norm_num) (by norm_num)
          (by norm_num) (by norm_num)
    have w23 : Double.finite false 2500000050000000 - Double.finite true 0
        = Double.finite false 2500000050000000 := by
      rw [Double.sub_eq_add_neg, Double.neg_finite, Double.add_finite _ _ _ _ 2500000050000000
          (by norm_num [Double.toRat]) (by norm_num),
        Double.ofRat_of_pos _ (by norm_num)]
      exact Double.round_of_representable _ _ 19531250390625 7 (by norm_num) (by norm_num)
          (by norm_num) (by norm_num)
    have w24 : Double.finite false 2500000050000000 * Double.finite false 0 = Double.finite false 0
        := by
      rw [Double.mul_finite, show (2500000050000000 * 0 : ℚ) = 0 by norm_num]
      exact Double.round_zero _
    have w25 : Double.finite true 0 * Double.finite false 1 = Double.finite true 0 := by
      rw [Double.mul_finite, show (0 * 1 : ℚ) = 0 by norm_num]
      exact Double.round_zero _
    have w26 : Double.finite false 0 + Double.finite false 2500000050000000
        = Double.finite false 2500000050000000 := by
      rw [Double.add_finite _ _ _ _ 2500000050000000 (by norm_num [Double.toRat]) (by norm_num),
        Double.ofRat_of_pos _ (by norm_num)]
      exact Double.round_of_representable _ _ 19531250390625 7 (by norm_num) (by norm_num)
          (by norm_num) (by norm_num)
    have w27 : Double.finite false 100000001 * Double.finite true 50000000
        = Double.finite true 5000000050000000 := by
      rw [Double.mul_finite, show (100000001 * 50000000 : ℚ) = 5000000050000000 by norm_num]
      exact Double.round_of_representable _ _ 39062500390625 7 (by norm_num) (by norm_num)
          (by norm_num) (by norm_num)
    have w28 : Double.finite true 5000000050000000 - Double.finite false 0
        = Double.finite true 5000000050000000 := by
      rw [Double.sub_eq_add_neg, Double.neg_finite, Double.add_finite _ _ _ _ (-5000000050000000)
          (by norm_num [Double.toRat]) (by norm_num),
        Double.ofRat_of_neg _ 5000000050000000 (by norm_num) (by norm_num)]
      exact Double.round_of_representable _ _ 39062500390625 7 (by norm_num) (by norm_num)
          (by norm_num) (by norm_num)
    have w29 : Double.finite false 100000001 * Double.finite false 0 = Double.finite false 0 := by
      rw [Double.mul_finite, show (100000001 * 0 : ℚ) = 0 by norm_num]
      exact Double.round_zero _
    have w30 : Double.finite false 2500000050000000 + Double.finite true 5000000050000000
        = Double.finite true 2500000000000000 := by
      rw [Double.add_finite _ _ _ _ (-2500000000000000) (by norm_num [Double.toRat]) (by norm_num),
        Double.ofRat_of_neg _ 2500000000000000 (by norm_num) (by norm_num)]
      exact Double.round_of_representable _ _ 152587890625 14 (by norm_num) (by norm_num)
          (by norm_num) (by norm_num)
    have w31 : Double.finite true 50000000 * Double.finite true 50000000
        = Double.finite false 2500000000000000 := by
      rw [Double.mul_finite, show (50000000 * 50000000 : ℚ) = 2500000000000000 by norm_num]
      exact Double.round_of_representable _ _ 152587890625 14 (by norm_num) (by norm_num)
          (by norm_num) (by norm_num)
    have w32 : Double.finite false 2500000000000000 - Double.finite false 0
        = Double.finite false 2500000000000000 := by
      rw [Double.sub_eq_add_neg, Double.neg_finite, Double.add_finite _ _ _ _ 2500000000000000
          (by norm_num [Double.toRat]) (by norm_num),
        Double.ofRat_of_pos _ (by norm_num)]
      exact Double.round_of_representable _ _ 152587890625 14 (by norm_num) (by norm_num)
          (by norm_num) (by norm_num)
    have w33 : Double.finite false 1 * Double.finite false 2500000000000000
        = Double.finite false 2500000000000000 := by
      rw [Double.mul_finite, show (1 * 2500000000000000 : ℚ) = 2500000000000000 by norm_num]
      exact Double.round_of_representable _ _ 152587890625 14 (by norm_num) (by norm_num)
          (by norm_num) (by norm_num)
    have w34 : Double.finite false 0 * Double.finite true 0 = Double.finite true 0 := by
      rw [Double.mul_finite, show (0 * 0 : ℚ) = 0 by norm_num]
      exact Double.round_zero _
    have w35 : Double.finite false 2500000000000000 - Double.finite true 0
        = Double.finite false 2500000000000000 := by
      rw [Double.sub_eq_add_neg, Double.neg_finite, Double.add_finite _ _ _ _ 2500000000000000
          (by norm_num [Double.toRat]) (by norm_num),
        Double.ofRat_of_pos _ (by norm_num)]
      exact Double.round_of_representable _ _ 152587890625 14 (by norm_num) (by norm_num)
          (by norm_num) (by norm_num)
    have w36 : Double.finite false 1 * Double.finite true 0 = Double.finite true 0 := by
      rw [Double.mul_finite, show (1 * 0 : ℚ) = 0 by norm_num]
      exact Double.round_zero _
    have w37 : Double.finite false 0 * Double.finite false 2500000000000000 = Double.finite false 0
        := by
      rw [Double.mul_finite, show (0 * 2500000000000000 : ℚ) = 0 by norm_num]
      exact Double.round_zero _
    have w38 : Double.finite true 2500000000000000 + Double.finite false 2500000000000000
        = Double.finite false 0 := by
      rw [Double.add_finite_zero _ _ _ _ (by norm_num [Double.toRat])]
      rfl
    have w39 : Double.finite false 1 * Double.finite true 50000001 = Double.finite true 50000001
        := by
      rw [Double.mul_finite, show (1 * 50000001 : ℚ) = 50000001 by norm_num]
      exact Double.round_of_representable _ _ 50000001 0 (by norm_num) (by norm_num) (by norm_num)
          (by norm_num)
    have w40 : Double.finite true 50000001 - Double.finite false 0 = Double.finite true 50000001
        := by
      rw [Double.sub_eq_add_neg, Double.neg_finite, Double.add_finite _ _ _ _ (-50000001)
          (by norm_num [Double.toRat]) (by norm_num),
        Double.ofRat_of_neg _ 50000001 (by norm_num) (by norm_num)]
      exact Double.round_of_representable _ _ 50000001 0 (by norm_num) (by norm_num) (by norm_num)
          (by norm_num)
    have w41 : Double.finite false 100000001 * Double.finite true 50000001
        = Double.finite true 5000000150000001 := by
      rw [Double.mul_finite, show (100000001 * 50000001 : ℚ) = 5000000150000001 by norm_num]
      exact Double.round_of_representable _ _ 5000000150000001 0 (by norm_num) (by norm_num)
          (by norm_num) (by norm_num)
    have w42 : Double.finite true 5000000150000001 - Double.finite false 0
        = Double.finite true 5000000150000001 := by
      rw [Double.sub_eq_add_neg, Double.neg_finite, Double.add_finite _ _ _ _ (-5000000150000001)
          (by norm_num [Double.toRat]) (by norm_num),
        Double.ofRat_of_neg _ 5000000150000001 (by norm_num) (by norm_num)]
      exact Double.round_of_representable _ _ 5000000150000001 0 (by norm_num) (by norm_num)
          (by norm_num) (by norm_num)
    have w43 : Double.finite false 2500000050000000 + Double.finite true 5000000150000001
        = Double.finite true 2500000100000001 := by
      rw [Double.add_finite _ _ _ _ (-2500000100000001) (by norm_num [Double.toRat]) (by norm_num),
        Double.ofRat_of_neg _ 2500000100000001 (by norm_num) (by norm_num)]
      exact Double.round_of_representable _ _ 2500000100000001 0 (by norm_num) (by norm_num)
          (by norm_num) (by norm_num)
    have w44 : Double.finite true 50000001 * Double.finite true 50000001
        = Double.finite false 2500000100000001 := by
      rw [Double.mul_finite, show (50000001 * 50000001 : ℚ) = 2500000100000001 by norm_num]
      exact Double.round_of_representable _ _ 2500000100000001 0 (by norm_num) (by norm_num)
          (by norm_num) (by norm_num)
    have w45 : Double.finite false 2500000100000001 - Double.finite false 0
        = Double.finite false 2500000100000001 := by
      rw [Double.sub_eq_add_neg, Double.neg_finite, Double.add_finite _ _ _ _ 2500000100000001
          (by norm_num [Double.toRat]) (by norm_num),
        Double.ofRat_of_pos _ (by norm_num)]
      exact Double.round_of_representable _ _ 2500000100000001 0 (by norm_num) (by norm_num)
          (by norm_num) (by norm_num)
    have w46 : Double.finite true 50000001 * Double.finite false 0 = Double.finite true 0 := by
      rw [Double.mul_finite, show (50000001 * 0 : ℚ) = 0 by norm_num]
      exact Double.round_zero _
    have w47 : Double.finite false 1 * Double.finite false 2500000100000001
        = Double.finite false 2500000100000001 := by
      rw [Double.mul_finite, show (1 * 2500000100000001 : ℚ) = 2500000100000001 by norm_num]
      exact Double.round_of_representable _ _ 2500000100000001 0 (by norm_num) (by norm_num)
          (by norm_num) (by norm_num)
    have w48 : Double.finite false 2500000100000001 - Double.finite true 0
        = Double.finite false 2500000100000001 := by
      rw [Double.sub_eq_add_neg, Double.neg_finite, Double.add_finite _ _ _ _ 2500000100000001
          (by norm_num [Double.toRat]) (by norm_num),
        Double.ofRat_of_pos _ (by norm_num)]
      exact Double.round_of_representable _ _ 2500000100000001 0 (by norm_num) (by norm_num)
          (by norm_num) (by norm_num)
    have w49 : Double.finite false 0 * Double.finite false 2500000100000001 = Double.finite false 0
        := by
      rw [Double.mul_finite, show (0 * 2500000100000001 : ℚ) = 0 by norm_num]
      exact Double.round_zero _
    have w50 : Double.finite true 2500000100000001 + Double.finite false 2500000100000001
        = Double.finite false 0 := by
      rw [Double.add_finite_zero _ _ _ _ (by norm_num [Double.toRat])]
      rfl
    have w51 : Double.finite false 100000001 * Double.finite false 100000001
        = Double.finite false 10000000200000000 := by
      rw [Double.mul_finite, show (100000001 * 100000001 : ℚ) = 10000000200000001 by norm_num]
      exact Double.round_eq _ _ 53 5000000100000000 _ (by norm_num) (by norm_num) (by norm_num)
          (by rw [Double.roundHalfEven_tie _ 5000000100000000 (by norm_num)]; norm_num)
          (by norm_num) (by norm_num)
    have w52 : Double.finite false 10000000200000000 - Double.finite false 0
        = Double.finite false 10000000200000000 := by
      rw [Double.sub_eq_add_neg, Double.neg_finite, Double.add_finite _ _ _ _ 10000000200000000
          (by norm_num [Double.toRat]) (by norm_num),
        Double.ofRat_of_pos _ (by norm_num)]
      exact Double.round_of_representable _ _ 19531250390625 9 (by norm_num) (by norm_num)
          (by norm_num) (by norm_num)
    have w53 : Double.finite false 0 * Double.finite false 100000001 = Double.finite false 0 := by
      rw [Double.mul_finite, show (0 * 100000001 : ℚ) = 0 by norm_num]
      exact Double.round_zero _
    have w54 : Double.finite false 4 * Double.finite false 1 = Double.finite false 4 := by
      rw [Double.mul_finite, show (4 * 1 : ℚ) = 4 by norm_num]
      exact Double.round_of_representable _ _ 1 2 (by norm_num) (by norm_num) (by norm_num)
          (by norm_num)
    have w55 : Double.finite false 4 * Double.finite false 0 = Double.finite false 0 := by
      rw [Double.mul_finite, show (4 * 0 : ℚ) = 0 by norm_num]
      exact Double.round_zero _
    have w56 : Double.finite false 4 * Double.finite false 2500000050000000
        = Double.finite false 10000000200000000 := by
      rw [Double.mul_finite, show (4 * 2500000050000000 : ℚ) = 10000000200000000 by norm_num]
      exact Double.round_of_representable _ _ 19531250390625 9 (by norm_num) (by norm_num)
          (by norm_num) (by norm_num)
    have w57 : Double.finite false 10000000200000000 - Double.finite true 0
        = Double.finite false 10000000200000000 := by
      rw [Double.sub_eq_add_neg, Double.neg_finite, Double.add_finite _ _ _ _ 10000000200000000
          (by norm_num [Double.toRat]) (by norm_num),
        Double.ofRat_of_pos _ (by norm_num)]
      exact Double.round_of_representable _ _ 19531250390625 9 (by norm_num) (by norm_num)
          (by norm_num) (by norm_num)
    have w58 : Double.finite false 4 * Double.finite true 0 = Double.finite true 0 := by
      rw [Double.mul_finite, show (4 * 0 : ℚ) = 0 by norm_num]
      exact Double.round_zero _
    have w59 : Double.finite false 0 * Double.finite false 2500000050000000 = Double.finite false 0
        := by
      rw [Double.mul_finite, show (0 * 2500000050000000 : ℚ) = 0 by norm_num]
      exact Double.round_zero _
    have w60 : Double.finite false 10000000200000000 - Double.finite false 10000000200000000
        = Double.finite false 0 := by
      rw [Double.sub_eq_add_neg, Double.neg_finite, Double.add_finite_zero _ _ _ _
          (by norm_num [Double.toRat])]
      rfl
    have w61 : Double.finite false 0 - Double.finite false 0 = Double.finite false 0 := by
      rw [Double.sub_eq_add_neg, Double.neg_finite, Double.add_finite_zero _ _ _ _
          (by norm_num [Double.toRat])]
      rfl
    have w62 : Double.finite true 50000000 - Double.finite true 50000001 = Double.finite false 1
        := by
      rw [Double.sub_eq_add_neg, Double.neg_finite, Double.add_finite _ _ _ _ 1
          (by norm_num [Double.toRat]) (by norm_num),
        Double.ofRat_of_pos _ (by norm_num)]
      exact Double.round_of_representable _ _ 1 0 (by norm_num) (by norm_num) (by norm_num)
          (by norm_num)
    have hzM : ¬ Binary64.IsZero (⟨Double.finite false 1, Double.finite false 0⟩ : Binary64.complex)
        := by
      unfold Binary64.IsZero
      simp only [TOLERANCE_eq, Double.fabs_finite]
      intro hz
      exact absurd ((Double.lt_finite _ _ _ _).mp hz.1) (by norm_num [Double.toRat])
    have hzr : Binary64.IsZero (⟨Double.finite false 0, Double.finite false 0⟩ : Binary64.complex)
        := by
      unfold Binary64.IsZero
      simp only [TOLERANCE_eq, Double.fabs_finite]
      exact ⟨(Double.lt_finite _ _ _ _).mpr (by norm_num [Double.toRat]),
        (Double.lt_finite _ _ _ _).mpr (by norm_num [Double.toRat])⟩
    have hzK : Binary64.IsZero (⟨Double.finite false 0, Double.finite false 0⟩ : Binary64.complex)
        := by
      unfold Binary64.IsZero
      simp only [TOLERANCE_eq, Double.fabs_finite]
      exact ⟨(Double.lt_finite _ _ _ _).mpr (by norm_num [Double.toRat]),
        (Double.lt_finite _ _ _ _).mpr (by norm_num [Double.toRat])⟩
    have hzL : Binary64.IsZero (⟨Double.finite false 0, Double.finite false 0⟩ : Binary64.complex)
        := by
      unfold Binary64.IsZero
      simp only [TOLERANCE_eq, Double.fabs_finite]
      exact ⟨(Double.lt_finite _ _ _ _).mpr (by norm_num [Double.toRat]),
        (Double.lt_finite _ _ _ _).mpr (by norm_num [Double.toRat])⟩
    have hzd : ¬ Binary64.IsZero (⟨Double.finite false 1, Double.finite false 0⟩ : Binary64.complex)
        := by
      unfold Binary64.IsZero
      simp only [TOLERANCE_eq, Double.fabs_finite]
      intro hz
      exact absurd ((Double.lt_finite _ _ _ _).mp hz.1) (by norm_num [Double.toRat])
    have hd : ¬ Binary64.IsZero
        ((Binary64.complex.ofReal (Double.finite true 50000000)) -
        (Binary64.complex.ofReal (Double.finite true 50000001))) := by
      simp only [Binary64.complex.ofReal, Binary64.complex.scale, complex_mul_def, complex_sub_def,
        complex_add_def, complex_neg_def, w1, w2, w3, w4, w5, w6, w7, w8, w9, w10, w11, w12, w13,
            w14, w15, w16, w17, w18, w19, w20, w21, w22, w23, w24, w25, w26, w27, w28, w29, w30,
            w31, w32, w33, w34, w35, w36, w37, w38, w39, w40, w41, w42, w43, w44, w45, w46, w47,
            w48, w49, w50, w51, w52, w53, w54, w55, w56, w57, w58, w59, w60, w61, w62]
      exact hzd
    have hcount : ∀ (quotient : Binary64.complex → Binary64.complex → Binary64.complex)
        (sqrt : Binary64.complex → Binary64.complex),
        (Binary64.SolveQuadraticEquation quotient sqrt
            (Binary64.complex.ofReal (Double.finite false 1))
          (-(Binary64.complex.ofReal (Double.finite false 1)) *
              ((Binary64.complex.ofReal (Double.finite true 50000000)) +
              (Binary64.complex.ofReal (Double.finite true 50000001))))
          ((Binary64.complex.ofReal (Double.finite false 1)) *
              (Binary64.complex.ofReal (Double.finite true 50000000)) *
              (Binary64.complex.ofReal (Double.finite true 50000001)))).1 = 1 := by
      intro quotient sqrt
      unfold Binary64.SolveQuadraticEquation
      simp only [Binary64.complex.ofReal, Binary64.complex.scale, complex_mul_def, complex_sub_def,
        complex_add_def, complex_neg_def, w1, w2, w3, w4, w5, w6, w7, w8, w9, w10, w11, w12, w13,
            w14, w15, w16, w17, w18, w19, w20, w21, w22, w23, w24, w25, w26, w27, w28, w29, w30,
            w31, w32, w33, w34, w35, w36, w37, w38, w39, w40, w41, w42, w43, w44, w45, w46, w47,
            w48, w49, w50, w51, w52, w53, w54, w55, w56, w57, w58, w59, w60, w61, w62]
      rw [if_neg hzM, if_pos hzr]
    intro quotient sqrt
    apply TestKnownQuadraticRoots_wrong_count
    · rw [ValidatePolynomial_loop_three]
      simp only [Binary64.complex.ofReal, Binary64.complex.scale, complex_mul_def, complex_sub_def,
        complex_add_def, complex_neg_def, w1, w2, w3, w4, w5, w6, w7, w8, w9, w10, w11, w12, w13,
            w14, w15, w16, w17, w18, w19, w20, w21, w22, w23, w24, w25, w26, w27, w28, w29, w30,
            w31, w32, w33, w34, w35, w36, w37, w38, w39, w40, w41, w42, w43, w44, w45, w46, w47,
            w48, w49, w50, w51, w52, w53, w54, w55, w56, w57, w58, w59, w60, w61, w62,
        if_true, if_false, one_ne_zero, OfNat.ofNat_ne_zero, OfNat.ofNat_ne_one]
      exact hzK
    · rw [ValidatePolynomial_loop_three]
      simp only [Binary64.complex.ofReal, Binary64.complex.scale, complex_mul_def, complex_sub_def,
        complex_add_def, complex_neg_def, w1, w2, w3, w4, w5, w6, w7, w8, w9, w10, w11, w12, w13,
            w14, w15, w16, w17, w18, w19, w20, w21, w22, w23, w24, w25, w26, w27, w28, w29, w30,
            w31, w32, w33, w34, w35, w36, w37, w38, w39, w40, w41, w42, w43, w44, w45, w46, w47,
            w48, w49, w50, w51, w52, w53, w54, w55, w56, w57, w58, w59, w60, w61, w62,
        if_true, if_false, one_ne_zero, OfNat.ofNat_ne_zero, OfNat.ofNat_ne_one]
      exact hzL
    · rw [hcount quotient sqrt, if_neg hd]
      norm_num

end Algebra

namespace Imager

/-! ## Containment of the set operators -/

/-- Containment of some cuboids of half-size 1 and 2, at the origin and moved along x. -/
theorem Cuboid_Contains_example :
    (Cuboid.new (1:ℚ) 1 1).Contains ⟨5, 0, 0⟩ = false ∧
    ((Cuboid.new (1:ℚ) 1 1).Move 5 0 0).Contains ⟨5, 0, 0⟩ = true ∧
    (Cuboid.new (1:ℚ) 1 1).Contains ⟨0, 0, 0⟩ = true ∧
    ((Cuboid.new (1:ℚ) 1 1).Move 5 0 0).Contains ⟨0, 0, 0⟩ = false ∧
    (Cuboid.new (2:ℚ) 2 2).Contains ⟨5, 0, 0⟩ = false ∧
    ((Cuboid.new (2:ℚ) 2 2).Move 1 0 0).Contains ⟨0, 0, 0⟩ = true ∧
    (Cuboid.new (2:ℚ) 2 2).Contains ⟨0, 0, 0⟩ = true := by
  refine ⟨?_, ?_, ?_, ?_, ?_, ?_, ?_⟩ <;>
    simp [Cuboid.Contains, Cuboid.ObjectSpace_Contains, Cuboid.new, Cuboid.Move,
      SolidObject_Reorientable.new, SolidObject_Reorientable.Move,
      SolidObject_Reorientable.Translate, SolidObject_Reorientable.ObjectPointFromCameraPoint,
      SolidObject_Reorientable.ObjectDirFromCameraDir, DotProduct, Vector.sub, EPSILON] <;>
    norm_num [abs_of_pos, abs_of_neg]

/-- C14: for every `SetUnion` of two solids and every point `p`, `Contains p` is true iff the
left child contains `p` or the right child contains `p`; in particular for a union of two
cuboids a point inside exactly one of them is contained. -/
theorem SetUnion_Contains {R : Type} [LinearOrderedField R]
    (center : Vector R) (left right : SolidObject R) (p : Vector R) :
    ((SolidObject.SetUnion center left right).Contains p = true ↔
      (left.Contains p = true ∨ right.Contains p = true)) ∧
    (∀ box1 box2 : Cuboid R,
      (box1.Contains p = true ∧ box2.Contains p = false) ∨
        (box1.Contains p = false ∧ box2.Contains p = true) →
      (SolidObject.SetUnion center (.cuboid box1) (.cuboid box2)).Contains p = true) := by
  constructor
  · simp only [SolidObject.Contains, Bool.or_eq_true]
  · intro box1 box2 h
    simp only [SolidObject.Contains, Bool.or_eq_true]
    rcases h with ⟨h1, _⟩ | ⟨_, h2⟩
    · exact Or.inl h1
    · exact Or.inr h2

theorem SetUnion_Contains_witness :
    (Cuboid.new (1:ℚ) 1 1).Contains ⟨5, 0, 0⟩ = false ∧
    ((Cuboid.new (1:ℚ) 1 1).Move 5 0 0).Contains ⟨5, 0, 0⟩ = true ∧
    (SolidObject.SetUnion ⟨0, 0, 0⟩ (.cuboid (Cuboid.new (1:ℚ) 1 1))
      (.cuboid ((Cuboid.new (1:ℚ) 1 1).Move 5 0 0))).Contains ⟨5, 0, 0⟩ = true :=
  ⟨Cuboid_Contains_example.1, Cuboid_Contains_example.2.1,
    (SetUnion_Contains ⟨0, 0, 0⟩ (.cuboid (Cuboid.new (1:ℚ) 1 1))
      (.cuboid ((Cuboid.new (1:ℚ) 1 1).Move 5 0 0)) ⟨5, 0, 0⟩).2 _ _
      (Or.inr ⟨Cuboid_Contains_example.1, Cuboid_Contains_example.2.1⟩)⟩

/-- C15: for every `SetIntersection` of two solids and every point `p`, `Contains p` is true
iff both children contain `p`; in particular for an intersection of two cuboids a point
inside only one of them is not contained. -/
theorem SetIntersection_Contains {R : Type} [LinearOrderedField R]
    (center : Vector R) (left right : SolidObject R) (p : Vector R) :
    ((SolidObject.SetIntersection center left right).Contains p = true ↔
      (left.Contains p = true ∧ right.Contains p = true)) ∧
    (∀ box1 box2 : Cuboid R,
      (box1.Contains p = true ∧ box2.Contains p = false) ∨
        (box1.Contains p = false ∧ box2.Contains p = true) →
      (SolidObject.SetIntersection center (.cuboid box1) (.cuboid box2)).Contains p = false) := by
  constructor
  · simp only [SolidObject.Contains, Bool.and_eq_true]
  · intro box1 box2 h
    simp only [SolidObject.Contains]
    rcases h with ⟨_, h2⟩ | ⟨h1, _⟩
    · rw [h2, Bool.and_false]
    · rw [h1, Bool.false_and]

theorem SetIntersection_Contains_witness :
    (Cuboid.new (1:ℚ) 1 1).Contains ⟨0, 0, 0⟩ = true ∧
    ((Cuboid.new (1:ℚ) 1 1).Move 5 0 0).Contains ⟨0, 0, 0⟩ = false ∧
    (SolidObject.SetIntersection ⟨0, 0, 0⟩ (.cuboid (Cuboid.new (1:ℚ) 1 1))
      (.cuboid ((Cuboid.new (1:ℚ) 1 1).Move 5 0 0))).Contains ⟨0, 0, 0⟩ = false :=
  ⟨Cuboid_Contains_example.2.2.1, Cuboid_Contains_example.2.2.2.1,
    (SetIntersection_Contains ⟨0, 0, 0⟩ (.cuboid (Cuboid.new (1:ℚ) 1 1))
      (.cuboid ((Cuboid.new (1:ℚ) 1 1).Move 5 0 0)) ⟨0, 0, 0⟩).2 _ _
      (Or.inl ⟨Cuboid_Contains_example.2.2.1, Cuboid_Contains_example.2.2.2.1⟩)⟩

/-- C16: `SetDifference center A B` is the `SetIntersection` of `A` with a `SetComplement`
of `B`, and `SetComplement` negates containment, so for every point `p` the difference
contains `p` iff `A` contains `p` and `B` does not; in particular a point inside both `A`
and `B` is not contained. -/
theorem SetDifference_Contains {R : Type} [LinearOrderedField R]
    (center : Vector R) (A B : SolidObject R) (p : Vector R) :
    SolidObject.SetDifference center A B
      = SolidObject.SetIntersection center A (SolidObject.SetComplement B.Center B) ∧
    (∀ c : Vector R, (SolidObject.SetComplement c B).Contains p = !B.Contains p) ∧
    ((SolidObject.SetDifference center A B).Contains p = true ↔
      (A.Contains p = true ∧ B.Contains p = false)) ∧
    (A.Contains p = true ∧ B.Contains p = true →
      (SolidObject.SetDifference center A B).Contains p = false) := by
  refine ⟨rfl, fun _ => rfl, ?_, ?_⟩
  · simp only [SolidObject.SetDifference, SolidObject.newSetComplement, SolidObject.Contains,
      Bool.and_eq_true, Bool.not_eq_true']
  · rintro ⟨_, hB⟩
    simp only [SolidObject.SetDifference, SolidObject.newSetComplement, SolidObject.Contains,
      hB, Bool.not_true, Bool.and_false]

theorem SetDifference_Contains_witness :
    (Cuboid.new (2:ℚ) 2 2).Contains ⟨0, 0, 0⟩ = true ∧
    ((Cuboid.new (2:ℚ) 2 2).Move 1 0 0).Contains ⟨0, 0, 0⟩ = true ∧
    (SolidObject.SetDifference ⟨0, 0, 0⟩ (.cuboid (Cuboid.new (2:ℚ) 2 2))
      (.cuboid ((Cuboid.new (2:ℚ) 2 2).Move 1 0 0))).Contains ⟨0, 0, 0⟩ = false :=
  ⟨Cuboid_Contains_example.2.2.2.2.2.2, Cuboid_Contains_example.2.2.2.2.2.1,
    (SetDifference_Contains ⟨0, 0, 0⟩ (.cuboid (Cuboid.new (2:ℚ) 2 2))
      (.cuboid ((Cuboid.new (2:ℚ) 2 2).Move 1 0 0)) ⟨0, 0, 0⟩).2.2.2
      ⟨Cuboid_Contains_example.2.2.2.2.2.2, Cuboid_Contains_example.2.2.2.2.2.1⟩⟩

/-! ## The reorientation invariant -/

theorem new_Orthonormal {R : Type} [LinearOrderedField R] (center : Vector R) :
    (SolidObject_Reorientable.new center).Orthonormal ∧
    (SolidObject_Reorientable.new center).ColumnsOrthonormal := by
  simp [SolidObject_Reorientable.new, SolidObject_Reorientable.Orthonormal,
    SolidObject_Reorientable.ColumnsOrthonormal, DotProduct]

theorem RotateX_Orthonormal (s : SolidObject_Reorientable ℝ) (t : ℝ)
    (h : s.Orthonormal ∧ s.ColumnsOrthonormal) :
    (s.RotateX t).Orthonormal ∧ (s.RotateX t).ColumnsOrthonormal := by
  obtain ⟨⟨h1, h2, h3, h4, h5, h6, _, _, _⟩, ⟨c1, c2, c3, c4, c5, c6⟩⟩ := h
  have hab := Real.cos_sq_add_sin_sq (RadiansFromDegrees t)
  simp only [DotProduct] at h1 h2 h3 h4 h5 h6
  simp only [SolidObject_Reorientable.RotateX, SolidObject_Reorientable.UpdateInverseRotation,
    SolidObject_Reorientable.Orthonormal, SolidObject_Reorientable.ColumnsOrthonormal,
    DotProduct]
  generalize Real.cos (RadiansFromDegrees t) = a at hab
  generalize Real.sin (RadiansFromDegrees t) = b at hab
  refine ⟨⟨?_, ?_, ?_, ?_, ?_, ?_, trivial, trivial, trivial⟩, ⟨?_, ?_, ?_, ?_, ?_, ?_⟩⟩
  · linear_combination h1 + (s.rDir.y*s.rDir.y + s.rDir.z*s.rDir.z) * hab
  · linear_combination h2 + (s.sDir.y*s.sDir.y + s.sDir.z*s.sDir.z) * hab
  · linear_combination h3 + (s.tDir.y*s.tDir.y + s.tDir.z*s.tDir.z) * hab
  · linear_combination h4 + (s.rDir.y*s.sDir.y + s.rDir.z*s.sDir.z) * hab
  · linear_combination h5 + (s.rDir.y*s.tDir.y + s.rDir.z*s.tDir.z) * hab
  · linear_combination h6 + (s.sDir.y*s.tDir.y + s.sDir.z*s.tDir.z) * hab
  · linear_combination c1
  · linear_combination a*a*c2 + b*b*c3 - 2*a*b*c6 + hab
  · linear_combination a*a*c3 + b*b*c2 + 2*a*b*c6 + hab
  · linear_combination a*c4 - b*c5
  · linear_combination a*c5 + b*c4
  · linear_combination (a*a - b*b)*c6 + a*b*c2 - a*b*c3

theorem RotateY_Orthonormal (s : SolidObject_Reorientable ℝ) (t : ℝ)
    (h : s.Orthonormal ∧ s.ColumnsOrthonormal) :
    (s.RotateY t).Orthonormal ∧ (s.RotateY t).ColumnsOrthonormal := by
  obtain ⟨⟨h1, h2, h3, h4, h5, h6, _, _, _⟩, ⟨c1, c2, c3, c4, c5, c6⟩⟩ := h
  have hab := Real.cos_sq_add_sin_sq (RadiansFromDegrees t)
  simp only [DotProduct] at h1 h2 h3 h4 h5 h6
  simp only [SolidObject_Reorientable.RotateY, SolidObject_Reorientable.UpdateInverseRotation,
    SolidObject_Reorientable.Orthonormal, SolidObject_Reorientable.ColumnsOrthonormal,
    DotProduct]
  generalize Real.cos (RadiansFromDegrees t) = a at hab
  generalize Real.sin (RadiansFromDegrees t) = b at hab
  refine ⟨⟨?_, ?_, ?_, ?_, ?_, ?_, trivial, trivial, trivial⟩, ⟨?_, ?_, ?_, ?_, ?_, ?_⟩⟩
  · linear_combination h1 + (s.rDir.x*s.rDir.x + s.rDir.z*s.rDir.z) * hab
  · linear_combination h2 + (s.sDir.x*s.sDir.x + s.sDir.z*s.sDir.z) * hab
  · linear_combination h3 + (s.tDir.x*s.tDir.x + s.tDir.z*s.tDir.z) * hab
  · linear_combination h4 + (s.rDir.x*s.sDir.x + s.rDir.z*s.sDir.z) * hab
  · linear_combination h5 + (s.rDir.x*s.tDir.x + s.rDir.z*s.tDir.z) * hab
  · linear_combination h6 + (s.sDir.x*s.tDir.x + s.sDir.z*s.tDir.z) * hab
  · linear_combination a*a*c1 + b*b*c3 + 2*a*b*c5 + hab
  · linear_combination c2
  · linear_combination a*a*c3 + b*b*c1 - 2*a*b*c5 + hab
  · linear_combination a*c4 + b*c6
  · linear_combination (a*a - b*b)*c5 + a*b*c3 - a*b*c1
  · linear_combination a*c6 - b*c4

theorem RotateZ_Orthonormal (s : SolidObject_Reorientable ℝ) (t : ℝ)
    (h : s.Orthonormal ∧ s.ColumnsOrthonormal) :
    (s.RotateZ t).Orthonormal ∧ (s.RotateZ t).ColumnsOrthonormal := by
  obtain ⟨⟨h1, h2, h3, h4, h5, h6, _, _, _⟩, ⟨c1, c2, c3, c4, c5, c6⟩⟩ := h
  have hab := Real.cos_sq_add_sin_sq (RadiansFromDegrees t)
  simp only [DotProduct] at h1 h2 h3 h4 h5 h6
  simp only [SolidObject_Reorientable.RotateZ, SolidObject_Reorientable.UpdateInverseRotation,
    SolidObject_Reorientable.Orthonormal, SolidObject_Reorientable.ColumnsOrthonormal,
    DotProduct]
  generalize Real.cos (RadiansFromDegrees t) = a at hab
  generalize Real.sin (RadiansFromDegrees t) = b at hab
  refine ⟨⟨?_, ?_, ?_, ?_, ?_, ?_, trivial, trivial, trivial⟩, ⟨?_, ?_, ?_, ?_, ?_, ?_⟩⟩
  · linear_combination h1 + (s.rDir.x*s.rDir.x + s.rDir.y*s.rDir.y) * hab
  · linear_combination h2 + (s.sDir.x*s.sDir.x + s.sDir.y*s.sDir.y) * hab
  · linear_combination h3 + (s.tDir.x*s.tDir.x + s.tDir.y*s.tDir.y) * hab
  · linear_combination h4 + (s.rDir.x*s.sDir.x + s.rDir.y*s.sDir.y) * hab
  · linear_combination h5 + (s.rDir.x*s.tDir.x + s.rDir.y*s.tDir.y) * hab
  · linear_combination h6 + (s.sDir.x*s.tDir.x + s.sDir.y*s.tDir.y) * hab
  · linear_combination a*a*c1 + b*b*c2 - 2*a*b*c4 + hab
  · linear_combination a*a*c2 + b*b*c1 + 2*a*b*c4 + hab
  · linear_combination c3
  · linear_combination (a*a - b*b)*c4 + a*b*c1 - a*b*c2
  · linear_combination a*c5 - b*c6
  · linear_combination a*c6 + b*c5

theorem Translate_Orthonormal {R : Type} [LinearOrderedField R]
    (s : SolidObject_Reorientable R) (dx dy dz : R)
    (h : s.Orthonormal ∧ s.ColumnsOrthonormal) :
    (s.Translate dx dy dz).Orthonormal ∧ (s.Translate dx dy dz).ColumnsOrthonormal := h

theorem foldl_Orthonormal (calls : List Reorientation) :
    ∀ s : SolidObject_Reorientable ℝ, s.Orthonormal ∧ s.ColumnsOrthonormal →
      (calls.foldl Reorientation.apply s).Orthonormal ∧
      (calls.foldl Reorientation.apply s).ColumnsOrthonormal := by
  induction calls with
  | nil => intro s h; exact h
  | cons call rest ih =>
    intro s h
    rw [List.foldl_cons]
    apply ih
    cases call with
    | RotateX t => exact RotateX_Orthonormal s t h
    | RotateY t => exact RotateY_Orthonormal s t h
    | RotateZ t => exact RotateZ_Orthonormal s t h
    | Translate dx dy dz => exact Translate_Orthonormal s dx dy dz h

theorem inverse_of_Orthonormal {R : Type} [LinearOrderedField R]
    (s : SolidObject_Reorientable R) (h : s.Orthonormal ∧ s.ColumnsOrthonormal)
    (v : Vector R) :
    s.CameraDirFromObjectDir (s.ObjectDirFromCameraDir v) = v ∧
    s.ObjectDirFromCameraDir (s.CameraDirFromObjectDir v) = v := by
  obtain ⟨⟨h1, h2, h3, h4, h5, h6, hx, hy, hz⟩, ⟨c1, c2, c3, c4, c5, c6⟩⟩ := h
  simp only [DotProduct] at h1 h2 h3 h4 h5 h6
  simp only [SolidObject_Reorientable.CameraDirFromObjectDir,
    SolidObject_Reorientable.ObjectDirFromCameraDir, DotProduct, hx, hy, hz]
  constructor
  · ext
    · simp only
      linear_combination v.x * c1 + v.y * c4 + v.z * c5
    · simp only
      linear_combination v.x * c4 + v.y * c2 + v.z * c6
    · simp only
      linear_combination v.x * c5 + v.y * c6 + v.z * c3
  · ext
    · simp only
      linear_combination v.x * h1 + v.y * h4 + v.z * h5
    · simp only
      linear_combination v.x * h4 + v.y * h2 + v.z * h6
    · simp only
      linear_combination v.x * h5 + v.y * h6 + v.z * h3

/-- C20: after construction and after any sequence of `RotateX`, `RotateY`, `RotateZ` (any
angles) and `Translate` calls, `rDir`, `sDir`, `tDir` are orthonormal and `xDir`, `yDir`,
`zDir` are the columns of the matrix with rows `rDir`, `sDir`, `tDir` (its transpose), which
is its inverse: converting a direction to object space and back, or to camera space and back,
returns it unchanged. -/
theorem SolidObject_Reorientable_invariant (center : Vector ℝ) (calls : List Reorientation) :
    (SolidObject_Reorientable.after center calls).Orthonormal ∧
    (∀ v : Vector ℝ,
      (SolidObject_Reorientable.after center calls).CameraDirFromObjectDir
        ((SolidObject_Reorientable.after center calls).ObjectDirFromCameraDir v) = v) ∧
    (∀ v : Vector ℝ,
      (SolidObject_Reorientable.after center calls).ObjectDirFromCameraDir
        ((SolidObject_Reorientable.after center calls).CameraDirFromObjectDir v) = v) := by
  have h := foldl_Orthonormal calls (SolidObject_Reorientable.new center) (new_Orthonormal center)
  exact ⟨h.1, fun v => (inverse_of_Orthonormal _ h v).1, fun v => (inverse_of_Orthonormal _ h v).2⟩

/-! ## The cuboid only appends -/

theorem AppendFaceHit_append {R : Type} [LinearOrderedField R] (cuboid : Cuboid R)
    (vantage direction : Vector R) (u : R) (normal : Vector R) (tag : String)
    (list : List (Intersection R)) :
    cuboid.AppendFaceHit vantage direction u normal tag list
      = list ++ cuboid.AppendFaceHit vantage direction u normal tag [] := by
  unfold Cuboid.AppendFaceHit
  by_cases hu : u > EPSILON
  · by_cases hc : cuboid.ObjectSpace_Contains (vantage.add (Vector.smul u direction)) = true
    · simp [hu, hc]
    · simp [hu, hc]
  · simp [hu]

theorem AppendFaceHit_length {R : Type} [LinearOrderedField R] (cuboid : Cuboid R)
    (vantage direction : Vector R) (u : R) (normal : Vector R) (tag : String) :
    (cuboid.AppendFaceHit vantage direction u normal tag []).length ≤ 1 := by
  unfold Cuboid.AppendFaceHit
  by_cases hu : u > EPSILON
  · by_cases hc : cuboid.ObjectSpace_Contains (vantage.add (Vector.smul u direction)) = true
    · simp [hu, hc]
    · simp [hu, hc]
  · simp [hu]

/-- The hits of one axis: the block guarded by the test on the direction component. -/
theorem ObjectSpace_AppendAllIntersections_eq {R : Type} [LinearOrderedField R]
    (cuboid : Cuboid R) (vantage direction : Vector R) (list : List (Intersection R)) :
    cuboid.ObjectSpace_AppendAllIntersections vantage direction list
      = list
        ++ (if |direction.x| > EPSILON then
              cuboid.AppendFaceHit vantage direction ((cuboid.a - vantage.x) / direction.x)
                ⟨1, 0, 0⟩ "right face" []
              ++ cuboid.AppendFaceHit vantage direction ((-cuboid.a - vantage.x) / direction.x)
                ⟨-1, 0, 0⟩ "left face" []
            else [])
        ++ (if |direction.y| > EPSILON then
              cuboid.AppendFaceHit vantage direction ((cuboid.b - vantage.y) / direction.y)
                ⟨0, 1, 0⟩ "front face" []
              ++ cuboid.AppendFaceHit vantage direction ((-cuboid.b - vantage.y) / direction.y)
                ⟨0, -1, 0⟩ "back face" []
            else [])
        ++ (if |direction.z| > EPSILON then
              cuboid.AppendFaceHit vantage direction ((cuboid.c - vantage.z) / direction.z)
                ⟨0, 0, 1⟩ "top face" []
              ++ cuboid.AppendFaceHit vantage direction ((-cuboid.c - vantage.z) / direction.z)
                ⟨0, 0, -1⟩ "bottom face" []
            else []) := by
  unfold Cuboid.ObjectSpace_AppendAllIntersections
  simp only
  by_cases hx : |direction.x| > EPSILON <;> by_cases hy : |direction.y| > EPSILON <;>
    by_cases hz : |direction.z| > EPSILON <;>
    simp only [hx, hy, hz, if_true, if_false, List.append_nil] <;>
    (try rw [AppendFaceHit_append cuboid vantage direction _ _ _ list]) <;>
    (repeat rw [AppendFaceHit_append cuboid vantage direction _ _ _ (list ++ _),
      List.append_assoc]) <;>
    simp only [List.append_assoc]

theorem ObjectSpace_AppendAllIntersections_append {R : Type} [LinearOrderedField R]
    (cuboid : Cuboid R) (vantage direction : Vector R) (list : List (Intersection R)) :
    cuboid.ObjectSpace_AppendAllIntersections vantage direction list
      = list ++ cuboid.ObjectSpace_AppendAllIntersections vantage direction [] := by
  rw [ObjectSpace_AppendAllIntersections_eq cuboid vantage direction list,
    ObjectSpace_AppendAllIntersections_eq cuboid vantage direction []]
  simp only [List.nil_append, List.append_assoc]

theorem ObjectSpace_AppendAllIntersections_length {R : Type} [LinearOrderedField R]
    (cuboid : Cuboid R) (vantage direction : Vector R) :
    (cuboid.ObjectSpace_AppendAllIntersections vantage direction []).length ≤ 6 := by
  rw [ObjectSpace_AppendAllIntersections_eq]
  have h1 := AppendFaceHit_length cuboid vantage direction
    ((cuboid.a - vantage.x) / direction.x) ⟨1, 0, 0⟩ "right face"
  have h2 := AppendFaceHit_length cuboid vantage direction
    ((-cuboid.a - vantage.x) / direction.x) ⟨-1, 0, 0⟩ "left face"
  have h3 := AppendFaceHit_length cuboid vantage direction
    ((cuboid.b - vantage.y) / direction.y) ⟨0, 1, 0⟩ "front face"
  have h4 := AppendFaceHit_length cuboid vantage direction
    ((-cuboid.b - vantage.y) / direction.y) ⟨0, -1, 0⟩ "back face"
  have h5 := AppendFaceHit_length cuboid vantage direction
    ((cuboid.c - vantage.z) / direction.z) ⟨0, 0, 1⟩ "top face"
  have h6 := AppendFaceHit_length cuboid vantage direction
    ((-cuboid.c - vantage.z) / direction.z) ⟨0, 0, -1⟩ "bottom face"
  simp only [List.nil_append, List.length_append]
  split_ifs <;> simp only [List.length_append, List.length_nil] <;> omega

theorem ConvertFrom_append {R : Type} [LinearOrderedField R] (s : SolidObject_Reorientable R)
    (added : List (Intersection R)) :
    ∀ list : List (Intersection R),
      s.ConvertFrom list.length (list ++ added)
        = list ++ added.map (fun intersection =>
            { intersection with
              point := s.CameraPointFromObjectPoint intersection.point
              surfaceNormal := s.CameraDirFromObjectDir intersection.surfaceNormal }) := by
  induction added with
  | nil =>
    intro list
    rw [SolidObject_Reorientable.ConvertFrom]
    simp
  | cons first rest ih =>
    intro list
    rw [SolidObject_Reorientable.ConvertFrom]
    have hlt : list.length < (list ++ first :: rest).length := by
      simp
    simp only [hlt, dite_true]
    have hget : (list ++ first :: rest)[list.length] = first := by
      rw [List.getElem_append_right (le_refl _)]
      simp
    have hset : ∀ x : Intersection R, (list ++ first :: rest).set list.length x
        = (list ++ [x]) ++ rest := by
      intro x
      simp [List.set_append]
    rw [hget, hset]
    have hlen : list.length + 1 = (list ++ [{ first with
        point := s.CameraPointFromObjectPoint first.point
        surfaceNormal := s.CameraDirFromObjectDir first.surfaceNormal }]).length := by
      simp
    rw [hlen, ih]
    simp

/-- C19: for a cuboid, both the object-space routine and the camera-space wrapper only
append: the resulting list is the input list, every entry of it unchanged, followed by
between 0 and 6 new entries. -/
theorem Cuboid_AppendAllIntersections_only_appends {R : Type} [LinearOrderedField R]
    (cuboid : Cuboid R) (vantage direction : Vector R) (list : List (Intersection R)) :
    (∃ added : List (Intersection R),
      cuboid.ObjectSpace_AppendAllIntersections vantage direction list = list ++ added ∧
      added.length ≤ 6) ∧
    (∃ added : List (Intersection R),
      cuboid.AppendAllIntersections vantage direction list = list ++ added ∧
      added.length ≤ 6) := by
  constructor
  · exact ⟨_, ObjectSpace_AppendAllIntersections_append cuboid vantage direction list,
      ObjectSpace_AppendAllIntersections_length cuboid vantage direction⟩
  · unfold Cuboid.AppendAllIntersections SolidObject_Reorientable.AppendAllIntersections
    simp only
    rw [ObjectSpace_AppendAllIntersections_append, ConvertFrom_append]
    refine ⟨_, rfl, ?_⟩
    rw [List.length_map]
    exact ObjectSpace_AppendAllIntersections_length cuboid _ _

/-! ## Every hit of the cuboid is a forward face hit -/

theorem EPSILON_pos {R : Type} [LinearOrderedField R] : (0:R) < EPSILON := by
  unfold EPSILON; positivity

theorem mem_AppendFaceHit {R : Type} [LinearOrderedField R] (cuboid : Cuboid R)
    (vantage direction : Vector R) (u : R) (normal : Vector R) (tag : String)
    (hit : Intersection R)
    (h : hit ∈ cuboid.AppendFaceHit vantage direction u normal tag []) :
    EPSILON < u ∧
    cuboid.ObjectSpace_Contains (vantage.add (Vector.smul u direction)) = true ∧
    hit = ⟨(Vector.smul u direction).MagnitudeSquared, vantage.add (Vector.smul u direction),
      normal, some tag⟩ := by
  unfold Cuboid.AppendFaceHit at h
  by_cases hu : u > EPSILON
  · by_cases hc : cuboid.ObjectSpace_Contains (vantage.add (Vector.smul u direction)) = true
    · simp only [hu, hc, if_true, List.nil_append, List.mem_singleton] at h
      exact ⟨hu, hc, h⟩
    · simp [hu, hc] at h
  · simp [hu] at h

theorem ObjectSpace_Contains_iff {R : Type} [LinearOrderedField R] (cuboid : Cuboid R)
    (point : Vector R) :
    cuboid.ObjectSpace_Contains point = true ↔
      |point.x| ≤ cuboid.a + EPSILON ∧ |point.y| ≤ cuboid.b + EPSILON ∧
      |point.z| ≤ cuboid.c + EPSILON := by
  simp [Cuboid.ObjectSpace_Contains, and_assoc]

/-- A hit produced by the block of one face. -/
theorem face_hit_facts {R : Type} [LinearOrderedField R] (cuboid : Cuboid R)
    (vantage direction : Vector R) (u : R) (normal : Vector R) (tag : String)
    (hit : Intersection R)
    (h : hit ∈ cuboid.AppendFaceHit vantage direction u normal tag []) :
    EPSILON < u ∧
    hit.point = vantage.add (Vector.smul u direction) ∧
    hit.distanceSquared = u^2 * direction.MagnitudeSquared ∧
    hit.surfaceNormal = normal ∧
    |hit.point.x| ≤ cuboid.a + EPSILON ∧ |hit.point.y| ≤ cuboid.b + EPSILON ∧
    |hit.point.z| ≤ cuboid.c + EPSILON := by
  obtain ⟨hu, hc, rfl⟩ := mem_AppendFaceHit cuboid vantage direction u normal tag hit h
  rw [ObjectSpace_Contains_iff] at hc
  refine ⟨hu, rfl, ?_, rfl, hc⟩
  simp only [Vector.MagnitudeSquared, Vector.smul]
  ring

/-- C18: every intersection appended by `Cuboid::ObjectSpace_AppendAllIntersections` is a
forward hit on a face: its point is `vantage + u*direction` for a ray parameter
`u > EPSILON`; `distanceSquared` is `u^2 * |direction|^2`; the coordinate on the face's axis
is exactly plus or minus the half-size, with the normal the unit axis vector of the same sign;
the other two coordinates lie within the half-sizes plus `EPSILON`; and the axis of the face
has a direction component of magnitude above `EPSILON`, so an axis whose direction component
is at most `EPSILON` in magnitude contributes no hit. -/
theorem Cuboid_hits_are_face_hits {R : Type} [LinearOrderedField R]
    (cuboid : Cuboid R) (vantage direction : Vector R) (list : List (Intersection R)) :
    ∀ hit ∈ (cuboid.ObjectSpace_AppendAllIntersections vantage direction list).drop list.length,
      ∃ u : R, EPSILON < u ∧
        hit.point = vantage.add (Vector.smul u direction) ∧
        hit.distanceSquared = u^2 * direction.MagnitudeSquared ∧
        ((EPSILON < |direction.x| ∧
            ((hit.point.x = cuboid.a ∧ hit.surfaceNormal = ⟨1, 0, 0⟩) ∨
              (hit.point.x = -cuboid.a ∧ hit.surfaceNormal = ⟨-1, 0, 0⟩)) ∧
            |hit.point.y| ≤ cuboid.b + EPSILON ∧ |hit.point.z| ≤ cuboid.c + EPSILON) ∨
          (EPSILON < |direction.y| ∧
            ((hit.point.y = cuboid.b ∧ hit.surfaceNormal = ⟨0, 1, 0⟩) ∨
              (hit.point.y = -cuboid.b ∧ hit.surfaceNormal = ⟨0, -1, 0⟩)) ∧
            |hit.point.x| ≤ cuboid.a + EPSILON ∧ |hit.point.z| ≤ cuboid.c + EPSILON) ∨
          (EPSILON < |direction.z| ∧
            ((hit.point.z = cuboid.c ∧ hit.surfaceNormal = ⟨0, 0, 1⟩) ∨
              (hit.point.z = -cuboid.c ∧ hit.surfaceNormal = ⟨0, 0, -1⟩)) ∧
            |hit.point.x| ≤ cuboid.a + EPSILON ∧ |hit.point.y| ≤ cuboid.b + EPSILON)) := by
  intro hit hmem
  rw [ObjectSpace_AppendAllIntersections_eq, List.append_assoc, List.append_assoc,
    List.drop_left] at hmem
  have hne : ∀ t : R, EPSILON < |t| → t ≠ 0 := by
    intro t ht h0
    rw [h0, abs_zero] at ht
    exact absurd ht (not_lt.mpr EPSILON_pos.le)
  simp only [List.mem_append] at hmem
  rcases hmem with hx | hy | hz
  · by_cases hd : |direction.x| > EPSILON
    · simp only [hd, if_true, List.mem_append] at hx
      have hd0 := hne _ hd
      rcases hx with h | h
      · obtain ⟨hu, hp, hdist, hn, bx, by_, bz⟩ := face_hit_facts _ _ _ _ _ _ _ h
        refine ⟨_, hu, hp, hdist, Or.inl ⟨hd, Or.inl ⟨?_, hn⟩, by_, bz⟩⟩
        rw [hp]
        simp only [Vector.add, Vector.smul]
        field_simp
      · obtain ⟨hu, hp, hdist, hn, bx, by_, bz⟩ := face_hit_facts _ _ _ _ _ _ _ h
        refine ⟨_, hu, hp, hdist, Or.inl ⟨hd, Or.inr ⟨?_, hn⟩, by_, bz⟩⟩
        rw [hp]
        simp only [Vector.add, Vector.smul]
        field_simp
    · simp [hd] at hx
  · by_cases hd : |direction.y| > EPSILON
    · simp only [hd, if_true, List.mem_append] at hy
      have hd0 := hne _ hd
      rcases hy with h | h
      · obtain ⟨hu, hp, hdist, hn, bx, by_, bz⟩ := face_hit_facts _ _ _ _ _ _ _ h
        refine ⟨_, hu, hp, hdist, Or.inr (Or.inl ⟨hd, Or.inl ⟨?_, hn⟩, bx, bz⟩)⟩
        rw [hp]
        simp only [Vector.add, Vector.smul]
        field_simp
      · obtain ⟨hu, hp, hdist, hn, bx, by_, bz⟩ := face_hit_facts _ _ _ _ _ _ _ h
        refine ⟨_, hu, hp, hdist, Or.inr (Or.inl ⟨hd, Or.inr ⟨?_, hn⟩, bx, bz⟩)⟩
        rw [hp]
        simp only [Vector.add, Vector.smul]
        field_simp
    · simp [hd] at hy
  · by_cases hd : |direction.z| > EPSILON
    · simp only [hd, if_true, List.mem_append] at hz
      have hd0 := hne _ hd
      rcases hz with h | h
      · obtain ⟨hu, hp, hdist, hn, bx, by_, bz⟩ := face_hit_facts _ _ _ _ _ _ _ h
        refine ⟨_, hu, hp, hdist, Or.inr (Or.inr ⟨hd, Or.inl ⟨?_, hn⟩, bx, by_⟩)⟩
        rw [hp]
        simp only [Vector.add, Vector.smul]
        field_simp
      · obtain ⟨hu, hp, hdist, hn, bx, by_, bz⟩ := face_hit_facts _ _ _ _ _ _ _ h
        refine ⟨_, hu, hp, hdist, Or.inr (Or.inr ⟨hd, Or.inr ⟨?_, hn⟩, bx, by_⟩)⟩
        rw [hp]
        simp only [Vector.add, Vector.smul]
        field_simp
    · simp [hd] at hz

theorem Cuboid_hits_are_face_hits_witness :
    (⟨1, ⟨-1, 0, 0⟩, ⟨-1, 0, 0⟩, some "left face"⟩ : Intersection ℚ) ∈
      ((Cuboid.new (1:ℚ) 1 1).ObjectSpace_AppendAllIntersections ⟨-2, 0, 0⟩ ⟨1, 0, 0⟩ []).drop
        ([] : List (Intersection ℚ)).length ∧
    ∃ u : ℚ, EPSILON < u ∧
      (⟨-1, 0, 0⟩ : Vector ℚ) = Vector.add ⟨-2, 0, 0⟩ (Vector.smul u ⟨1, 0, 0⟩) ∧
      (1 : ℚ) = u^2 * Vector.MagnitudeSquared ⟨1, 0, 0⟩ := by
  have hmem : (⟨1, ⟨-1, 0, 0⟩, ⟨-1, 0, 0⟩, some "left face"⟩ : Intersection ℚ) ∈
      ((Cuboid.new (1:ℚ) 1 1).ObjectSpace_AppendAllIntersections ⟨-2, 0, 0⟩ ⟨1, 0, 0⟩ []).drop
        ([] : List (Intersection ℚ)).length := by
    simp [Cuboid.ObjectSpace_AppendAllIntersections, Cuboid.AppendFaceHit,
      Cuboid.ObjectSpace_Contains, Cuboid.new, Vector.add, Vector.smul, Vector.MagnitudeSquared,
      EPSILON]
    norm_num [abs_of_pos, abs_of_neg]
  obtain ⟨u, h1, h2, h3, _⟩ := Cuboid_hits_are_face_hits (Cuboid.new (1:ℚ) 1 1) ⟨-2, 0, 0⟩
    ⟨1, 0, 0⟩ [] _ hmem
  exact ⟨hmem, u, h1, h2, h3⟩

/-! ## The number of hits of a ray from outside the box -/

theorem Slab.ends_pos {R : Type} [LinearOrderedField R] (s : Slab R) (hd : 0 < s.d)
    (hh : 0 < s.h) : s.lo = (-s.h - s.v) / s.d ∧ s.hi = (s.h - s.v) / s.d := by
  have h : (-s.h - s.v) / s.d < (s.h - s.v) / s.d := by
    apply div_lt_div_of_pos_right _ hd
    linarith
  exact ⟨min_eq_right h.le, max_eq_left h.le⟩

theorem Slab.ends_neg {R : Type} [LinearOrderedField R] (s : Slab R) (hd : s.d < 0)
    (hh : 0 < s.h) : s.lo = (s.h - s.v) / s.d ∧ s.hi = (-s.h - s.v) / s.d := by
  have h : (s.h - s.v) / s.d < (-s.h - s.v) / s.d := by
    apply div_lt_div_of_neg_of_lt hd
    linarith
  exact ⟨min_eq_left h.le, max_eq_right h.le⟩

theorem Slab.lo_lt_hi {R : Type} [LinearOrderedField R] (s : Slab R) (hd : s.d ≠ 0)
    (hh : 0 < s.h) : s.lo < s.hi := by
  rcases lt_or_gt_of_ne hd with hneg | hpos
  · obtain ⟨e1, e2⟩ := s.ends_neg hneg hh
    rw [e1, e2]
    apply div_lt_div_of_neg_of_lt hneg
    linarith
  · obtain ⟨e1, e2⟩ := s.ends_pos hpos hh
    rw [e1, e2]
    apply div_lt_div_of_pos_right _ hpos
    linarith

theorem Slab.Inside_iff {R : Type} [LinearOrderedField R] (s : Slab R) (hd : s.d ≠ 0)
    (hh : 0 < s.h) (u : R) : s.Inside u ↔ s.lo < u ∧ u < s.hi := by
  unfold Slab.Inside
  rw [abs_lt]
  rcases lt_or_gt_of_ne hd with hneg | hpos
  · obtain ⟨e1, e2⟩ := s.ends_neg hneg hh
    rw [e1, e2, div_lt_iff_of_neg hneg, lt_div_iff_of_neg hneg]
    constructor
    · rintro ⟨h1, h2⟩; constructor <;> linarith
    · rintro ⟨h1, h2⟩; constructor <;> linarith
  · obtain ⟨e1, e2⟩ := s.ends_pos hpos hh
    rw [e1, e2, div_lt_iff₀ hpos, lt_div_iff₀ hpos]
    constructor
    · rintro ⟨h1, h2⟩; constructor <;> linarith
    · rintro ⟨h1, h2⟩; constructor <;> linarith

theorem Slab.Within_iff {R : Type} [LinearOrderedField R] (s : Slab R) (hd : s.d ≠ 0)
    (hh : 0 < s.h) (u : R) : s.Within u ↔ s.lo ≤ u ∧ u ≤ s.hi := by
  unfold Slab.Within
  rw [abs_le]
  rcases lt_or_gt_of_ne hd with hneg | hpos
  · obtain ⟨e1, e2⟩ := s.ends_neg hneg hh
    rw [e1, e2, div_le_iff_of_neg hneg, le_div_iff_of_neg hneg]
    constructor
    · rintro ⟨h1, h2⟩; constructor <;> linarith
    · rintro ⟨h1, h2⟩; constructor <;> linarith
  · obtain ⟨e1, e2⟩ := s.ends_pos hpos hh
    rw [e1, e2, div_le_iff₀ hpos, le_div_iff₀ hpos]
    constructor
    · rintro ⟨h1, h2⟩; constructor <;> linarith
    · rintro ⟨h1, h2⟩; constructor <;> linarith

theorem Slab.Inside_const {R : Type} [LinearOrderedField R] (s : Slab R) (hd : s.d = 0)
    (u w : R) : s.Inside u ↔ s.Inside w := by
  unfold Slab.Inside
  rw [hd, mul_zero, mul_zero]

theorem Slab.Within_of_Inside {R : Type} [LinearOrderedField R] (s : Slab R) (u : R)
    (h : s.Inside u) : s.Within u := le_of_lt h

/-- The coordinate moves along a line, so the parameters at which it is within the faces form
an interval. -/
theorem Slab.Within_convex {R : Type} [LinearOrderedField R] (s : Slab R) (u1 u2 u : R)
    (h1 : s.Within u1) (h2 : s.Within u2) (hu1 : u1 ≤ u) (hu2 : u ≤ u2) : s.Within u := by
  unfold Slab.Within at *
  rw [abs_le] at *
  rcases le_total 0 s.d with hd | hd
  · constructor
    · nlinarith [mul_le_mul_of_nonneg_right hu1 hd]
    · nlinarith [mul_le_mul_of_nonneg_right hu2 hd]
  · constructor
    · nlinarith [mul_le_mul_of_nonpos_right hu2 hd]
    · nlinarith [mul_le_mul_of_nonpos_right hu1 hd]

theorem Slab.not_Within_of_Clear {R : Type} [LinearOrderedField R] (s : Slab R) (u : R)
    (hc : s.Clear u) (hn : ¬ s.Inside u) : ¬ s.Within u := by
  unfold Slab.Within
  rcases hc with h | h
  · exact absurd h hn
  · have := @EPSILON_pos R _
    intro hw
    linarith

/-- A coordinate that is inside the faces at `u1` and outside them at a later `u2` leaves
them in between. -/
theorem Slab.leaves {R : Type} [LinearOrderedField R] (s : Slab R) (hh : 0 < s.h) (u1 u2 : R)
    (h12 : u1 < u2) (h1 : s.Inside u1) (h2 : ¬ s.Within u2) :
    s.d ≠ 0 ∧ s.lo < u1 ∧ u1 < s.hi ∧ s.hi < u2 := by
  have hd : s.d ≠ 0 := by
    intro hd
    exact h2 (s.Within_of_Inside u2 ((s.Inside_const hd u1 u2).mp h1))
  obtain ⟨ha, hb⟩ := (s.Inside_iff hd hh u1).mp h1
  refine ⟨hd, ha, hb, ?_⟩
  by_contra hcon
  apply h2
  rw [s.Within_iff hd hh]
  exact ⟨by linarith, not_lt.mp hcon⟩

/-- A coordinate that is outside the faces at `u1` and inside them at a later `u2` enters
them in between. -/
theorem Slab.enters {R : Type} [LinearOrderedField R] (s : Slab R) (hh : 0 < s.h) (u1 u2 : R)
    (h12 : u1 < u2) (h1 : ¬ s.Within u1) (h2 : s.Inside u2) :
    s.d ≠ 0 ∧ u1 < s.lo ∧ s.lo < u2 ∧ u2 < s.hi := by
  have hd : s.d ≠ 0 := by
    intro hd
    exact h1 (s.Within_of_Inside u1 ((s.Inside_const hd u2 u1).mp h2))
  obtain ⟨ha, hb⟩ := (s.Inside_iff hd hh u2).mp h2
  refine ⟨hd, ?_, ha, hb⟩
  by_contra hcon
  apply h1
  rw [s.Within_iff hd hh]
  exact ⟨not_lt.mp hcon, by linarith⟩

/-- Inside the faces at `u1`, and `u2` later but before the coordinate reaches a face again:
still inside at `u2`. -/
theorem Slab.Inside_between {R : Type} [LinearOrderedField R] (s : Slab R) (hh : 0 < s.h)
    (u1 u2 u : R) (h1 : s.Inside u1) (h2 : s.Inside u2) (hu1 : u1 ≤ u) (hu2 : u ≤ u2) :
    s.Inside u := by
  by_cases hd : s.d = 0
  · exact (s.Inside_const hd u1 u).mp h1
  · rw [s.Inside_iff hd hh] at *
    exact ⟨by linarith [h1.1], by linarith [h2.2]⟩

/-- First half of the chain: an accepted entry on slab `si` is followed by an accepted exit
on one of the three slabs. -/
theorem exit_of_entry {R : Type} [LinearOrderedField R] (si sj sk : Slab R)
    (hhi : 0 < si.h) (hhj : 0 < sj.h) (hhk : 0 < sk.h) (hdi : si.d ≠ 0)
    (hacc : EPSILON < si.lo ∧ sj.Inside si.lo ∧ sk.Inside si.lo)
    (ci : sj.Clear si.hi ∧ sk.Clear si.hi)
    (cj : sj.d ≠ 0 → si.Clear sj.hi ∧ sk.Clear sj.hi)
    (ck : sk.d ≠ 0 → si.Clear sk.hi ∧ sj.Clear sk.hi) :
    (EPSILON < si.hi ∧ sj.Inside si.hi ∧ sk.Inside si.hi) ∨
    (sj.d ≠ 0 ∧ EPSILON < sj.hi ∧ si.Inside sj.hi ∧ sk.Inside sj.hi) ∨
    (sk.d ≠ 0 ∧ EPSILON < sk.hi ∧ si.Inside sk.hi ∧ sj.Inside sk.hi) := by
  obtain ⟨he, hj, hk⟩ := hacc
  have hlh := si.lo_lt_hi hdi hhi
  have hin : ∀ u, si.lo < u → u < si.hi → si.Inside u := fun u h1 h2 =>
    (si.Inside_iff hdi hhi u).mpr ⟨h1, h2⟩
  by_cases hj2 : sj.Inside si.hi
  · by_cases hk2 : sk.Inside si.hi
    · exact Or.inl ⟨by linarith, hj2, hk2⟩
    · -- slab k is left first
      obtain ⟨hdk, k1, k2, k3⟩ := sk.leaves hhk _ _ hlh hk (sk.not_Within_of_Clear _ ci.2 hk2)
      by_cases hj3 : sj.Inside sk.hi
      · exact Or.inr (Or.inr ⟨hdk, by linarith, hin _ k2 k3, hj3⟩)
      · obtain ⟨hdj, j1, j2, j3⟩ :=
          sj.leaves hhj _ _ k2 hj (sj.not_Within_of_Clear _ (ck hdk).2 hj3)
        refine Or.inr (Or.inl ⟨hdj, by linarith, hin _ j2 (by linarith), ?_⟩)
        exact (sk.Inside_iff hdk hhk _).mpr ⟨by linarith, j3⟩
  · obtain ⟨hdj, j1, j2, j3⟩ := sj.leaves hhj _ _ hlh hj (sj.not_Within_of_Clear _ ci.1 hj2)
    by_cases hk3 : sk.Inside sj.hi
    · exact Or.inr (Or.inl ⟨hdj, by linarith, hin _ j2 j3, hk3⟩)
    · obtain ⟨hdk, k1, k2, k3⟩ :=
        sk.leaves hhk _ _ j2 hk (sk.not_Within_of_Clear _ (cj hdj).2 hk3)
      refine Or.inr (Or.inr ⟨hdk, by linarith, hin _ k2 (by linarith), ?_⟩)
      exact (sj.Inside_iff hdj hhj _).mpr ⟨by linarith, k3⟩

theorem entry_is_forward {R : Type} [LinearOrderedField R] (si sj sk : Slab R) (u0 u1 : R)
    (h0 : u0 ≤ 0 ∨ EPSILON < u0) (h1 : 0 ≤ u1)
    (hw0 : si.Within u0 ∧ sj.Within u0 ∧ sk.Within u0)
    (hw1 : si.Within u1 ∧ sj.Within u1 ∧ sk.Within u1)
    (hout : ¬ (si.Within 0 ∧ sj.Within 0 ∧ sk.Within 0)) : EPSILON < u0 := by
  rcases h0 with h0 | h0
  · exfalso
    apply hout
    exact ⟨si.Within_convex u0 u1 0 hw0.1 hw1.1 h0 h1,
      sj.Within_convex u0 u1 0 hw0.2.1 hw1.2.1 h0 h1,
      sk.Within_convex u0 u1 0 hw0.2.2 hw1.2.2 h0 h1⟩
  · exact h0

/-- Second half of the chain: an accepted exit on slab `si` is preceded by an accepted entry
on one of the three slabs, provided the ray origin is outside the box. -/
theorem entry_of_exit {R : Type} [LinearOrderedField R] (si sj sk : Slab R)
    (hhi : 0 < si.h) (hhj : 0 < sj.h) (hhk : 0 < sk.h) (hdi : si.d ≠ 0)
    (hacc : EPSILON < si.hi ∧ sj.Inside si.hi ∧ sk.Inside si.hi)
    (hout : ¬ (si.Within 0 ∧ sj.Within 0 ∧ sk.Within 0))
    (ci : (si.lo ≤ 0 ∨ EPSILON < si.lo) ∧ sj.Clear si.lo ∧ sk.Clear si.lo)
    (cj : sj.d ≠ 0 → (sj.lo ≤ 0 ∨ EPSILON < sj.lo) ∧ si.Clear sj.lo ∧ sk.Clear sj.lo)
    (ck : sk.d ≠ 0 → (sk.lo ≤ 0 ∨ EPSILON < sk.lo) ∧ si.Clear sk.lo ∧ sj.Clear sk.lo) :
    (EPSILON < si.lo ∧ sj.Inside si.lo ∧ sk.Inside si.lo) ∨
    (sj.d ≠ 0 ∧ EPSILON < sj.lo ∧ si.Inside sj.lo ∧ sk.Inside sj.lo) ∨
    (sk.d ≠ 0 ∧ EPSILON < sk.lo ∧ si.Inside sk.lo ∧ sj.Inside sk.lo) := by
  obtain ⟨he, hj, hk⟩ := hacc
  have hpos : (0:R) < EPSILON := EPSILON_pos
  have hlh := si.lo_lt_hi hdi hhi
  have hin : ∀ u, si.lo < u → u < si.hi → si.Inside u := fun u h1 h2 =>
    (si.Inside_iff hdi hhi u).mpr ⟨h1, h2⟩
  have hwi : ∀ u, si.lo ≤ u → u ≤ si.hi → si.Within u := fun u h1 h2 =>
    (si.Within_iff hdi hhi u).mpr ⟨h1, h2⟩
  have hw1 : si.Within si.hi ∧ sj.Within si.hi ∧ sk.Within si.hi :=
    ⟨hwi _ hlh.le le_rfl, sj.Within_of_Inside _ hj, sk.Within_of_Inside _ hk⟩
  by_cases hj2 : sj.Inside si.lo
  · by_cases hk2 : sk.Inside si.lo
    · refine Or.inl ⟨?_, hj2, hk2⟩
      exact entry_is_forward si sj sk si.lo si.hi ci.1 (by linarith)
        ⟨hwi _ le_rfl hlh.le, sj.Within_of_Inside _ hj2, sk.Within_of_Inside _ hk2⟩ hw1 hout
    · -- slab k is entered last
      obtain ⟨hdk, k1, k2, k3⟩ :=
        sk.enters hhk _ _ hlh (sk.not_Within_of_Clear _ ci.2.2 hk2) hk
      have hlk := sk.lo_lt_hi hdk hhk
      by_cases hj3 : sj.Inside sk.lo
      · refine Or.inr (Or.inr ⟨hdk, ?_, hin _ k1 k2, hj3⟩)
        exact entry_is_forward si sj sk sk.lo si.hi (ck hdk).1 (by linarith)
          ⟨hwi _ k1.le k2.le, sj.Within_of_Inside _ hj3,
            (sk.Within_iff hdk hhk _).mpr ⟨le_rfl, hlk.le⟩⟩ hw1 hout
      · obtain ⟨hdj, j1, j2, j3⟩ :=
          sj.enters hhj _ _ k2 (sj.not_Within_of_Clear _ (ck hdk).2.2 hj3) hj
        have hlj := sj.lo_lt_hi hdj hhj
        have hkin : sk.Inside sj.lo := (sk.Inside_iff hdk hhk _).mpr ⟨j1, by linarith⟩
        refine Or.inr (Or.inl ⟨hdj, ?_, hin _ (by linarith) j2, hkin⟩)
        exact entry_is_forward si sj sk sj.lo si.hi (cj hdj).1 (by linarith)
          ⟨hwi _ (by linarith) j2.le, (sj.Within_iff hdj hhj _).mpr ⟨le_rfl, hlj.le⟩,
            sk.Within_of_Inside _ hkin⟩ hw1 hout
  · obtain ⟨hdj, j1, j2, j3⟩ :=
      sj.enters hhj _ _ hlh (sj.not_Within_of_Clear _ ci.2.1 hj2) hj
    have hlj := sj.lo_lt_hi hdj hhj
    by_cases hk3 : sk.Inside sj.lo
    · refine Or.inr (Or.inl ⟨hdj, ?_, hin _ j1 j2, hk3⟩)
      exact entry_is_forward si sj sk sj.lo si.hi (cj hdj).1 (by linarith)
        ⟨hwi _ j1.le j2.le, (sj.Within_iff hdj hhj _).mpr ⟨le_rfl, hlj.le⟩,
          sk.Within_of_Inside _ hk3⟩ hw1 hout
    · obtain ⟨hdk, k1, k2, k3⟩ :=
        sk.enters hhk _ _ j2 (sk.not_Within_of_Clear _ (cj hdj).2.2 hk3) hk
      have hlk := sk.lo_lt_hi hdk hhk
      have hjin : sj.Inside sk.lo := (sj.Inside_iff hdj hhj _).mpr ⟨k1, by linarith⟩
      refine Or.inr (Or.inr ⟨hdk, ?_, hin _ (by linarith) k2, hjin⟩)
      exact entry_is_forward si sj sk sk.lo si.hi (ck hdk).1 (by linarith)
        ⟨hwi _ (by linarith) k2.le, sj.Within_of_Inside _ hjin,
          (sk.Within_iff hdk hhk _).mpr ⟨le_rfl, hlk.le⟩⟩ hw1 hout

theorem entries_exclusive {R : Type} [LinearOrderedField R] (si sj : Slab R)
    (hhi : 0 < si.h) (hhj : 0 < sj.h) (hdi : si.d ≠ 0) (hdj : sj.d ≠ 0)
    (h1 : sj.Inside si.lo) (h2 : si.Inside sj.lo) : False := by
  rw [sj.Inside_iff hdj hhj] at h1
  rw [si.Inside_iff hdi hhi] at h2
  linarith [h1.1, h2.1]

theorem exits_exclusive {R : Type} [LinearOrderedField R] (si sj : Slab R)
    (hhi : 0 < si.h) (hhj : 0 < sj.h) (hdi : si.d ≠ 0) (hdj : sj.d ≠ 0)
    (h1 : sj.Inside si.hi) (h2 : si.Inside sj.hi) : False := by
  rw [sj.Inside_iff hdj hhj] at h1
  rw [si.Inside_iff hdi hhi] at h2
  linarith [h1.2, h2.2]

theorem AppendFaceHit_length_eq {R : Type} [LinearOrderedField R] (cuboid : Cuboid R)
    (vantage direction : Vector R) (u : R) (normal : Vector R) (tag : String) :
    ((EPSILON < u ∧ cuboid.ObjectSpace_Contains (vantage.add (Vector.smul u direction)) = true) →
      (cuboid.AppendFaceHit vantage direction u normal tag []).length = 1) ∧
    (¬ (EPSILON < u ∧
        cuboid.ObjectSpace_Contains (vantage.add (Vector.smul u direction)) = true) →
      (cuboid.AppendFaceHit vantage direction u normal tag []).length = 0) := by
  unfold Cuboid.AppendFaceHit
  by_cases hu : u > EPSILON
  · by_cases hc : cuboid.ObjectSpace_Contains (vantage.add (Vector.smul u direction)) = true
    · simp [hu, hc]
    · simp [hu, hc]
  · simp [hu]

theorem Slab.Clear_le_iff {R : Type} [LinearOrderedField R] (s : Slab R) (u : R)
    (hc : s.Clear u) : |s.v + u * s.d| ≤ s.h + EPSILON ↔ s.Inside u := by
  have hpos : (0:R) < EPSILON := EPSILON_pos
  unfold Slab.Inside
  rcases hc with h | h
  · constructor
    · intro _; exact h
    · intro _; linarith
  · constructor
    · intro h2; linarith
    · intro h2; linarith

theorem Slab.at_lo_hi {R : Type} [LinearOrderedField R] (s : Slab R) (hd : s.d ≠ 0)
    (hh : 0 < s.h) :
    |s.v + s.lo * s.d| ≤ s.h + EPSILON ∧ |s.v + s.hi * s.d| ≤ s.h + EPSILON := by
  have hpos : (0:R) < EPSILON := EPSILON_pos
  have e1 : s.v + (s.h - s.v) / s.d * s.d = s.h := by field_simp
  have e2 : s.v + (-s.h - s.v) / s.d * s.d = -s.h := by field_simp
  have a1 : |s.h| ≤ s.h + EPSILON := by rw [abs_of_pos hh]; linarith
  have a2 : |-s.h| ≤ s.h + EPSILON := by rw [abs_neg, abs_of_pos hh]; linarith
  rcases lt_or_gt_of_ne hd with hneg | hp
  · obtain ⟨l, h⟩ := s.ends_neg hneg hh
    rw [l, h, e1, e2]
    exact ⟨a1, a2⟩
  · obtain ⟨l, h⟩ := s.ends_pos hp hh
    rw [l, h, e1, e2]
    exact ⟨a2, a1⟩

/-- The two plane parameters the source computes for an axis are `lo` and `hi` in one order
or the other. -/
theorem Slab.params {R : Type} [LinearOrderedField R] (s : Slab R) (hd : s.d ≠ 0)
    (hh : 0 < s.h) :
    ((s.h - s.v) / s.d = s.hi ∧ (-s.h - s.v) / s.d = s.lo) ∨
    ((s.h - s.v) / s.d = s.lo ∧ (-s.h - s.v) / s.d = s.hi) := by
  rcases lt_or_gt_of_ne hd with hneg | hp
  · obtain ⟨l, h⟩ := s.ends_neg hneg hh
    exact Or.inr ⟨l.symm, h.symm⟩
  · obtain ⟨l, h⟩ := s.ends_pos hp hh
    exact Or.inl ⟨h.symm, l.symm⟩

theorem Contains_on_ray {R : Type} [LinearOrderedField R] (cuboid : Cuboid R)
    (vantage direction : Vector R) (u : R) :
    cuboid.ObjectSpace_Contains (vantage.add (Vector.smul u direction)) = true ↔
      |(cuboid.slabX vantage direction).v + u * (cuboid.slabX vantage direction).d|
          ≤ (cuboid.slabX vantage direction).h + EPSILON ∧
      |(cuboid.slabY vantage direction).v + u * (cuboid.slabY vantage direction).d|
          ≤ (cuboid.slabY vantage direction).h + EPSILON ∧
      |(cuboid.slabZ vantage direction).v + u * (cuboid.slabZ vantage direction).d|
          ≤ (cuboid.slabZ vantage direction).h + EPSILON := by
  rw [ObjectSpace_Contains_iff]
  rfl

/-- The two face blocks of one axis, counted: `nP` hits at the parameter of the `+` face and
`nM` at the parameter of the `-` face are one hit for an accepted entry plus one for an
accepted exit. -/
theorem axis_count {R : Type} [LinearOrderedField R] (cuboid : Cuboid R)
    (vantage direction : Vector R) (s sj sk : Slab R) (n1 n2 : Vector R) (t1 t2 : String)
    (hd : s.d ≠ 0) (hh : 0 < s.h)
    (hlo : cuboid.ObjectSpace_Contains (vantage.add (Vector.smul s.lo direction)) = true ↔
      sj.Inside s.lo ∧ sk.Inside s.lo)
    (hhi : cuboid.ObjectSpace_Contains (vantage.add (Vector.smul s.hi direction)) = true ↔
      sj.Inside s.hi ∧ sk.Inside s.hi) :
    ∃ na nb : ℕ,
      (cuboid.AppendFaceHit vantage direction ((s.h - s.v) / s.d) n1 t1 []
        ++ cuboid.AppendFaceHit vantage direction ((-s.h - s.v) / s.d) n2 t2 []).length
          = na + nb ∧
      (Slab.Accepts sj sk s.lo → na = 1) ∧ (¬ Slab.Accepts sj sk s.lo → na = 0) ∧
      (Slab.Accepts sj sk s.hi → nb = 1) ∧ (¬ Slab.Accepts sj sk s.hi → nb = 0) := by
  have key : ∀ (u : R) (n : Vector R) (t : String) (sjk : Prop),
      (cuboid.ObjectSpace_Contains (vantage.add (Vector.smul u direction)) = true ↔ sjk) →
      ((EPSILON < u ∧ sjk) → (cuboid.AppendFaceHit vantage direction u n t []).length = 1) ∧
      (¬ (EPSILON < u ∧ sjk) → (cuboid.AppendFaceHit vantage direction u n t []).length = 0) := by
    intro u n t sjk h
    obtain ⟨k1, k0⟩ := AppendFaceHit_length_eq cuboid vantage direction u n t
    rw [h] at k1 k0
    exact ⟨k1, k0⟩
  rw [List.length_append]
  rcases s.params hd hh with ⟨e1, e2⟩ | ⟨e1, e2⟩
  · rw [e1, e2]
    obtain ⟨a1, a0⟩ := key s.lo n2 t2 _ hlo
    obtain ⟨b1, b0⟩ := key s.hi n1 t1 _ hhi
    exact ⟨_, _, Nat.add_comm _ _, a1, a0, b1, b0⟩
  · rw [e1, e2]
    obtain ⟨a1, a0⟩ := key s.lo n1 t1 _ hlo
    obtain ⟨b1, b0⟩ := key s.hi n2 t2 _ hhi
    exact ⟨_, _, rfl, a1, a0, b1, b0⟩

/-- What one axis contributes to the count, in terms of its accepted entry and exit. -/
theorem axis_block_count {R : Type} [LinearOrderedField R] (cuboid : Cuboid R)
    (vantage direction : Vector R) (s sj sk : Slab R) (n1 n2 : Vector R) (t1 t2 : String)
    (hh : 0 < s.h) (hdir : s.d = 0 ∨ EPSILON < |s.d|)
    (hlo : s.d ≠ 0 →
      (cuboid.ObjectSpace_Contains (vantage.add (Vector.smul s.lo direction)) = true ↔
        sj.Inside s.lo ∧ sk.Inside s.lo))
    (hhi : s.d ≠ 0 →
      (cuboid.ObjectSpace_Contains (vantage.add (Vector.smul s.hi direction)) = true ↔
        sj.Inside s.hi ∧ sk.Inside s.hi)) :
    ∃ na nb : ℕ,
      (if |s.d| > EPSILON then
          cuboid.AppendFaceHit vantage direction ((s.h - s.v) / s.d) n1 t1 []
            ++ cuboid.AppendFaceHit vantage direction ((-s.h - s.v) / s.d) n2 t2 []
        else []).length = na + nb ∧
      ((s.d ≠ 0 ∧ Slab.Accepts sj sk s.lo) → na = 1) ∧
      (¬ (s.d ≠ 0 ∧ Slab.Accepts sj sk s.lo) → na = 0) ∧
      ((s.d ≠ 0 ∧ Slab.Accepts sj sk s.hi) → nb = 1) ∧
      (¬ (s.d ≠ 0 ∧ Slab.Accepts sj sk s.hi) → nb = 0) := by
  rcases hdir with h0 | hpos
  · have hn : ¬ |s.d| > EPSILON := by
      rw [h0, abs_zero]
      exact not_lt.mpr EPSILON_pos.le
    refine ⟨0, 0, by simp only [hn, if_false, List.length_nil], ?_, ?_, ?_, ?_⟩
    · intro h; exact absurd h0 h.1
    · intro _; rfl
    · intro h; exact absurd h0 h.1
    · intro _; rfl
  · have hd : s.d ≠ 0 := by
      intro h0
      rw [h0, abs_zero] at hpos
      exact absurd hpos (not_lt.mpr EPSILON_pos.le)
    obtain ⟨na, nb, hsum, a1, a0, b1, b0⟩ :=
      axis_count cuboid vantage direction s sj sk n1 n2 t1 t2 hd hh (hlo hd) (hhi hd)
    refine ⟨na, nb, ?_, fun h => a1 h.2, fun h => a0 (fun h2 => h ⟨hd, h2⟩),
      fun h => b1 h.2, fun h => b0 (fun h2 => h ⟨hd, h2⟩)⟩
    have hgt : |s.d| > EPSILON := hpos
    simp only [hgt, if_true]
    exact hsum

/-- Counting the accepted events: with at most one accepted entry, at most one accepted exit
and an entry exactly when there is an exit, the six indicators sum to 0 or 2. -/
theorem count_zero_or_two (px py pz qx qy qz : Prop) (n1 n2 n3 m1 m2 m3 : ℕ)
    (hax1 : px → n1 = 1) (hax0 : ¬ px → n1 = 0)
    (hay1 : py → n2 = 1) (hay0 : ¬ py → n2 = 0)
    (haz1 : pz → n3 = 1) (haz0 : ¬ pz → n3 = 0)
    (hqx1 : qx → m1 = 1) (hqx0 : ¬ qx → m1 = 0)
    (hby1 : qy → m2 = 1) (hby0 : ¬ qy → m2 = 0)
    (hqz1 : qz → m3 = 1) (hqz0 : ¬ qz → m3 = 0)
    (exy : px → py → False) (exz : px → pz → False) (eyz : py → pz → False)
    (fxy : qx → qy → False) (fxz : qx → qz → False) (fyz : qy → qz → False)
    (hab : px ∨ py ∨ pz → qx ∨ qy ∨ qz) (hba : qx ∨ qy ∨ qz → px ∨ py ∨ pz) :
    (n1 + m1) + (n2 + m2) + (n3 + m3) = 0 ∨ (n1 + m1) + (n2 + m2) + (n3 + m3) = 2 := by
  by_cases h1 : px <;> by_cases h2 : py <;> by_cases h3 : pz <;>
  by_cases h4 : qx <;> by_cases h5 : qy <;> by_cases h6 : qz <;>
  simp only [h1, h2, h3, h4, h5, h6, true_or, or_true, or_self, true_imp_iff, false_imp_iff,
    not_true_eq_false, not_false_eq_true, imp_false, imp_self] at * <;>
  omega

/-- Three slabs met by one ray that starts outside their common box and keeps clear of the
tolerances: the accepted entries and exits number 0 or 2. -/
theorem slabs_zero_or_two {R : Type} [LinearOrderedField R] (sx sy sz : Slab R)
    (hhx : 0 < sx.h) (hhy : 0 < sy.h) (hhz : 0 < sz.h)
    (hout : ¬ (sx.Within 0 ∧ sy.Within 0 ∧ sz.Within 0))
    (cx : sx.d ≠ 0 → ∀ u, u = sx.lo ∨ u = sx.hi →
      (u ≤ 0 ∨ EPSILON < u) ∧ sy.Clear u ∧ sz.Clear u)
    (cy : sy.d ≠ 0 → ∀ u, u = sy.lo ∨ u = sy.hi →
      (u ≤ 0 ∨ EPSILON < u) ∧ sx.Clear u ∧ sz.Clear u)
    (cz : sz.d ≠ 0 → ∀ u, u = sz.lo ∨ u = sz.hi →
      (u ≤ 0 ∨ EPSILON < u) ∧ sx.Clear u ∧ sy.Clear u)
    (n1 m1 n2 m2 n3 m3 : ℕ)
    (hx : ((sx.d ≠ 0 ∧ Slab.Accepts sy sz sx.lo) → n1 = 1) ∧
      (¬ (sx.d ≠ 0 ∧ Slab.Accepts sy sz sx.lo) → n1 = 0) ∧
      ((sx.d ≠ 0 ∧ Slab.Accepts sy sz sx.hi) → m1 = 1) ∧
      (¬ (sx.d ≠ 0 ∧ Slab.Accepts sy sz sx.hi) → m1 = 0))
    (hy : ((sy.d ≠ 0 ∧ Slab.Accepts sx sz sy.lo) → n2 = 1) ∧
      (¬ (sy.d ≠ 0 ∧ Slab.Accepts sx sz sy.lo) → n2 = 0) ∧
      ((sy.d ≠ 0 ∧ Slab.Accepts sx sz sy.hi) → m2 = 1) ∧
      (¬ (sy.d ≠ 0 ∧ Slab.Accepts sx sz sy.hi) → m2 = 0))
    (hz : ((sz.d ≠ 0 ∧ Slab.Accepts sx sy sz.lo) → n3 = 1) ∧
      (¬ (sz.d ≠ 0 ∧ Slab.Accepts sx sy sz.lo) → n3 = 0) ∧
      ((sz.d ≠ 0 ∧ Slab.Accepts sx sy sz.hi) → m3 = 1) ∧
      (¬ (sz.d ≠ 0 ∧ Slab.Accepts sx sy sz.hi) → m3 = 0)) :
    (n1 + m1) + (n2 + m2) + (n3 + m3) = 0 ∨ (n1 + m1) + (n2 + m2) + (n3 + m3) = 2 := by
  have houtY : ¬ (sy.Within 0 ∧ sx.Within 0 ∧ sz.Within 0) := fun h => hout ⟨h.2.1, h.1, h.2.2⟩
  have houtZ : ¬ (sz.Within 0 ∧ sx.Within 0 ∧ sy.Within 0) := fun h => hout ⟨h.2.1, h.2.2, h.1⟩
  refine count_zero_or_two _ _ _ _ _ _ n1 n2 n3 m1 m2 m3 hx.1 hx.2.1 hy.1 hy.2.1 hz.1 hz.2.1
    hx.2.2.1 hx.2.2.2 hy.2.2.1 hy.2.2.2 hz.2.2.1 hz.2.2.2 ?_ ?_ ?_ ?_ ?_ ?_ ?_ ?_
  · rintro ⟨hdx, _, h1, _⟩ ⟨hdy, _, h2, _⟩
    exact entries_exclusive sx sy hhx hhy hdx hdy h1 h2
  · rintro ⟨hdx, _, _, h1⟩ ⟨hdz, _, h2, _⟩
    exact entries_exclusive sx sz hhx hhz hdx hdz h1 h2
  · rintro ⟨hdy, _, _, h1⟩ ⟨hdz, _, _, h2⟩
    exact entries_exclusive sy sz hhy hhz hdy hdz h1 h2
  · rintro ⟨hdx, _, h1, _⟩ ⟨hdy, _, h2, _⟩
    exact exits_exclusive sx sy hhx hhy hdx hdy h1 h2
  · rintro ⟨hdx, _, _, h1⟩ ⟨hdz, _, h2, _⟩
    exact exits_exclusive sx sz hhx hhz hdx hdz h1 h2
  · rintro ⟨hdy, _, _, h1⟩ ⟨hdz, _, _, h2⟩
    exact exits_exclusive sy sz hhy hhz hdy hdz h1 h2
  · rintro (⟨hd, h⟩ | ⟨hd, h⟩ | ⟨hd, h⟩)
    · rcases exit_of_entry sx sy sz hhx hhy hhz hd h (cx hd _ (Or.inr rfl)).2
        (fun h => (cy h _ (Or.inr rfl)).2) (fun h => (cz h _ (Or.inr rfl)).2)
        with r | ⟨d, r⟩ | ⟨d, r⟩
      · exact Or.inl ⟨hd, r⟩
      · exact Or.inr (Or.inl ⟨d, r⟩)
      · exact Or.inr (Or.inr ⟨d, r⟩)
    · rcases exit_of_entry sy sx sz hhy hhx hhz hd h (cy hd _ (Or.inr rfl)).2
        (fun h => (cx h _ (Or.inr rfl)).2) (fun h => (cz h _ (Or.inr rfl)).2.symm)
        with r | ⟨d, r⟩ | ⟨d, r⟩
      · exact Or.inr (Or.inl ⟨hd, r⟩)
      · exact Or.inl ⟨d, r⟩
      · exact Or.inr (Or.inr ⟨d, r.1, r.2.2, r.2.1⟩)
    · rcases exit_of_entry sz sx sy hhz hhx hhy hd h (cz hd _ (Or.inr rfl)).2
        (fun h => (cx h _ (Or.inr rfl)).2.symm) (fun h => (cy h _ (Or.inr rfl)).2.symm)
        with r | ⟨d, r⟩ | ⟨d, r⟩
      · exact Or.inr (Or.inr ⟨hd, r⟩)
      · exact Or.inl ⟨d, r.1, r.2.2, r.2.1⟩
      · exact Or.inr (Or.inl ⟨d, r.1, r.2.2, r.2.1⟩)
  · rintro (⟨hd, h⟩ | ⟨hd, h⟩ | ⟨hd, h⟩)
    · rcases entry_of_exit sx sy sz hhx hhy hhz hd h hout (cx hd _ (Or.inl rfl))
        (fun h => cy h _ (Or.inl rfl)) (fun h => cz h _ (Or.inl rfl))
        with r | ⟨d, r⟩ | ⟨d, r⟩
      · exact Or.inl ⟨hd, r⟩
      · exact Or.inr (Or.inl ⟨d, r⟩)
      · exact Or.inr (Or.inr ⟨d, r⟩)
    · rcases entry_of_exit sy sx sz hhy hhx hhz hd h houtY (cy hd _ (Or.inl rfl))
        (fun h => cx h _ (Or.inl rfl))
        (fun h => ⟨(cz h _ (Or.inl rfl)).1, (cz h _ (Or.inl rfl)).2.symm⟩)
        with r | ⟨d, r⟩ | ⟨d, r⟩
      · exact Or.inr (Or.inl ⟨hd, r⟩)
      · exact Or.inl ⟨d, r⟩
      · exact Or.inr (Or.inr ⟨d, r.1, r.2.2, r.2.1⟩)
    · rcases entry_of_exit sz sx sy hhz hhx hhy hd h houtZ (cz hd _ (Or.inl rfl))
        (fun h => ⟨(cx h _ (Or.inl rfl)).1, (cx h _ (Or.inl rfl)).2.symm⟩)
        (fun h => ⟨(cy h _ (Or.inl rfl)).1, (cy h _ (Or.inl rfl)).2.symm⟩)
        with r | ⟨d, r⟩ | ⟨d, r⟩
      · exact Or.inr (Or.inr ⟨hd, r⟩)
      · exact Or.inl ⟨d, r.1, r.2.2, r.2.1⟩
      · exact Or.inr (Or.inl ⟨d, r.1, r.2.2, r.2.1⟩)

/-- C17 (amended): over exact real arithmetic, for a cuboid with positive half-sizes and a ray
whose origin is outside the box, if the ray keeps clear of the tolerances of the routine (`RayIsClear`: no direction
component in `(0, EPSILON]`, no face plane met at a ray parameter in `(0, EPSILON]`, and at
every face plane the two other coordinates strictly inside their half-size or beyond it by
more than `EPSILON`), then `ObjectSpace_AppendAllIntersections` appends exactly 0 or exactly
2 intersections. -/
theorem Cuboid_zero_or_two_hits {R : Type} [LinearOrderedField R] (cuboid : Cuboid R)
    (vantage direction : Vector R) (list : List (Intersection R))
    (hsize : 0 < cuboid.a ∧ 0 < cuboid.b ∧ 0 < cuboid.c)
    (hout : cuboid.a < |vantage.x| ∨ cuboid.b < |vantage.y| ∨ cuboid.c < |vantage.z|)
    (hclear : cuboid.RayIsClear vantage direction) :
    (cuboid.ObjectSpace_AppendAllIntersections vantage direction list).length = list.length ∨
    (cuboid.ObjectSpace_AppendAllIntersections vantage direction list).length
      = list.length + 2 := by
  obtain ⟨ha, hb, hc⟩ := hsize
  obtain ⟨dx, dy, dz, cx, cy, cz⟩ := hclear
  have hhx : 0 < (cuboid.slabX vantage direction).h := ha
  have hhy : 0 < (cuboid.slabY vantage direction).h := hb
  have hhz : 0 < (cuboid.slabZ vantage direction).h := hc
  have hout2 : ¬ ((cuboid.slabX vantage direction).Within 0 ∧
      (cuboid.slabY vantage direction).Within 0 ∧ (cuboid.slabZ vantage direction).Within 0) := by
    rintro ⟨h1, h2, h3⟩
    simp only [Slab.Within, Cuboid.slabX, Cuboid.slabY, Cuboid.slabZ, zero_mul, add_zero]
      at h1 h2 h3
    rcases hout with h | h | h
    · exact absurd h1 (not_le.mpr h)
    · exact absurd h2 (not_le.mpr h)
    · exact absurd h3 (not_le.mpr h)
  -- the containment test at the events of each axis
  have evX : ∀ u, (direction.x ≠ 0) →
      (u = (cuboid.slabX vantage direction).lo ∨ u = (cuboid.slabX vantage direction).hi) →
      (cuboid.ObjectSpace_Contains (vantage.add (Vector.smul u direction)) = true ↔
        (cuboid.slabY vantage direction).Inside u ∧ (cuboid.slabZ vantage direction).Inside u) := by
    intro u hd hu
    obtain ⟨_, c1, c2⟩ := cx hd u hu
    have hat := (cuboid.slabX vantage direction).at_lo_hi hd hhx
    have hself : |(cuboid.slabX vantage direction).v + u * (cuboid.slabX vantage direction).d|
        ≤ (cuboid.slabX vantage direction).h + EPSILON := by
      rcases hu with rfl | rfl
      · exact hat.1
      · exact hat.2
    rw [Contains_on_ray, Slab.Clear_le_iff _ u c1, Slab.Clear_le_iff _ u c2]
    exact ⟨fun h => h.2, fun h => ⟨hself, h⟩⟩
  have evY : ∀ u, (direction.y ≠ 0) →
      (u = (cuboid.slabY vantage direction).lo ∨ u = (cuboid.slabY vantage direction).hi) →
      (cuboid.ObjectSpace_Contains (vantage.add (Vector.smul u direction)) = true ↔
        (cuboid.slabX vantage direction).Inside u ∧ (cuboid.slabZ vantage direction).Inside u) := by
    intro u hd hu
    obtain ⟨_, c1, c2⟩ := cy hd u hu
    have hat := (cuboid.slabY vantage direction).at_lo_hi hd hhy
    have hself : |(cuboid.slabY vantage direction).v + u * (cuboid.slabY vantage direction).d|
        ≤ (cuboid.slabY vantage direction).h + EPSILON := by
      rcases hu with rfl | rfl
      · exact hat.1
      · exact hat.2
    rw [Contains_on_ray, Slab.Clear_le_iff _ u c1, Slab.Clear_le_iff _ u c2]
    exact ⟨fun h => ⟨h.1, h.2.2⟩, fun h => ⟨h.1, hself, h.2⟩⟩
  have evZ : ∀ u, (direction.z ≠ 0) →
      (u = (cuboid.slabZ vantage direction).lo ∨ u = (cuboid.slabZ vantage direction).hi) →
      (cuboid.ObjectSpace_Contains (vantage.add (Vector.smul u direction)) = true ↔
        (cuboid.slabX vantage direction).Inside u ∧ (cuboid.slabY vantage direction).Inside u) := by
    intro u hd hu
    obtain ⟨_, c1, c2⟩ := cz hd u hu
    have hat := (cuboid.slabZ vantage direction).at_lo_hi hd hhz
    have hself : |(cuboid.slabZ vantage direction).v + u * (cuboid.slabZ vantage direction).d|
        ≤ (cuboid.slabZ vantage direction).h + EPSILON := by
      rcases hu with rfl | rfl
      · exact hat.1
      · exact hat.2
    rw [Contains_on_ray, Slab.Clear_le_iff _ u c1, Slab.Clear_le_iff _ u c2]
    exact ⟨fun h => ⟨h.1, h.2.1⟩, fun h => ⟨h.1, h.2, hself⟩⟩
  obtain ⟨n1, m1, ex, hx⟩ := axis_block_count cuboid vantage direction
    (cuboid.slabX vantage direction) (cuboid.slabY vantage direction)
    (cuboid.slabZ vantage direction) ⟨1, 0, 0⟩ ⟨-1, 0, 0⟩ "right face" "left face" hhx dx
    (fun hd => evX _ hd (Or.inl rfl)) (fun hd => evX _ hd (Or.inr rfl))
  obtain ⟨n2, m2, ey, hy⟩ := axis_block_count cuboid vantage direction
    (cuboid.slabY vantage direction) (cuboid.slabX vantage direction)
    (cuboid.slabZ vantage direction) ⟨0, 1, 0⟩ ⟨0, -1, 0⟩ "front face" "back face" hhy dy
    (fun hd => evY _ hd (Or.inl rfl)) (fun hd => evY _ hd (Or.inr rfl))
  obtain ⟨n3, m3, ez, hz⟩ := axis_block_count cuboid vantage direction
    (cuboid.slabZ vantage direction) (cuboid.slabX vantage direction)
    (cuboid.slabY vantage direction) ⟨0, 0, 1⟩ ⟨0, 0, -1⟩ "top face" "bottom face" hhz dz
    (fun hd => evZ _ hd (Or.inl rfl)) (fun hd => evZ _ hd (Or.inr rfl))
  have total := slabs_zero_or_two (cuboid.slabX vantage direction)
    (cuboid.slabY vantage direction) (cuboid.slabZ vantage direction) hhx hhy hhz hout2
    cx cy cz n1 m1 n2 m2 n3 m3 hx hy hz
  rw [ObjectSpace_AppendAllIntersections_eq]
  simp only [List.length_append]
  have ex2 : (if |direction.x| > EPSILON then
      cuboid.AppendFaceHit vantage direction ((cuboid.a - vantage.x) / direction.x)
        ⟨1, 0, 0⟩ "right face" []
      ++ cuboid.AppendFaceHit vantage direction ((-cuboid.a - vantage.x) / direction.x)
        ⟨-1, 0, 0⟩ "left face" []
      else []).length = n1 + m1 := ex
  have ey2 : (if |direction.y| > EPSILON then
      cuboid.AppendFaceHit vantage direction ((cuboid.b - vantage.y) / direction.y)
        ⟨0, 1, 0⟩ "front face" []
      ++ cuboid.AppendFaceHit vantage direction ((-cuboid.b - vantage.y) / direction.y)
        ⟨0, -1, 0⟩ "back face" []
      else []).length = n2 + m2 := ey
  have ez2 : (if |direction.z| > EPSILON then
      cuboid.AppendFaceHit vantage direction ((cuboid.c - vantage.z) / direction.z)
        ⟨0, 0, 1⟩ "top face" []
      ++ cuboid.AppendFaceHit vantage direction ((-cuboid.c - vantage.z) / direction.z)
        ⟨0, 0, -1⟩ "bottom face" []
      else []).length = n3 + m3 := ez
  rw [ex2, ey2, ez2]
  omega

theorem Cuboid_zero_or_two_hits_witness :
    (0 < (Cuboid.new (1:ℚ) 1 1).a ∧ 0 < (Cuboid.new (1:ℚ) 1 1).b ∧
      0 < (Cuboid.new (1:ℚ) 1 1).c) ∧
    ((Cuboid.new (1:ℚ) 1 1).a < |(-2:ℚ)| ∨ (Cuboid.new (1:ℚ) 1 1).b < |(-1/2:ℚ)| ∨
      (Cuboid.new (1:ℚ) 1 1).c < |(-1/4:ℚ)|) ∧
    (Cuboid.new (1:ℚ) 1 1).RayIsClear ⟨-2, -1/2, -1/4⟩ ⟨1, 1/4, 1/8⟩ ∧
    (((Cuboid.new (1:ℚ) 1 1).ObjectSpace_AppendAllIntersections
        ⟨-2, -1/2, -1/4⟩ ⟨1, 1/4, 1/8⟩ []).length = ([] : List (Intersection ℚ)).length ∨
     ((Cuboid.new (1:ℚ) 1 1).ObjectSpace_AppendAllIntersections
        ⟨-2, -1/2, -1/4⟩ ⟨1, 1/4, 1/8⟩ []).length
          = ([] : List (Intersection ℚ)).length + 2) := by
  have h1 : 0 < (Cuboid.new (1:ℚ) 1 1).a ∧ 0 < (Cuboid.new (1:ℚ) 1 1).b ∧
      0 < (Cuboid.new (1:ℚ) 1 1).c := by
    simp [Cuboid.new]
  have h2 : (Cuboid.new (1:ℚ) 1 1).a < |(-2:ℚ)| ∨ (Cuboid.new (1:ℚ) 1 1).b < |(-1/2:ℚ)| ∨
      (Cuboid.new (1:ℚ) 1 1).c < |(-1/4:ℚ)| := by
    left
    norm_num [Cuboid.new, abs_of_neg]
  have h3 : (Cuboid.new (1:ℚ) 1 1).RayIsClear ⟨-2, -1/2, -1/4⟩ ⟨1, 1/4, 1/8⟩ := by
    have lx : (Cuboid.slabX (Cuboid.new (1:ℚ) 1 1) ⟨-2, -1/2, -1/4⟩ ⟨1, 1/4, 1/8⟩).lo = 1 := by
      norm_num [Slab.lo, Cuboid.slabX, Cuboid.new]
    have hx : (Cuboid.slabX (Cuboid.new (1:ℚ) 1 1) ⟨-2, -1/2, -1/4⟩ ⟨1, 1/4, 1/8⟩).hi = 3 := by
      norm_num [Slab.hi, Cuboid.slabX, Cuboid.new]
    have ly : (Cuboid.slabY (Cuboid.new (1:ℚ) 1 1) ⟨-2, -1/2, -1/4⟩ ⟨1, 1/4, 1/8⟩).lo = -2 := by
      norm_num [Slab.lo, Cuboid.slabY, Cuboid.new]
    have hy : (Cuboid.slabY (Cuboid.new (1:ℚ) 1 1) ⟨-2, -1/2, -1/4⟩ ⟨1, 1/4, 1/8⟩).hi = 6 := by
      norm_num [Slab.hi, Cuboid.slabY, Cuboid.new]
    have lz : (Cuboid.slabZ (Cuboid.new (1:ℚ) 1 1) ⟨-2, -1/2, -1/4⟩ ⟨1, 1/4, 1/8⟩).lo = -6 := by
      norm_num [Slab.lo, Cuboid.slabZ, Cuboid.new]
    have hz : (Cuboid.slabZ (Cuboid.new (1:ℚ) 1 1) ⟨-2, -1/2, -1/4⟩ ⟨1, 1/4, 1/8⟩).hi = 10 := by
      norm_num [Slab.hi, Cuboid.slabZ, Cuboid.new]
    refine ⟨?_, ?_, ?_, ?_, ?_, ?_⟩
    · right; norm_num [EPSILON, abs_of_pos]
    · right; norm_num [EPSILON, abs_of_pos]
    · right; norm_num [EPSILON, abs_of_pos]
    · intro _ u hu
      rw [lx, hx] at hu
      rcases hu with rfl | rfl
      · refine ⟨Or.inr (by norm_num [EPSILON]), Or.inl ?_, Or.inl ?_⟩ <;>
          norm_num [Cuboid.slabY, Cuboid.slabZ, Cuboid.new, abs_lt]
      · refine ⟨Or.inr (by norm_num [EPSILON]), Or.inl ?_, Or.inl ?_⟩ <;>
          norm_num [Cuboid.slabY, Cuboid.slabZ, Cuboid.new, abs_lt]
    · intro _ u hu
      rw [ly, hy] at hu
      rcases hu with rfl | rfl
      · refine ⟨Or.inl (by norm_num), Or.inr ?_, Or.inl ?_⟩ <;>
          norm_num [Cuboid.slabX, Cuboid.slabZ, Cuboid.new, abs_lt, EPSILON, abs_of_neg]
      · refine ⟨Or.inr (by norm_num [EPSILON]), Or.inr ?_, Or.inl ?_⟩ <;>
          norm_num [Cuboid.slabX, Cuboid.slabZ, Cuboid.new, abs_lt, EPSILON, abs_of_pos]
    · intro _ u hu
      rw [lz, hz] at hu
      rcases hu with rfl | rfl
      · refine ⟨Or.inl (by norm_num), Or.inr ?_, Or.inr ?_⟩ <;>
          norm_num [Cuboid.slabX, Cuboid.slabY, Cuboid.new, abs_lt, EPSILON, abs_of_neg]
      · refine ⟨Or.inr (by norm_num [EPSILON]), Or.inr ?_, Or.inr ?_⟩ <;>
          norm_num [Cuboid.slabX, Cuboid.slabY, Cuboid.new, abs_lt, EPSILON, abs_of_pos]
    
  exact ⟨h1, h2, h3, Cuboid_zero_or_two_hits _ _ _ [] h1 h2 h3⟩

/-! ## Camera space and object space -/

/-- A reachable state satisfies the invariant, in both its row and its column form. -/
theorem after_Orthonormal (center : Vector ℝ) (calls : List Reorientation) :
    (SolidObject_Reorientable.after center calls).Orthonormal ∧
    (SolidObject_Reorientable.after center calls).ColumnsOrthonormal :=
  foldl_Orthonormal calls (SolidObject_Reorientable.new center) (new_Orthonormal center)

/-- With the invariant, the point conversions are mutually inverse. -/
theorem point_inverse_of_Orthonormal {R : Type} [LinearOrderedField R]
    (s : SolidObject_Reorientable R) (h : s.Orthonormal ∧ s.ColumnsOrthonormal)
    (p : Vector R) :
    s.CameraPointFromObjectPoint (s.ObjectPointFromCameraPoint p) = p ∧
    s.ObjectPointFromCameraPoint (s.CameraPointFromObjectPoint p) = p := by
  constructor
  · unfold SolidObject_Reorientable.CameraPointFromObjectPoint
      SolidObject_Reorientable.ObjectPointFromCameraPoint
    rw [(inverse_of_Orthonormal s h _).1]
    ext <;> simp [Vector.add, Vector.sub]
  · unfold SolidObject_Reorientable.CameraPointFromObjectPoint
      SolidObject_Reorientable.ObjectPointFromCameraPoint
    have e : (s.center.add (s.CameraDirFromObjectDir p)).sub s.center
        = s.CameraDirFromObjectDir p := by
      ext <;> simp [Vector.add, Vector.sub]
    rw [e, (inverse_of_Orthonormal s h _).2]

/-- C21: for a reorientable primitive in any state reachable by rotations and translations,
the camera/object conversions are mutually inverse, for points
(`CameraPointFromObjectPoint` and `ObjectPointFromCameraPoint`) and for directions
(`CameraDirFromObjectDir` and `ObjectDirFromCameraDir`). -/
theorem conversions_mutually_inverse (center : Vector ℝ) (calls : List Reorientation) :
    (∀ p : Vector ℝ,
      (SolidObject_Reorientable.after center calls).CameraPointFromObjectPoint
        ((SolidObject_Reorientable.after center calls).ObjectPointFromCameraPoint p) = p) ∧
    (∀ q : Vector ℝ,
      (SolidObject_Reorientable.after center calls).ObjectPointFromCameraPoint
        ((SolidObject_Reorientable.after center calls).CameraPointFromObjectPoint q) = q) ∧
    (∀ v : Vector ℝ,
      (SolidObject_Reorientable.after center calls).CameraDirFromObjectDir
        ((SolidObject_Reorientable.after center calls).ObjectDirFromCameraDir v) = v) ∧
    (∀ w : Vector ℝ,
      (SolidObject_Reorientable.after center calls).ObjectDirFromCameraDir
        ((SolidObject_Reorientable.after center calls).CameraDirFromObjectDir w) = w) := by
  have h := after_Orthonormal center calls
  exact ⟨fun p => (point_inverse_of_Orthonormal _ h p).1,
    fun q => (point_inverse_of_Orthonormal _ h q).2,
    fun v => (inverse_of_Orthonormal _ h v).1,
    fun w => (inverse_of_Orthonormal _ h w).2⟩

/-- Rotating about the x axis by an angle and then by its negative restores a state whose
`xDir`, `yDir`, `zDir` are the columns of the matrix with rows `rDir`, `sDir`, `tDir`. -/
theorem RotateX_round_trip (s : SolidObject_Reorientable ℝ) (h : s.Orthonormal) (t : ℝ) :
    (s.RotateX t).RotateX (-t) = s := by
  obtain ⟨center, r, s', t', x, y, z⟩ := s
  obtain ⟨_, _, _, _, _, _, hx, hy, hz⟩ := h
  simp only at hx hy hz
  subst hx hy hz
  have hcs := Real.cos_sq_add_sin_sq (RadiansFromDegrees t)
  have hneg : RadiansFromDegrees (-t) = -RadiansFromDegrees t := by
    unfold RadiansFromDegrees; ring
  simp only [SolidObject_Reorientable.RotateX, SolidObject_Reorientable.UpdateInverseRotation,
    hneg, Real.cos_neg, Real.sin_neg, SolidObject_Reorientable.mk.injEq, Vector.mk.injEq,
    true_and, and_true]
  have e1 : ∀ a b : ℝ, Real.cos (RadiansFromDegrees t) *
        (Real.cos (RadiansFromDegrees t) * a - Real.sin (RadiansFromDegrees t) * b)
      - -Real.sin (RadiansFromDegrees t) *
        (Real.cos (RadiansFromDegrees t) * b + Real.sin (RadiansFromDegrees t) * a) = a := by
    intro a b
    linear_combination a * hcs
  have e2 : ∀ a b : ℝ, Real.cos (RadiansFromDegrees t) *
        (Real.cos (RadiansFromDegrees t) * b + Real.sin (RadiansFromDegrees t) * a)
      + -Real.sin (RadiansFromDegrees t) *
        (Real.cos (RadiansFromDegrees t) * a - Real.sin (RadiansFromDegrees t) * b) = b := by
    intro a b
    linear_combination b * hcs
  simp only [e1, e2, and_self]

/-- Rotating about the y axis by an angle and then by its negative restores the state. -/
theorem RotateY_round_trip (s : SolidObject_Reorientable ℝ) (h : s.Orthonormal) (t : ℝ) :
    (s.RotateY t).RotateY (-t) = s := by
  obtain ⟨center, r, s', t', x, y, z⟩ := s
  obtain ⟨_, _, _, _, _, _, hx, hy, hz⟩ := h
  simp only at hx hy hz
  subst hx hy hz
  have hcs := Real.cos_sq_add_sin_sq (RadiansFromDegrees t)
  have hneg : RadiansFromDegrees (-t) = -RadiansFromDegrees t := by
    unfold RadiansFromDegrees; ring
  simp only [SolidObject_Reorientable.RotateY, SolidObject_Reorientable.UpdateInverseRotation,
    hneg, Real.cos_neg, Real.sin_neg, SolidObject_Reorientable.mk.injEq, Vector.mk.injEq,
    true_and, and_true]
  have e1 : ∀ a b : ℝ, Real.cos (RadiansFromDegrees t) *
        (Real.cos (RadiansFromDegrees t) * a + Real.sin (RadiansFromDegrees t) * b)
      + -Real.sin (RadiansFromDegrees t) *
        (Real.cos (RadiansFromDegrees t) * b - Real.sin (RadiansFromDegrees t) * a) = a := by
    intro a b
    linear_combination a * hcs
  have e2 : ∀ a b : ℝ, Real.cos (RadiansFromDegrees t) *
        (Real.cos (RadiansFromDegrees t) * b - Real.sin (RadiansFromDegrees t) * a)
      - -Real.sin (RadiansFromDegrees t) *
        (Real.cos (RadiansFromDegrees t) * a + Real.sin (RadiansFromDegrees t) * b) = b := by
    intro a b
    linear_combination b * hcs
  simp only [e1, e2, and_self]

/-- Rotating about the z axis by an angle and then by its negative restores the state. -/
theorem RotateZ_round_trip (s : SolidObject_Reorientable ℝ) (h : s.Orthonormal) (t : ℝ) :
    (s.RotateZ t).RotateZ (-t) = s := by
  obtain ⟨center, r, s', t', x, y, z⟩ := s
  obtain ⟨_, _, _, _, _, _, hx, hy, hz⟩ := h
  simp only at hx hy hz
  subst hx hy hz
  have hcs := Real.cos_sq_add_sin_sq (RadiansFromDegrees t)
  have hneg : RadiansFromDegrees (-t) = -RadiansFromDegrees t := by
    unfold RadiansFromDegrees; ring
  simp only [SolidObject_Reorientable.RotateZ, SolidObject_Reorientable.UpdateInverseRotation,
    hneg, Real.cos_neg, Real.sin_neg, SolidObject_Reorientable.mk.injEq, Vector.mk.injEq,
    true_and, and_true]
  have e1 : ∀ a b : ℝ, Real.cos (RadiansFromDegrees t) *
        (Real.cos (RadiansFromDegrees t) * a - Real.sin (RadiansFromDegrees t) * b)
      - -Real.sin (RadiansFromDegrees t) *
        (Real.cos (RadiansFromDegrees t) * b + Real.sin (RadiansFromDegrees t) * a) = a := by
    intro a b
    linear_combination a * hcs
  have e2 : ∀ a b : ℝ, Real.cos (RadiansFromDegrees t) *
        (Real.cos (RadiansFromDegrees t) * b + Real.sin (RadiansFromDegrees t) * a)
      + -Real.sin (RadiansFromDegrees t) *
        (Real.cos (RadiansFromDegrees t) * a - Real.sin (RadiansFromDegrees t) * b) = b := by
    intro a b
    linear_combination b * hcs
  simp only [e1, e2, and_self]

theorem Cuboid_after_state (a b c : ℝ) (calls : List Reorientation) :
    (Cuboid.after a b c calls).toSolidObject_Reorientable
      = SolidObject_Reorientable.after ⟨0, 0, 0⟩ calls := rfl

/-- C22: for every state of a reorientable primitive reachable from its constructor and
every angle, rotating by the angle and then by its negative about the same axis (`RotateX`,
`RotateY` or `RotateZ`) restores the state, in particular the six vectors `rDir`, `sDir`,
`tDir`, `xDir`, `yDir`, `zDir`; so `AppendAllIntersections`, for whatever object-space
routine the primitive has, and `Contains`, here for a cuboid, give the results they gave
before the two rotations. -/
theorem Rotate_round_trip (center : Vector ℝ) (calls : List Reorientation) (angle : ℝ) :
    (((SolidObject_Reorientable.after center calls).RotateX angle).RotateX (-angle)
        = SolidObject_Reorientable.after center calls ∧
      ((SolidObject_Reorientable.after center calls).RotateY angle).RotateY (-angle)
        = SolidObject_Reorientable.after center calls ∧
      ((SolidObject_Reorientable.after center calls).RotateZ angle).RotateZ (-angle)
        = SolidObject_Reorientable.after center calls) ∧
    (∀ (objectSpace : Vector ℝ → Vector ℝ → List (Intersection ℝ) → List (Intersection ℝ))
        (vantage direction : Vector ℝ) (list : List (Intersection ℝ)),
      (((SolidObject_Reorientable.after center calls).RotateX angle).RotateX
          (-angle)).AppendAllIntersections objectSpace vantage direction list
        = (SolidObject_Reorientable.after center calls).AppendAllIntersections
            objectSpace vantage direction list ∧
      (((SolidObject_Reorientable.after center calls).RotateY angle).RotateY
          (-angle)).AppendAllIntersections objectSpace vantage direction list
        = (SolidObject_Reorientable.after center calls).AppendAllIntersections
            objectSpace vantage direction list ∧
      (((SolidObject_Reorientable.after center calls).RotateZ angle).RotateZ
          (-angle)).AppendAllIntersections objectSpace vantage direction list
        = (SolidObject_Reorientable.after center calls).AppendAllIntersections
            objectSpace vantage direction list) ∧
    (∀ (a b c : ℝ) (vantage direction point : Vector ℝ) (list : List (Intersection ℝ)),
      ((((Cuboid.after a b c calls).RotateX angle).RotateX (-angle)).AppendAllIntersections
          vantage direction list
        = (Cuboid.after a b c calls).AppendAllIntersections vantage direction list ∧
       (((Cuboid.after a b c calls).RotateX angle).RotateX (-angle)).Contains point
        = (Cuboid.after a b c calls).Contains point) ∧
      ((((Cuboid.after a b c calls).RotateY angle).RotateY (-angle)).AppendAllIntersections
          vantage direction list
        = (Cuboid.after a b c calls).AppendAllIntersections vantage direction list ∧
       (((Cuboid.after a b c calls).RotateY angle).RotateY (-angle)).Contains point
        = (Cuboid.after a b c calls).Contains point) ∧
      ((((Cuboid.after a b c calls).RotateZ angle).RotateZ (-angle)).AppendAllIntersections
          vantage direction list
        = (Cuboid.after a b c calls).AppendAllIntersections vantage direction list ∧
       (((Cuboid.after a b c calls).RotateZ angle).RotateZ (-angle)).Contains point
        = (Cuboid.after a b c calls).Contains point)) := by
  have hx := RotateX_round_trip _ (after_Orthonormal center calls).1 angle
  have hy := RotateY_round_trip _ (after_Orthonormal center calls).1 angle
  have hz := RotateZ_round_trip _ (after_Orthonormal center calls).1 angle
  refine ⟨⟨hx, hy, hz⟩, ?_, ?_⟩
  · intro objectSpace vantage direction list
    rw [hx, hy, hz]
    exact ⟨rfl, rfl, rfl⟩
  · intro a b c vantage direction point list
    have cx : ((Cuboid.after a b c calls).RotateX angle).RotateX (-angle)
        = Cuboid.after a b c calls := by
      unfold Cuboid.RotateX
      simp only [Cuboid_after_state,
        RotateX_round_trip _ (after_Orthonormal ⟨0, 0, 0⟩ calls).1 angle]
      rfl
    have cy : ((Cuboid.after a b c calls).RotateY angle).RotateY (-angle)
        = Cuboid.after a b c calls := by
      unfold Cuboid.RotateY
      simp only [Cuboid_after_state,
        RotateY_round_trip _ (after_Orthonormal ⟨0, 0, 0⟩ calls).1 angle]
      rfl
    have cz : ((Cuboid.after a b c calls).RotateZ angle).RotateZ (-angle)
        = Cuboid.after a b c calls := by
      unfold Cuboid.RotateZ
      simp only [Cuboid_after_state,
        RotateZ_round_trip _ (after_Orthonormal ⟨0, 0, 0⟩ calls).1 angle]
      rfl
    rw [cx, cy, cz]
    exact ⟨⟨rfl, rfl⟩, ⟨rfl, rfl⟩, ⟨rfl, rfl⟩⟩

/-- Every hit of the object-space routine comes from the block of one face, whose normal is a
unit axis vector. -/
theorem mem_ObjectSpace_AppendAllIntersections {R : Type} [LinearOrderedField R]
    (cuboid : Cuboid R) (vantage direction : Vector R) (hit : Intersection R)
    (h : hit ∈ cuboid.ObjectSpace_AppendAllIntersections vantage direction []) :
    ∃ (u : R) (normal : Vector R) (tag : String),
      hit ∈ cuboid.AppendFaceHit vantage direction u normal tag [] ∧
      normal.MagnitudeSquared = 1 := by
  rw [ObjectSpace_AppendAllIntersections_eq] at h
  simp only [List.nil_append, List.mem_append] at h
  rcases h with (hx | hy) | hz
  · split_ifs at hx
    · rcases List.mem_append.mp hx with h | h
      · exact ⟨_, _, _, h, by simp [Vector.MagnitudeSquared]⟩
      · exact ⟨_, _, _, h, by simp [Vector.MagnitudeSquared]⟩
    · cases hx
  · split_ifs at hy
    · rcases List.mem_append.mp hy with h | h
      · exact ⟨_, _, _, h, by simp [Vector.MagnitudeSquared]⟩
      · exact ⟨_, _, _, h, by simp [Vector.MagnitudeSquared]⟩
    · cases hy
  · split_ifs at hz
    · rcases List.mem_append.mp hz with h | h
      · exact ⟨_, _, _, h, by simp [Vector.MagnitudeSquared]⟩
      · exact ⟨_, _, _, h, by simp [Vector.MagnitudeSquared]⟩
    · cases hz

/-- With the invariant, the conversion to object space keeps the squared length. -/
theorem ObjectDir_MagnitudeSquared {R : Type} [LinearOrderedField R]
    (s : SolidObject_Reorientable R) (h : s.Orthonormal ∧ s.ColumnsOrthonormal)
    (v : Vector R) :
    (s.ObjectDirFromCameraDir v).MagnitudeSquared = v.MagnitudeSquared := by
  obtain ⟨_, ⟨c1, c2, c3, c4, c5, c6⟩⟩ := h
  simp only [SolidObject_Reorientable.ObjectDirFromCameraDir, DotProduct,
    Vector.MagnitudeSquared]
  linear_combination (v.x * v.x) * c1 + (v.y * v.y) * c2 + (v.z * v.z) * c3
    + (2 * v.x * v.y) * c4 + (2 * v.x * v.z) * c5 + (2 * v.y * v.z) * c6

/-- With the invariant, the conversion to camera space keeps the squared length. -/
theorem CameraDir_MagnitudeSquared {R : Type} [LinearOrderedField R]
    (s : SolidObject_Reorientable R) (h : s.Orthonormal ∧ s.ColumnsOrthonormal)
    (v : Vector R) :
    (s.CameraDirFromObjectDir v).MagnitudeSquared = v.MagnitudeSquared := by
  obtain ⟨⟨h1, h2, h3, h4, h5, h6, hx, hy, hz⟩, _⟩ := h
  simp only [DotProduct] at h1 h2 h3 h4 h5 h6
  simp only [SolidObject_Reorientable.CameraDirFromObjectDir, DotProduct,
    Vector.MagnitudeSquared, hx, hy, hz]
  linear_combination (v.x * v.x) * h1 + (v.y * v.y) * h2 + (v.z * v.z) * h3
    + (2 * v.x * v.y) * h4 + (2 * v.x * v.z) * h5 + (2 * v.y * v.z) * h6

/-- With the invariant, a point of the object-space ray converts to the point of the
camera-space ray with the same parameter. -/
theorem CameraPoint_of_ray {R : Type} [LinearOrderedField R]
    (s : SolidObject_Reorientable R) (h : s.Orthonormal ∧ s.ColumnsOrthonormal)
    (vantage direction : Vector R) (u : R) :
    s.CameraPointFromObjectPoint
        ((s.ObjectPointFromCameraPoint vantage).add
          (Vector.smul u (s.ObjectDirFromCameraDir direction)))
      = vantage.add (Vector.smul u direction) := by
  have e : (s.ObjectPointFromCameraPoint vantage).add
        (Vector.smul u (s.ObjectDirFromCameraDir direction))
      = s.ObjectPointFromCameraPoint (vantage.add (Vector.smul u direction)) := by
    simp only [SolidObject_Reorientable.ObjectPointFromCameraPoint,
      SolidObject_Reorientable.ObjectDirFromCameraDir, DotProduct, Vector.add, Vector.sub,
      Vector.smul]
    ext <;> simp only <;> ring
  rw [e]
  exact (point_inverse_of_Orthonormal s h _).1

/-- C23: for a cuboid in any position and orientation reachable by `Translate`, `Move` and
`RotateX`, `RotateY`, `RotateZ`, every intersection appended by `AppendAllIntersections` is
expressed in camera space: its point is `vantage + u*direction` for some `u > EPSILON`, its
`distanceSquared` is the squared camera-space distance from the vantage to the point, and its
surface normal is a unit vector. -/
theorem Cuboid_hits_in_camera_space (a b c : ℝ) (calls : List Reorientation)
    (vantage direction : Vector ℝ) (list : List (Intersection ℝ)) :
    ∀ hit ∈ ((Cuboid.after a b c calls).AppendAllIntersections vantage direction list).drop
        list.length,
      (∃ u : ℝ, EPSILON < u ∧ hit.point = vantage.add (Vector.smul u direction)) ∧
      hit.distanceSquared = (hit.point.sub vantage).MagnitudeSquared ∧
      hit.surfaceNormal.MagnitudeSquared = 1 := by
  intro hit hmem
  have hinv := after_Orthonormal ⟨0, 0, 0⟩ calls
  rw [← Cuboid_after_state a b c calls] at hinv
  unfold Cuboid.AppendAllIntersections SolidObject_Reorientable.AppendAllIntersections at hmem
  simp only at hmem
  rw [ObjectSpace_AppendAllIntersections_append, ConvertFrom_append, List.drop_left,
    List.mem_map] at hmem
  obtain ⟨hit0, hmem0, rfl⟩ := hmem
  obtain ⟨u, normal, tag, hface, hunit⟩ :=
    mem_ObjectSpace_AppendAllIntersections _ _ _ _ hmem0
  obtain ⟨hu, _, rfl⟩ := mem_AppendFaceHit _ _ _ _ _ _ _ hface
  have hpoint := CameraPoint_of_ray _ hinv vantage direction u
  simp only
  refine ⟨⟨u, hu, hpoint⟩, ?_, ?_⟩
  · rw [hpoint]
    have e : (vantage.add (Vector.smul u direction)).sub vantage = Vector.smul u direction := by
      ext <;> simp [Vector.add, Vector.sub, Vector.smul]
    rw [e]
    have hd := ObjectDir_MagnitudeSquared _ hinv direction
    simp only [Vector.MagnitudeSquared, Vector.smul] at hd ⊢
    linear_combination (u * u) * hd
  · rw [CameraDir_MagnitudeSquared _ hinv]
    exact hunit

theorem Cuboid_hits_in_camera_space_witness :
    (⟨16, ⟨0, 0, 4⟩, ⟨0, 0, -1⟩, some "bottom face"⟩ : Intersection ℝ) ∈
      ((Cuboid.after 1 1 1 [Reorientation.Translate 0 0 5]).AppendAllIntersections
        ⟨0, 0, 0⟩ ⟨0, 0, 1⟩ []).drop ([] : List (Intersection ℝ)).length ∧
    (∃ u : ℝ, EPSILON < u ∧
      (⟨0, 0, 4⟩ : Vector ℝ) = Vector.add ⟨0, 0, 0⟩ (Vector.smul u ⟨0, 0, 1⟩)) ∧
    (16 : ℝ) = (Vector.sub (⟨0, 0, 4⟩ : Vector ℝ) ⟨0, 0, 0⟩).MagnitudeSquared ∧
    (⟨0, 0, -1⟩ : Vector ℝ).MagnitudeSquared = 1 := by
  have hmem : (⟨16, ⟨0, 0, 4⟩, ⟨0, 0, -1⟩, some "bottom face"⟩ : Intersection ℝ) ∈
      ((Cuboid.after 1 1 1 [Reorientation.Translate 0 0 5]).AppendAllIntersections
        ⟨0, 0, 0⟩ ⟨0, 0, 1⟩ []).drop ([] : List (Intersection ℝ)).length := by
    unfold Cuboid.AppendAllIntersections SolidObject_Reorientable.AppendAllIntersections
    simp only
    rw [ObjectSpace_AppendAllIntersections_append, ConvertFrom_append, List.drop_left,
      List.mem_map]
    refine ⟨⟨16, ⟨0, 0, -1⟩, ⟨0, 0, -1⟩, some "bottom face"⟩, ?_, ?_⟩
    · simp [Cuboid.after, SolidObject_Reorientable.after, Reorientation.apply,
        SolidObject_Reorientable.Translate, SolidObject_Reorientable.new,
        SolidObject_Reorientable.ObjectPointFromCameraPoint,
        SolidObject_Reorientable.ObjectDirFromCameraDir, DotProduct,
        Cuboid.ObjectSpace_AppendAllIntersections, Cuboid.AppendFaceHit,
        Cuboid.ObjectSpace_Contains, Vector.add, Vector.sub, Vector.smul,
        Vector.MagnitudeSquared, EPSILON]
      norm_num [abs_of_pos, abs_of_neg]
    · simp [Cuboid.after, SolidObject_Reorientable.after, Reorientation.apply,
        SolidObject_Reorientable.Translate, SolidObject_Reorientable.new,
        SolidObject_Reorientable.CameraPointFromObjectPoint,
        SolidObject_Reorientable.CameraDirFromObjectDir, DotProduct, Vector.add]
      norm_num
  exact ⟨hmem, Cuboid_hits_in_camera_space 1 1 1 [Reorientation.Translate 0 0 5]
    ⟨0, 0, 0⟩ ⟨0, 0, 1⟩ [] _ hmem⟩

/-! ## Containment by parity -/

/-- The loop returns the two counts when no crossing is ambiguous. -/
theorem SolidObject_Contains_loop_ok {R : Type} [LinearOrderedField R] (direction : Vector R) :
    ∀ (list : List (Intersection R)) (enterCount exitCount : ℤ),
      (∀ intersection ∈ list, ¬ Ambiguous direction intersection) →
      SolidObject_Contains_loop direction list enterCount exitCount
        = .ok (enterCount + EnterCount direction list, exitCount + ExitCount direction list) := by
  have hpos : (0:R) < EPSILON := EPSILON_pos
  intro list
  induction list with
  | nil =>
    intro e x _
    simp [SolidObject_Contains_loop, EnterCount, ExitCount]
  | cons first rest ih =>
    intro e x h
    have hrest : ∀ intersection ∈ rest, ¬ Ambiguous direction intersection :=
      fun i hi => h i (List.mem_cons_of_mem _ hi)
    have hfirst := h first (List.mem_cons_self _ _)
    unfold Ambiguous at hfirst
    rw [SolidObject_Contains_loop]
    by_cases h1 : DotProduct direction first.surfaceNormal > EPSILON
    · have h2 : ¬ DotProduct direction first.surfaceNormal < -EPSILON := by
        intro hc; linarith
      simp only [h1, if_true]
      rw [ih _ _ hrest]
      simp only [EnterCount, ExitCount, List.countP_cons, h1, h2, decide_True, decide_False,
        if_true]
      simp only [Except.ok.injEq, Prod.mk.injEq]
      constructor
      · simp
      · push_cast; ring
    · by_cases h2 : DotProduct direction first.surfaceNormal < -EPSILON
      · simp only [h1, h2, if_true, if_false]
        rw [ih _ _ hrest]
        simp only [EnterCount, ExitCount, List.countP_cons, h1, h2, decide_True, decide_False,
          if_true]
        simp only [Except.ok.injEq, Prod.mk.injEq]
        constructor
        · push_cast; ring
        · simp
      · exfalso
        apply hfirst
        rw [abs_le]
        exact ⟨not_lt.mp h2, not_lt.mp h1⟩

/-- The loop throws when some crossing is ambiguous. -/
theorem SolidObject_Contains_loop_error {R : Type} [LinearOrderedField R]
    (direction : Vector R) :
    ∀ (list : List (Intersection R)) (enterCount exitCount : ℤ),
      (∃ intersection ∈ list, Ambiguous direction intersection) →
      SolidObject_Contains_loop direction list enterCount exitCount
        = .error "Ambiguous transition." := by
  have hpos : (0:R) < EPSILON := EPSILON_pos
  intro list
  induction list with
  | nil =>
    rintro e x ⟨i, hi, _⟩
    cases hi
  | cons first rest ih =>
    rintro e x ⟨i, hi, hamb⟩
    rw [SolidObject_Contains_loop]
    by_cases h1 : DotProduct direction first.surfaceNormal > EPSILON
    · simp only [h1, if_true]
      rcases List.mem_cons.mp hi with rfl | hmem
      · unfold Ambiguous at hamb
        rw [abs_le] at hamb
        exact absurd hamb.2 (not_le.mpr h1)
      · exact ih _ _ ⟨i, hmem, hamb⟩
    · by_cases h2 : DotProduct direction first.surfaceNormal < -EPSILON
      · simp only [h1, h2, if_true, if_false]
        rcases List.mem_cons.mp hi with rfl | hmem
        · unfold Ambiguous at hamb
          rw [abs_le] at hamb
          exact absurd hamb.1 (not_le.mpr h2)
        · exact ih _ _ ⟨i, hmem, hamb⟩
      · simp only [h1, h2, if_false]

/-- The outcome of the parity test in terms of the crossings of the vertical ray. -/
theorem SolidObject_Contains_eq {R : Type} [LinearOrderedField R]
    (AppendAllIntersections :
      Vector R → Vector R → List (Intersection R) → List (Intersection R))
    (point : Vector R) :
    ((∃ intersection ∈ AppendAllIntersections point ⟨0, 0, 1⟩ [],
        Ambiguous ⟨0, 0, 1⟩ intersection) →
      SolidObject_Contains true AppendAllIntersections point
        = .error "Ambiguous transition.") ∧
    ((∀ intersection ∈ AppendAllIntersections point ⟨0, 0, 1⟩ [],
        ¬ Ambiguous ⟨0, 0, 1⟩ intersection) →
      SolidObject_Contains true AppendAllIntersections point
        = if ExitCount ⟨0, 0, 1⟩ (AppendAllIntersections point ⟨0, 0, 1⟩ [])
            - EnterCount ⟨0, 0, 1⟩ (AppendAllIntersections point ⟨0, 0, 1⟩ []) = 0 then
            .ok false
          else if ExitCount ⟨0, 0, 1⟩ (AppendAllIntersections point ⟨0, 0, 1⟩ [])
            - EnterCount ⟨0, 0, 1⟩ (AppendAllIntersections point ⟨0, 0, 1⟩ []) = 1 then
            .ok true
          else
            .error "Cannot determine containment.") := by
  constructor
  · intro h
    unfold SolidObject_Contains
    simp only [if_true]
    rw [SolidObject_Contains_loop_error _ _ 0 0 h]
  · intro h
    unfold SolidObject_Contains
    simp only [if_true]
    rw [SolidObject_Contains_loop_ok _ _ 0 0 h]
    simp only [zero_add]

/-- C24: for a fully-enclosed solid, the base-class `SolidObject::Contains(point)` returns
true iff, among the intersections of the vertical ray `(0, 0, 1)` from the point, no crossing
is ambiguous and the number of crossings with `normal·direction > EPSILON` minus the number
with `normal·direction < -EPSILON` is 1. -/
theorem SolidObject_Contains_true_iff {R : Type} [LinearOrderedField R]
    (AppendAllIntersections :
      Vector R → Vector R → List (Intersection R) → List (Intersection R))
    (point : Vector R) :
    SolidObject_Contains true AppendAllIntersections point = .ok true ↔
      ((∀ intersection ∈ AppendAllIntersections point ⟨0, 0, 1⟩ [],
          ¬ Ambiguous ⟨0, 0, 1⟩ intersection) ∧
        ExitCount ⟨0, 0, 1⟩ (AppendAllIntersections point ⟨0, 0, 1⟩ [])
          - EnterCount ⟨0, 0, 1⟩ (AppendAllIntersections point ⟨0, 0, 1⟩ []) = 1) := by
  obtain ⟨herr, hok⟩ := SolidObject_Contains_eq AppendAllIntersections point
  by_cases hamb : ∃ intersection ∈ AppendAllIntersections point ⟨0, 0, 1⟩ [],
      Ambiguous ⟨0, 0, 1⟩ intersection
  · rw [herr hamb]
    constructor
    · intro h; cases h
    · rintro ⟨h, _⟩
      obtain ⟨i, hi, ha⟩ := hamb
      exact absurd ha (h i hi)
  · have hall : ∀ intersection ∈ AppendAllIntersections point ⟨0, 0, 1⟩ [],
        ¬ Ambiguous ⟨0, 0, 1⟩ intersection := fun i hi ha => hamb ⟨i, hi, ha⟩
    rw [hok hall]
    constructor
    · intro h
      refine ⟨hall, ?_⟩
      split_ifs at h with h0 h1
      · cases h
      · exact h1
    · rintro ⟨_, h1⟩
      rw [h1]
      norm_num

/-- C25 (amended): in the parity test of a fully-enclosed solid, when no crossing is
ambiguous, the signed difference exits minus enters decides the outcome: 1 returns true,
0 returns false, and every other difference raises the `ImagerException`
"Cannot determine containment." instead of returning a value. -/
theorem SolidObject_Contains_by_difference {R : Type} [LinearOrderedField R]
    (AppendAllIntersections :
      Vector R → Vector R → List (Intersection R) → List (Intersection R))
    (point : Vector R)
    (hclear : ∀ intersection ∈ AppendAllIntersections point ⟨0, 0, 1⟩ [],
      ¬ Ambiguous ⟨0, 0, 1⟩ intersection) :
    (ExitCount ⟨0, 0, 1⟩ (AppendAllIntersections point ⟨0, 0, 1⟩ [])
        - EnterCount ⟨0, 0, 1⟩ (AppendAllIntersections point ⟨0, 0, 1⟩ []) = 1 →
      SolidObject_Contains true AppendAllIntersections point = .ok true) ∧
    (ExitCount ⟨0, 0, 1⟩ (AppendAllIntersections point ⟨0, 0, 1⟩ [])
        - EnterCount ⟨0, 0, 1⟩ (AppendAllIntersections point ⟨0, 0, 1⟩ []) = 0 →
      SolidObject_Contains true AppendAllIntersections point = .ok false) ∧
    (ExitCount ⟨0, 0, 1⟩ (AppendAllIntersections point ⟨0, 0, 1⟩ [])
        - EnterCount ⟨0, 0, 1⟩ (AppendAllIntersections point ⟨0, 0, 1⟩ []) ≠ 1 →
      ExitCount ⟨0, 0, 1⟩ (AppendAllIntersections point ⟨0, 0, 1⟩ [])
        - EnterCount ⟨0, 0, 1⟩ (AppendAllIntersections point ⟨0, 0, 1⟩ []) ≠ 0 →
      SolidObject_Contains true AppendAllIntersections point
        = .error "Cannot determine containment.") := by
  rw [(SolidObject_Contains_eq AppendAllIntersections point).2 hclear]
  refine ⟨?_, ?_, ?_⟩
  · intro h1
    rw [h1]
    norm_num
  · intro h0
    rw [h0]
    norm_num
  · intro h1 h0
    simp only [h0, h1, if_false]

/-- C26: in the parity test of a fully-enclosed solid, if some intersection of the vertical
ray has a surface normal whose dot product with the ray direction has magnitude at most
`EPSILON`, the call raises "Ambiguous transition.", whatever the other crossings are; it
returns neither true nor false. -/
theorem SolidObject_Contains_ambiguous {R : Type} [LinearOrderedField R]
    (AppendAllIntersections :
      Vector R → Vector R → List (Intersection R) → List (Intersection R))
    (point : Vector R)
    (hamb : ∃ intersection ∈ AppendAllIntersections point ⟨0, 0, 1⟩ [],
      |DotProduct ⟨0, 0, 1⟩ intersection.surfaceNormal| ≤ EPSILON) :
    SolidObject_Contains true AppendAllIntersections point = .error "Ambiguous transition." ∧
    (∀ value : Bool, SolidObject_Contains true AppendAllIntersections point ≠ .ok value) := by
  have h := (SolidObject_Contains_eq AppendAllIntersections point).1 hamb
  refine ⟨h, ?_⟩
  intro value hv
  rw [h] at hv
  cases hv

/-- C25 (as stated, refuted): for the cuboid of half-sizes 1, 1, 1 at the origin and the
point `(0, 0, -5)` below it, the vertical ray enters through the bottom face and leaves
through the top face, so exits minus enters is `1 - 1 = 0`, which is not 1; the parity test
does not raise, it returns false. -/
theorem SolidObject_Contains_difference_zero :
    ExitCount ⟨0, 0, 1⟩
        ((Cuboid.new (1:ℚ) 1 1).ObjectSpace_AppendAllIntersections ⟨0, 0, -5⟩ ⟨0, 0, 1⟩ [])
      - EnterCount ⟨0, 0, 1⟩
        ((Cuboid.new (1:ℚ) 1 1).ObjectSpace_AppendAllIntersections ⟨0, 0, -5⟩ ⟨0, 0, 1⟩ [])
      = 0 ∧
    SolidObject_Contains true (Cuboid.new (1:ℚ) 1 1).ObjectSpace_AppendAllIntersections
      ⟨0, 0, -5⟩ = .ok false := by
  have hlist : (Cuboid.new (1:ℚ) 1 1).ObjectSpace_AppendAllIntersections ⟨0, 0, -5⟩ ⟨0, 0, 1⟩ []
      = [⟨36, ⟨0, 0, 1⟩, ⟨0, 0, 1⟩, some "top face"⟩,
         ⟨16, ⟨0, 0, -1⟩, ⟨0, 0, -1⟩, some "bottom face"⟩] := by
    simp [Cuboid.ObjectSpace_AppendAllIntersections, Cuboid.AppendFaceHit,
      Cuboid.ObjectSpace_Contains, Cuboid.new, Vector.add, Vector.smul, Vector.MagnitudeSquared,
      EPSILON]
    norm_num [abs_of_pos, abs_of_neg]
  constructor
  · rw [hlist]
    simp [ExitCount, EnterCount, List.countP_cons, DotProduct, EPSILON]
    norm_num
  · unfold SolidObject_Contains
    simp only [if_true]
    rw [hlist]
    simp [SolidObject_Contains_loop, DotProduct, EPSILON]
    norm_num

theorem SolidObject_Contains_by_difference_witness :
    (∀ intersection ∈
        (Cuboid.new (1:ℚ) 1 1).ObjectSpace_AppendAllIntersections ⟨0, 0, 0⟩ ⟨0, 0, 1⟩ [],
      ¬ Ambiguous ⟨0, 0, 1⟩ intersection) ∧
    SolidObject_Contains true (Cuboid.new (1:ℚ) 1 1).ObjectSpace_AppendAllIntersections
      ⟨0, 0, 0⟩ = .ok true ∧
    SolidObject_Contains true
      (fun _ _ list => list ++ [(⟨1, ⟨0, 0, 1⟩, ⟨0, 0, -1⟩, none⟩ : Intersection ℚ)])
      ⟨0, 0, 0⟩ = .error "Cannot determine containment." := by
  have hlist : (Cuboid.new (1:ℚ) 1 1).ObjectSpace_AppendAllIntersections ⟨0, 0, 0⟩ ⟨0, 0, 1⟩ []
      = [⟨1, ⟨0, 0, 1⟩, ⟨0, 0, 1⟩, some "top face"⟩] := by
    simp [Cuboid.ObjectSpace_AppendAllIntersections, Cuboid.AppendFaceHit,
      Cuboid.ObjectSpace_Contains, Cuboid.new, Vector.add, Vector.smul, Vector.MagnitudeSquared,
      EPSILON]
    norm_num [abs_of_pos, abs_of_neg]
  have hclear : ∀ intersection ∈
      (Cuboid.new (1:ℚ) 1 1).ObjectSpace_AppendAllIntersections ⟨0, 0, 0⟩ ⟨0, 0, 1⟩ [],
      ¬ Ambiguous ⟨0, 0, 1⟩ intersection := by
    rw [hlist]
    simp [Ambiguous, DotProduct, EPSILON]
    norm_num
  have hone : ExitCount ⟨0, 0, 1⟩
        ((Cuboid.new (1:ℚ) 1 1).ObjectSpace_AppendAllIntersections ⟨0, 0, 0⟩ ⟨0, 0, 1⟩ [])
      - EnterCount ⟨0, 0, 1⟩
        ((Cuboid.new (1:ℚ) 1 1).ObjectSpace_AppendAllIntersections ⟨0, 0, 0⟩ ⟨0, 0, 1⟩ [])
      = 1 := by
    rw [hlist]
    simp [ExitCount, EnterCount, List.countP_cons, DotProduct, EPSILON]
    norm_num
  refine ⟨hclear, (SolidObject_Contains_by_difference _ _ hclear).1 hone, ?_⟩
  refine (SolidObject_Contains_by_difference
    (fun _ _ list => list ++ [(⟨1, ⟨0, 0, 1⟩, ⟨0, 0, -1⟩, none⟩ : Intersection ℚ)])
    ⟨0, 0, 0⟩ ?_).2.2 ?_ ?_
  · simp [Ambiguous, DotProduct, EPSILON]
    norm_num
  · simp [ExitCount, EnterCount, List.countP_cons, DotProduct, EPSILON]
    norm_num
  · simp [ExitCount, EnterCount, List.countP_cons, DotProduct, EPSILON]
    norm_num

theorem SolidObject_Contains_ambiguous_witness :
    (∃ intersection ∈ (fun (_ _ : Vector ℚ) (list : List (Intersection ℚ)) =>
          list ++ [(⟨1, ⟨1, 0, 0⟩, ⟨1, 0, 0⟩, none⟩ : Intersection ℚ)]) ⟨0, 0, 0⟩ ⟨0, 0, 1⟩ [],
        |DotProduct ⟨0, 0, 1⟩ intersection.surfaceNormal| ≤ EPSILON) ∧
    SolidObject_Contains true
      (fun _ _ list => list ++ [(⟨1, ⟨1, 0, 0⟩, ⟨1, 0, 0⟩, none⟩ : Intersection ℚ)])
      ⟨0, 0, 0⟩ = .error "Ambiguous transition." := by
  have h : ∃ intersection ∈ (fun (_ _ : Vector ℚ) (list : List (Intersection ℚ)) =>
        list ++ [(⟨1, ⟨1, 0, 0⟩, ⟨1, 0, 0⟩, none⟩ : Intersection ℚ)]) ⟨0, 0, 0⟩ ⟨0, 0, 1⟩ [],
      |DotProduct ⟨0, 0, 1⟩ intersection.surfaceNormal| ≤ EPSILON := by
    refine ⟨⟨1, ⟨1, 0, 0⟩, ⟨1, 0, 0⟩, none⟩, by simp, ?_⟩
    simp [DotProduct, EPSILON]
  exact ⟨h, (SolidObject_Contains_ambiguous _ _ h).1⟩

theorem SolidObject_Contains_true_iff_witness :
    SolidObject_Contains true (Cuboid.new (1:ℚ) 1 1).ObjectSpace_AppendAllIntersections
      ⟨0, 0, 0⟩ = .ok true := by
  rw [SolidObject_Contains_true_iff]
  have hlist : (Cuboid.new (1:ℚ) 1 1).ObjectSpace_AppendAllIntersections ⟨0, 0, 0⟩ ⟨0, 0, 1⟩ []
      = [⟨1, ⟨0, 0, 1⟩, ⟨0, 0, 1⟩, some "top face"⟩] := by
    simp [Cuboid.ObjectSpace_AppendAllIntersections, Cuboid.AppendFaceHit,
      Cuboid.ObjectSpace_Contains, Cuboid.new, Vector.add, Vector.smul, Vector.MagnitudeSquared,
      EPSILON]
    norm_num [abs_of_pos, abs_of_neg]
  rw [hlist]
  constructor
  · simp [Ambiguous, DotProduct, EPSILON]
    norm_num
  · simp [ExitCount, EnterCount, List.countP_cons, DotProduct, EPSILON]
    norm_num

/-! ## The setters of `Optics` in exact arithmetic -/

theorem ValidateReflectionColor_ok {R : Type} [LinearOrderedField R] (color : Color R) :
    Optics.ValidateReflectionColor color = .ok () ↔ color.InUnitRange := by
  unfold Optics.ValidateReflectionColor Color.InUnitRange
  by_cases h1 : color.red < 0 ∨ color.red > 1
  · simp only [h1, if_true]
    constructor
    · intro h; cases h
    · rintro ⟨⟨a, b⟩, _⟩
      rcases h1 with h | h
      · exact absurd a (not_le.mpr h)
      · exact absurd b (not_le.mpr h)
  · by_cases h2 : color.green < 0 ∨ color.green > 1
    · simp only [h1, h2, if_true, if_false]
      constructor
      · intro h; cases h
      · rintro ⟨_, ⟨a, b⟩, _⟩
        rcases h2 with h | h
        · exact absurd a (not_le.mpr h)
        · exact absurd b (not_le.mpr h)
    · by_cases h3 : color.blue < 0 ∨ color.blue > 1
      · simp only [h1, h2, h3, if_true, if_false]
        constructor
        · intro h; cases h
        · rintro ⟨_, _, ⟨a, b⟩⟩
          rcases h3 with h | h
          · exact absurd a (not_le.mpr h)
          · exact absurd b (not_le.mpr h)
      · simp only [h1, h2, h3, if_false, true_iff]
        push_neg at h1 h2 h3
        exact ⟨h1, h2, h3⟩

theorem ValidateReflectionColor_error {R : Type} [LinearOrderedField R] (color : Color R)
    (h : ¬ color.InUnitRange) : ∃ e, Optics.ValidateReflectionColor color = .error e := by
  cases hv : Optics.ValidateReflectionColor color with
  | error e => exact ⟨e, rfl⟩
  | ok u =>
    cases u
    exact absurd ((ValidateReflectionColor_ok color).mp hv) h

theorem SetMatteColor_ok {R : Type} [LinearOrderedField R] (self : Optics R) (color : Color R)
    (h : color.InUnitRange) :
    self.SetMatteColor color = (.ok (), { self with matteColor := color }) := by
  unfold Optics.SetMatteColor
  rw [(ValidateReflectionColor_ok color).mpr h]

theorem SetMatteColor_error {R : Type} [LinearOrderedField R] (self : Optics R)
    (color : Color R) (h : ¬ color.InUnitRange) :
    ∃ e, self.SetMatteColor color = (.error e, self) := by
  obtain ⟨e, he⟩ := ValidateReflectionColor_error color h
  exact ⟨e, by unfold Optics.SetMatteColor; rw [he]⟩

theorem SetGlossColor_ok {R : Type} [LinearOrderedField R] (self : Optics R) (color : Color R)
    (h : color.InUnitRange) :
    self.SetGlossColor color = (.ok (), { self with glossColor := color }) := by
  unfold Optics.SetGlossColor
  rw [(ValidateReflectionColor_ok color).mpr h]

theorem SetGlossColor_error {R : Type} [LinearOrderedField R] (self : Optics R)
    (color : Color R) (h : ¬ color.InUnitRange) :
    ∃ e, self.SetGlossColor color = (.error e, self) := by
  obtain ⟨e, he⟩ := ValidateReflectionColor_error color h
  exact ⟨e, by unfold Optics.SetGlossColor; rw [he]⟩

theorem SetOpacity_ok {R : Type} [LinearOrderedField R] (self : Optics R) (opacity : R)
    (h : 0 ≤ opacity ∧ opacity ≤ 1) :
    self.SetOpacity opacity = (.ok (), { self with opacity := opacity }) := by
  unfold Optics.SetOpacity
  have hn : ¬ (opacity < 0 ∨ opacity > 1) := by
    rintro (h1 | h1)
    · exact absurd h.1 (not_le.mpr h1)
    · exact absurd h.2 (not_le.mpr h1)
  simp only [hn, if_false]

theorem SetOpacity_error {R : Type} [LinearOrderedField R] (self : Optics R) (opacity : R)
    (h : ¬ (0 ≤ opacity ∧ opacity ≤ 1)) :
    self.SetOpacity opacity = (.error "Invalid opacity.", self) := by
  unfold Optics.SetOpacity
  have hn : opacity < 0 ∨ opacity > 1 := by
    by_contra hc
    push_neg at hc
    exact h hc
  simp only [hn, if_true]

/-- The validating setters in the exact reading, that is for arguments that are numbers:
`SetMatteColor` and `SetGlossColor` succeed iff every channel of the argument is in
`[0, 1]`, and `SetOpacity` succeeds iff its argument is in `[0, 1]`; on success the stored
value is the argument itself and the other members are untouched; on failure an
`ImagerException` is raised and the object is unchanged. -/
theorem Optics_setters_validate {R : Type} [LinearOrderedField R] (self : Optics R)
    (color : Color R) (opacity : R) :
    (((self.SetMatteColor color).1 = .ok () ↔ color.InUnitRange) ∧
      (color.InUnitRange →
        self.SetMatteColor color = (.ok (), { self with matteColor := color })) ∧
      (¬ color.InUnitRange → ∃ e, self.SetMatteColor color = (.error e, self))) ∧
    (((self.SetGlossColor color).1 = .ok () ↔ color.InUnitRange) ∧
      (color.InUnitRange →
        self.SetGlossColor color = (.ok (), { self with glossColor := color })) ∧
      (¬ color.InUnitRange → ∃ e, self.SetGlossColor color = (.error e, self))) ∧
    (((self.SetOpacity opacity).1 = .ok () ↔ (0 ≤ opacity ∧ opacity ≤ 1)) ∧
      ((0 ≤ opacity ∧ opacity ≤ 1) →
        self.SetOpacity opacity = (.ok (), { self with opacity := opacity })) ∧
      (¬ (0 ≤ opacity ∧ opacity ≤ 1) →
        self.SetOpacity opacity = (.error "Invalid opacity.", self))) := by
  refine ⟨⟨?_, SetMatteColor_ok self color, SetMatteColor_error self color⟩,
    ⟨?_, SetGlossColor_ok self color, SetGlossColor_error self color⟩,
    ⟨?_, SetOpacity_ok self opacity, SetOpacity_error self opacity⟩⟩
  · constructor
    · intro h
      by_contra hc
      obtain ⟨e, he⟩ := SetMatteColor_error self color hc
      rw [he] at h
      cases h
    · intro h
      rw [SetMatteColor_ok self color h]
  · constructor
    · intro h
      by_contra hc
      obtain ⟨e, he⟩ := SetGlossColor_error self color hc
      rw [he] at h
      cases h
    · intro h
      rw [SetGlossColor_ok self color h]
  · constructor
    · intro h
      by_contra hc
      rw [SetOpacity_error self opacity hc] at h
      cases h
    · intro h
      rw [SetOpacity_ok self opacity h]

theorem smul_InUnitRange {R : Type} [LinearOrderedField R] (scalar : R) (color : Color R)
    (hs : 0 ≤ scalar ∧ scalar ≤ 1) (hc : color.InUnitRange) :
    (Color.smul scalar color).InUnitRange := by
  obtain ⟨⟨r0, r1⟩, ⟨g0, g1⟩, ⟨b0, b1⟩⟩ := hc
  simp only [Color.InUnitRange, Color.smul, Color.new, one_mul]
  exact ⟨⟨mul_nonneg hs.1 r0, mul_le_one₀ hs.2 r0 r1⟩,
    ⟨mul_nonneg hs.1 g0, mul_le_one₀ hs.2 g0 g1⟩,
    ⟨mul_nonneg hs.1 b0, mul_le_one₀ hs.2 b0 b1⟩⟩

/-- The outcome of `SetMatteGlossBalance` on valid arguments. -/
theorem SetMatteGlossBalance_ok {R : Type} [LinearOrderedField R] (self : Optics R)
    (glossFactor : R) (rawMatteColor rawGlossColor : Color R)
    (hg : 0 ≤ glossFactor ∧ glossFactor ≤ 1)
    (hm : rawMatteColor.InUnitRange) (hgl : rawGlossColor.InUnitRange) :
    self.SetMatteGlossBalance glossFactor rawMatteColor rawGlossColor
      = (.ok (), { matteColor := Color.smul (1 - glossFactor) rawMatteColor
                   glossColor := Color.smul glossFactor rawGlossColor
                   opacity := self.opacity }) := by
  unfold Optics.SetMatteGlossBalance
  have hn : ¬ (glossFactor < 0 ∨ glossFactor > 1) := by
    rintro (h1 | h1)
    · exact absurd hg.1 (not_le.mpr h1)
    · exact absurd hg.2 (not_le.mpr h1)
  have h1g : 0 ≤ 1 - glossFactor ∧ 1 - glossFactor ≤ 1 := ⟨by linarith [hg.2], by linarith [hg.1]⟩
  rw [(ValidateReflectionColor_ok _).mpr hm, (ValidateReflectionColor_ok _).mpr hgl]
  simp only [hn, if_false]
  rw [SetMatteColor_ok self _ (smul_InUnitRange _ _ h1g hm)]
  simp only
  rw [SetGlossColor_ok _ _ (smul_InUnitRange _ _ hg hgl)]

/-- The outcome of `SetMatteGlossBalance` on an invalid argument. -/
theorem SetMatteGlossBalance_error {R : Type} [LinearOrderedField R] (self : Optics R)
    (glossFactor : R) (rawMatteColor rawGlossColor : Color R)
    (h : ¬ ((0 ≤ glossFactor ∧ glossFactor ≤ 1) ∧ rawMatteColor.InUnitRange ∧
      rawGlossColor.InUnitRange)) :
    ∃ e, self.SetMatteGlossBalance glossFactor rawMatteColor rawGlossColor
      = (.error e, self) := by
  unfold Optics.SetMatteGlossBalance
  by_cases hm : rawMatteColor.InUnitRange
  · by_cases hgl : rawGlossColor.InUnitRange
    · rw [(ValidateReflectionColor_ok _).mpr hm, (ValidateReflectionColor_ok _).mpr hgl]
      have hn : glossFactor < 0 ∨ glossFactor > 1 := by
        by_contra hc
        push_neg at hc
        exact h ⟨hc, hm, hgl⟩
      simp only [hn, if_true]
      exact ⟨_, rfl⟩
    · obtain ⟨e, he⟩ := ValidateReflectionColor_error _ hgl
      rw [(ValidateReflectionColor_ok _).mpr hm, he]
      exact ⟨_, rfl⟩
  · obtain ⟨e, he⟩ := ValidateReflectionColor_error _ hm
    rw [he]
    exact ⟨_, rfl⟩

/-- C28: after `SetMatteGlossBalance(g, rawMatte, rawGloss)` succeeds, which it does when `g`
is in `[0, 1]` and both raw colors are per-channel in `[0, 1]`, the matte color is
`(1-g)*rawMatte`, the gloss color is `g*rawGloss` and the opacity is unchanged; per channel
matte plus gloss is the `g`-weighted blend of the inputs, which is the input intensity when
`rawMatte = rawGloss`, and it never exceeds 1. -/
theorem SetMatteGlossBalance_blend {R : Type} [LinearOrderedField R] (self : Optics R)
    (glossFactor : R) (rawMatteColor rawGlossColor : Color R)
    (hg : 0 ≤ glossFactor ∧ glossFactor ≤ 1)
    (hm : rawMatteColor.InUnitRange) (hgl : rawGlossColor.InUnitRange) :
    (self.SetMatteGlossBalance glossFactor rawMatteColor rawGlossColor).1 = .ok () ∧
    (self.SetMatteGlossBalance glossFactor rawMatteColor rawGlossColor).2.matteColor
      = ⟨(1 - glossFactor) * rawMatteColor.red, (1 - glossFactor) * rawMatteColor.green,
          (1 - glossFactor) * rawMatteColor.blue⟩ ∧
    (self.SetMatteGlossBalance glossFactor rawMatteColor rawGlossColor).2.glossColor
      = ⟨glossFactor * rawGlossColor.red, glossFactor * rawGlossColor.green,
          glossFactor * rawGlossColor.blue⟩ ∧
    (self.SetMatteGlossBalance glossFactor rawMatteColor rawGlossColor).2.opacity
      = self.opacity ∧
    ((self.SetMatteGlossBalance glossFactor rawMatteColor rawGlossColor).2.matteColor.red
        + (self.SetMatteGlossBalance glossFactor rawMatteColor rawGlossColor).2.glossColor.red
        ≤ 1 ∧
      (self.SetMatteGlossBalance glossFactor rawMatteColor rawGlossColor).2.matteColor.green
        + (self.SetMatteGlossBalance glossFactor rawMatteColor rawGlossColor).2.glossColor.green
        ≤ 1 ∧
      (self.SetMatteGlossBalance glossFactor rawMatteColor rawGlossColor).2.matteColor.blue
        + (self.SetMatteGlossBalance glossFactor rawMatteColor rawGlossColor).2.glossColor.blue
        ≤ 1) ∧
    (rawMatteColor = rawGlossColor →
      (self.SetMatteGlossBalance glossFactor rawMatteColor rawGlossColor).2.matteColor.red
        + (self.SetMatteGlossBalance glossFactor rawMatteColor rawGlossColor).2.glossColor.red
        = rawMatteColor.red ∧
      (self.SetMatteGlossBalance glossFactor rawMatteColor rawGlossColor).2.matteColor.green
        + (self.SetMatteGlossBalance glossFactor rawMatteColor rawGlossColor).2.glossColor.green
        = rawMatteColor.green ∧
      (self.SetMatteGlossBalance glossFactor rawMatteColor rawGlossColor).2.matteColor.blue
        + (self.SetMatteGlossBalance glossFactor rawMatteColor rawGlossColor).2.glossColor.blue
        = rawMatteColor.blue) := by
  rw [SetMatteGlossBalance_ok self glossFactor rawMatteColor rawGlossColor hg hm hgl]
  obtain ⟨⟨r0, r1⟩, ⟨g0, g1⟩, ⟨b0, b1⟩⟩ := hm
  obtain ⟨⟨r0', r1'⟩, ⟨g0', g1'⟩, ⟨b0', b1'⟩⟩ := hgl
  have h1g : 0 ≤ 1 - glossFactor := by linarith [hg.2]
  simp only [Color.smul, Color.new, one_mul]
  refine ⟨trivial, trivial, trivial, trivial, ⟨?_, ?_, ?_⟩, ?_⟩
  · nlinarith [mul_le_mul_of_nonneg_left r1 h1g, mul_le_mul_of_nonneg_left r1' hg.1]
  · nlinarith [mul_le_mul_of_nonneg_left g1 h1g, mul_le_mul_of_nonneg_left g1' hg.1]
  · nlinarith [mul_le_mul_of_nonneg_left b1 h1g, mul_le_mul_of_nonneg_left b1' hg.1]
  · rintro rfl
    exact ⟨by ring, by ring, by ring⟩

theorem SetMatteGlossBalance_blend_witness :
    ((0 : ℚ) ≤ 1/4 ∧ (1/4 : ℚ) ≤ 1) ∧
    (⟨1/2, 1, 0⟩ : Color ℚ).InUnitRange ∧
    ((Optics.default : Optics ℚ).SetMatteGlossBalance (1/4) ⟨1/2, 1, 0⟩ ⟨1/2, 1, 0⟩).1
      = .ok () ∧
    ((Optics.default : Optics ℚ).SetMatteGlossBalance (1/4) ⟨1/2, 1, 0⟩ ⟨1/2, 1, 0⟩).2.matteColor
      = ⟨(1 - 1/4) * (1/2), (1 - 1/4) * 1, (1 - 1/4) * 0⟩ ∧
    ((Optics.default : Optics ℚ).SetMatteGlossBalance (1/4) ⟨1/2, 1, 0⟩ ⟨1/2, 1, 0⟩).2.glossColor
      = ⟨1/4 * (1/2), 1/4 * 1, 1/4 * 0⟩ := by
  have hg : (0 : ℚ) ≤ 1/4 ∧ (1/4 : ℚ) ≤ 1 := by norm_num
  have hc : (⟨1/2, 1, 0⟩ : Color ℚ).InUnitRange := by norm_num [Color.InUnitRange]
  have h := SetMatteGlossBalance_blend (Optics.default : Optics ℚ) (1/4) ⟨1/2, 1, 0⟩
    ⟨1/2, 1, 0⟩ hg hc hc
  exact ⟨hg, hc, h.1, h.2.1, h.2.2.1⟩

/-- Every setter keeps the invariant, whether it returns or throws. -/
theorem setters_keep_InRange {R : Type} [LinearOrderedField R] (self : Optics R)
    (h : self.InRange) :
    (∀ color, (self.SetMatteColor color).2.InRange) ∧
    (∀ color, (self.SetGlossColor color).2.InRange) ∧
    (∀ opacity, (self.SetOpacity opacity).2.InRange) ∧
    (∀ glossFactor rawMatteColor rawGlossColor,
      (self.SetMatteGlossBalance glossFactor rawMatteColor rawGlossColor).2.InRange) := by
  refine ⟨?_, ?_, ?_, ?_⟩
  · intro color
    by_cases hc : color.InUnitRange
    · rw [SetMatteColor_ok self color hc]
      exact ⟨hc, h.2⟩
    · obtain ⟨e, he⟩ := SetMatteColor_error self color hc
      rw [he]
      exact h
  · intro color
    by_cases hc : color.InUnitRange
    · rw [SetGlossColor_ok self color hc]
      exact ⟨h.1, hc, h.2.2⟩
    · obtain ⟨e, he⟩ := SetGlossColor_error self color hc
      rw [he]
      exact h
  · intro opacity
    by_cases hc : 0 ≤ opacity ∧ opacity ≤ 1
    · rw [SetOpacity_ok self opacity hc]
      exact ⟨h.1, h.2.1, hc⟩
    · rw [SetOpacity_error self opacity hc]
      exact h
  · intro g m gl
    by_cases hc : (0 ≤ g ∧ g ≤ 1) ∧ m.InUnitRange ∧ gl.InUnitRange
    · rw [SetMatteGlossBalance_ok self g m gl hc.1 hc.2.1 hc.2.2]
      exact ⟨smul_InUnitRange _ _ ⟨by linarith [hc.1.2], by linarith [hc.1.1]⟩ hc.2.1,
        smul_InUnitRange _ _ hc.1 hc.2.2, h.2.2⟩
    · obtain ⟨e, he⟩ := SetMatteGlossBalance_error self g m gl hc
      rw [he]
      exact h

theorem default_InRange {R : Type} [LinearOrderedField R] :
    (Optics.default : Optics R).InRange := by
  simp [Optics.InRange, Optics.default, Color.InUnitRange, Color.new]

/-- The three-argument constructor succeeds exactly on valid arguments, and then the object
holds the arguments. -/
theorem new_ok_iff {R : Type} [LinearOrderedField R] (matteColor glossColor : Color R)
    (opacity uninitialised : R) (optics : Optics R) :
    Optics.new matteColor glossColor opacity uninitialised = .ok optics ↔
      (matteColor.InUnitRange ∧ glossColor.InUnitRange ∧ (0 ≤ opacity ∧ opacity ≤ 1)) ∧
      optics = ⟨matteColor, glossColor, opacity⟩ := by
  unfold Optics.new
  simp only
  by_cases hm : matteColor.InUnitRange
  · rw [SetMatteColor_ok _ _ hm]
    simp only
    by_cases hg : glossColor.InUnitRange
    · rw [SetGlossColor_ok _ _ hg]
      simp only
      by_cases ho : 0 ≤ opacity ∧ opacity ≤ 1
      · rw [SetOpacity_ok _ _ ho]
        simp only [Except.ok.injEq]
        constructor
        · intro h
          exact ⟨⟨hm, hg, ho⟩, h.symm⟩
        · intro h
          exact h.2.symm
      · rw [SetOpacity_error _ _ ho]
        simp only
        constructor
        · intro h; cases h
        · intro h; exact absurd h.1.2.2 ho
    · obtain ⟨e, he⟩ := SetGlossColor_error ⟨matteColor, Color.black, uninitialised⟩ glossColor hg
      rw [he]
      simp only
      constructor
      · intro h; cases h
      · intro h; exact absurd h.1.2.1 hg
  · obtain ⟨e, he⟩ := SetMatteColor_error ⟨Color.black, Color.black, uninitialised⟩ matteColor hm
    rw [he]
    simp only
    constructor
    · intro h; cases h
    · intro h; exact absurd h.1.1 hm

/-- The invariant of `Optics` in the exact reading, that is for arguments that are numbers:
every `Optics` value reachable through the constructors and the four setters has all matte
and gloss channels in `[0, 1]` and its opacity in `[0, 1]`; and each setter either
raises, leaving the object entirely unchanged, or completes: `SetMatteGlossBalance` in
particular never stops after updating only one of the two colors. -/
theorem Optics_invariant {R : Type} [LinearOrderedField R] :
    (∀ optics : Optics R, Optics.Reachable optics → optics.InRange) ∧
    (∀ (self : Optics R) (color : Color R),
      (∃ e, self.SetMatteColor color = (.error e, self)) ∨
        self.SetMatteColor color = (.ok (), { self with matteColor := color })) ∧
    (∀ (self : Optics R) (color : Color R),
      (∃ e, self.SetGlossColor color = (.error e, self)) ∨
        self.SetGlossColor color = (.ok (), { self with glossColor := color })) ∧
    (∀ (self : Optics R) (opacity : R),
      (∃ e, self.SetOpacity opacity = (.error e, self)) ∨
        self.SetOpacity opacity = (.ok (), { self with opacity := opacity })) ∧
    (∀ (self : Optics R) (glossFactor : R) (rawMatteColor rawGlossColor : Color R),
      (∃ e, self.SetMatteGlossBalance glossFactor rawMatteColor rawGlossColor
          = (.error e, self)) ∨
        self.SetMatteGlossBalance glossFactor rawMatteColor rawGlossColor
          = (.ok (), { matteColor := Color.smul (1 - glossFactor) rawMatteColor
                       glossColor := Color.smul glossFactor rawGlossColor
                       opacity := self.opacity })) := by
  refine ⟨?_, ?_, ?_, ?_, ?_⟩
  · intro optics h
    induction h with
    | default => exact default_InRange
    | new m g o u optics hnew =>
      obtain ⟨hv, rfl⟩ := (new_ok_iff m g o u optics).mp hnew
      exact hv
    | SetMatteColor self color _ ih => exact (setters_keep_InRange self ih).1 color
    | SetGlossColor self color _ ih => exact (setters_keep_InRange self ih).2.1 color
    | SetOpacity self opacity _ ih => exact (setters_keep_InRange self ih).2.2.1 opacity
    | SetMatteGlossBalance self g m gl _ ih =>
      exact (setters_keep_InRange self ih).2.2.2 g m gl
  · intro self color
    by_cases hc : color.InUnitRange
    · exact Or.inr (SetMatteColor_ok self color hc)
    · exact Or.inl (SetMatteColor_error self color hc)
  · intro self color
    by_cases hc : color.InUnitRange
    · exact Or.inr (SetGlossColor_ok self color hc)
    · exact Or.inl (SetGlossColor_error self color hc)
  · intro self opacity
    by_cases hc : 0 ≤ opacity ∧ opacity ≤ 1
    · exact Or.inr (SetOpacity_ok self opacity hc)
    · exact Or.inl ⟨_, SetOpacity_error self opacity hc⟩
  · intro self g m gl
    by_cases hc : (0 ≤ g ∧ g ≤ 1) ∧ m.InUnitRange ∧ gl.InUnitRange
    · exact Or.inr (SetMatteGlossBalance_ok self g m gl hc.1 hc.2.1 hc.2.2)
    · exact Or.inl (SetMatteGlossBalance_error self g m gl hc)

/-! ## The image buffer -/

/-- C31 (failing input): with a 64-bit `size_t`, the buffer constructed for `2^33` by `2^33`
pixels has `numPixels = 2^66 mod 2^64 = 0`, so its array has no element; the coordinates
`(0, 0)` and `(0, 2^31)` both pass the bounds test of `Pixel`, and both access element 0:
`2^31 * 2^33 + 0` is `2^64`, which is 0 in `size_t`.  The element is outside the array, and
two distinct in-range coordinate pairs share it. -/
theorem ImageBuffer_Pixel_overflow :
    (ImageBuffer.new 8589934592 8589934592 (Color.black : Color ℚ)).numPixels = 0 ∧
    (ImageBuffer.new 8589934592 8589934592 (Color.black : Color ℚ)).Pixel 0 0 = .ok 0 ∧
    (ImageBuffer.new 8589934592 8589934592 (Color.black : Color ℚ)).Pixel 0 2147483648
      = .ok 0 ∧
    2147483648 * 8589934592 + 0 = 2 ^ 64 := by
  refine ⟨?_, ?_, ?_, ?_⟩
  · norm_num [ImageBuffer.new, SIZE_MODULUS]
  · norm_num [ImageBuffer.new, ImageBuffer.Pixel, SIZE_MODULUS]
  · norm_num [ImageBuffer.new, ImageBuffer.Pixel, SIZE_MODULUS]
  · norm_num

/-- When the product of the dimensions is a value of `size_t`, `Pixel` raises exactly on
coordinates out of range, and otherwise accesses element `j*pixelsWide + i`, which is inside
the array and determines the coordinates. -/
theorem ImageBuffer_Pixel_dense {R : Type} [LinearOrderedField R] (pixelsWide pixelsHigh : ℕ)
    (backgroundColor : Color R) (hsize : pixelsWide * pixelsHigh < SIZE_MODULUS) :
    (∀ i j, (ImageBuffer.new pixelsWide pixelsHigh backgroundColor).Pixel i j
        = .error "Pixel coordinate(s) out of bounds" ↔ (pixelsWide ≤ i ∨ pixelsHigh ≤ j)) ∧
    (∀ i j, i < pixelsWide → j < pixelsHigh →
      (ImageBuffer.new pixelsWide pixelsHigh backgroundColor).Pixel i j
        = .ok (j * pixelsWide + i) ∧
      j * pixelsWide + i < pixelsWide * pixelsHigh ∧
      j * pixelsWide + i < (ImageBuffer.new pixelsWide pixelsHigh backgroundColor).numPixels) ∧
    (∀ i j i' j', i < pixelsWide → j < pixelsHigh → i' < pixelsWide → j' < pixelsHigh →
      (ImageBuffer.new pixelsWide pixelsHigh backgroundColor).Pixel i j
        = (ImageBuffer.new pixelsWide pixelsHigh backgroundColor).Pixel i' j' →
      i = i' ∧ j = j') := by
  have hidx : ∀ i j, i < pixelsWide → j < pixelsHigh →
      j * pixelsWide + i < pixelsWide * pixelsHigh := by
    intro i j hi hj
    calc j * pixelsWide + i < j * pixelsWide + pixelsWide := by omega
      _ = (j + 1) * pixelsWide := by ring
      _ ≤ pixelsHigh * pixelsWide := Nat.mul_le_mul_right _ hj
      _ = pixelsWide * pixelsHigh := Nat.mul_comm _ _
  have hok : ∀ i j, i < pixelsWide → j < pixelsHigh →
      (ImageBuffer.new pixelsWide pixelsHigh backgroundColor).Pixel i j
        = .ok (j * pixelsWide + i) := by
    intro i j hi hj
    have h := hidx i j hi hj
    simp only [ImageBuffer.Pixel, ImageBuffer.new, hi, hj, and_self, if_true]
    rw [Nat.mod_eq_of_lt (lt_trans h hsize)]
  refine ⟨?_, ?_, ?_⟩
  · intro i j
    by_cases h : i < pixelsWide ∧ j < pixelsHigh
    · rw [hok i j h.1 h.2]
      constructor
      · intro hc; cases hc
      · intro hc; omega
    · simp only [ImageBuffer.Pixel, ImageBuffer.new, h, if_false, true_iff]
      omega
  · intro i j hi hj
    refine ⟨hok i j hi hj, hidx i j hi hj, ?_⟩
    simp only [ImageBuffer.new]
    rw [Nat.mod_eq_of_lt hsize]
    exact hidx i j hi hj
  · intro i j i' j' hi hj hi' hj' h
    rw [hok i j hi hj, hok i' j' hi' hj'] at h
    have h' : j * pixelsWide + i = j' * pixelsWide + i' := by
      simpa using h
    have hj2 : j = j' := by
      have e1 : (j * pixelsWide + i) / pixelsWide = j := by
        rw [Nat.mul_comm, Nat.mul_add_div (by omega), Nat.div_eq_of_lt hi, Nat.add_zero]
      have e2 : (j' * pixelsWide + i') / pixelsWide = j' := by
        rw [Nat.mul_comm, Nat.mul_add_div (by omega), Nat.div_eq_of_lt hi', Nat.add_zero]
      rw [← e1, ← e2, h']
    subst hj2
    exact ⟨by omega, rfl⟩

theorem Color_Validate_ok {R : Type} [LinearOrderedField R] (color : Color R) :
    (color.Validate = .ok () ↔ (0 ≤ color.red ∧ 0 ≤ color.green ∧ 0 ≤ color.blue)) ∧
    (¬ (0 ≤ color.red ∧ 0 ≤ color.green ∧ 0 ≤ color.blue) →
      color.Validate = .error "Negative color values not allowed.") := by
  unfold Color.Validate
  by_cases h : color.red < 0 ∨ color.green < 0 ∨ color.blue < 0
  · have hn : ¬ (0 ≤ color.red ∧ 0 ≤ color.green ∧ 0 ≤ color.blue) := by
      rintro ⟨a, b, c⟩
      rcases h with h | h | h
      · exact absurd a (not_le.mpr h)
      · exact absurd b (not_le.mpr h)
      · exact absurd c (not_le.mpr h)
    rw [if_pos h]
    refine ⟨⟨fun hc => (by cases hc), fun hc => absurd hc hn⟩, fun _ => rfl⟩
  · have hp : 0 ≤ color.red ∧ 0 ≤ color.green ∧ 0 ≤ color.blue := by
      push_neg at h
      exact h
    rw [if_neg h]
    exact ⟨⟨fun _ => hp, fun _ => rfl⟩, fun hc => absurd hp hc⟩

/-- The loop of `MaxColorValue`: it throws when a pixel that remains has a negative
component, and otherwise returns a bound of the components seen that is the initial value or
one of the components. -/
theorem MaxColorValue_loop_spec {R : Type} [LinearOrderedField R] (array : ℕ → PixelData R) :
    ∀ (remaining i : ℕ) (max : R),
      ((∃ k, i ≤ k ∧ k < i + remaining ∧
          ¬ (0 ≤ (array k).color.red ∧ 0 ≤ (array k).color.green ∧ 0 ≤ (array k).color.blue)) →
        ImageBuffer.MaxColorValue_loop array remaining i max
          = .error "Negative color values not allowed.") ∧
      ((∀ k, i ≤ k → k < i + remaining →
          (0 ≤ (array k).color.red ∧ 0 ≤ (array k).color.green ∧ 0 ≤ (array k).color.blue)) →
        ∃ m, ImageBuffer.MaxColorValue_loop array remaining i max = .ok m ∧ max ≤ m ∧
          (∀ k, i ≤ k → k < i + remaining →
            (array k).color.red ≤ m ∧ (array k).color.green ≤ m ∧ (array k).color.blue ≤ m) ∧
          (m = max ∨ ∃ k, i ≤ k ∧ k < i + remaining ∧
            ((array k).color.red = m ∨ (array k).color.green = m ∨
              (array k).color.blue = m))) := by
  intro remaining
  induction remaining with
  | zero =>
    intro i max
    constructor
    · rintro ⟨k, h1, h2, _⟩
      omega
    · intro _
      exact ⟨max, rfl, le_refl _, fun k h1 h2 => by omega, Or.inl rfl⟩
  | succ r ih =>
    intro i max
    rw [ImageBuffer.MaxColorValue_loop]
    by_cases hv : 0 ≤ (array i).color.red ∧ 0 ≤ (array i).color.green ∧
        0 ≤ (array i).color.blue
    · rw [((Color_Validate_ok (array i).color).1).mpr hv]
      simp only
      generalize hm3 : (if (array i).color.blue >
          (if (array i).color.green >
              (if (array i).color.red > max then (array i).color.red else max) then
            (array i).color.green
          else (if (array i).color.red > max then (array i).color.red else max)) then
          (array i).color.blue
        else
          (if (array i).color.green >
              (if (array i).color.red > max then (array i).color.red else max) then
            (array i).color.green
          else (if (array i).color.red > max then (array i).color.red else max))) = max3
      have hbound : max ≤ max3 ∧ (array i).color.red ≤ max3 ∧ (array i).color.green ≤ max3 ∧
          (array i).color.blue ≤ max3 ∧
          (max3 = max ∨ (array i).color.red = max3 ∨ (array i).color.green = max3 ∨
            (array i).color.blue = max3) := by
        rw [← hm3]
        split_ifs <;> refine ⟨?_, ?_, ?_, ?_, ?_⟩ <;>
          first
            | linarith
            | exact Or.inl rfl
            | exact Or.inr (Or.inl rfl)
            | exact Or.inr (Or.inr (Or.inl rfl))
            | exact Or.inr (Or.inr (Or.inr rfl))
      obtain ⟨b0, b1, b2, b3, b4⟩ := hbound
      obtain ⟨ih1, ih2⟩ := ih (i + 1) max3
      constructor
      · rintro ⟨k, h1, h2, hneg⟩
        apply ih1
        refine ⟨k, ?_, by omega, hneg⟩
        by_contra hc
        have : k = i := by omega
        rw [this] at hneg
        exact hneg hv
      · intro hall
        obtain ⟨m, hm, hle, hub, hatt⟩ := ih2 (fun k h1 h2 => hall k (by omega) (by omega))
        refine ⟨m, hm, le_trans b0 hle, ?_, ?_⟩
        · intro k h1 h2
          by_cases hk : k = i
          · rw [hk]
            exact ⟨le_trans b1 hle, le_trans b2 hle, le_trans b3 hle⟩
          · exact hub k (by omega) (by omega)
        · rcases hatt with hatt | ⟨k, h1, h2, hk⟩
          · rcases b4 with b4 | b4 | b4 | b4
            · left; rw [hatt, b4]
            · right; exact ⟨i, le_refl _, by omega, Or.inl (by rw [hatt, b4])⟩
            · right; exact ⟨i, le_refl _, by omega, Or.inr (Or.inl (by rw [hatt, b4]))⟩
            · right; exact ⟨i, le_refl _, by omega, Or.inr (Or.inr (by rw [hatt, b4]))⟩
          · right; exact ⟨k, by omega, by omega, hk⟩
    · rw [(Color_Validate_ok (array i).color).2 hv]
      constructor
      · intro _
        rfl
      · intro hall
        exact absurd (hall i (le_refl _) (by omega)) hv

/-- C32: `ImageBuffer::MaxColorValue` raises an `ImagerException` iff some pixel has a
negative red, green or blue component; otherwise it returns the maximum channel value over all
pixels, or 1 when every channel of every pixel is 0, so the returned normalizer is strictly
positive. -/
theorem MaxColorValue_spec {R : Type} [LinearOrderedField R] (buffer : ImageBuffer R) :
    ((∃ e, buffer.MaxColorValue = .error e) ↔
      ∃ k, k < buffer.numPixels ∧
        ((buffer.array k).color.red < 0 ∨ (buffer.array k).color.green < 0 ∨
          (buffer.array k).color.blue < 0)) ∧
    ((∀ k, k < buffer.numPixels →
        (0 ≤ (buffer.array k).color.red ∧ 0 ≤ (buffer.array k).color.green ∧
          0 ≤ (buffer.array k).color.blue)) →
      ∃ m, buffer.MaxColorValue = .ok m ∧ 0 < m ∧
        (∀ k, k < buffer.numPixels →
          (buffer.array k).color.red ≤ m ∧ (buffer.array k).color.green ≤ m ∧
            (buffer.array k).color.blue ≤ m) ∧
        ((∀ k, k < buffer.numPixels →
            (buffer.array k).color.red = 0 ∧ (buffer.array k).color.green = 0 ∧
              (buffer.array k).color.blue = 0) → m = 1) ∧
        (¬ (∀ k, k < buffer.numPixels →
            (buffer.array k).color.red = 0 ∧ (buffer.array k).color.green = 0 ∧
              (buffer.array k).color.blue = 0) →
          ∃ k, k < buffer.numPixels ∧
            ((buffer.array k).color.red = m ∨ (buffer.array k).color.green = m ∨
              (buffer.array k).color.blue = m))) := by
  obtain ⟨herr, hok⟩ := MaxColorValue_loop_spec buffer.array buffer.numPixels 0 0
  have hpart2 : (∀ k, k < buffer.numPixels →
        (0 ≤ (buffer.array k).color.red ∧ 0 ≤ (buffer.array k).color.green ∧
          0 ≤ (buffer.array k).color.blue)) →
      ∃ m, buffer.MaxColorValue = .ok m ∧ 0 < m ∧
        (∀ k, k < buffer.numPixels →
          (buffer.array k).color.red ≤ m ∧ (buffer.array k).color.green ≤ m ∧
            (buffer.array k).color.blue ≤ m) ∧
        ((∀ k, k < buffer.numPixels →
            (buffer.array k).color.red = 0 ∧ (buffer.array k).color.green = 0 ∧
              (buffer.array k).color.blue = 0) → m = 1) ∧
        (¬ (∀ k, k < buffer.numPixels →
            (buffer.array k).color.red = 0 ∧ (buffer.array k).color.green = 0 ∧
              (buffer.array k).color.blue = 0) →
          ∃ k, k < buffer.numPixels ∧
            ((buffer.array k).color.red = m ∨ (buffer.array k).color.green = m ∨
              (buffer.array k).color.blue = m)) := by
    intro hall
    obtain ⟨m, hm, hle, hub, hatt⟩ := hok (fun k _ h2 => hall k (by omega))
    unfold ImageBuffer.MaxColorValue
    rw [hm]
    simp only
    by_cases hm0 : m = 0
    · rw [if_pos hm0]
      have hzero : ∀ k, k < buffer.numPixels →
          (buffer.array k).color.red = 0 ∧ (buffer.array k).color.green = 0 ∧
            (buffer.array k).color.blue = 0 := by
        intro k hk
        obtain ⟨u1, u2, u3⟩ := hub k (Nat.zero_le _) (by omega)
        obtain ⟨l1, l2, l3⟩ := hall k hk
        rw [hm0] at u1 u2 u3
        exact ⟨le_antisymm u1 l1, le_antisymm u2 l2, le_antisymm u3 l3⟩
      refine ⟨1, rfl, one_pos, ?_, fun _ => rfl, fun h => absurd hzero h⟩
      intro k hk
      obtain ⟨z1, z2, z3⟩ := hzero k hk
      rw [z1, z2, z3]
      exact ⟨zero_le_one, zero_le_one, zero_le_one⟩
    · rw [if_neg hm0]
      have hmpos : 0 < m := lt_of_le_of_ne hle (Ne.symm hm0)
      refine ⟨m, rfl, hmpos, fun k hk => hub k (Nat.zero_le _) (by omega), ?_, ?_⟩
      · intro hzero
        exfalso
        rcases hatt with hatt | ⟨k, _, h2, hk⟩
        · exact hm0 hatt
        · obtain ⟨z1, z2, z3⟩ := hzero k (by omega)
          rw [z1, z2, z3] at hk
          rcases hk with hk | hk | hk <;> exact hm0 hk.symm
      · intro _
        rcases hatt with hatt | ⟨k, _, h2, hk⟩
        · exact absurd hatt hm0
        · exact ⟨k, by omega, hk⟩
  refine ⟨?_, hpart2⟩
  constructor
  · rintro ⟨e, he⟩
    by_contra hc
    push_neg at hc
    obtain ⟨m, hm, _⟩ := hpart2 hc
    rw [hm] at he
    cases he
  · rintro ⟨k, hk, hneg⟩
    have h := herr ⟨k, Nat.zero_le _, by omega, by
      rintro ⟨a, b, c⟩
      rcases hneg with h | h | h
      · exact absurd a (not_le.mpr h)
      · exact absurd b (not_le.mpr h)
      · exact absurd c (not_le.mpr h)⟩
    refine ⟨"Negative color values not allowed.", ?_⟩
    unfold ImageBuffer.MaxColorValue
    rw [h]

theorem MaxColorValue_spec_witness :
    (∀ k, k < (ImageBuffer.new 2 2 (Color.black : Color ℚ)).numPixels →
      (0 ≤ ((ImageBuffer.new 2 2 (Color.black : Color ℚ)).array k).color.red ∧
        0 ≤ ((ImageBuffer.new 2 2 (Color.black : Color ℚ)).array k).color.green ∧
        0 ≤ ((ImageBuffer.new 2 2 (Color.black : Color ℚ)).array k).color.blue)) ∧
    (ImageBuffer.new 2 2 (Color.black : Color ℚ)).MaxColorValue = .ok 1 := by
  have hall : ∀ k, k < (ImageBuffer.new 2 2 (Color.black : Color ℚ)).numPixels →
      (0 ≤ ((ImageBuffer.new 2 2 (Color.black : Color ℚ)).array k).color.red ∧
        0 ≤ ((ImageBuffer.new 2 2 (Color.black : Color ℚ)).array k).color.green ∧
        0 ≤ ((ImageBuffer.new 2 2 (Color.black : Color ℚ)).array k).color.blue) := by
    intro k _
    simp [ImageBuffer.new, PixelData.new, Color.black]
  obtain ⟨m, hm, _, _, hone, _⟩ :=
    (MaxColorValue_spec (ImageBuffer.new 2 2 (Color.black : Color ℚ))).2 hall
  have h1 : m = 1 := hone (by
    intro k _
    simp [ImageBuffer.new, PixelData.new, Color.black])
  rw [h1] at hm
  exact ⟨hall, hm⟩

/-! ## Truncation and clamping -/

/-- Truncation toward zero is monotone. -/
theorem truncation_mono {R : Type} [LinearOrderedField R] [FloorRing R] (x y : R) (h : x ≤ y) :
    (if 0 ≤ x then ⌊x⌋ else ⌈x⌉) ≤ (if 0 ≤ y then ⌊y⌋ else ⌈y⌉) := by
  by_cases hx : 0 ≤ x
  · have hy : 0 ≤ y := le_trans hx h
    rw [if_pos hx, if_pos hy]
    exact Int.floor_mono h
  · rw [if_neg hx]
    by_cases hy : 0 ≤ y
    · rw [if_pos hy]
      have h1 : ⌈x⌉ ≤ 0 := by
        rw [Int.ceil_le]
        push_neg at hx
        simpa using hx.le
      have h2 : 0 ≤ ⌊y⌋ := Int.floor_nonneg.mpr hy
      exact le_trans h1 h2
    · rw [if_neg hy]
      exact Int.ceil_mono h

/-- The conversion to `int` has a result exactly when the truncated value is in range. -/
theorem static_cast_int_eq {R : Type} [LinearOrderedField R] [FloorRing R] (value : R) :
    (-2147483649 < value → value < 2147483648 →
      static_cast_int value = some (if 0 ≤ value then ⌊value⌋ else ⌈value⌉)) ∧
    (∀ t, static_cast_int value = some t → t = (if 0 ≤ value then ⌊value⌋ else ⌈value⌉)) ∧
    (2147483648 ≤ value → static_cast_int value = none) := by
  unfold static_cast_int INT_MIN INT_MAX
  simp only
  refine ⟨?_, ?_, ?_⟩
  · intro h1 h2
    have hr : -2147483648 ≤ (if 0 ≤ value then ⌊value⌋ else ⌈value⌉) ∧
        (if 0 ≤ value then ⌊value⌋ else ⌈value⌉) ≤ 2147483647 := by
      by_cases hv : 0 ≤ value
      · rw [if_pos hv]
        constructor
        · have := Int.floor_nonneg.mpr hv
          omega
        · have : ⌊value⌋ < 2147483648 := by
            rw [Int.floor_lt]
            push_cast
            exact h2
          omega
      · rw [if_neg hv]
        push_neg at hv
        constructor
        · have : (-2147483649 : ℤ) < ⌈value⌉ := by
            rw [Int.lt_ceil]
            push_cast
            exact h1
          omega
        · have : ⌈value⌉ ≤ 0 := by
            rw [Int.ceil_le]
            simpa using hv.le
          omega
    rw [if_pos hr]
  · intro t ht
    by_cases hr : -2147483648 ≤ (if 0 ≤ value then ⌊value⌋ else ⌈value⌉) ∧
        (if 0 ≤ value then ⌊value⌋ else ⌈value⌉) ≤ 2147483647
    · rw [if_pos hr] at ht
      exact (Option.some.inj ht).symm
    · rw [if_neg hr] at ht
      cases ht
  · intro h
    have hv : 0 ≤ value := le_trans (by norm_num) h
    have hn : ¬ (-2147483648 ≤ (if 0 ≤ value then ⌊value⌋ else ⌈value⌉) ∧
        (if 0 ≤ value then ⌊value⌋ else ⌈value⌉) ≤ 2147483647) := by
      rw [if_pos hv]
      rintro ⟨_, h2⟩
      have : (2147483648 : ℤ) ≤ ⌊value⌋ := by
        rw [Int.le_floor]
        push_cast
        exact h
      omega
    rw [if_neg hn]

/-- The clamp of the source is the clamp into `0 .. 255`. -/
theorem clamp_eq (t : ℤ) :
    ((if t < 0 then 0 else if t > 255 then 255 else t) % 256).toNat
      = (max 0 (min 255 t)).toNat := by
  by_cases h1 : t < 0
  · rw [if_pos h1]
    have : max 0 (min 255 t) = 0 := by omega
    rw [this]
    rfl
  · rw [if_neg h1]
    by_cases h2 : t > 255
    · rw [if_pos h2]
      have : max 0 (min 255 t) = 255 := by omega
      rw [this]
      rfl
    · rw [if_neg h2]
      have : max 0 (min 255 t) = t := by omega
      rw [this, Int.emod_eq_of_lt (by omega) (by omega)]

/-- The clamped truncation is monotone. -/
theorem ClampedTruncation_mono {R : Type} [LinearOrderedField R] [FloorRing R] (x y : R)
    (h : x ≤ y) : ClampedTruncation x ≤ ClampedTruncation y := by
  unfold ClampedTruncation
  have := truncation_mono x y h
  apply Int.toNat_le_toNat
  omega

/-! ## The complement of a cuboid -/

/-- One call keeps the center of a complement equal to the center of the wrapped cuboid. -/
theorem Motion_apply_center (self : SetComplement ℝ) (call : Motion)
    (h : self.center = self.other.center) :
    (Motion.apply self call).center = (Motion.apply self call).other.center := by
  cases call with
  | RotateX t => exact h
  | RotateY t => exact h
  | RotateZ t => exact h
  | Translate dx dy dz =>
    show (⟨self.center.x + dx, self.center.y + dy, self.center.z + dz⟩ : Vector ℝ)
      = ⟨self.other.center.x + dx, self.other.center.y + dy, self.other.center.z + dz⟩
    rw [h]
  | Move cx cy cz =>
    show (⟨self.center.x + (cx - self.center.x), self.center.y + (cy - self.center.y),
        self.center.z + (cz - self.center.z)⟩ : Vector ℝ)
      = ⟨self.other.center.x + (cx - self.center.x),
        self.other.center.y + (cy - self.center.y),
        self.other.center.z + (cz - self.center.z)⟩
    rw [h]

/-- A sequence of calls keeps the center of a complement equal to the center of the wrapped
cuboid. -/
theorem foldl_Motion_center (calls : List Motion) (self : SetComplement ℝ)
    (h : self.center = self.other.center) :
    (calls.foldl Motion.apply self).center = (calls.foldl Motion.apply self).other.center := by
  induction calls generalizing self with
  | nil => exact h
  | cons call rest ih => exact ih (Motion.apply self call) (Motion_apply_center self call h)

/-- C34: let `s` be the complement built around a cuboid `other`, after any sequence of
calls of `RotateX`, `RotateY`, `RotateZ`, `Translate` and `Move`.  Then `s.Center()` is the
center of the wrapped cuboid.  `Translate(dx, dy, dz)` translates the wrapped cuboid by
`(dx, dy, dz)`: its center and the center of the complement both move by that displacement
and its orientation and half-sizes stay.  `Move(cx, cy, cz)` translates the wrapped cuboid
by the displacement from `s.Center()` to `(cx, cy, cz)`, and afterwards both centers are
`(cx, cy, cz)`.  `RotateX`, `RotateY` and `RotateZ` make the same call on the wrapped cuboid
and leave the center of the complement, its only own state, as it was. -/
theorem SetComplement_forwards (other : Cuboid ℝ) (calls : List Motion) :
    (SetComplement.after other calls).Center = (SetComplement.after other calls).other.center ∧
    (∀ dx dy dz : ℝ,
      ((SetComplement.after other calls).Translate dx dy dz).other
        = (SetComplement.after other calls).other.Translate dx dy dz ∧
      ((SetComplement.after other calls).Translate dx dy dz).other.center
        = ⟨(SetComplement.after other calls).other.center.x + dx,
           (SetComplement.after other calls).other.center.y + dy,
           (SetComplement.after other calls).other.center.z + dz⟩ ∧
      ((SetComplement.after other calls).Translate dx dy dz).Center
        = ⟨(SetComplement.after other calls).Center.x + dx,
           (SetComplement.after other calls).Center.y + dy,
           (SetComplement.after other calls).Center.z + dz⟩ ∧
      (((SetComplement.after other calls).Translate dx dy dz).other.rDir,
        ((SetComplement.after other calls).Translate dx dy dz).other.sDir,
        ((SetComplement.after other calls).Translate dx dy dz).other.tDir,
        ((SetComplement.after other calls).Translate dx dy dz).other.xDir,
        ((SetComplement.after other calls).Translate dx dy dz).other.yDir,
        ((SetComplement.after other calls).Translate dx dy dz).other.zDir,
        ((SetComplement.after other calls).Translate dx dy dz).other.a,
        ((SetComplement.after other calls).Translate dx dy dz).other.b,
        ((SetComplement.after other calls).Translate dx dy dz).other.c)
        = ((SetComplement.after other calls).other.rDir,
          (SetComplement.after other calls).other.sDir,
          (SetComplement.after other calls).other.tDir,
          (SetComplement.after other calls).other.xDir,
          (SetComplement.after other calls).other.yDir,
          (SetComplement.after other calls).other.zDir,
          (SetComplement.after other calls).other.a,
          (SetComplement.after other calls).other.b,
          (SetComplement.after other calls).other.c)) ∧
    (∀ cx cy cz : ℝ,
      ((SetComplement.after other calls).Move cx cy cz).other
        = (SetComplement.after other calls).other.Translate
            (cx - (SetComplement.after other calls).Center.x)
            (cy - (SetComplement.after other calls).Center.y)
            (cz - (SetComplement.after other calls).Center.z) ∧
      ((SetComplement.after other calls).Move cx cy cz).other
        = (SetComplement.after other calls).other.Move cx cy cz ∧
      ((SetComplement.after other calls).Move cx cy cz).Center = ⟨cx, cy, cz⟩ ∧
      ((SetComplement.after other calls).Move cx cy cz).other.center = ⟨cx, cy, cz⟩) ∧
    (∀ angleInDegrees : ℝ,
      ((SetComplement.after other calls).RotateX angleInDegrees).other
        = (SetComplement.after other calls).other.RotateX angleInDegrees ∧
      ((SetComplement.after other calls).RotateX angleInDegrees).center
        = (SetComplement.after other calls).center ∧
      ((SetComplement.after other calls).RotateY angleInDegrees).other
        = (SetComplement.after other calls).other.RotateY angleInDegrees ∧
      ((SetComplement.after other calls).RotateY angleInDegrees).center
        = (SetComplement.after other calls).center ∧
      ((SetComplement.after other calls).RotateZ angleInDegrees).other
        = (SetComplement.after other calls).other.RotateZ angleInDegrees ∧
      ((SetComplement.after other calls).RotateZ angleInDegrees).center
        = (SetComplement.after other calls).center) := by
  have hc : (SetComplement.after other calls).center
      = (SetComplement.after other calls).other.center :=
    foldl_Motion_center calls (SetComplement.new other) rfl
  generalize SetComplement.after other calls = s at hc
  refine ⟨hc, ?_, ?_, ?_⟩
  · intro dx dy dz
    exact ⟨rfl, rfl, rfl, rfl⟩
  · intro cx cy cz
    have e : (⟨s.center.x + (cx - s.center.x), s.center.y + (cy - s.center.y),
        s.center.z + (cz - s.center.z)⟩ : Vector ℝ) = ⟨cx, cy, cz⟩ := by
      congr 1 <;> ring
    refine ⟨rfl, ?_, e, ?_⟩
    · show s.other.Translate (cx - s.center.x) (cy - s.center.y) (cz - s.center.z)
        = s.other.Translate (cx - s.other.center.x) (cy - s.other.center.y)
            (cz - s.other.center.z)
      rw [hc]
    · show (⟨s.other.center.x + (cx - s.center.x), s.other.center.y + (cy - s.center.y),
        s.other.center.z + (cz - s.center.z)⟩ : Vector ℝ) = ⟨cx, cy, cz⟩
      rw [← hc]
      exact e
  · intro t
    exact ⟨rfl, rfl, rfl, rfl, rfl, rfl⟩

/-! ## The sense of the rotations -/

/-- C35: on a freshly constructed reorientable solid, after `RotateZ(θ)` the camera-space
image of every object-space vector `v` is the counterclockwise rotation of `v` about the z
axis by `θ` degrees (`θ * π / 180` radians), so `(1, 0, 0)` goes to
`(cos (θπ/180), sin (θπ/180), 0)`, and for `θ = 90` to `(0, 1, 0)`; after `RotateX(θ)` it is
the counterclockwise rotation about the x axis, which for `θ = 90` takes `(0, 1, 0)` to
`(0, 0, 1)`; after `RotateY(θ)` it is the counterclockwise rotation about the y axis, which
for `θ = 90` takes `(0, 0, 1)` to `(1, 0, 0)`; and each of the three calls leaves the center
where it was. -/
theorem Rotate_is_counterclockwise (center : Vector ℝ) (angleInDegrees : ℝ) :
    (∀ v : Vector ℝ,
      ((SolidObject_Reorientable.new center).RotateZ angleInDegrees).CameraDirFromObjectDir v
        = RotationAboutZ angleInDegrees v ∧
      ((SolidObject_Reorientable.new center).RotateX angleInDegrees).CameraDirFromObjectDir v
        = RotationAboutX angleInDegrees v ∧
      ((SolidObject_Reorientable.new center).RotateY angleInDegrees).CameraDirFromObjectDir v
        = RotationAboutY angleInDegrees v) ∧
    ((SolidObject_Reorientable.new center).RotateZ angleInDegrees).CameraDirFromObjectDir
        ⟨1, 0, 0⟩
      = ⟨Real.cos (angleInDegrees * Real.pi / 180),
         Real.sin (angleInDegrees * Real.pi / 180), 0⟩ ∧
    ((SolidObject_Reorientable.new center).RotateX angleInDegrees).CameraDirFromObjectDir
        ⟨0, 1, 0⟩
      = ⟨0, Real.cos (angleInDegrees * Real.pi / 180),
         Real.sin (angleInDegrees * Real.pi / 180)⟩ ∧
    ((SolidObject_Reorientable.new center).RotateY angleInDegrees).CameraDirFromObjectDir
        ⟨0, 0, 1⟩
      = ⟨Real.sin (angleInDegrees * Real.pi / 180), 0,
         Real.cos (angleInDegrees * Real.pi / 180)⟩ ∧
    ((SolidObject_Reorientable.new center).RotateZ 90).CameraDirFromObjectDir ⟨1, 0, 0⟩
      = ⟨0, 1, 0⟩ ∧
    ((SolidObject_Reorientable.new center).RotateX 90).CameraDirFromObjectDir ⟨0, 1, 0⟩
      = ⟨0, 0, 1⟩ ∧
    ((SolidObject_Reorientable.new center).RotateY 90).CameraDirFromObjectDir ⟨0, 0, 1⟩
      = ⟨1, 0, 0⟩ ∧
    ((SolidObject_Reorientable.new center).RotateZ angleInDegrees).center = center ∧
    ((SolidObject_Reorientable.new center).RotateX angleInDegrees).center = center ∧
    ((SolidObject_Reorientable.new center).RotateY angleInDegrees).center = center := by
  have hrad : ∀ a : ℝ, RadiansFromDegrees a = a * Real.pi / 180 := by
    intro a
    show a * (Real.pi / 180) = a * Real.pi / 180
    ring
  have h90 : RadiansFromDegrees 90 = Real.pi / 2 := by
    rw [hrad]
    ring
  refine ⟨?_, ?_, ?_, ?_, ?_, ?_, ?_, rfl, rfl, rfl⟩
  · intro v
    refine ⟨?_, ?_, ?_⟩
    · delta RotationAboutZ
      simp only [SolidObject_Reorientable.RotateZ, SolidObject_Reorientable.new,
        SolidObject_Reorientable.UpdateInverseRotation,
        SolidObject_Reorientable.CameraDirFromObjectDir, DotProduct, hrad]
      congr 1 <;> ring
    · delta RotationAboutX
      simp only [SolidObject_Reorientable.RotateX, SolidObject_Reorientable.new,
        SolidObject_Reorientable.UpdateInverseRotation,
        SolidObject_Reorientable.CameraDirFromObjectDir, DotProduct, hrad]
      congr 1 <;> ring
    · delta RotationAboutY
      simp only [SolidObject_Reorientable.RotateY, SolidObject_Reorientable.new,
        SolidObject_Reorientable.UpdateInverseRotation,
        SolidObject_Reorientable.CameraDirFromObjectDir, DotProduct, hrad]
      congr 1 <;> ring
  · simp only [SolidObject_Reorientable.RotateZ, SolidObject_Reorientable.new,
      SolidObject_Reorientable.UpdateInverseRotation,
      SolidObject_Reorientable.CameraDirFromObjectDir, DotProduct, hrad]
    congr 1 <;> ring
  · simp only [SolidObject_Reorientable.RotateX, SolidObject_Reorientable.new,
      SolidObject_Reorientable.UpdateInverseRotation,
      SolidObject_Reorientable.CameraDirFromObjectDir, DotProduct, hrad]
    congr 1 <;> ring
  · simp only [SolidObject_Reorientable.RotateY, SolidObject_Reorientable.new,
      SolidObject_Reorientable.UpdateInverseRotation,
      SolidObject_Reorientable.CameraDirFromObjectDir, DotProduct, hrad]
    congr 1 <;> ring
  · simp only [SolidObject_Reorientable.RotateZ, SolidObject_Reorientable.new,
      SolidObject_Reorientable.UpdateInverseRotation,
      SolidObject_Reorientable.CameraDirFromObjectDir, DotProduct, h90, Real.cos_pi_div_two,
      Real.sin_pi_div_two]
    congr 1 <;> ring
  · simp only [SolidObject_Reorientable.RotateX, SolidObject_Reorientable.new,
      SolidObject_Reorientable.UpdateInverseRotation,
      SolidObject_Reorientable.CameraDirFromObjectDir, DotProduct, h90, Real.cos_pi_div_two,
      Real.sin_pi_div_two]
    congr 1 <;> ring
  · simp only [SolidObject_Reorientable.RotateY, SolidObject_Reorientable.new,
      SolidObject_Reorientable.UpdateInverseRotation,
      SolidObject_Reorientable.CameraDirFromObjectDir, DotProduct, h90, Real.cos_pi_div_two,
      Real.sin_pi_div_two]
    congr 1 <;> ring

/-! ## Parity test and slab test on an unrotated cuboid -/

/-- On a finite value, and on an infinity, the two comparisons of a range test fail exactly
when the value is in the range; on a NaN they fail always. -/
theorem Double_range_test (x : Double) (lo hi : ℚ) :
    (x < Double.finite false lo ∨ x > Double.finite false hi) ↔
      x ≠ Double.nan ∧ ¬ (Double.finite false lo ≤ x ∧ x ≤ Double.finite false hi) := by
  show (Double.lt x (Double.finite false lo) = true ∨
      Double.lt (Double.finite false hi) x = true) ↔
    x ≠ Double.nan ∧ ¬ (Double.le (Double.finite false lo) x = true ∧
      Double.le x (Double.finite false hi) = true)
  cases x with
  | nan => simp [Double.lt]
  | inf s => cases s <;> simp [Double.lt, Double.le]
  | finite s m =>
    simp only [Double.lt, Double.le, decide_eq_true_eq, ne_eq, not_false_eq_true, true_and,
      reduceCtorEq, not_and, not_le]
    constructor
    · rintro (h | h)
      · intro h2
        exact absurd h2 (not_le.mpr h)
      · intro _
        exact h
    · intro h
      by_cases h1 : (Double.finite s m).toRat < (Double.finite false lo).toRat
      · exact Or.inl h1
      · exact Or.inr (h (not_lt.mp h1))

/-- The three validating setters of `Optics` on every argument: a setter throws exactly when
its argument has a channel (or is an opacity) that is a number outside `[0, 1]`; otherwise,
and so for a NaN, it stores the argument; a throw leaves the object as it was. -/
theorem Optics_setters_on_double (self : Optics Double) (color : Color Double)
    (opacity : Double) :
    ((Binary64.Optics.SetOpacity self opacity).1 = .ok () ↔
      (opacity = Double.nan ∨
        (Double.finite false 0 ≤ opacity ∧ opacity ≤ Double.finite false 1))) ∧
    ((Binary64.Optics.SetOpacity self opacity).1 = .ok () →
      (Binary64.Optics.SetOpacity self opacity).2 = { self with opacity := opacity }) ∧
    ((Binary64.Optics.SetOpacity self opacity).1 ≠ .ok () →
      (Binary64.Optics.SetOpacity self opacity).2 = self) ∧
    (Binary64.Optics.ValidateReflectionColor color = .ok () ↔
      ((color.red = Double.nan ∨
          (Double.finite false 0 ≤ color.red ∧ color.red ≤ Double.finite false 1)) ∧
        (color.green = Double.nan ∨
          (Double.finite false 0 ≤ color.green ∧ color.green ≤ Double.finite false 1)) ∧
        (color.blue = Double.nan ∨
          (Double.finite false 0 ≤ color.blue ∧ color.blue ≤ Double.finite false 1)))) ∧
    (Binary64.Optics.ValidateReflectionColor color = .ok () →
      Binary64.Optics.SetMatteColor self color = (.ok (), { self with matteColor := color }) ∧
      Binary64.Optics.SetGlossColor self color
        = (.ok (), { self with glossColor := color })) ∧
    (Binary64.Optics.ValidateReflectionColor color ≠ .ok () →
      (Binary64.Optics.SetMatteColor self color).1 ≠ .ok () ∧
      (Binary64.Optics.SetMatteColor self color).2 = self ∧
      (Binary64.Optics.SetGlossColor self color).1 ≠ .ok () ∧
      (Binary64.Optics.SetGlossColor self color).2 = self) := by
  have key : ∀ x : Double,
      ¬ (x < Double.finite false 0 ∨ x > Double.finite false 1) ↔
        (x = Double.nan ∨ (Double.finite false 0 ≤ x ∧ x ≤ Double.finite false 1)) := by
    intro x
    rw [Double_range_test]
    by_cases hx : x = Double.nan
    · simp [hx]
    · simp [hx]
  refine ⟨?_, ?_, ?_, ?_, ?_, ?_⟩
  · unfold Binary64.Optics.SetOpacity
    rw [← key]
    by_cases h : opacity < Double.finite false 0 ∨ opacity > Double.finite false 1
    · rw [if_pos h]
      simp [h]
    · rw [if_neg h]
      simp [h]
  · unfold Binary64.Optics.SetOpacity
    by_cases h : opacity < Double.finite false 0 ∨ opacity > Double.finite false 1
    · rw [if_pos h]
      intro hc
      cases hc
    · rw [if_neg h]
      intro _
      rfl
  · unfold Binary64.Optics.SetOpacity
    by_cases h : opacity < Double.finite false 0 ∨ opacity > Double.finite false 1
    · rw [if_pos h]
      intro _
      rfl
    · rw [if_neg h]
      intro hc
      exact absurd rfl hc
  · rw [← key, ← key, ← key]
    unfold Binary64.Optics.ValidateReflectionColor
    by_cases h1 : color.red < Double.finite false 0 ∨ color.red > Double.finite false 1
    · rw [if_pos h1]
      simp [h1]
    · rw [if_neg h1]
      by_cases h2 : color.green < Double.finite false 0 ∨
          color.green > Double.finite false 1
      · rw [if_pos h2]
        simp [h2]
      · rw [if_neg h2]
        by_cases h3 : color.blue < Double.finite false 0 ∨
            color.blue > Double.finite false 1
        · rw [if_pos h3]
          simp [h3]
        · rw [if_neg h3]
          simp [h1, h2, h3]
  · intro h
    unfold Binary64.Optics.SetMatteColor Binary64.Optics.SetGlossColor
    rw [h]
    exact ⟨rfl, rfl⟩
  · intro h
    unfold Binary64.Optics.SetMatteColor Binary64.Optics.SetGlossColor
    cases hv : Binary64.Optics.ValidateReflectionColor color with
    | error e => exact ⟨by simp, rfl, by simp, rfl⟩
    | ok u => exact absurd hv h

/-- C27 (failing input): `SetOpacity` called with a NaN, and `SetMatteColor` and
`SetGlossColor` called with a color whose red channel is a NaN, return normally and store
the argument in the object, although a NaN is not in `[0, 1]`: each range test is written
`x < 0.0 || x > 1.0`, and both comparisons are false on a NaN. -/
theorem Optics_setters_accept_NaN (self : Optics Double) :
    Binary64.Optics.SetOpacity self Double.nan
      = (.ok (), { self with opacity := Double.nan }) ∧
    Binary64.Optics.SetMatteColor self ⟨Double.nan, Double.finite false 0, Double.finite false 0⟩
      = (.ok (), { self with matteColor :=
          ⟨Double.nan, Double.finite false 0, Double.finite false 0⟩ }) ∧
    Binary64.Optics.SetGlossColor self ⟨Double.nan, Double.finite false 0, Double.finite false 0⟩
      = (.ok (), { self with glossColor :=
          ⟨Double.nan, Double.finite false 0, Double.finite false 0⟩ }) ∧
    ¬ (Double.finite false 0 ≤ Double.nan ∧ Double.nan ≤ Double.finite false 1) := by
  refine ⟨rfl, rfl, rfl, ?_⟩
  rintro ⟨h, _⟩
  exact absurd h (by decide)

/-- C29 (failing input): the object built by the constructor `Optics()` and then given
`SetOpacity(NaN)` is a reachable `Optics` value whose opacity is a NaN, which is not in
`[0, 1]`; no exception is raised on the way. -/
theorem Optics_invariant_broken :
    (Binary64.Optics.SetOpacity Binary64.Optics.default Double.nan).1 = .ok () ∧
    (Binary64.Optics.SetOpacity Binary64.Optics.default Double.nan).2.opacity = Double.nan ∧
    ¬ (Double.finite false 0
        ≤ (Binary64.Optics.SetOpacity Binary64.Optics.default Double.nan).2.opacity ∧
      (Binary64.Optics.SetOpacity Binary64.Optics.default Double.nan).2.opacity
        ≤ Double.finite false 1) := by
  refine ⟨rfl, rfl, ?_⟩
  rintro ⟨h, _⟩
  exact absurd h (by decide)

/-- The refraction setters on every argument: `ValidateRefraction` throws exactly when its
argument is a number outside `[1, 9]`; the setters store an argument that passes, and so a
NaN, and leave the index alone on a throw. -/
theorem refraction_setters_on_double (index refraction : Double) :
    (Binary64.ValidateRefraction refraction = .ok () ↔
      (refraction = Double.nan ∨
        (Double.finite false 1 ≤ refraction ∧ refraction ≤ Double.finite false 9))) ∧
    (Binary64.ValidateRefraction refraction = .ok () →
      Binary64.SolidObject.SetRefraction index refraction = (.ok (), refraction) ∧
      Binary64.Scene.SetAmbientRefraction index refraction = (.ok (), refraction)) ∧
    (Binary64.ValidateRefraction refraction ≠ .ok () →
      Binary64.SolidObject.SetRefraction index refraction
        = (.error "Invalid refractive index.", index) ∧
      Binary64.Scene.SetAmbientRefraction index refraction
        = (.error "Invalid refractive index.", index)) := by
  have key : ¬ (refraction < Double.finite false 1 ∨ refraction > Double.finite false 9) ↔
      (refraction = Double.nan ∨
        (Double.finite false 1 ≤ refraction ∧ refraction ≤ Double.finite false 9)) := by
    rw [Double_range_test]
    by_cases hx : refraction = Double.nan
    · simp [hx]
    · simp [hx]
  refine ⟨?_, ?_, ?_⟩
  · rw [← key]
    unfold Binary64.ValidateRefraction
    by_cases h : refraction < Double.finite false 1 ∨ refraction > Double.finite false 9
    · rw [if_pos h]
      simp [h]
    · rw [if_neg h]
      simp [h]
  · intro h
    unfold Binary64.SolidObject.SetRefraction Binary64.Scene.SetAmbientRefraction
    rw [h]
    exact ⟨rfl, rfl⟩
  · intro h
    unfold Binary64.SolidObject.SetRefraction Binary64.Scene.SetAmbientRefraction
    unfold Binary64.ValidateRefraction at h ⊢
    by_cases h1 : refraction < Double.finite false 1 ∨ refraction > Double.finite false 9
    · rw [if_pos h1]
      exact ⟨rfl, rfl⟩
    · rw [if_neg h1] at h
      exact absurd rfl h

/-- C30 (failing input): `SetRefraction(NaN)` on a new solid (index 1.55) and
`SetAmbientRefraction(NaN)` on a new scene (index 1.0) return normally and store the NaN,
which is not in `[1, 9]`: `ValidateRefraction` tests
`refraction < REFRACTION_MINIMUM || refraction > REFRACTION_MAXIMUM`, and both comparisons
are false on a NaN. -/
theorem refraction_accepts_NaN :
    Binary64.ValidateRefraction Double.nan = .ok () ∧
    Binary64.SolidObject.SetRefraction Binary64.REFRACTION_GLASS Double.nan
      = (.ok (), Double.nan) ∧
    Binary64.Scene.SetAmbientRefraction Binary64.REFRACTION_VACUUM Double.nan
      = (.ok (), Double.nan) ∧
    ¬ (Double.finite false 1 ≤ Double.nan ∧ Double.nan ≤ Double.finite false 9) := by
  refine ⟨rfl, rfl, rfl, ?_⟩
  rintro ⟨h, _⟩
  exact absurd h (by decide)

/-! ## The pixel conversion on `double` -/

theorem IsValue_nonneg (s : Bool) (m : ℚ) (h : (Double.finite s m).IsValue) : 0 ≤ m := by
  obtain ⟨n, k, hm, _, _, _⟩ := h
  rw [hm]
  positivity

/-- The value of `255.0 * colorComponent / maxColorValue` for a finite `colorComponent` and a
finite non-zero `maxColorValue`, when it is finite: the sign of `colorComponent`, and the
magnitude rounded after the product and after the quotient. -/
theorem quotient_finite (s : Bool) (a μ : ℚ) (hμ : μ ≠ 0) (t : Bool) (q : ℚ)
    (h : Double.finite false 255 * Double.finite s a / Double.finite false μ
      = Double.finite t q) :
    t = s ∧ q = Double.roundToSpacing (Double.roundToSpacing (255 * a) / μ) ∧
      Double.roundToSpacing (255 * a) < 2 ^ (1024 : ℤ) := by
  rw [Double.mul_finite] at h
  unfold Double.round at h
  by_cases h1 : Double.roundToSpacing (255 * a) < 2 ^ (1024 : ℤ)
  · rw [if_pos h1, Double.div_finite _ _ _ _ hμ] at h
    unfold Double.round at h
    by_cases h2 : Double.roundToSpacing (Double.roundToSpacing (255 * a) / μ) < 2 ^ (1024 : ℤ)
    · rw [if_pos h2] at h
      injection h with hs hq
      refine ⟨?_, hq.symm, h1⟩
      rw [← hs]
      simp
    · rw [if_neg h2] at h
      cases h
  · rw [if_neg h1] at h
    cases h

/-- The converse of `quotient_finite`. -/
theorem quotient_eq (s : Bool) (a μ : ℚ) (hμ : μ ≠ 0)
    (h1 : Double.roundToSpacing (255 * a) < 2 ^ (1024 : ℤ))
    (h2 : Double.roundToSpacing (Double.roundToSpacing (255 * a) / μ) < 2 ^ (1024 : ℤ)) :
    Double.finite false 255 * Double.finite s a / Double.finite false μ
      = Double.finite s (Double.roundToSpacing (Double.roundToSpacing (255 * a) / μ)) := by
  rw [Double.mul_finite]
  unfold Double.round
  rw [if_pos h1, Double.div_finite _ _ _ _ hμ]
  unfold Double.round
  rw [if_pos h2]
  simp

/-- The value `ConvertPixelValue` returns, where it returns one: the quotient is finite, and
the value is the truncation of the quotient clamped into `0 .. 255`. -/
theorem ConvertPixelValue_some (colorComponent maxColorValue : Double) (v : ℕ)
    (h : Binary64.Scene.ConvertPixelValue colorComponent maxColorValue = some v) :
    ∃ (s : Bool) (q : ℚ),
      Double.finite false 255 * colorComponent / maxColorValue = Double.finite s q ∧
      v = ClampedTruncation (Double.finite s q).toRat := by
  unfold Binary64.Scene.ConvertPixelValue at h
  cases hX : Double.finite false 255 * colorComponent / maxColorValue with
  | nan =>
    rw [hX] at h
    simp [Binary64.static_cast_int] at h
  | inf s =>
    rw [hX] at h
    simp [Binary64.static_cast_int] at h
  | finite s q =>
    rw [hX] at h
    refine ⟨s, q, rfl, ?_⟩
    cases hc : Binary64.static_cast_int (Double.finite s q) with
    | none =>
      rw [hc] at h
      cases h
    | some t =>
      rw [hc] at h
      simp only [Option.some.injEq] at h
      have ht := (static_cast_int_eq (Double.finite s q).toRat).2.1 t hc
      rw [← h, clamp_eq, ht]
      rfl

/-- Where the quotient is finite and truncates into the range of `int`, `ConvertPixelValue`
returns its truncation clamped into `0 .. 255`. -/
theorem ConvertPixelValue_of_finite (colorComponent maxColorValue : Double) (s : Bool) (q : ℚ)
    (hX : Double.finite false 255 * colorComponent / maxColorValue = Double.finite s q)
    (h1 : -2147483649 < (Double.finite s q).toRat)
    (h2 : (Double.finite s q).toRat < 2147483648) :
    Binary64.Scene.ConvertPixelValue colorComponent maxColorValue
      = some (ClampedTruncation (Double.finite s q).toRat) := by
  unfold Binary64.Scene.ConvertPixelValue
  rw [hX]
  have hc : Binary64.static_cast_int (Double.finite s q)
      = some (if 0 ≤ (Double.finite s q).toRat then ⌊(Double.finite s q).toRat⌋
          else ⌈(Double.finite s q).toRat⌉) :=
    (static_cast_int_eq (Double.finite s q).toRat).1 h1 h2
  rw [hc]
  simp only
  rw [clamp_eq]
  rfl

/-- A positive `maxColorValue` that is a value of the format is `+∞` or a finite value with
the positive sign and a positive magnitude. -/
theorem positive_value_cases (m : Double) (hvalue : m.IsValue)
    (hmax : Double.finite false 0 < m) :
    m = Double.inf false ∨ ∃ μ : ℚ, 0 < μ ∧ m = Double.finite false μ := by
  cases m with
  | nan => exact absurd hmax (by decide)
  | inf t =>
    left
    cases t
    · rfl
    · exact absurd hmax (by decide)
  | finite s μ =>
    right
    have h0 := IsValue_nonneg s μ hvalue
    have h := (Double.lt_finite _ _ _ _).mp hmax
    cases s
    · exact ⟨μ, by simpa [Double.toRat] using h, rfl⟩
    · exfalso
      have : (0 : ℚ) < -μ := by simpa [Double.toRat] using h
      linarith

/-- The magnitude of the quotient is monotone in the magnitude of `colorComponent`. -/
theorem quotient_magnitude_mono (μ : ℚ) (hμ : 0 < μ) (a b : ℚ) (ha : 0 ≤ a) (h : a ≤ b) :
    Double.roundToSpacing (Double.roundToSpacing (255 * a) / μ)
      ≤ Double.roundToSpacing (Double.roundToSpacing (255 * b) / μ) := by
  have h1 : Double.roundToSpacing (255 * a) ≤ Double.roundToSpacing (255 * b) :=
    Double.roundToSpacing_mono _ _ (by positivity) (by linarith)
  have h0 : 0 ≤ Double.roundToSpacing (255 * a) :=
    Double.roundToSpacing_nonneg _ (by positivity)
  exact Double.roundToSpacing_mono _ _ (div_nonneg h0 hμ.le)
    (div_le_div_of_nonneg_right h1 hμ.le)

theorem quotient_magnitude_nonneg (μ : ℚ) (hμ : 0 < μ) (a : ℚ) (ha : 0 ≤ a) :
    0 ≤ Double.roundToSpacing (Double.roundToSpacing (255 * a) / μ) :=
  Double.roundToSpacing_nonneg _
    (div_nonneg (Double.roundToSpacing_nonneg _ (by positivity)) hμ.le)

theorem quotient_magnitude_zero (μ : ℚ) :
    Double.roundToSpacing (Double.roundToSpacing (255 * 0) / μ) = 0 := by
  rw [mul_zero, Double.roundToSpacing_zero, zero_div, Double.roundToSpacing_zero]

/-- The quotient is monotone in `colorComponent`, for a finite positive `maxColorValue`. -/
theorem quotient_mono (μ : ℚ) (hμ : 0 < μ) (s₁ s₂ : Bool) (a₁ a₂ : ℚ)
    (h₁ : 0 ≤ a₁) (h₂ : 0 ≤ a₂)
    (h : (Double.finite s₁ a₁).toRat ≤ (Double.finite s₂ a₂).toRat) :
    (Double.finite s₁
        (Double.roundToSpacing (Double.roundToSpacing (255 * a₁) / μ))).toRat
      ≤ (Double.finite s₂
        (Double.roundToSpacing (Double.roundToSpacing (255 * a₂) / μ))).toRat := by
  have n₁ := quotient_magnitude_nonneg μ hμ a₁ h₁
  have n₂ := quotient_magnitude_nonneg μ hμ a₂ h₂
  cases s₁ <;> cases s₂ <;> simp only [Double.toRat, if_true, if_false, Bool.false_eq_true] at h ⊢
  · exact quotient_magnitude_mono μ hμ a₁ a₂ h₁ h
  · have e₁ : a₁ = 0 := by linarith
    have e₂ : a₂ = 0 := by linarith
    rw [e₁, e₂, quotient_magnitude_zero]
    norm_num
  · linarith
  · have := quotient_magnitude_mono μ hμ a₂ a₁ h₂ (by linarith)
    linarith

/-- A quotient by `+∞` that is finite is a zero. -/
theorem quotient_by_inf (c : Double) (t : Bool) (q : ℚ)
    (h : Double.finite false 255 * c / Double.inf false = Double.finite t q) : q = 0 := by
  cases c with
  | nan => exact absurd h (by simp [HMul.hMul, Mul.mul, HDiv.hDiv, Div.div, Double.mul, Double.div])
  | inf s =>
    exfalso
    have e : Double.finite false 255 * Double.inf s = Double.inf (xor false s) := by
      show (if (255 : ℚ) = 0 then Double.nan else Double.inf (xor false s)) = _
      rw [if_neg (by norm_num)]
    rw [e] at h
    cases h
  | finite s a =>
    rw [Double.mul_finite] at h
    unfold Double.round at h
    by_cases h1 : Double.roundToSpacing (255 * a) < 2 ^ (1024 : ℤ)
    · rw [if_pos h1] at h
      have e : Double.finite (xor false s) (Double.roundToSpacing (255 * a)) / Double.inf false
          = Double.finite (xor (xor false s) false) 0 := rfl
      rw [e] at h
      injection h with _ hq
      exact hq.symm
    · rw [if_neg h1] at h
      cases h

/-- A finite quotient by a finite divisor comes from a finite `colorComponent`. -/
theorem quotient_finite_cases (c : Double) (μ : ℚ) (t : Bool) (q : ℚ)
    (h : Double.finite false 255 * c / Double.finite false μ = Double.finite t q) :
    ∃ (s : Bool) (a : ℚ), c = Double.finite s a := by
  cases c with
  | nan => exact absurd h (by simp [HMul.hMul, Mul.mul, HDiv.hDiv, Div.div, Double.mul, Double.div])
  | inf s =>
    exfalso
    have e : Double.finite false 255 * Double.inf s = Double.inf (xor false s) := by
      show (if (255 : ℚ) = 0 then Double.nan else Double.inf (xor false s)) = _
      rw [if_neg (by norm_num)]
    rw [e] at h
    cases h
  | finite s a => exact ⟨s, a, rfl⟩

/-- For `colorComponent = maxColorValue`, a positive value of the format whose product with
255 does not overflow, the magnitude of the quotient lies between 254 and 255.5. -/
theorem quotient_at_max (n : ℕ) (k : ℤ) (μ : ℚ) (hμ : μ = n * 2 ^ k) (hpos : 0 < μ)
    (hk : -1074 ≤ k) :
    254 ≤ Double.roundToSpacing (Double.roundToSpacing (255 * μ) / μ) ∧
    Double.roundToSpacing (Double.roundToSpacing (255 * μ) / μ) ≤ 255 + 1 / 2 := by
  have r254 : Double.roundToSpacing 254 = 254 :=
    Double.roundToSpacing_of_representable 254 254 0 (by norm_num) (by norm_num) (by norm_num)
  have r255 : Double.roundToSpacing (255 + 1 / 2) = 255 + 1 / 2 :=
    Double.roundToSpacing_of_representable _ 511 (-1) (by norm_num) (by norm_num)
      (by norm_num)
  have key : 254 ≤ Double.roundToSpacing (255 * μ) / μ ∧
      Double.roundToSpacing (255 * μ) / μ ≤ 255 + 1 / 2 := by
    by_cases hsub : 255 * μ < 2 ^ (-1022 : ℤ)
    · -- the product is exact
      have h2k : (2 : ℚ) ^ (-1074 : ℤ) ≤ 2 ^ k := zpow_le_zpow_right₀ (by norm_num) hk
      have hnq : ((255 * n : ℕ) : ℚ) < 2 ^ (52 : ℤ) := by
        have h1 : ((255 * n : ℕ) : ℚ) * 2 ^ (-1074 : ℤ) < 2 ^ (-1022 : ℤ) := by
          calc ((255 * n : ℕ) : ℚ) * 2 ^ (-1074 : ℤ)
              ≤ ((255 * n : ℕ) : ℚ) * 2 ^ k := mul_le_mul_of_nonneg_left h2k (by positivity)
            _ = 255 * μ := by rw [hμ]; push_cast; ring
            _ < 2 ^ (-1022 : ℤ) := hsub
        have h3 : (2 : ℚ) ^ (-1022 : ℤ) = 2 ^ (52 : ℤ) * 2 ^ (-1074 : ℤ) := by
          rw [← zpow_add₀ (by norm_num : (2 : ℚ) ≠ 0)]
          norm_num
        rw [h3] at h1
        exact lt_of_mul_lt_mul_right h1 (by positivity)
      have hnn : 255 * n < 2 ^ 53 := by
        have h4 : ((255 * n : ℕ) : ℚ) < ((2 ^ 53 : ℕ) : ℚ) := by
          refine lt_trans hnq ?_
          norm_num
        exact_mod_cast h4
      have hexact : Double.roundToSpacing (255 * μ) = 255 * μ :=
        Double.roundToSpacing_of_representable (255 * μ) (255 * n) k
          (by rw [hμ]; push_cast; ring) hnn hk
      rw [hexact, mul_div_assoc, div_self hpos.ne']
      norm_num
    · push_neg at hsub
      have herr := Double.roundToSpacing_error (255 * μ) hsub
      rw [abs_le] at herr
      have hu : (2 : ℚ) ^ (-53 : ℤ) ≤ 1 / 1000 := by norm_num
      have hb : 255 * μ * 2 ^ (-53 : ℤ) ≤ 255 * μ * (1 / 1000) :=
        mul_le_mul_of_nonneg_left hu (by positivity)
      obtain ⟨herr1, herr2⟩ := herr
      generalize 255 * μ * 2 ^ (-53 : ℤ) = err at herr1 herr2 hb
      generalize Double.roundToSpacing (255 * μ) = p at herr1 herr2 ⊢
      constructor
      · rw [le_div_iff₀ hpos]
        linarith
      · rw [div_le_iff₀ hpos]
        linarith
  constructor
  · rw [← r254]
    exact Double.roundToSpacing_mono _ _ (by norm_num) key.1
  · rw [← r255]
    exact Double.roundToSpacing_mono _ _ (le_trans (by norm_num) key.1) key.2

theorem ClampedTruncation_at_max (q : ℚ) (h1 : 254 ≤ q) (h2 : q ≤ 255 + 1 / 2) :
    ClampedTruncation q = 254 ∨ ClampedTruncation q = 255 := by
  unfold ClampedTruncation
  rw [if_pos (by linarith)]
  have hf1 : (254 : ℤ) ≤ ⌊q⌋ := Int.le_floor.mpr (by exact_mod_cast h1)
  have hf2 : ⌊q⌋ < 256 := Int.floor_lt.mpr (by push_cast; linarith)
  have hcase : ⌊q⌋ = 254 ∨ ⌊q⌋ = 255 := by omega
  rcases hcase with h | h
  · left
    rw [h]
    rfl
  · right
    rw [h]
    rfl

theorem ClampedTruncation_le (q : ℚ) : ClampedTruncation q ≤ 255 := by
  unfold ClampedTruncation
  omega

theorem ClampedTruncation_zero : ClampedTruncation (0 : ℚ) = 0 := by
  unfold ClampedTruncation
  simp

/-- C33 (amended): for every `maxColorValue > 0` that is a value of `double`,
`ConvertPixelValue` returns, whenever the conversion to `int` is defined, the truncation
toward zero of the `double` quotient `255.0 * colorComponent / maxColorValue` (the product
rounded, then the quotient rounded) clamped into `0 .. 255`, and the conversion is defined
whenever that quotient is finite and truncates into the range of `int`; over the
components where it returns a value the function is monotone non-decreasing in
`colorComponent`; it maps `0` to `0`; and it maps `colorComponent = maxColorValue` to 254
or to 255 when the product `255.0 * maxColorValue` does not overflow. -/
theorem ConvertPixelValue_truncates (maxColorValue : Double)
    (hvalue : maxColorValue.IsValue) (hmax : Double.finite false 0 < maxColorValue) :
    (∀ (colorComponent : Double) (v : ℕ),
      Binary64.Scene.ConvertPixelValue colorComponent maxColorValue = some v →
      v = ClampedTruncation
          (Double.finite false 255 * colorComponent / maxColorValue).toRat ∧
        v ≤ 255) ∧
    (∀ (colorComponent : Double) (s : Bool) (q : ℚ),
      Double.finite false 255 * colorComponent / maxColorValue = Double.finite s q →
      -2147483649 < (Double.finite s q).toRat → (Double.finite s q).toRat < 2147483648 →
      Binary64.Scene.ConvertPixelValue colorComponent maxColorValue
        = some (ClampedTruncation (Double.finite s q).toRat)) ∧
    (∀ (c₁ c₂ : Double) (v₁ v₂ : ℕ), c₁.IsValue → c₂.IsValue → c₁ ≤ c₂ →
      Binary64.Scene.ConvertPixelValue c₁ maxColorValue = some v₁ →
      Binary64.Scene.ConvertPixelValue c₂ maxColorValue = some v₂ → v₁ ≤ v₂) ∧
    Binary64.Scene.ConvertPixelValue (Double.finite false 0) maxColorValue = some 0 ∧
    ((∃ (s : Bool) (p : ℚ), Double.finite false 255 * maxColorValue = Double.finite s p) →
      Binary64.Scene.ConvertPixelValue maxColorValue maxColorValue = some 254 ∨
      Binary64.Scene.ConvertPixelValue maxColorValue maxColorValue = some 255) := by
  refine ⟨?_, ?_, ?_, ?_, ?_⟩
  · intro c v hv
    obtain ⟨s, q, hX, hq⟩ := ConvertPixelValue_some c maxColorValue v hv
    rw [hX]
    exact ⟨hq, by rw [hq]; exact ClampedTruncation_le _⟩
  · intro c s q hX h1 h2
    exact ConvertPixelValue_of_finite c maxColorValue s q hX h1 h2
  · intro c₁ c₂ v₁ v₂ hc₁ hc₂ hle h₁ h₂
    obtain ⟨t₁, q₁, hX₁, hq₁⟩ := ConvertPixelValue_some c₁ maxColorValue v₁ h₁
    obtain ⟨t₂, q₂, hX₂, hq₂⟩ := ConvertPixelValue_some c₂ maxColorValue v₂ h₂
    rcases positive_value_cases maxColorValue hvalue hmax with hm | ⟨μ, hμ, hm⟩
    · rw [hm] at hX₁ hX₂
      have e₁ := quotient_by_inf c₁ t₁ q₁ hX₁
      have e₂ := quotient_by_inf c₂ t₂ q₂ hX₂
      have z₁ : (Double.finite t₁ q₁).toRat = 0 := by
        rw [e₁]
        cases t₁ <;> simp [Double.toRat]
      have z₂ : (Double.finite t₂ q₂).toRat = 0 := by
        rw [e₂]
        cases t₂ <;> simp [Double.toRat]
      rw [hq₁, hq₂, z₁, z₂]
    · rw [hm] at hX₁ hX₂
      obtain ⟨s₁, a₁, hc₁'⟩ := quotient_finite_cases c₁ μ t₁ q₁ hX₁
      obtain ⟨s₂, a₂, hc₂'⟩ := quotient_finite_cases c₂ μ t₂ q₂ hX₂
      subst hc₁' hc₂'
      obtain ⟨ht₁, hq₁', _⟩ := quotient_finite s₁ a₁ μ hμ.ne' t₁ q₁ hX₁
      obtain ⟨ht₂, hq₂', _⟩ := quotient_finite s₂ a₂ μ hμ.ne' t₂ q₂ hX₂
      rw [hq₁, hq₂, ht₁, ht₂, hq₁', hq₂']
      apply ClampedTruncation_mono
      exact quotient_mono μ hμ s₁ s₂ a₁ a₂ (IsValue_nonneg s₁ a₁ hc₁)
        (IsValue_nonneg s₂ a₂ hc₂) ((Double.le_finite _ _ _ _).mp hle)
  · rcases positive_value_cases maxColorValue hvalue hmax with hm | ⟨μ, hμ, hm⟩
    · rw [hm]
      have hX : Double.finite false 255 * Double.finite false 0 / Double.inf false
          = Double.finite false 0 := by
        rw [Double.mul_finite, mul_zero, Double.round_zero]
        rfl
      rw [ConvertPixelValue_of_finite _ _ false 0 hX (by norm_num [Double.toRat])
        (by norm_num [Double.toRat]), Double.toRat_finite_false, ClampedTruncation_zero]
    · rw [hm]
      have hX : Double.finite false 255 * Double.finite false 0 / Double.finite false μ
          = Double.finite false 0 := by
        rw [Double.mul_finite, mul_zero, Double.round_zero,
          Double.div_finite _ _ _ _ hμ.ne', zero_div, Double.round_zero]
        rfl
      rw [ConvertPixelValue_of_finite _ _ false 0 hX (by norm_num [Double.toRat])
        (by norm_num [Double.toRat]), Double.toRat_finite_false, ClampedTruncation_zero]
  · rintro ⟨s, p, hp⟩
    rcases positive_value_cases maxColorValue hvalue hmax with hm | ⟨μ, hμ, hm⟩
    · exfalso
      rw [hm] at hp
      have e : Double.finite false 255 * Double.inf false = Double.inf (xor false false) := by
        show (if (255 : ℚ) = 0 then Double.nan else Double.inf (xor false false)) = _
        rw [if_neg (by norm_num)]
      rw [e] at hp
      cases hp
    · subst hm
      obtain ⟨n, k, hn, _, hk, _⟩ := hvalue
      obtain ⟨b1, b2⟩ := quotient_at_max n k μ hn hμ hk
      have h1 : Double.roundToSpacing (255 * μ) < 2 ^ (1024 : ℤ) := by
        rw [Double.mul_finite] at hp
        unfold Double.round at hp
        by_contra hc
        rw [if_neg hc] at hp
        cases hp
      have h2 : Double.roundToSpacing (Double.roundToSpacing (255 * μ) / μ)
          < 2 ^ (1024 : ℤ) :=
        lt_of_le_of_lt b2 (by norm_num)
      have hX := quotient_eq false μ μ hμ.ne' h1 h2
      rw [ConvertPixelValue_of_finite _ _ false _ hX
        (by rw [Double.toRat_finite_false]; linarith)
        (by rw [Double.toRat_finite_false]; linarith), Double.toRat_finite_false]
      rcases ClampedTruncation_at_max _ b1 b2 with h | h
      · left
        rw [h]
      · right
        rw [h]

/-- C33 (witness): with `maxColorValue = 1`, the component `0` is converted to `0` and the
component `1` to `255`. -/
theorem ConvertPixelValue_truncates_witness :
    (Double.finite false 1).IsValue ∧ Double.finite false 0 < Double.finite false 1 ∧
    Binary64.Scene.ConvertPixelValue (Double.finite false 0) (Double.finite false 1)
      = some 0 ∧
    Binary64.Scene.ConvertPixelValue (Double.finite false 1) (Double.finite false 1)
      = some 255 := by
  have e4 : Double.finite false 255 * Double.finite false 1 = Double.finite false 255 := by
    rw [Double.mul_finite, show (255 * 1 : ℚ) = 255 by norm_num]
    exact Double.round_of_representable _ _ 255 0 (by norm_num) (by norm_num) (by norm_num)
        (by norm_num)
  have e5 : Double.finite false 255 / Double.finite false 1 = Double.finite false 255 := by
    rw [Double.div_finite _ _ _ _ (by norm_num), show (255 / 1 : ℚ) = 255 by norm_num]
    exact Double.round_of_representable _ _ 255 0 (by norm_num) (by norm_num) (by norm_num)
        (by norm_num)
  have hv : (Double.finite false 1).IsValue :=
    ⟨1, 0, by norm_num, by norm_num, by norm_num, by norm_num⟩
  have hp : Double.finite false 0 < Double.finite false 1 :=
    (Double.lt_finite _ _ _ _).mpr (by norm_num [Double.toRat])
  have hX : Double.finite false 255 * Double.finite false 1 / Double.finite false 1
      = Double.finite false 255 := by
    rw [e4, e5]
  have h := (ConvertPixelValue_truncates (Double.finite false 1) hv hp).2.1
    (Double.finite false 1) false 255 hX (by norm_num [Double.toRat])
    (by norm_num [Double.toRat])
  refine ⟨hv, hp, (ConvertPixelValue_truncates (Double.finite false 1) hv hp).2.2.2.1, ?_⟩
  rw [h]
  unfold ClampedTruncation
  rw [Double.toRat_finite_false, if_pos (by norm_num)]
  have hfloor : ⌊(255 : ℚ)⌋ = 255 := by
    rw [Int.floor_eq_iff]
    constructor <;> norm_num
  rw [hfloor]
  rfl

/-- An infinity divided by a finite value is an infinity. -/
theorem inf_div_finite (s t : Bool) (m : ℚ) :
    Double.inf s / Double.finite t m = Double.inf (xor s t) := rfl

/-- The conversion of an infinite quotient has no result. -/
theorem ConvertPixelValue_of_inf (colorComponent maxColorValue : Double) (s : Bool)
    (h : Double.finite false 255 * colorComponent / maxColorValue = Double.inf s) :
    Binary64.Scene.ConvertPixelValue colorComponent maxColorValue = none := by
  unfold Binary64.Scene.ConvertPixelValue
  rw [h]
  rfl

/-- C33 (counterexample): two positive values of `maxColorValue` for which
`colorComponent = maxColorValue`, the brightest channel of a buffer, is not converted to
255.  For `1.1` the product `255.0 * 1.1` is rounded to `280.5` and the quotient
`280.5 / 1.1` to `254.99999999999997`, which truncates to 254: `ConvertPixelValue` returns
254.  For `2^1020` (about `1.1e307`) the product `255.0 * 2^1020` is above the largest
`double`, so it is `+∞`; the quotient is `+∞` too, and its conversion to `int` has no
defined result. -/
theorem ConvertPixelValue_max_not_255 :
    (Double.finite false 0 < Double.ofRat (11 / 10) ∧
    Double.ofRat (11 / 10) = Double.finite false (2476979795053773 / 2251799813685248) ∧
    Double.finite false 255 * Double.ofRat (11 / 10) / Double.ofRat (11 / 10)
      = Double.finite false (8972014882652159 / 35184372088832) ∧
    Binary64.Scene.ConvertPixelValue (Double.ofRat (11 / 10)) (Double.ofRat (11 / 10))
      = some 254) ∧
    ((Double.finite false (2 ^ (1020 : ℤ))).IsValue ∧
    Double.finite false 0 < Double.finite false (2 ^ (1020 : ℤ)) ∧
    Double.finite false 255 * Double.finite false (2 ^ (1020 : ℤ)) = Double.inf false ∧
    Binary64.Scene.ConvertPixelValue (Double.finite false (2 ^ (1020 : ℤ)))
      (Double.finite false (2 ^ (1020 : ℤ))) = none) := by
  constructor
  · have e1 : Double.ofRat (11 / 10) = Double.finite false (2476979795053773 / 2251799813685248)
      := by
      rw [Double.ofRat_of_pos _ (by norm_num)]
      exact Double.round_eq _ _ 0 4953959590107546 _ (by norm_num) (by norm_num) (by norm_num)
          (Double.roundHalfEven_of_lt _ _ (by norm_num) (by norm_num)) (by norm_num) (by norm_num)
    have e2 : Double.finite false 255 * Double.finite false (2476979795053773 / 2251799813685248)
        = Double.finite false (561 / 2) := by
      rw [Double.mul_finite, show (255 * (2476979795053773 / 2251799813685248) : ℚ)
          = 631629847738712115 / 2251799813685248 by norm_num]
      exact Double.round_eq _ _ 8 4934608185458688 _ (by norm_num) (by norm_num) (by norm_num)
          (Double.roundHalfEven_of_lt _ _ (by norm_num) (by norm_num)) (by norm_num) (by norm_num)
    have e3 : Double.finite false (561 / 2) / Double.finite false
        (2476979795053773 / 2251799813685248) = Double.finite false
        (8972014882652159 / 35184372088832) := by
      rw [Double.div_finite _ _ _ _ (by norm_num), show
          ((561 / 2) / (2476979795053773 / 2251799813685248) : ℚ)
          = 210543282579570688 / 825659931684591 by norm_num]
      exact Double.round_eq _ _ 7 8972014882652159 _ (by norm_num) (by norm_num) (by norm_num)
          (Double.roundHalfEven_of_lt _ _ (by norm_num) (by norm_num)) (by norm_num) (by norm_num)
    have hX : Double.finite false 255 * Double.ofRat (11 / 10) / Double.ofRat (11 / 10)
        = Double.finite false (8972014882652159 / 35184372088832) := by
      rw [e1, e2, e3]
    have hfloor : ⌊((8972014882652159 / 35184372088832) : ℚ)⌋ = 254 := by
      rw [Int.floor_eq_iff]
      constructor <;> norm_num
    refine ⟨?_, e1, hX, ?_⟩
    · rw [e1]
      exact (Double.lt_finite _ _ _ _).mpr (by norm_num [Double.toRat])
    · rw [ConvertPixelValue_of_finite _ _ false (8972014882652159 / 35184372088832) hX
        (by norm_num [Double.toRat]) (by norm_num [Double.toRat])]
      unfold ClampedTruncation
      rw [Double.toRat_finite_false, if_pos (by norm_num), hfloor]
      rfl
  · have hmul : Double.finite false 255 * Double.finite false (2 ^ (1020 : ℤ))
        = Double.inf false := by
      rw [Double.mul_finite]
      unfold Double.round
      rw [Double.roundToSpacing_of_representable (255 * 2 ^ (1020 : ℤ)) 255 1020
        (by rw [Nat.cast_ofNat]) (by norm_num) (by norm_num)]
      have h : ¬ ((255 : ℚ) * 2 ^ (1020 : ℤ) < 2 ^ (1024 : ℤ)) := by
        have e : (2 : ℚ) ^ (1024 : ℤ) = 16 * 2 ^ (1020 : ℤ) := by
          rw [show (1024 : ℤ) = 4 + 1020 by norm_num, zpow_add₀ (by norm_num)]
          norm_num
        rw [e, not_lt]
        have hp : (0 : ℚ) < 2 ^ (1020 : ℤ) := by positivity
        nlinarith
      rw [if_neg h]
      rfl
    have hv : (Double.finite false (2 ^ (1020 : ℤ))).IsValue :=
      ⟨1, 1020, by rw [Nat.cast_one, one_mul], by norm_num, by norm_num,
        zpow_lt_zpow_right₀ (by norm_num) (by norm_num)⟩
    have hp : Double.finite false 0 < Double.finite false (2 ^ (1020 : ℤ)) :=
      (Double.lt_finite _ _ _ _).mpr (by
        rw [Double.toRat_finite_false, Double.toRat_finite_false]
        positivity)
    have hq : Double.finite false 255 * Double.finite false (2 ^ (1020 : ℤ))
        / Double.finite false (2 ^ (1020 : ℤ)) = Double.inf false := by
      rw [hmul, inf_div_finite]
      rfl
    exact ⟨hv, hp, hmul, ConvertPixelValue_of_inf _ _ false hq⟩

/-! ## The cuboid on `double` -/

/-- C17 (counterexample): two rays that start outside the box and pass through no point of
an edge, for each of which three intersections are appended.  In exact arithmetic, for the
cuboid of half-sizes 1, 1, 1, the ray from `(-2, 0, 0)` in direction
`(1, 2000001/6000000, 0)` is counted on the left face at `u = 1`, on the front face at
`u = 6000000/2000001`, and on the right face at `u = 3`, where `y = 1 + 5e-7` is past the
front face but inside the band of width `EPSILON = 1e-6` that the containment test allows.
On `double`, for the cuboid of half-sizes 2, 2, 2, the ray from `(-4, 0, 0)` in direction
`(1, 0.3333335, 0)`, where `0.3333335` is the `double` nearest to that decimal: on the plane
of the right face, at `u = 6`, it has `y = 6 * 0.3333335`, which is beyond `2 + EPSILON` by
about `2.9e-17`, so on the exact values of these numbers the ray keeps clear of every
tolerance of the routine (`RayIsClear`) and the exact routine appends 2 intersections; on
`double` the sum `2 + EPSILON` is rounded up by about `1.4e-16`, the point passes the
containment test, and the routine appends 3 intersections: right face, left face and front
face. -/
theorem Cuboid_three_hits :
    ((Cuboid.new (1:ℚ) 1 1).ObjectSpace_Contains ⟨-2, 0, 0⟩ = false ∧
    ¬ (Cuboid.new (1:ℚ) 1 1).GrazesEdge ⟨-2, 0, 0⟩ ⟨1, 2000001/6000000, 0⟩ ∧
    ((Cuboid.new (1:ℚ) 1 1).ObjectSpace_AppendAllIntersections
        ⟨-2, 0, 0⟩ ⟨1, 2000001/6000000, 0⟩ []).length = 3) ∧
    (Double.ofRat (3333335 / 10000000)
      = Double.finite false (6004802505560413 / 18014398509481984) ∧
    (Cuboid.new (2:ℚ) 2 2).ObjectSpace_Contains ⟨-4, 0, 0⟩ = false ∧
    ¬ (Cuboid.new (2:ℚ) 2 2).GrazesEdge ⟨-4, 0, 0⟩ ⟨1, (6004802505560413 / 18014398509481984), 0⟩ ∧
    (Cuboid.new (2:ℚ) 2 2).RayIsClear ⟨-4, 0, 0⟩ ⟨1, (6004802505560413 / 18014398509481984), 0⟩ ∧
    ((Cuboid.new (2:ℚ) 2 2).ObjectSpace_AppendAllIntersections ⟨-4, 0, 0⟩
      ⟨1, (6004802505560413 / 18014398509481984), 0⟩ []).length = 2 ∧
    (Binary64.Cuboid.ObjectSpace_AppendAllIntersections
      (Binary64.Cuboid.new (Double.finite false 2) (Double.finite false 2)
        (Double.finite false 2))
      ⟨Double.finite true 4, Double.finite false 0, Double.finite false 0⟩
      ⟨Double.finite false 1, Double.ofRat (3333335 / 10000000), Double.finite false 0⟩
      []).map (fun intersection => intersection.tag)
      = [some "right face", some "left face", some "front face"]) := by
  constructor
  · refine ⟨?_, ?_, ?_⟩
    · simp [Cuboid.ObjectSpace_Contains, Cuboid.new, EPSILON]
      norm_num [abs_of_pos, abs_of_neg]
    · rintro ⟨u, h⟩
      simp only [Cuboid.OnEdge, Cuboid.new, Vector.add, Vector.smul, mul_zero, add_zero,
        abs_zero, zero_add, mul_one] at h
      rcases h with ⟨h1, h2, _⟩ | ⟨_, h2, _⟩ | ⟨_, h2, _⟩
      · rcases (abs_eq (by norm_num)).mp h1 with h | h
        · have hu : u = 3 := by linarith
          rw [hu] at h2
          norm_num [abs_of_pos] at h2
        · have hu : u = 1 := by linarith
          rw [hu] at h2
          norm_num [abs_of_pos] at h2
      · norm_num at h2
      · norm_num at h2
    · simp [Cuboid.ObjectSpace_AppendAllIntersections, Cuboid.AppendFaceHit,
        Cuboid.ObjectSpace_Contains, Cuboid.new, Vector.add, Vector.smul, EPSILON]
      norm_num [abs_of_pos, abs_of_neg]
  · have c1 : Double.ofRat (1 / 1000000) = Double.finite false
      (4722366482869645 / 4722366482869645213696) := by
      rw [Double.ofRat_of_pos _ (by norm_num)]
      exact Double.round_eq _ _ (-20) 4722366482869645 _ (by norm_num) (by norm_num) (by norm_num)
          (Double.roundHalfEven_of_lt _ _ (by norm_num) (by norm_num)) (by norm_num) (by norm_num)
    have c2 : Double.ofRat (3333335 / 10000000) = Double.finite false
        (6004802505560413 / 18014398509481984) := by
      rw [show (3333335 / 10000000 : ℚ) = 666667 / 2000000 by norm_num, Double.ofRat_of_pos _
          (by norm_num)]
      exact Double.round_eq _ _ (-2) 6004802505560413 _ (by norm_num) (by norm_num) (by norm_num)
          (Double.roundHalfEven_of_lt _ _ (by norm_num) (by norm_num)) (by norm_num) (by norm_num)
    have c3 : Double.finite false 2 + Double.finite false
        (4722366482869645 / 4722366482869645213696) = Double.finite false
        (2251800939585155 / 1125899906842624) := by
      rw [Double.add_finite _ _ _ _ (9444737688105773297037 / 4722366482869645213696)
          (by norm_num [Double.toRat]) (by norm_num),
        Double.ofRat_of_pos _ (by norm_num)]
      exact Double.round_eq _ _ 1 4503601879170310 _ (by norm_num) (by norm_num) (by norm_num)
          (Double.roundHalfEven_of_lt _ _ (by norm_num) (by norm_num)) (by norm_num) (by norm_num)
    have c4 : Double.finite false 2 - Double.finite true 4 = Double.finite false 6 := by
      rw [Double.sub_eq_add_neg, Double.neg_finite, Double.add_finite _ _ _ _ 6
          (by norm_num [Double.toRat]) (by norm_num),
        Double.ofRat_of_pos _ (by norm_num)]
      exact Double.round_of_representable _ _ 3 1 (by norm_num) (by norm_num) (by norm_num)
          (by norm_num)
    have c5 : Double.finite false 6 / Double.finite false 1 = Double.finite false 6 := by
      rw [Double.div_finite _ _ _ _ (by norm_num), show (6 / 1 : ℚ) = 6 by norm_num]
      exact Double.round_of_representable _ _ 3 1 (by norm_num) (by norm_num) (by norm_num)
          (by norm_num)
    have c6 : Double.finite false 6 * Double.finite false 1 = Double.finite false 6 := by
      rw [Double.mul_finite, show (6 * 1 : ℚ) = 6 by norm_num]
      exact Double.round_of_representable _ _ 3 1 (by norm_num) (by norm_num) (by norm_num)
          (by norm_num)
    have c7 : Double.finite false 6 * Double.finite false (6004802505560413 / 18014398509481984)
        = Double.finite false (2251800939585155 / 1125899906842624) := by
      rw [Double.mul_finite, show (6 * (6004802505560413 / 18014398509481984) : ℚ)
          = 18014407516681239 / 9007199254740992 by norm_num]
      exact Double.round_eq _ _ 1 4503601879170310 _ (by norm_num) (by norm_num) (by norm_num)
          (Double.roundHalfEven_of_lt _ _ (by norm_num) (by norm_num)) (by norm_num) (by norm_num)
    have c8 : Double.finite false 6 * Double.finite false 0 = Double.finite false 0 := by
      rw [Double.mul_finite, show (6 * 0 : ℚ) = 0 by norm_num]
      exact Double.round_zero _
    have c9 : Double.finite true 4 + Double.finite false 6 = Double.finite false 2 := by
      rw [Double.add_finite _ _ _ _ 2 (by norm_num [Double.toRat]) (by norm_num),
        Double.ofRat_of_pos _ (by norm_num)]
      exact Double.round_of_representable _ _ 1 1 (by norm_num) (by norm_num) (by norm_num)
          (by norm_num)
    have c10 : Double.finite false 0 + Double.finite false (2251800939585155 / 1125899906842624)
        = Double.finite false (2251800939585155 / 1125899906842624) := by
      rw [Double.add_finite _ _ _ _ (2251800939585155 / 1125899906842624)
          (by norm_num [Double.toRat]) (by norm_num),
        Double.ofRat_of_pos _ (by norm_num)]
      exact Double.round_of_representable _ _ 2251800939585155 (-50) (by norm_num) (by norm_num)
          (by norm_num) (by norm_num)
    have c11 : Double.finite false 0 + Double.finite false 0 = Double.finite false 0 := by
      rw [Double.add_finite_zero _ _ _ _ (by norm_num [Double.toRat])]
      rfl
    have c12 : -(Double.finite false 2) = Double.finite true 2 := rfl
    have c13 : Double.finite true 2 - Double.finite true 4 = Double.finite false 2 := by
      rw [Double.sub_eq_add_neg, Double.neg_finite, Double.add_finite _ _ _ _ 2
          (by norm_num [Double.toRat]) (by norm_num),
        Double.ofRat_of_pos _ (by norm_num)]
      exact Double.round_of_representable _ _ 1 1 (by norm_num) (by norm_num) (by norm_num)
          (by norm_num)
    have c14 : Double.finite false 2 / Double.finite false 1 = Double.finite false 2 := by
      rw [Double.div_finite _ _ _ _ (by norm_num), show (2 / 1 : ℚ) = 2 by norm_num]
      exact Double.round_of_representable _ _ 1 1 (by norm_num) (by norm_num) (by norm_num)
          (by norm_num)
    have c15 : Double.finite false 2 * Double.finite false 1 = Double.finite false 2 := by
      rw [Double.mul_finite, show (2 * 1 : ℚ) = 2 by norm_num]
      exact Double.round_of_representable _ _ 1 1 (by norm_num) (by norm_num) (by norm_num)
          (by norm_num)
    have c16 : Double.finite false 2 * Double.finite false (6004802505560413 / 18014398509481984)
        = Double.finite false (6004802505560413 / 9007199254740992) := by
      rw [Double.mul_finite, show (2 * (6004802505560413 / 18014398509481984) : ℚ)
          = 6004802505560413 / 9007199254740992 by norm_num]
      exact Double.round_of_representable _ _ 6004802505560413 (-53) (by norm_num) (by norm_num)
          (by norm_num) (by norm_num)
    have c17 : Double.finite false 2 * Double.finite false 0 = Double.finite false 0 := by
      rw [Double.mul_finite, show (2 * 0 : ℚ) = 0 by norm_num]
      exact Double.round_zero _
    have c18 : Double.finite true 4 + Double.finite false 2 = Double.finite true 2 := by
      rw [Double.add_finite _ _ _ _ (-2) (by norm_num [Double.toRat]) (by norm_num),
        Double.ofRat_of_neg _ 2 (by norm_num) (by norm_num)]
      exact Double.round_of_representable _ _ 1 1 (by norm_num) (by norm_num) (by norm_num)
          (by norm_num)
    have c19 : Double.finite false 0 + Double.finite false (6004802505560413 / 9007199254740992)
        = Double.finite false (6004802505560413 / 9007199254740992) := by
      rw [Double.add_finite _ _ _ _ (6004802505560413 / 9007199254740992)
          (by norm_num [Double.toRat]) (by norm_num),
        Double.ofRat_of_pos _ (by norm_num)]
      exact Double.round_of_representable _ _ 6004802505560413 (-53) (by norm_num) (by norm_num)
          (by norm_num) (by norm_num)
    have c20 : Double.finite false 2 - Double.finite false 0 = Double.finite false 2 := by
      rw [Double.sub_eq_add_neg, Double.neg_finite, Double.add_finite _ _ _ _ 2
          (by norm_num [Double.toRat]) (by norm_num),
        Double.ofRat_of_pos _ (by norm_num)]
      exact Double.round_of_representable _ _ 1 1 (by norm_num) (by norm_num) (by norm_num)
          (by norm_num)
    have c21 : Double.finite false 2 / Double.finite false (6004802505560413 / 18014398509481984)
        = Double.finite false (422212253959857 / 70368744177664) := by
      rw [Double.div_finite _ _ _ _ (by norm_num), show
          (2 / (6004802505560413 / 18014398509481984) : ℚ)
          = 36028797018963968 / 6004802505560413 by norm_num]
      exact Double.round_eq _ _ 2 6755396063357712 _ (by norm_num) (by norm_num) (by norm_num)
          (Double.roundHalfEven_of_lt _ _ (by norm_num) (by norm_num)) (by norm_num) (by norm_num)
    have c22 : Double.finite false (422212253959857 / 70368744177664) * Double.finite false 1
        = Double.finite false (422212253959857 / 70368744177664) := by
      rw [Double.mul_finite, show ((422212253959857 / 70368744177664) * 1 : ℚ)
          = 422212253959857 / 70368744177664 by norm_num]
      exact Double.round_of_representable _ _ 422212253959857 (-46) (by norm_num) (by norm_num)
          (by norm_num) (by norm_num)
    have c23 : Double.finite false (422212253959857 / 70368744177664) * Double.finite false
        (6004802505560413 / 18014398509481984) = Double.finite false 2 := by
      rw [Double.mul_finite, show
          ((422212253959857 / 70368744177664) * (6004802505560413 / 18014398509481984) : ℚ)
          = 2535301200456458718920190340941 / 1267650600228229401496703205376 by norm_num]
      exact Double.round_eq _ _ 0 9007199254740992 _ (by norm_num) (by norm_num) (by norm_num)
          (Double.roundHalfEven_of_lt _ _ (by norm_num) (by norm_num)) (by norm_num) (by norm_num)
    have c24 : Double.finite false (422212253959857 / 70368744177664) * Double.finite false 0
        = Double.finite false 0 := by
      rw [Double.mul_finite, show ((422212253959857 / 70368744177664) * 0 : ℚ) = 0 by norm_num]
      exact Double.round_zero _
    have c25 : Double.finite true 4 + Double.finite false (422212253959857 / 70368744177664)
        = Double.finite false (140737277249201 / 70368744177664) := by
      rw [Double.add_finite _ _ _ _ (140737277249201 / 70368744177664) (by norm_num [Double.toRat])
          (by norm_num),
        Double.ofRat_of_pos _ (by norm_num)]
      exact Double.round_of_representable _ _ 140737277249201 (-46) (by norm_num) (by norm_num)
          (by norm_num) (by norm_num)
    have c26 : Double.finite false 0 + Double.finite false 2 = Double.finite false 2 := by
      rw [Double.add_finite _ _ _ _ 2 (by norm_num [Double.toRat]) (by norm_num),
        Double.ofRat_of_pos _ (by norm_num)]
      exact Double.round_of_representable _ _ 1 1 (by norm_num) (by norm_num) (by norm_num)
          (by norm_num)
    have c27 : Double.finite true 2 - Double.finite false 0 = Double.finite true 2 := by
      rw [Double.sub_eq_add_neg, Double.neg_finite, Double.add_finite _ _ _ _ (-2)
          (by norm_num [Double.toRat]) (by norm_num),
        Double.ofRat_of_neg _ 2 (by norm_num) (by norm_num)]
      exact Double.round_of_representable _ _ 1 1 (by norm_num) (by norm_num) (by norm_num)
          (by norm_num)
    have c28 : Double.finite true 2 / Double.finite false (6004802505560413 / 18014398509481984)
        = Double.finite true (422212253959857 / 70368744177664) := by
      rw [Double.div_finite _ _ _ _ (by norm_num), show
          (2 / (6004802505560413 / 18014398509481984) : ℚ)
          = 36028797018963968 / 6004802505560413 by norm_num]
      exact Double.round_eq _ _ 2 6755396063357712 _ (by norm_num) (by norm_num) (by norm_num)
          (Double.roundHalfEven_of_lt _ _ (by norm_num) (by norm_num)) (by norm_num) (by norm_num)
    have k1 : Double.finite false
        (4722366482869645 / 4722366482869645213696) < Double.finite false 1 :=
      (Double.lt_finite _ _ _ _).mpr (by norm_num [Double.toRat])
    have k2 : Double.finite false
        (4722366482869645 / 4722366482869645213696) < Double.finite false 6 :=
      (Double.lt_finite _ _ _ _).mpr (by norm_num [Double.toRat])
    have k3 : Double.finite false 2 ≤ Double.finite false (2251800939585155 / 1125899906842624) :=
      (Double.le_finite _ _ _ _).mpr (by norm_num [Double.toRat])
    have k4 : Double.finite false (2251800939585155 / 1125899906842624) ≤ Double.finite false
        (2251800939585155 / 1125899906842624) :=
      (Double.le_finite _ _ _ _).mpr (by norm_num [Double.toRat])
    have k5 : Double.finite false 0 ≤ Double.finite false (2251800939585155 / 1125899906842624) :=
      (Double.le_finite _ _ _ _).mpr (by norm_num [Double.toRat])
    have k6 : Double.finite false
        (4722366482869645 / 4722366482869645213696) < Double.finite false 2 :=
      (Double.lt_finite _ _ _ _).mpr (by norm_num [Double.toRat])
    have k7 : Double.finite false 2 ≤ Double.finite false (2251800939585155 / 1125899906842624) :=
      (Double.le_finite _ _ _ _).mpr (by norm_num [Double.toRat])
    have k8 : Double.finite false (6004802505560413 / 9007199254740992) ≤ Double.finite false
        (2251800939585155 / 1125899906842624) :=
      (Double.le_finite _ _ _ _).mpr (by norm_num [Double.toRat])
    have k9 : Double.finite false 0 ≤ Double.finite false (2251800939585155 / 1125899906842624) :=
      (Double.le_finite _ _ _ _).mpr (by norm_num [Double.toRat])
    have k10 : Double.finite false (4722366482869645 / 4722366482869645213696) < Double.finite false
        (6004802505560413 / 18014398509481984) :=
      (Double.lt_finite _ _ _ _).mpr (by norm_num [Double.toRat])
    have k11 : Double.finite false (4722366482869645 / 4722366482869645213696) < Double.finite false
        (422212253959857 / 70368744177664) :=
      (Double.lt_finite _ _ _ _).mpr (by norm_num [Double.toRat])
    have k12 : Double.finite false (140737277249201 / 70368744177664) ≤ Double.finite false
        (2251800939585155 / 1125899906842624) :=
      (Double.le_finite _ _ _ _).mpr (by norm_num [Double.toRat])
    have k13 : Double.finite false 2 ≤ Double.finite false (2251800939585155 / 1125899906842624) :=
      (Double.le_finite _ _ _ _).mpr (by norm_num [Double.toRat])
    have k14 : Double.finite false 0 ≤ Double.finite false (2251800939585155 / 1125899906842624) :=
      (Double.le_finite _ _ _ _).mpr (by norm_num [Double.toRat])
    have k15 : ¬ Double.finite false
        (4722366482869645 / 4722366482869645213696) < Double.finite true
        (422212253959857 / 70368744177664) := fun hk =>
      absurd ((Double.lt_finite _ _ _ _).mp hk) (by norm_num [Double.toRat])
    have k16 : ¬ Double.finite false
        (4722366482869645 / 4722366482869645213696) < Double.finite false 0 := fun hk =>
      absurd ((Double.lt_finite _ _ _ _).mp hk) (by norm_num [Double.toRat])
    refine ⟨c2, ?_, ?_, ?_, ?_, ?_⟩
    · simp [Cuboid.ObjectSpace_Contains, Cuboid.new, EPSILON]
      norm_num [abs_of_pos, abs_of_neg]
    · rintro ⟨u, h⟩
      simp only [Cuboid.OnEdge, Cuboid.new, Vector.add, Vector.smul, mul_zero, add_zero,
        abs_zero, zero_add, mul_one] at h
      rcases h with ⟨h1, h2, _⟩ | ⟨_, h2, _⟩ | ⟨_, h2, _⟩
      · rcases (abs_eq (by norm_num)).mp h1 with h | h
        · have hu : u = 6 := by linarith only [h]
          rw [hu] at h2
          norm_num [abs_of_pos] at h2
        · have hu : u = 2 := by linarith only [h]
          rw [hu] at h2
          norm_num [abs_of_pos] at h2
      · norm_num at h2
      · norm_num at h2
    · have lx :
        (Cuboid.slabX (Cuboid.new (2:ℚ) 2 2) ⟨-4, 0, 0⟩
        ⟨1, (6004802505560413 / 18014398509481984), 0⟩).lo = 2 := by
        norm_num [Slab.lo, Cuboid.slabX, Cuboid.new]
      have hx :
          (Cuboid.slabX (Cuboid.new (2:ℚ) 2 2) ⟨-4, 0, 0⟩
          ⟨1, (6004802505560413 / 18014398509481984), 0⟩).hi = 6 := by
        norm_num [Slab.hi, Cuboid.slabX, Cuboid.new]
      have ly :
          (Cuboid.slabY (Cuboid.new (2:ℚ) 2 2) ⟨-4, 0, 0⟩
          ⟨1, (6004802505560413 / 18014398509481984), 0⟩).lo
          = -(2 / (6004802505560413 / 18014398509481984)) := by
        norm_num [Slab.lo, Cuboid.slabY, Cuboid.new]
      have hy :
          (Cuboid.slabY (Cuboid.new (2:ℚ) 2 2) ⟨-4, 0, 0⟩
          ⟨1, (6004802505560413 / 18014398509481984), 0⟩).hi
          = 2 / (6004802505560413 / 18014398509481984) := by
        norm_num [Slab.hi, Cuboid.slabY, Cuboid.new]
      refine ⟨?_, ?_, ?_, ?_, ?_, ?_⟩
      · right; norm_num [EPSILON, abs_of_pos]
      · right; norm_num [EPSILON, abs_of_pos]
      · left; rfl
      · intro _ u hu
        rw [lx, hx] at hu
        rcases hu with rfl | rfl
        · refine ⟨Or.inr (by norm_num [EPSILON]), Or.inl ?_, Or.inl ?_⟩ <;>
            norm_num [Slab.Inside, Cuboid.slabY, Cuboid.slabZ, Cuboid.new, abs_lt]
        · refine ⟨Or.inr (by norm_num [EPSILON]), Or.inr ?_, Or.inl ?_⟩ <;>
            norm_num [Slab.Inside, Cuboid.slabY, Cuboid.slabZ, Cuboid.new, abs_lt, EPSILON,
              abs_of_pos]
      · intro _ u hu
        rw [ly, hy] at hu
        rcases hu with rfl | rfl
        · refine ⟨Or.inl (by norm_num), Or.inr ?_, Or.inl ?_⟩ <;>
            norm_num [Slab.Inside, Cuboid.slabX, Cuboid.slabZ, Cuboid.new, abs_lt, EPSILON,
              abs_of_neg]
        · refine ⟨Or.inr (by norm_num [EPSILON]), Or.inl ?_, Or.inl ?_⟩ <;>
            norm_num [Slab.Inside, Cuboid.slabX, Cuboid.slabZ, Cuboid.new, abs_lt, EPSILON,
              abs_of_pos]
      · intro h
        exact absurd rfl h
    · simp [Cuboid.ObjectSpace_AppendAllIntersections, Cuboid.AppendFaceHit,
        Cuboid.ObjectSpace_Contains, Cuboid.new, Vector.add, Vector.smul, EPSILON]
      norm_num [abs_of_pos, abs_of_neg]
    · simp only [Binary64.Cuboid.ObjectSpace_AppendAllIntersections,
        Binary64.Cuboid.AppendFaceHit, Binary64.Cuboid.ObjectSpace_Contains,
        Binary64.Cuboid.new, Binary64.Vector.add, Binary64.Vector.smul, Binary64.EPSILON,
        gt_iff_lt, Double.fabs_finite, Double.neg_finite,
        c1, c2, c3, c4, c5, c6, c7, c8, c9, c10, c11, c12, c13, c14, c15, c16, c17, c18, c19, c20,
            c21, c22, c23, c24, c25, c26, c27, c28,
        k1, k2, k3, k4, k5, k6, k7, k8, k9, k10, k11, k12, k13, k14, k15, k16,
        if_true, if_false, decide_True, decide_False, Bool.and_self, Bool.and_true,
        Bool.and_false, List.nil_append, List.cons_append, List.map_cons, List.map_nil,
        not_true_eq_false, not_false_eq_true]

end Imager
